import Mathlib

/-!
# Composition (FC) layer selection and alpha resolution

A shallow embedding of `media_softlet/agnostic/common/vp/hal/features/vp_fc_filter.cpp`:
the alpha resolver `VpFcFilter::CalculateConstantAlpha`, the transparent-layer
pre-pass `PolicyFcHandler::RemoveTransparentLayers`, the per-layer admission step
`PolicyFcHandler::AddInputLayerForProcess`, the selection scan
`PolicyFcHandler::LayerSelectForProcess`, and the parameter computation of the filter
(`CalculateScalingParams`, `CalculateCompParams`, `InitCompParams`, `CalculateEngineParams`).

Conventions of the embedding.
* `float` values are exact rationals (`ℚ`); a float-to-integer cast truncates towards zero.
  The floats `CalculateScalingParams` computes are quotients whose divisor can be zero: they
  are `FloatVal`, a rational or one of the non-finite values of IEEE 754.
* `int32_t` counters and rectangle coordinates are `Int`; `uint32_t`/`uint16_t` values are `Nat`.
* A nullable pointer is an `Option`; a `dynamic_cast` of the filter of one feature type in a
  sub-pipe is the `Option` field of that feature.
* Enumerations, constants and helper macros that the source file uses but does not declare are
  either listed with the enumerators the source names or taken as parameters
  (`FormatMacros`, `VP_COMP_LIMITS`).
-/

namespace vp

/-! ## Enumerations used by the source file -/

/-- Status codes returned by the functions of the source file. -/
inductive MOS_STATUS where
  | MOS_STATUS_SUCCESS
  | MOS_STATUS_INVALID_PARAMETER
  | MOS_STATUS_NULL_POINTER
  | MOS_STATUS_NO_SPACE
  deriving DecidableEq, Repr

/-- Blend types; the source names `BLEND_NONE`, `BLEND_SOURCE`, `BLEND_CONSTANT`,
`BLEND_CONSTANT_SOURCE`, `BLEND_CONSTANT_PARTIAL` and `BLEND_XOR_MONO`. -/
inductive VPHAL_BLEND_TYPE where
  | BLEND_NONE
  | BLEND_SOURCE
  | BLEND_PARTIAL
  | BLEND_CONSTANT
  | BLEND_CONSTANT_SOURCE
  | BLEND_CONSTANT_PARTIAL
  | BLEND_XOR_MONO
  deriving DecidableEq, Repr

/-- Modelled from the spec: the sampling modes (nearest / bilinear / AVS) of a layer; the
enumeration itself is declared outside the source file. -/
inductive VPHAL_SCALING_MODE where
  | VPHAL_SCALING_NEAREST
  | VPHAL_SCALING_BILINEAR
  | VPHAL_SCALING_AVS
  deriving DecidableEq, Repr

/-- Interlaced scaling types; the source names `ISCALING_NONE` and
`ISCALING_FIELD_TO_INTERLEAVED` and only tests (in)equality with them. -/
inductive VPHAL_ISCALING_TYPE where
  | ISCALING_NONE
  | ISCALING_INTERLEAVED_TO_INTERLEAVED
  | ISCALING_INTERLEAVED_TO_FIELD
  | ISCALING_FIELD_TO_INTERLEAVED
  | ISCALING_FIELD_TO_FIELD
  deriving DecidableEq, Repr

/-- Field / interlace sample types named by the source. -/
inductive VPHAL_SAMPLE_TYPE where
  | SAMPLE_PROGRESSIVE
  | SAMPLE_SINGLE_TOP_FIELD
  | SAMPLE_SINGLE_BOTTOM_FIELD
  | SAMPLE_INTERLEAVED_EVEN_FIRST_TOP_FIELD
  | SAMPLE_INTERLEAVED_EVEN_FIRST_BOTTOM_FIELD
  | SAMPLE_INTERLEAVED_ODD_FIRST_TOP_FIELD
  | SAMPLE_INTERLEAVED_ODD_FIRST_BOTTOM_FIELD
  deriving DecidableEq, Repr

/-- Rotation / mirror modes named by the source. -/
inductive VPHAL_ROTATION where
  | VPHAL_ROTATION_IDENTITY
  | VPHAL_ROTATION_90
  | VPHAL_ROTATION_180
  | VPHAL_ROTATION_270
  | VPHAL_MIRROR_HORIZONTAL
  | VPHAL_MIRROR_VERTICAL
  | VPHAL_ROTATE_90_MIRROR_VERTICAL
  | VPHAL_ROTATE_90_MIRROR_HORIZONTAL
  deriving DecidableEq, Repr

/-- Surface types; the source only tests equality with `SURF_IN_PRIMARY`. -/
inductive VPHAL_SURFACE_TYPE where
  | SURF_NONE
  | SURF_IN_BACKGROUND
  | SURF_IN_PRIMARY
  | SURF_IN_SUBSTREAM
  | SURF_IN_REFERENCE
  | SURF_OUT_RENDERTARGET
  deriving DecidableEq, Repr

/-- Palette types; the source only tests inequality with `VPHAL_PALETTE_NONE`. -/
inductive VPHAL_PALETTE_TYPE where
  | VPHAL_PALETTE_NONE
  | VPHAL_PALETTE_YCbCr_8
  | VPHAL_PALETTE_ARGB_8
  | VPHAL_PALETTE_AVYU_8
  deriving DecidableEq, Repr

/-- Chroma subsampling classes; the source compares the classes 4:2:0, 4:2:2 and 4:4:4. -/
inductive VPHAL_COLORPACK where
  | VPHAL_COLORPACK_400
  | VPHAL_COLORPACK_420
  | VPHAL_COLORPACK_411
  | VPHAL_COLORPACK_422
  | VPHAL_COLORPACK_444
  deriving DecidableEq, Repr

/-- Pixel formats: the two formats the source names, and every other format by its code. -/
inductive MOS_FORMAT where
  | Format_NV12
  | Format_YUY2
  | Format_Code (code : Nat)
  deriving DecidableEq, Repr

/-- Sampler filter modes: the source names `MHW_SAMPLER_FILTER_NEAREST` and
`MHW_SAMPLER_FILTER_BILINEAR`; `MHW_SAMPLER_FILTER_CUSTOM` (the zero enumerator) stands for
the modes the source does not name. -/
inductive MHW_SAMPLER_FILTER_MODE where
  | MHW_SAMPLER_FILTER_CUSTOM
  | MHW_SAMPLER_FILTER_NEAREST
  | MHW_SAMPLER_FILTER_BILINEAR
  deriving DecidableEq, Repr

open MOS_STATUS VPHAL_BLEND_TYPE VPHAL_SCALING_MODE VPHAL_ISCALING_TYPE VPHAL_SAMPLE_TYPE
open VPHAL_ROTATION VPHAL_SURFACE_TYPE VPHAL_PALETTE_TYPE VPHAL_COLORPACK MOS_FORMAT
open MHW_SAMPLER_FILTER_MODE

/-! ## Floating-point values -/

/-- A `float`: a finite value is a rational number (zero has no sign); the three other values
are the results IEEE 754 gives a division by zero and the arithmetic on such results. The
operations below are exact on finite values; `FloatVal.round32` rounds a value to single
precision, and `CalculateScalingParams.rounded` applies a rounding after every operation. -/
inductive FloatVal where
  | finite (value : ℚ)
  | posInf
  | negInf
  | nan
  deriving DecidableEq, Repr

/-- The conversion `(float) z` of an integer. -/
def FloatVal.ofInt (z : Int) : FloatVal := .finite z

/-- The infinity that has the sign of `q`, NaN for `q = 0`: used for `q / 0` and `q * ∞`. -/
def FloatVal.infOfSign (q : ℚ) : FloatVal :=
  if 0 < q then .posInf else if q < 0 then .negInf else .nan

/-- Unary minus of floats. -/
def FloatVal.neg : FloatVal → FloatVal
  | .finite a => .finite (-a)
  | .posInf => .negInf
  | .negInf => .posInf
  | .nan => .nan

/-- Sum of floats: `∞ + (-∞)` and every sum with a NaN is NaN. -/
def FloatVal.add : FloatVal → FloatVal → FloatVal
  | .finite a, .finite b => .finite (a + b)
  | .finite _, .posInf => .posInf
  | .finite _, .negInf => .negInf
  | .posInf, .finite _ => .posInf
  | .posInf, .posInf => .posInf
  | .negInf, .finite _ => .negInf
  | .negInf, .negInf => .negInf
  | _, _ => .nan

/-- Difference of floats. -/
def FloatVal.sub (a b : FloatVal) : FloatVal := FloatVal.add a (FloatVal.neg b)

/-- Product of floats: `0 * ∞` and every product with a NaN is NaN. -/
def FloatVal.mul : FloatVal → FloatVal → FloatVal
  | .finite a, .finite b => .finite (a * b)
  | .finite a, .posInf => FloatVal.infOfSign a
  | .finite a, .negInf => FloatVal.infOfSign (-a)
  | .posInf, .finite b => FloatVal.infOfSign b
  | .negInf, .finite b => FloatVal.infOfSign (-b)
  | .posInf, .posInf => .posInf
  | .posInf, .negInf => .negInf
  | .negInf, .posInf => .negInf
  | .negInf, .negInf => .posInf
  | _, _ => .nan

/-- Quotient of floats: a non-zero value over zero is an infinity of its sign, `0 / 0` and
`∞ / ∞` are NaN (the zero divisors of the source are conversions of integers, hence `+0`). -/
def FloatVal.div : FloatVal → FloatVal → FloatVal
  | .finite a, .finite b => if b = 0 then FloatVal.infOfSign a else .finite (a / b)
  | .finite _, .posInf => .finite 0
  | .finite _, .negInf => .finite 0
  | .posInf, .finite b => if b < 0 then .negInf else .posInf
  | .negInf, .finite b => if b < 0 then .posInf else .negInf
  | _, _ => .nan

/-- The comparison `a == b` of floats: a NaN equals nothing. -/
def FloatVal.equal : FloatVal → FloatVal → Bool
  | .finite a, .finite b => decide (a = b)
  | .posInf, .posInf => true
  | .negInf, .negInf => true
  | _, _ => false

/-- The comparison `a >= b` of floats: false as soon as one side is a NaN. -/
def FloatVal.geq : FloatVal → FloatVal → Bool
  | .finite a, .finite b => decide (b ≤ a)
  | .finite _, .negInf => true
  | .posInf, .finite _ => true
  | .posInf, .posInf => true
  | .posInf, .negInf => true
  | .negInf, .negInf => true
  | _, _ => false

/-- Whether a float is a finite number. -/
def FloatVal.isFinite : FloatVal → Bool
  | .finite _ => true
  | _ => false

instance : Neg FloatVal := ⟨FloatVal.neg⟩
instance : Add FloatVal := ⟨FloatVal.add⟩
instance : Sub FloatVal := ⟨FloatVal.sub⟩
instance : Mul FloatVal := ⟨FloatVal.mul⟩
instance : Div FloatVal := ⟨FloatVal.div⟩

/-! ## Surfaces, feature filters and layers -/

/-- Rectangle with `int32_t` edges. -/
structure RECT where
  left : Int := 0
  top : Int := 0
  right : Int := 0
  bottom : Int := 0
  deriving DecidableEq, Repr

/-- The fields of `MOS_SURFACE` read through `osSurface`. -/
structure MOS_SURFACE where
  Format : MOS_FORMAT := Format_NV12
  dwWidth : Nat := 0
  dwHeight : Nat := 0
  deriving DecidableEq, Repr

/-- The fields of `VP_SURFACE` read or written by the source file
(`PaletteType` stands for `Palette.PaletteType`). -/
structure VP_SURFACE where
  osSurface : MOS_SURFACE := {}
  SurfType : VPHAL_SURFACE_TYPE := SURF_IN_PRIMARY
  SampleType : VPHAL_SAMPLE_TYPE := SAMPLE_PROGRESSIVE
  rcSrc : RECT := {}
  rcDst : RECT := {}
  rcMaxSrc : RECT := {}
  PaletteType : VPHAL_PALETTE_TYPE := VPHAL_PALETTE_NONE
  bQueryVariance : Bool := false
  deriving DecidableEq, Repr

/-- Blending parameters (`VPHAL_BLENDING_PARAMS`). -/
structure VPHAL_BLENDING_PARAMS where
  BlendType : VPHAL_BLEND_TYPE
  fAlpha : ℚ
  deriving DecidableEq, Repr

/-- Procamp parameters: the `bEnabled` flag is the only field read. -/
structure VPHAL_PROCAMP_PARAMS where
  bEnabled : Bool := false
  deriving DecidableEq, Repr

/-- Scaling filter of a sub-pipe: its parameters `scalingMode` and `interlacedScalingType`,
and `featureEnabled`, the value `IsFeatureEnabled(caps)` returns for the caps of the pass. -/
structure SwFilterScaling where
  scalingMode : VPHAL_SCALING_MODE := VPHAL_SCALING_NEAREST
  interlacedScalingType : VPHAL_ISCALING_TYPE := ISCALING_NONE
  featureEnabled : Bool := true
  deriving DecidableEq, Repr

/-- Deinterlace parameters (`VPHAL_DI_PARAMS`); the source file only passes the pointer on. -/
structure VPHAL_DI_PARAMS where
  deriving DecidableEq, Repr

/-- Luma-key parameters (`VPHAL_LUMAKEY_PARAMS`); the source file only passes the pointer
on. -/
structure VPHAL_LUMAKEY_PARAMS where
  deriving DecidableEq, Repr

/-- Deinterlace filter of a sub-pipe: `bEnabled` is `GetFilterEngineCaps().bEnabled`,
`featureEnabled` the value of `IsFeatureEnabled(caps)`, `sampleTypeInput` the parameter
written on admission, `diParams` the nullable parameter pointer. -/
structure SwFilterDeinterlace where
  bEnabled : Bool := true
  featureEnabled : Bool := true
  sampleTypeInput : VPHAL_SAMPLE_TYPE := SAMPLE_PROGRESSIVE
  diParams : Option VPHAL_DI_PARAMS := none
  deriving DecidableEq, Repr

/-- Luma-key filter of a sub-pipe: the nullable `lumaKeyParams` pointer; selection only tests
the presence of the filter. -/
structure SwFilterLumakey where
  lumaKeyParams : Option VPHAL_LUMAKEY_PARAMS := none
  deriving DecidableEq, Repr

/-- Blending filter of a sub-pipe: the nullable `blendingParams` pointer. -/
structure SwFilterBlending where
  blendingParams : Option VPHAL_BLENDING_PARAMS := none
  deriving DecidableEq, Repr

/-- Procamp filter of a sub-pipe: `featureEnabled` is the value of `IsFeatureEnabled(caps)`. -/
structure SwFilterProcamp where
  featureEnabled : Bool := true
  procampParams : Option VPHAL_PROCAMP_PARAMS := none
  deriving DecidableEq, Repr

/-- Rotation filter of a sub-pipe. -/
structure SwFilterRotMir where
  rotation : VPHAL_ROTATION := VPHAL_ROTATION_IDENTITY
  deriving DecidableEq, Repr

/-- The features of one input layer (`SwFilterSubPipe`): `GetSwFilter(type)` followed by the
`dynamic_cast` to the filter class is the field of that feature, `none` for a null result. -/
structure SwFilterSubPipe where
  scaling : Option SwFilterScaling := none
  rotMir : Option SwFilterRotMir := none
  di : Option SwFilterDeinterlace := none
  lumakey : Option SwFilterLumakey := none
  blending : Option SwFilterBlending := none
  procamp : Option SwFilterProcamp := none
  deriving DecidableEq, Repr

/-- One input slot of a feature pipe: the surface and the sub-pipe at the same index. -/
structure FcInputLayer where
  surf : VP_SURFACE := {}
  subpipe : SwFilterSubPipe := {}
  deriving DecidableEq, Repr

/-- The part of `SwFilterPipe` the policy works on: the input slots in order (a destroyed
surface is a `none` slot until `Update` compacts the pipe) and output surface 0. -/
structure SwFilterPipe where
  inputs : List (Option FcInputLayer) := []
  output : Option VP_SURFACE := none
  deriving DecidableEq, Repr

/-- The values `CalculateScalingParams` and `CalculateConstantAlpha` store in a layer
(`calculatedParams` and `calculatedParams2`); zero-initialised by `InitCompParams`. -/
structure VP_FC_LAYER_CALC where
  alpha : Nat := 0
  fScaleX : FloatVal := .finite 0
  fScaleY : FloatVal := .finite 0
  fOffsetX : FloatVal := .finite 0
  fOffsetY : FloatVal := .finite 0
  fShiftX : FloatVal := .finite 0
  fShiftY : FloatVal := .finite 0
  fStepX : FloatVal := .finite 0
  fStepY : FloatVal := .finite 0
  clipedDstRect : RECT := {}
  isChromaUpSamplingNeeded : Bool := false
  isChromaDownSamplingNeeded : Bool := false
  chromaSitingEnabled : Bool := false
  samplerFilterMode : MHW_SAMPLER_FILTER_MODE := MHW_SAMPLER_FILTER_CUSTOM
  deriving DecidableEq, Repr

/-- Composition layer (`VP_FC_LAYER`) as filled by `InitLayer`. -/
structure VP_FC_LAYER where
  layerID : Nat := 0
  layerIDOrigin : Nat := 0
  surf : VP_SURFACE := {}
  scalingMode : VPHAL_SCALING_MODE := VPHAL_SCALING_NEAREST
  iscalingEnabled : Bool := false
  fieldWeaving : Bool := false
  rotation : VPHAL_ROTATION := VPHAL_ROTATION_IDENTITY
  useSampleUnorm : Bool := false
  useSamplerLumakey : Bool := false
  iefEnabled : Bool := false
  paletteID : Int := -1
  queryVariance : Bool := false
  diParams : Option VPHAL_DI_PARAMS := none
  lumaKeyParams : Option VPHAL_LUMAKEY_PARAMS := none
  blendingParams : Option VPHAL_BLENDING_PARAMS := none
  xorComp : Bool := false
  procampParams : Option VPHAL_PROCAMP_PARAMS := none
  calculatedParams : VP_FC_LAYER_CALC := {}
  deriving DecidableEq, Repr

/-! ## Alpha resolution -/

/-- The C++ conversion `(uint16_t) x` of a float: truncation towards zero, kept in 16 bits. -/
def castToUInt16 (x : ℚ) : Nat :=
  (Int.tdiv x.num (x.den : Int) % 65536).toNat

/-- The blend types of the constant-alpha family tested at lines 256-259 (and 994-997). -/
def isConstantBlend (t : VPHAL_BLEND_TYPE) : Bool :=
  t == BLEND_CONSTANT || t == BLEND_CONSTANT_SOURCE || t == BLEND_CONSTANT_PARTIAL

/-- Source function `VpFcFilter::CalculateConstantAlpha` (lines 246-297): the result is the
status on failure, and on success the value left in `alpha` together with the mutated
layer. -/
def CalculateConstantAlpha (layer : VP_FC_LAYER) : Except MOS_STATUS (Nat × VP_FC_LAYER) :=
  match layer.blendingParams with
  | some bp =>
    if isConstantBlend bp.BlendType then
      let fAlpha := bp.fAlpha
      if fAlpha ≤ 0 then
        .error MOS_STATUS_INVALID_PARAMETER
      else
        let alpha := castToUInt16 (255 * fAlpha)
        if fAlpha ≥ 1 ∨ alpha ≥ 255 then
          let blendType :=
            if bp.BlendType = BLEND_CONSTANT then BLEND_NONE else BLEND_SOURCE
          .ok (255, { layer with blendingParams := some { BlendType := blendType, fAlpha := 1 } })
        else
          .ok (alpha, layer)
    else
      .ok (255, layer)
  | none => .ok (255, layer)

/-- A layer as `InitLayer` leaves it for a surface without features, carrying blending
parameters `(blendType, fAlpha)`: the inputs of the worked examples of alpha resolution. -/
def blendedLayer (blendType : VPHAL_BLEND_TYPE) (fAlpha : ℚ) : VP_FC_LAYER :=
  { blendingParams := some { BlendType := blendType, fAlpha := fAlpha } }

/-- Source function `VpFcFilter::InitLayer` (lines 86-124) for input layer `index`: `surf` is
the surface the surface group holds for that layer and `pipe` its features in the executed
pipe. The source dereferences `blendingParams` for `xorComp` without a null test; the model
gives `false` for a blending filter whose parameter pointer is null. -/
def InitLayer (index : Nat) (surf : VP_SURFACE) (pipe : SwFilterSubPipe)
    (defaultScalingMode : VPHAL_SCALING_MODE) : VP_FC_LAYER :=
  { layerID := index
    layerIDOrigin := index
    surf := surf
    scalingMode :=
      match pipe.scaling with
      | some scaling => scaling.scalingMode
      | none => defaultScalingMode
    iscalingEnabled :=
      match pipe.scaling with
      | some scaling => decide (ISCALING_NONE ≠ scaling.interlacedScalingType)
      | none => false
    fieldWeaving :=
      match pipe.scaling with
      | some scaling => decide (ISCALING_FIELD_TO_INTERLEAVED = scaling.interlacedScalingType)
      | none => false
    rotation :=
      match pipe.rotMir with
      | some rotation => rotation.rotation
      | none => VPHAL_ROTATION_IDENTITY
    useSampleUnorm := false
    useSamplerLumakey := false
    iefEnabled := false
    paletteID := -1
    queryVariance := surf.bQueryVariance
    diParams :=
      match pipe.di with
      | some di => di.diParams
      | none => none
    lumaKeyParams :=
      match pipe.lumakey with
      | some lumakey => lumakey.lumaKeyParams
      | none => none
    blendingParams :=
      match pipe.blending with
      | some blending => blending.blendingParams
      | none => none
    xorComp :=
      match pipe.blending with
      | some blending =>
        (match blending.blendingParams with
         | some bp => decide (BLEND_XOR_MONO = bp.BlendType)
         | none => false)
      | none => false
    procampParams :=
      match pipe.procamp with
      | some procamp => procamp.procampParams
      | none => none }

/-! ## Resource budget -/

/-- Helper macros on pixel formats that the source uses and that are declared elsewhere:
they are parameters of the embedding. -/
structure FormatMacros where
  IS_PL2_FORMAT : MOS_FORMAT → Bool
  IS_PL3_FORMAT : MOS_FORMAT → Bool
  VpHal_GetSurfaceColorPack : MOS_FORMAT → VPHAL_COLORPACK

/-- The hardware maximums `Reset` loads into the counters; the constants are declared outside
the source file and are parameters of the embedding. -/
structure VP_COMP_LIMITS where
  VP_COMP_MAX_LAYERS : Nat
  VP_COMP_MAX_PALETTES : Nat
  VP_COMP_MAX_PROCAMP : Nat
  VP_COMP_MAX_LUMA_KEY : Nat
  VP_COMP_MAX_AVS : Nat
  deriving DecidableEq, Repr

/-- Modelled from the spec: the nearest bit of the 3D-sampler filter-mode mask. -/
def VP_COMP_SAMPLER_NEAREST : Nat := 1

/-- Modelled from the spec: the bilinear bit of the 3D-sampler filter-mode mask. -/
def VP_COMP_SAMPLER_BILINEAR : Nat := 2

/-- Modelled from the spec: the luma-key-capable bit of the 3D-sampler filter-mode mask. -/
def VP_COMP_SAMPLER_LUMAKEY : Nat := 4

/-- Modelled from the spec: the full filter-mode mask (nearest, bilinear and luma key). -/
def VP_COMP_MAX_SAMPLER : Nat :=
  VP_COMP_SAMPLER_NEAREST ||| VP_COMP_SAMPLER_BILINEAR ||| VP_COMP_SAMPLER_LUMAKEY

/-- The resource counters `m_resCounter` of `PolicyFcHandler`. -/
structure ResCounter where
  layers : Int
  palettes : Int
  procamp : Int
  lumaKeys : Int
  avs : Int
  sampler : Nat
  deriving DecidableEq, Repr

/-- Modelled from the spec: `m_resCounter.Reset(isAvsSamplerSupported)`, declared outside the
source file, "initializes counters to the hardware maximums, setting the AVS counter and
filter-mode mask according to whether the AVS hardware path exists": the AVS counter is 0
without AVS hardware (as the comment of line 931 has it) and the mask starts full. -/
def ResCounter.Reset (limits : VP_COMP_LIMITS) (isAvsSamplerSupported : Bool) : ResCounter :=
  { layers := limits.VP_COMP_MAX_LAYERS
    palettes := limits.VP_COMP_MAX_PALETTES
    procamp := limits.VP_COMP_MAX_PROCAMP
    lumaKeys := limits.VP_COMP_MAX_LUMA_KEY
    avs := if isAvsSamplerSupported then limits.VP_COMP_MAX_AVS else 0
    sampler := VP_COMP_MAX_SAMPLER }

/-- The members of `PolicyFcHandler` that selection reads: the format macros, the hardware
maximums, `m_hwCaps.m_rules.isAvsSamplerSupported` and the static toggle
`s_forceNearestToBilinearIfBilinearExists`. The mutable member `m_resCounter` is threaded
through the functions explicitly. -/
structure PolicyFcHandler where
  formats : FormatMacros
  limits : VP_COMP_LIMITS
  isAvsSamplerSupported : Bool
  s_forceNearestToBilinearIfBilinearExists : Bool := true

/-! ## Sampling-mode helpers -/

/-- Source function `IsInterlacedInputSupported` (lines 747-754): the minimum of the two
`uint32_t` casts is 4-aligned (a multiple of 4), or the format is not NV12. -/
def IsInterlacedInputSupported (input : VP_SURFACE) : Bool :=
  decide (min (input.osSurface.dwHeight % 2 ^ 32) (input.rcMaxSrc.bottom % 2 ^ 32).toNat % 4 = 0)
    || decide (input.osSurface.Format ≠ Format_NV12)

/-- Source function `IsBobDiEnabled` (lines 756-764). -/
def IsBobDiEnabled (di : Option SwFilterDeinterlace) (input : VP_SURFACE) : Bool :=
  match di with
  | none => false
  | some d => if d.bEnabled = false then false else IsInterlacedInputSupported input

/-- Source function `IsChromaSamplingNeeded` (lines 766-792): the pair
`(isChromaUpSamplingNeeded, isChromaDownSamplingNeeded)`; the status is always success. -/
def IsChromaSamplingNeeded (fm : FormatMacros) (surfType : VPHAL_SURFACE_TYPE) (layerIndex : Nat)
    (inputFormat outputFormat : MOS_FORMAT) : Bool × Bool :=
  let srcColorPack := fm.VpHal_GetSurfaceColorPack inputFormat
  let dstColorPack := fm.VpHal_GetSurfaceColorPack outputFormat
  if SURF_IN_PRIMARY = surfType ∧
      ((fm.IS_PL2_FORMAT inputFormat = true ∧ 0 = layerIndex) ∨ inputFormat = Format_YUY2) then
    (decide ((srcColorPack = VPHAL_COLORPACK_420 ∧
               (dstColorPack = VPHAL_COLORPACK_422 ∨ dstColorPack = VPHAL_COLORPACK_444)) ∨
             (srcColorPack = VPHAL_COLORPACK_422 ∧ dstColorPack = VPHAL_COLORPACK_444)),
     decide ((srcColorPack = VPHAL_COLORPACK_444 ∧
               (dstColorPack = VPHAL_COLORPACK_422 ∨ dstColorPack = VPHAL_COLORPACK_420)) ∨
             (srcColorPack = VPHAL_COLORPACK_422 ∧ dstColorPack = VPHAL_COLORPACK_420)))
  else
    (false, false)

/-- Source function `Get3DSamplerScalingMode` (lines 794-821): the mode stored in
`scalingMode`; the status is always success. -/
def Get3DSamplerScalingMode (fm : FormatMacros) (pipe : SwFilterSubPipe) (layerIndex : Nat)
    (input output : VP_SURFACE) : VPHAL_SCALING_MODE :=
  let chroma := IsChromaSamplingNeeded fm input.SurfType layerIndex
    input.osSurface.Format output.osSurface.Format
  let isChromaUpSamplingNeeded := chroma.1
  let isChromaDownSamplingNeeded := chroma.2
  let iscalingEnabled :=
    match pipe.scaling with
    | some scaling => decide (ISCALING_NONE ≠ scaling.interlacedScalingType)
    | none => false
  let fieldWeaving :=
    match pipe.scaling with
    | some scaling => decide (ISCALING_FIELD_TO_INTERLEAVED = scaling.interlacedScalingType)
    | none => false
  if (input.rcDst.right - input.rcDst.left) = (input.rcSrc.right - input.rcSrc.left) ∧
      (input.rcDst.bottom - input.rcDst.top) = (input.rcSrc.bottom - input.rcSrc.top) ∧
      isChromaUpSamplingNeeded = false ∧
      isChromaDownSamplingNeeded = false ∧
      (input.SampleType = SAMPLE_PROGRESSIVE ∨ iscalingEnabled = true ∨ fieldWeaving = true) then
    VPHAL_SCALING_NEAREST
  else
    VPHAL_SCALING_BILINEAR

/-! ## Layer admission -/

/-- What one call of `AddInputLayerForProcess` leaves behind: the out-parameters `bSkip`,
`layerIndexes` and `scalingMode`, the (mutated) input surface and sub-pipe, and the member
`m_resCounter`. The returned status is success on every path. -/
structure AddInputLayerResult where
  bSkip : Bool
  layerIndexes : List Nat
  scalingMode : VPHAL_SCALING_MODE
  input : VP_SURFACE
  pipe : SwFilterSubPipe
  m_resCounter : ResCounter
  deriving DecidableEq, Repr

/-- The procamp test of lines 834-837: filter present, enabled for the caps, parameters
non-null and `bEnabled` set. -/
def procampRequested (pipe : SwFilterSubPipe) : Bool :=
  match pipe.procamp with
  | some procamp =>
    procamp.featureEnabled &&
      (match procamp.procampParams with
       | some params => params.bEnabled
       | none => false)
  | none => false

/-- Source function `PolicyFcHandler::AddInputLayerForProcess` (lines 823-971). `scalingMode`
is the value the variable of the caller holds on entry (it is returned untouched by the early
luma-key return); `caps` only reaches `IsFeatureEnabled`, whose value is the `featureEnabled`
field of each filter. -/
def AddInputLayerForProcess (self : PolicyFcHandler) (m_resCounter : ResCounter)
    (layerIndexes : List Nat) (scalingMode : VPHAL_SCALING_MODE) (index : Nat)
    (input : VP_SURFACE) (pipe : SwFilterSubPipe) (output : VP_SURFACE) : AddInputLayerResult :=
  -- lines 826-827
  let res1 : ResCounter := { m_resCounter with layers := m_resCounter.layers - 1 }
  -- lines 829-832
  let res2 : ResCounter :=
    if VPHAL_PALETTE_NONE ≠ input.PaletteType then { res1 with palettes := res1.palettes - 1 }
    else res1
  -- lines 834-840
  let res3 : ResCounter :=
    if procampRequested pipe = true then { res2 with procamp := res2.procamp - 1 } else res2
  -- lines 842-857
  let lumakey := pipe.lumakey
  let res4 : ResCounter :=
    if lumakey.isSome = true then { res3 with lumaKeys := res3.lumaKeys - 1 } else res3
  if lumakey.isSome = true ∧ (res4.lumaKeys < 0 ∨ layerIndexes.length > 1) then
    { bSkip := true, layerIndexes := layerIndexes, scalingMode := scalingMode,
      input := input, pipe := pipe, m_resCounter := res4 }
  else
    let res5 : ResCounter :=
      if lumakey.isSome = true ∧ layerIndexes.length = 1 then
        { res4 with sampler := VP_COMP_MAX_SAMPLER }
      else res4
    -- lines 859-865
    let scaling := pipe.scaling
    let di := pipe.di
    let samplerLumakeyEnabled := self.isAvsSamplerSupported
    let mode0 : VPHAL_SCALING_MODE :=
      match scaling with
      | some s => s.scalingMode
      | none => VPHAL_SCALING_NEAREST
    -- lines 867-881
    let mode1 : VPHAL_SCALING_MODE :=
      if self.isAvsSamplerSupported = false ∧ VPHAL_SCALING_AVS = mode0 then VPHAL_SCALING_BILINEAR
      else mode0
    let bypassSelection : Bool := !self.isAvsSamplerSupported && scaling.isNone
    -- lines 883-897
    let supported := IsInterlacedInputSupported input
    let sampleType := if supported = true then input.SampleType else SAMPLE_PROGRESSIVE
    let di1 : Option SwFilterDeinterlace :=
      if supported = true then di
      else di.map (fun d => if d.featureEnabled = true then { d with bEnabled := false } else d)
    let scaling1 : Option SwFilterScaling :=
      if supported = true then scaling
      else scaling.map (fun s =>
        if s.featureEnabled = true ∧ ISCALING_NONE ≠ s.interlacedScalingType then
          { s with interlacedScalingType := ISCALING_NONE }
        else s)
    let pipe1 : SwFilterSubPipe := { pipe with di := di1, scaling := scaling1 }
    -- lines 899-935
    let sel : VPHAL_SCALING_MODE × ResCounter :=
      if bypassSelection = true then
        (mode1, res5)
      else if scaling.isSome = true ∧ VPHAL_SCALING_AVS = mode1 ∧ lumakey.isNone = true ∧
          IsBobDiEnabled di1 input = false then
        (mode1, { res5 with avs := res5.avs - 1 })
      else
        let mode3D := Get3DSamplerScalingMode self.formats pipe1 layerIndexes.length input output
        let samplerMask : Nat := VP_COMP_SAMPLER_BILINEAR ||| VP_COMP_SAMPLER_NEAREST
        if samplerLumakeyEnabled = true ∧ lumakey.isSome = true ∧ layerIndexes.length > 0 ∧
            self.formats.IS_PL3_FORMAT input.osSurface.Format = false then
          (mode3D, { res5 with sampler := res5.sampler &&& VP_COMP_SAMPLER_LUMAKEY })
        else if res5.sampler &&& samplerMask ≠ 0 then
          (mode3D, { res5 with sampler := res5.sampler &&& samplerMask })
        else
          (VPHAL_SCALING_AVS, { res5 with avs := res5.avs - 1 })
    let mode2 := sel.1
    let res6 := sel.2
    -- lines 941-953
    if res6.layers < 0 ∨ res6.palettes < 0 ∨ res6.procamp < 0 ∨ res6.lumaKeys < 0 ∨
        res6.avs < 0 ∨ res6.sampler = 0 then
      { bSkip := true, layerIndexes := layerIndexes, scalingMode := mode2,
        input := input, pipe := pipe1, m_resCounter := res6 }
    else
      -- lines 957-970
      let pipe2 : SwFilterSubPipe :=
        { pipe1 with
          scaling := scaling1.map (fun s => { s with scalingMode := mode2 })
          di := di1.map (fun d => { d with sampleTypeInput := sampleType }) }
      { bSkip := false, layerIndexes := layerIndexes ++ [index], scalingMode := mode2,
        input := { input with SampleType := sampleType }, pipe := pipe2, m_resCounter := res6 }

/-! ### The stages of `AddInputLayerForProcess`

The same function cut at its comments, used to reason about one call: see
`AddInputLayerForProcess_eq`. -/

/-- The counters after the decrements of lines 826-845 of `AddInputLayerForProcess`. -/
def decrementCounters (m_resCounter : ResCounter) (input : VP_SURFACE) (pipe : SwFilterSubPipe) :
    ResCounter :=
  let res1 : ResCounter := { m_resCounter with layers := m_resCounter.layers - 1 }
  let res2 : ResCounter :=
    if VPHAL_PALETTE_NONE ≠ input.PaletteType then { res1 with palettes := res1.palettes - 1 }
    else res1
  let res3 : ResCounter :=
    if procampRequested pipe = true then { res2 with procamp := res2.procamp - 1 } else res2
  if pipe.lumakey.isSome = true then { res3 with lumaKeys := res3.lumaKeys - 1 } else res3

/-- The sampler reset of lines 853-856, `n` being `layerIndexes.size()`. -/
def resetSamplerForLumakey (res4 : ResCounter) (n : Nat) (pipe : SwFilterSubPipe) : ResCounter :=
  if pipe.lumakey.isSome = true ∧ n = 1 then { res4 with sampler := VP_COMP_MAX_SAMPLER }
  else res4

/-- The scaling mode after the AVS downgrade of lines 865-873. -/
def requestedMode (self : PolicyFcHandler) (pipe : SwFilterSubPipe) : VPHAL_SCALING_MODE :=
  let mode0 : VPHAL_SCALING_MODE :=
    match pipe.scaling with
    | some s => s.scalingMode
    | none => VPHAL_SCALING_NEAREST
  if self.isAvsSamplerSupported = false ∧ VPHAL_SCALING_AVS = mode0 then VPHAL_SCALING_BILINEAR
  else mode0

/-- The sub-pipe after the field-safety check of lines 883-897. -/
def pipeAfterFieldCheck (input : VP_SURFACE) (pipe : SwFilterSubPipe) : SwFilterSubPipe :=
  let supported := IsInterlacedInputSupported input
  let di1 : Option SwFilterDeinterlace :=
    if supported = true then pipe.di
    else pipe.di.map (fun d => if d.featureEnabled = true then { d with bEnabled := false } else d)
  let scaling1 : Option SwFilterScaling :=
    if supported = true then pipe.scaling
    else pipe.scaling.map (fun s =>
      if s.featureEnabled = true ∧ ISCALING_NONE ≠ s.interlacedScalingType then
        { s with interlacedScalingType := ISCALING_NONE }
      else s)
  { pipe with di := di1, scaling := scaling1 }

/-- The sampler selection of lines 899-935: the resolved mode and the counters. -/
def selectSampler (self : PolicyFcHandler) (res5 : ResCounter) (n : Nat) (input : VP_SURFACE)
    (pipe : SwFilterSubPipe) (output : VP_SURFACE) : VPHAL_SCALING_MODE × ResCounter :=
  let mode1 := requestedMode self pipe
  let pipe1 := pipeAfterFieldCheck input pipe
  if (!self.isAvsSamplerSupported && pipe.scaling.isNone) = true then
    (mode1, res5)
  else if pipe.scaling.isSome = true ∧ VPHAL_SCALING_AVS = mode1 ∧ pipe.lumakey.isNone = true ∧
      IsBobDiEnabled pipe1.di input = false then
    (mode1, { res5 with avs := res5.avs - 1 })
  else
    let mode3D := Get3DSamplerScalingMode self.formats pipe1 n input output
    let samplerMask : Nat := VP_COMP_SAMPLER_BILINEAR ||| VP_COMP_SAMPLER_NEAREST
    if self.isAvsSamplerSupported = true ∧ pipe.lumakey.isSome = true ∧ n > 0 ∧
        self.formats.IS_PL3_FORMAT input.osSurface.Format = false then
      (mode3D, { res5 with sampler := res5.sampler &&& VP_COMP_SAMPLER_LUMAKEY })
    else if res5.sampler &&& samplerMask ≠ 0 then
      (mode3D, { res5 with sampler := res5.sampler &&& samplerMask })
    else
      (VPHAL_SCALING_AVS, { res5 with avs := res5.avs - 1 })

/-- The limit test of lines 941-946. -/
def overBudget (res6 : ResCounter) : Prop :=
  res6.layers < 0 ∨ res6.palettes < 0 ∨ res6.procamp < 0 ∨ res6.lumaKeys < 0 ∨
    res6.avs < 0 ∨ res6.sampler = 0

instance (res6 : ResCounter) : Decidable (overBudget res6) := by
  unfold overBudget; infer_instance

/-- The counters of a budget that no admitted layer has overdrawn: none is negative. -/
def budgetNonneg (res : ResCounter) : Prop :=
  0 ≤ res.layers ∧ 0 ≤ res.palettes ∧ 0 ≤ res.procamp ∧ 0 ≤ res.lumaKeys ∧ 0 ≤ res.avs

/-- The sample type recorded for an admitted layer (lines 861, 885). -/
def resolvedSampleType (input : VP_SURFACE) : VPHAL_SAMPLE_TYPE :=
  if IsInterlacedInputSupported input = true then input.SampleType else SAMPLE_PROGRESSIVE

/-! ## Transparent-layer pre-pass -/

/-- Modelled from the spec: `SwFilterPipe::GetSurfaceCount(true)`, defined outside the source
file, is the number of input slots of the pipe. -/
def SwFilterPipe.GetSurfaceCount (featurePipe : SwFilterPipe) : Nat :=
  featurePipe.inputs.length

/-- Modelled from the spec: `SwFilterPipe::GetSurface(true, i)` together with
`GetSwFilterSubPipe(true, i)`, defined outside the source file: the slot at index `i`, `none`
when the index is out of range or the slot is destroyed. -/
def SwFilterPipe.GetInputLayer (featurePipe : SwFilterPipe) (i : Nat) : Option FcInputLayer :=
  (featurePipe.inputs.get? i).join

/-- Modelled from the spec: `SwFilterPipe::DestroySurface(true, i)`, defined outside the source
file, takes layer `i` out of the candidate set: its slot is emptied, the other slots keep
their index until `Update`; an index out of range is an invalid parameter. -/
def SwFilterPipe.DestroySurface (featurePipe : SwFilterPipe) (i : Nat) :
    Except MOS_STATUS SwFilterPipe :=
  if i < featurePipe.inputs.length then
    .ok { featurePipe with inputs := featurePipe.inputs.set i none }
  else
    .error MOS_STATUS_INVALID_PARAMETER

/-- Modelled from the spec: `SwFilterPipe::Update()`, defined outside the source file, compacts
the pipe: emptied slots are dropped and the remaining layers keep their order. -/
def SwFilterPipe.Update (featurePipe : SwFilterPipe) : SwFilterPipe :=
  { featurePipe with inputs := featurePipe.inputs.filter (fun slot => slot.isSome) }

/-- The test of lines 994-1002 on the blending filter of a layer: non-null parameters of the
constant-alpha family with `fAlpha <= 0`. -/
def isTransparentBlending (blending : SwFilterBlending) : Bool :=
  match blending.blendingParams with
  | some params => isConstantBlend params.BlendType && decide (params.fAlpha ≤ 0)
  | none => false

/-- The loop of `RemoveTransparentLayers` (lines 975-1011) from index `i` on, `fuel` being the
number of iterations left. -/
def RemoveTransparentLayers.loop (fuel : Nat) (i : Nat) (featurePipe : SwFilterPipe) :
    Except MOS_STATUS SwFilterPipe :=
  match fuel with
  | 0 => .ok featurePipe
  | fuel + 1 =>
    if i < featurePipe.GetSurfaceCount then
      match (featurePipe.GetInputLayer i).bind (fun layer => layer.subpipe.blending) with
      | none => RemoveTransparentLayers.loop fuel (i + 1) featurePipe
      | some blending =>
        if isTransparentBlending blending = true then
          match featurePipe.DestroySurface i with
          | .error status => .error status
          | .ok featurePipe1 => RemoveTransparentLayers.loop fuel (i + 1) featurePipe1
        else
          RemoveTransparentLayers.loop fuel (i + 1) featurePipe
    else
      .ok featurePipe

/-- Source function `PolicyFcHandler::RemoveTransparentLayers` (lines 973-1015): the loop runs
over the slots of the pipe (the slot count does not change before `Update`), then the pipe is
updated. -/
def RemoveTransparentLayers (featurePipe : SwFilterPipe) : Except MOS_STATUS SwFilterPipe :=
  match RemoveTransparentLayers.loop featurePipe.GetSurfaceCount 0 featurePipe with
  | .error status => .error status
  | .ok featurePipe1 => .ok featurePipe1.Update

/-! ## Layer selection -/

/-- The local state of the selection loop of `LayerSelectForProcess`. -/
structure SelectState where
  layerIndexes : List Nat
  m_resCounter : ResCounter
  bilinearInUseFor3DSampler : Bool
  skip : Bool
  featurePipe : SwFilterPipe
  deriving DecidableEq, Repr

/-- The selection loop (lines 1029-1046) from index `i` on, `fuel` being the number of
iterations left. -/
def LayerSelectForProcess.loop (self : PolicyFcHandler) (output : VP_SURFACE) (fuel : Nat)
    (i : Nat) (st : SelectState) : Except MOS_STATUS SelectState :=
  match fuel with
  | 0 => .ok st
  | fuel + 1 =>
    if i < st.featurePipe.GetSurfaceCount then
      match st.featurePipe.GetInputLayer i with
      | none => .error MOS_STATUS_NULL_POINTER
      | some layer =>
        let r := AddInputLayerForProcess self st.m_resCounter st.layerIndexes
          VPHAL_SCALING_NEAREST i layer.surf layer.subpipe output
        let featurePipe1 : SwFilterPipe :=
          { st.featurePipe with
            inputs := st.featurePipe.inputs.set i (some { surf := r.input, subpipe := r.pipe }) }
        if r.bSkip = true then
          .ok { st with layerIndexes := r.layerIndexes, m_resCounter := r.m_resCounter,
                        skip := true, featurePipe := featurePipe1 }
        else
          LayerSelectForProcess.loop self output fuel (i + 1)
            { layerIndexes := r.layerIndexes
              m_resCounter := r.m_resCounter
              bilinearInUseFor3DSampler :=
                if VPHAL_SCALING_BILINEAR = r.scalingMode then true
                else st.bilinearInUseFor3DSampler
              skip := false
              featurePipe := featurePipe1 }
    else
      .ok st

/-- The normalisation loop (lines 1051-1061) over the remaining admitted indexes. -/
def LayerSelectForProcess.forceBilinear (indexes : List Nat) (featurePipe : SwFilterPipe) :
    Except MOS_STATUS SwFilterPipe :=
  match indexes with
  | [] => .ok featurePipe
  | index :: rest =>
    match featurePipe.GetInputLayer index with
    | none => .error MOS_STATUS_NULL_POINTER
    | some layer =>
      let scaling1 : Option SwFilterScaling :=
        layer.subpipe.scaling.map (fun scaling =>
          if VPHAL_SCALING_NEAREST = scaling.scalingMode then
            { scaling with scalingMode := VPHAL_SCALING_BILINEAR }
          else scaling)
      LayerSelectForProcess.forceBilinear rest
        { featurePipe with
          inputs := featurePipe.inputs.set index
            (some { layer with subpipe := { layer.subpipe with scaling := scaling1 } }) }

/-- What `LayerSelectForProcess` leaves behind on success: the out-parameter `layerIndexes`,
the (mutated) feature pipe and the member `m_resCounter`. -/
structure LayerSelectResult where
  layerIndexes : List Nat
  featurePipe : SwFilterPipe
  m_resCounter : ResCounter
  deriving DecidableEq, Repr

/-- Source function `PolicyFcHandler::LayerSelectForProcess` (lines 1017-1066). The parameters
`isSingleSubPipe` and `pipeIndex` are not used by the source; `caps` only reaches
`IsFeatureEnabled`, whose value is the `featureEnabled` field of each filter. -/
def LayerSelectForProcess (self : PolicyFcHandler) (featurePipe : SwFilterPipe) :
    Except MOS_STATUS LayerSelectResult :=
  let m_resCounter := ResCounter.Reset self.limits self.isAvsSamplerSupported
  match RemoveTransparentLayers featurePipe with
  | .error status => .error status
  | .ok featurePipe1 =>
    match featurePipe1.output with
    | none => .error MOS_STATUS_NULL_POINTER
    | some output =>
      match LayerSelectForProcess.loop self output featurePipe1.GetSurfaceCount 0
          { layerIndexes := [], m_resCounter := m_resCounter,
            bilinearInUseFor3DSampler := false, skip := false, featurePipe := featurePipe1 } with
      | .error status => .error status
      | .ok st =>
        if self.s_forceNearestToBilinearIfBilinearExists = true ∧
            st.bilinearInUseFor3DSampler = true then
          match LayerSelectForProcess.forceBilinear st.layerIndexes st.featurePipe with
          | .error status => .error status
          | .ok featurePipe2 =>
            .ok { layerIndexes := st.layerIndexes, featurePipe := featurePipe2,
                  m_resCounter := st.m_resCounter }
        else
          .ok { layerIndexes := st.layerIndexes, featurePipe := st.featurePipe,
                m_resCounter := st.m_resCounter }

/-! ### The selection loop as a scan

`selectScan` is the loop of `LayerSelectForProcess` read as a recursion over the candidate
layers that are still to be evaluated; `LayerSelectForProcess_loop_eq` shows that the indexed
loop computes it. -/

/-- What the scan leaves behind: the loop state and the layers it went over. -/
structure ScanResult where
  layerIndexes : List Nat
  m_resCounter : ResCounter
  bilinearInUseFor3DSampler : Bool
  skip : Bool
  layers : List FcInputLayer
  deriving DecidableEq, Repr

/-- The selection loop over the candidate layers from index `i` on. -/
def selectScan (self : PolicyFcHandler) (output : VP_SURFACE) :
    List FcInputLayer → Nat → List Nat → ResCounter → Bool → ScanResult
  | [], _, layerIndexes, m_resCounter, bilinear =>
    { layerIndexes := layerIndexes, m_resCounter := m_resCounter,
      bilinearInUseFor3DSampler := bilinear, skip := false, layers := [] }
  | layer :: rest, i, layerIndexes, m_resCounter, bilinear =>
    let r := AddInputLayerForProcess self m_resCounter layerIndexes
      VPHAL_SCALING_NEAREST i layer.surf layer.subpipe output
    if r.bSkip = true then
      { layerIndexes := r.layerIndexes, m_resCounter := r.m_resCounter,
        bilinearInUseFor3DSampler := bilinear, skip := true,
        layers := { surf := r.input, subpipe := r.pipe } :: rest }
    else
      let t := selectScan self output rest (i + 1) r.layerIndexes r.m_resCounter
        (if VPHAL_SCALING_BILINEAR = r.scalingMode then true else bilinear)
      { t with layers := { surf := r.input, subpipe := r.pipe } :: t.layers }

/-- The layer the normalisation loop leaves at an admitted index (lines 1055-1059). -/
def forceLayerBilinear (layer : FcInputLayer) : FcInputLayer :=
  { layer with
    subpipe :=
      { layer.subpipe with
        scaling := layer.subpipe.scaling.map (fun scaling =>
          if VPHAL_SCALING_NEAREST = scaling.scalingMode then
            { scaling with scalingMode := VPHAL_SCALING_BILINEAR }
          else scaling) } }

/-- The blending test of `RemoveTransparentLayers` on a candidate layer: it has a blending
filter whose parameters are of the constant-alpha family with `fAlpha <= 0`. -/
def isTransparentLayer (layer : FcInputLayer) : Bool :=
  match layer.subpipe.blending with
  | some blending => isTransparentBlending blending
  | none => false

/-- The slot `RemoveTransparentLayers` leaves in place of a slot before the pipe is updated. -/
def markTransparent (slot : Option FcInputLayer) : Option FcInputLayer :=
  match slot with
  | some layer => if isTransparentLayer layer = true then none else some layer
  | none => none

/-- The slots `RemoveTransparentLayers` keeps: a present layer that is not transparent. -/
def isCandidateSlot (slot : Option FcInputLayer) : Bool :=
  match slot with
  | some layer => !isTransparentLayer layer
  | none => false

/-- The candidate layers of a pipe: the present layers that are not transparent, in order. -/
def candidateLayers (inputs : List (Option FcInputLayer)) : List FcInputLayer :=
  inputs.filterMap markTransparent

/-- What `LayerSelectForProcess` computes from the candidate layers, in terms of the scan:
`LayerSelectForProcess_eq` shows that the function returns it. -/
def selectOutcome (self : PolicyFcHandler) (output : VP_SURFACE) (candidates : List FcInputLayer) :
    LayerSelectResult :=
  let t := selectScan self output candidates 0 []
    (ResCounter.Reset self.limits self.isAvsSamplerSupported) false
  let layers : List FcInputLayer :=
    if self.s_forceNearestToBilinearIfBilinearExists = true ∧
        t.bilinearInUseFor3DSampler = true then
      (t.layers.take t.layerIndexes.length).map forceLayerBilinear ++
        t.layers.drop t.layerIndexes.length
    else t.layers
  { layerIndexes := t.layerIndexes
    featurePipe := { inputs := layers.map some, output := some output }
    m_resCounter := t.m_resCounter }

/-! ### Comparing two budgets

Used to compare the selection over a candidate list with the selection over the list with one
layer removed. -/

/-- The filter-mode mask still offers nearest or bilinear (the test of line 924). -/
def samplerOffers3D (sampler : Nat) : Prop :=
  sampler &&& (VP_COMP_SAMPLER_BILINEAR ||| VP_COMP_SAMPLER_NEAREST) ≠ 0

instance (sampler : Nat) : Decidable (samplerOffers3D sampler) := by
  unfold samplerOffers3D; infer_instance

/-- The budget `b`, reached after `n` admitted layers, is at least as large as the budget `a`
reached after one more admitted layer: no counter of `b` is below that of `a`, the mask of `b`
is non-empty and offers nearest or bilinear whenever that of `a` does or `n = 0`. -/
def budgetCovers (a b : ResCounter) (n : Nat) : Prop :=
  a.layers ≤ b.layers ∧ a.palettes ≤ b.palettes ∧ a.procamp ≤ b.procamp ∧
    a.lumaKeys ≤ b.lumaKeys ∧ a.avs ≤ b.avs ∧ b.sampler ≠ 0 ∧
    (samplerOffers3D a.sampler → samplerOffers3D b.sampler) ∧
    (n = 0 → samplerOffers3D b.sampler)

/-- The mask invariant of a pass: the mask is non-empty, and offers nearest or bilinear while
at most one layer has been admitted. -/
def samplerInvariant (n : Nat) (res : ResCounter) : Prop :=
  res.sampler ≠ 0 ∧ (n ≤ 1 → samplerOffers3D res.sampler)

/-! ### Admitted layers and their budget attributes -/

/-- The layers at the admitted indexes of a selection result, in admission order. -/
def admittedLayers (r : LayerSelectResult) : List FcInputLayer :=
  r.layerIndexes.filterMap (fun index => r.featurePipe.GetInputLayer index)

/-- The layer has a palette (the test of line 829). -/
def hasPalette (layer : FcInputLayer) : Bool :=
  decide (VPHAL_PALETTE_NONE ≠ layer.surf.PaletteType)

/-- The layer has enabled procamp (the test of lines 835-837). -/
def hasProcamp (layer : FcInputLayer) : Bool :=
  procampRequested layer.subpipe

/-- The layer requests a luma key (the test of line 843). -/
def hasLumakey (layer : FcInputLayer) : Bool :=
  layer.subpipe.lumakey.isSome

/-- The scaling mode recorded in the scaling filter of the layer is AVS. -/
def hasAvsMode (layer : FcInputLayer) : Bool :=
  decide (layer.subpipe.scaling.map (fun scaling => scaling.scalingMode) = some VPHAL_SCALING_AVS)

/-! ### Worked examples

Concrete inputs for the worked examples of selection: a platform whose limits are 8 layers,
2 palettes, 1 procamp unit, 1 luma key and 1 AVS sampler, a layer with a scaling filter only,
and the same layer with a luma-key filter. -/

/-- Format macros of the examples: NV12 is the PL2 4:2:0 format, YUY2 is packed 4:2:2, every
other format is taken as 4:4:4; no format is planar (PL3). -/
def exampleFormats : FormatMacros :=
  { IS_PL2_FORMAT := fun format => decide (format = Format_NV12)
    IS_PL3_FORMAT := fun _ => false
    VpHal_GetSurfaceColorPack := fun format =>
      match format with
      | Format_NV12 => VPHAL_COLORPACK_420
      | Format_YUY2 => VPHAL_COLORPACK_422
      | Format_Code _ => VPHAL_COLORPACK_444 }

/-- Limits of the examples. -/
def exampleLimits : VP_COMP_LIMITS :=
  { VP_COMP_MAX_LAYERS := 8
    VP_COMP_MAX_PALETTES := 2
    VP_COMP_MAX_PROCAMP := 1
    VP_COMP_MAX_LUMA_KEY := 1
    VP_COMP_MAX_AVS := 1 }

/-- Handler of the examples, with or without AVS hardware. -/
def exampleHandler (isAvsSamplerSupported : Bool) : PolicyFcHandler :=
  { formats := exampleFormats
    limits := exampleLimits
    isAvsSamplerSupported := isAvsSamplerSupported
    s_forceNearestToBilinearIfBilinearExists := true }

/-- A progressive NV12 layer with a scaling filter and no other feature. -/
def plainLayer : FcInputLayer :=
  { surf := {}, subpipe := { scaling := some {} } }

/-- The plain layer with a luma-key filter attached. -/
def lumakeyLayer : FcInputLayer :=
  { surf := {}, subpipe := { scaling := some {}, lumakey := some {} } }

/-- The output surface of the examples. -/
def exampleOutput : VP_SURFACE := {}

/-! ## Chroma classes -/

/-- The order 4:2:0 < 4:2:2 < 4:4:4 of the chroma classes that `IsChromaSamplingNeeded`
compares, as a rank; the other colour packs are outside the order. -/
def chromaRank : VPHAL_COLORPACK → Option Nat
  | VPHAL_COLORPACK_420 => some 0
  | VPHAL_COLORPACK_422 => some 1
  | VPHAL_COLORPACK_444 => some 2
  | _ => none

/-- The eligibility test of lines 773-776 of `IsChromaSamplingNeeded`. -/
def chromaEligible (fm : FormatMacros) (surfType : VPHAL_SURFACE_TYPE) (layerIndex : Nat)
    (inputFormat : MOS_FORMAT) : Bool :=
  decide (SURF_IN_PRIMARY = surfType) &&
    ((fm.IS_PL2_FORMAT inputFormat && decide (0 = layerIndex)) ||
      decide (inputFormat = Format_YUY2))

/-! ## Resolved modes and further examples -/

/-- The modes `AddInputLayerForProcess` resolves (the out-parameter `scalingMode` the loop of
`LayerSelectForProcess` tests at line 1042) for the layers the scan admits, in admission
order. -/
def resolvedModes (self : PolicyFcHandler) (output : VP_SURFACE) :
    List FcInputLayer → Nat → List Nat → ResCounter → List VPHAL_SCALING_MODE
  | [], _, _, _ => []
  | layer :: rest, i, layerIndexes, m_resCounter =>
    let r := AddInputLayerForProcess self m_resCounter layerIndexes
      VPHAL_SCALING_NEAREST i layer.surf layer.subpipe output
    if r.bSkip = true then []
    else r.scalingMode :: resolvedModes self output rest (i + 1) r.layerIndexes r.m_resCounter

/-- An interlaced NV12 layer of height 151 (maximum source bottom 151) with a scaling filter
and an enabled deinterlace filter. -/
def fieldUnsafeLayer : FcInputLayer :=
  { surf :=
      { osSurface := { Format := Format_NV12, dwWidth := 200, dwHeight := 151 }
        SampleType := SAMPLE_INTERLEAVED_EVEN_FIRST_TOP_FIELD
        rcSrc := { right := 200, bottom := 151 }
        rcDst := { right := 200, bottom := 151 }
        rcMaxSrc := { right := 200, bottom := 151 } }
    subpipe := { scaling := some {}, di := some {} } }

/-- The layer `fieldUnsafeLayer` with a luma-key filter attached. -/
def fieldUnsafeLumakeyLayer : FcInputLayer :=
  { fieldUnsafeLayer with
    subpipe := { scaling := some {}, di := some {}, lumakey := some {} } }

/-- A progressive NV12 layer scaled from 1920x1080 to 960x540 (it resolves to bilinear). -/
def scaledLayer : FcInputLayer :=
  { surf := { rcSrc := { right := 1920, bottom := 1080 }, rcDst := { right := 960, bottom := 540 } }
    subpipe := { scaling := some {} } }

/-! ## The composition filter `VpFcFilter` -/

/-- The constants and platform data `VpFcFilter` reads and the source file does not declare:
the format macros, the sampler constants `VP_SAMPLER_BIAS` and `VP_HW_LINEAR_SHIFT`, the flag
`WaEnableDscale` of the workaround table, and the surface-type enumerators
`SurfaceTypeFcInputLayer0` and `SurfaceTypeFcInputLayerMax`. They are parameters of the
embedding. -/
structure VpFcFilter where
  formats : FormatMacros
  VP_SAMPLER_BIAS : ℚ
  VP_HW_LINEAR_SHIFT : ℚ
  WaEnableDscale : Bool
  SurfaceTypeFcInputLayer0 : Nat
  SurfaceTypeFcInputLayerMax : Nat

/-- Source function `VpFcFilter::Get3DSamperFilterMode` (lines 516-519). -/
def Get3DSamperFilterMode (scalingMode : VPHAL_SCALING_MODE) : MHW_SAMPLER_FILTER_MODE :=
  if VPHAL_SCALING_NEAREST = scalingMode then MHW_SAMPLER_FILTER_NEAREST
  else MHW_SAMPLER_FILTER_BILINEAR

/-- The rotation test of lines 322-325 and 381-384: the source and destination axes are
aligned. -/
def isAxisAligned (rotation : VPHAL_ROTATION) : Bool :=
  rotation == VPHAL_ROTATION_IDENTITY || rotation == VPHAL_ROTATION_180 ||
    rotation == VPHAL_MIRROR_HORIZONTAL || rotation == VPHAL_MIRROR_VERTICAL

/-- Source function `VpFcFilter::CalculateScalingParams` (lines 301-514). The out-parameters
are fields of the `calculatedParams` of the layer: the result is the status on failure and
`params` with the out-parameters written on success. Integer differences are taken in `Int`
(the source computes them in `int32_t`, where an overflow is undefined). -/
def CalculateScalingParams (self : VpFcFilter) (layer target : Option VP_FC_LAYER)
    (params : VP_FC_LAYER_CALC) : Except MOS_STATUS VP_FC_LAYER_CALC :=
  -- lines 306-309
  let fCropX : FloatVal := .finite 0
  let fCropY : FloatVal := .finite 0
  let samplerLinearBiasX : FloatVal := .finite self.VP_SAMPLER_BIAS
  let samplerLinearBiasY : FloatVal := .finite self.VP_SAMPLER_BIAS
  -- lines 311-312
  match layer with
  | none => .error MOS_STATUS_NULL_POINTER
  | some layer =>
    match target with
    | none => .error MOS_STATUS_NULL_POINTER
    | some target =>
      let rcSrc := layer.surf.rcSrc
      let rcDst := layer.surf.rcDst
      -- lines 322-340
      let fScaleX : FloatVal :=
        if isAxisAligned layer.rotation = true then
          FloatVal.ofInt (rcDst.right - rcDst.left) / FloatVal.ofInt (rcSrc.right - rcSrc.left)
        else
          FloatVal.ofInt (rcDst.right - rcDst.left) / FloatVal.ofInt (rcSrc.bottom - rcSrc.top)
      let fScaleY : FloatVal :=
        if isAxisAligned layer.rotation = true then
          FloatVal.ofInt (rcDst.bottom - rcDst.top) / FloatVal.ofInt (rcSrc.bottom - rcSrc.top)
        else
          FloatVal.ofInt (rcDst.bottom - rcDst.top) / FloatVal.ofInt (rcSrc.right - rcSrc.left)
      -- lines 345-376: the pair (fDiScaleY, fOffsetY)
      let field : FloatVal × FloatVal :=
        if (fScaleX.equal (.finite 1) && fScaleY.equal (.finite 1) &&
            (layer.iscalingEnabled || layer.fieldWeaving)) = true then
          (.finite (1 / 2), samplerLinearBiasY)
        else
          match layer.surf.SampleType with
          | SAMPLE_INTERLEAVED_EVEN_FIRST_TOP_FIELD =>
            (.finite (1 / 2), samplerLinearBiasY + .finite (1 / 4))
          | SAMPLE_INTERLEAVED_ODD_FIRST_TOP_FIELD =>
            (.finite (1 / 2), samplerLinearBiasY + .finite (1 / 4))
          | SAMPLE_SINGLE_TOP_FIELD =>
            (.finite 1, samplerLinearBiasY + .finite (1 / 4))
          | SAMPLE_INTERLEAVED_EVEN_FIRST_BOTTOM_FIELD =>
            (.finite (1 / 2), samplerLinearBiasY - .finite (1 / 4))
          | SAMPLE_INTERLEAVED_ODD_FIRST_BOTTOM_FIELD =>
            (.finite (1 / 2), samplerLinearBiasY - .finite (1 / 4))
          | SAMPLE_SINGLE_BOTTOM_FIELD =>
            (.finite 1, samplerLinearBiasY - .finite (1 / 4))
          | SAMPLE_PROGRESSIVE =>
            (.finite 1, samplerLinearBiasY)
      let fDiScaleY := field.1
      -- lines 381-403
      let fStepX : FloatVal :=
        if isAxisAligned layer.rotation = true then
          ((FloatVal.ofInt (rcSrc.right - rcSrc.left) - fCropX) * .finite 1) /
            FloatVal.ofInt (if rcDst.right - rcDst.left > 0 then rcDst.right - rcDst.left else 1)
        else
          ((FloatVal.ofInt (rcSrc.right - rcSrc.left) - fCropX) * .finite 1) /
            FloatVal.ofInt (if rcDst.bottom - rcDst.top > 0 then rcDst.bottom - rcDst.top else 1)
      let fStepY : FloatVal :=
        if isAxisAligned layer.rotation = true then
          ((FloatVal.ofInt (rcSrc.bottom - rcSrc.top) - fCropY) * fDiScaleY) /
            FloatVal.ofInt (if rcDst.bottom - rcDst.top > 0 then rcDst.bottom - rcDst.top else 1)
        else
          ((FloatVal.ofInt (rcSrc.bottom - rcSrc.top) - fCropY) * fDiScaleY) /
            FloatVal.ofInt (if rcDst.right - rcDst.left > 0 then rcDst.right - rcDst.left else 1)
      -- lines 406-407
      let fOffsetX : FloatVal :=
        samplerLinearBiasX + (FloatVal.ofInt rcSrc.left + fCropX / .finite 2)
      let fOffsetY : FloatVal :=
        field.2 + (FloatVal.ofInt rcSrc.top + fCropY / .finite 2) * fDiScaleY
      -- lines 409-413
      let chroma := IsChromaSamplingNeeded self.formats layer.surf.SurfType layer.layerID
        layer.surf.osSurface.Format target.surf.osSurface.Format
      -- line 425
      let samplerFilterMode := Get3DSamperFilterMode layer.scalingMode
      -- lines 427-440
      let shift : Except MOS_STATUS (FloatVal × FloatVal) :=
        if samplerFilterMode = MHW_SAMPLER_FILTER_NEAREST then
          .ok (.finite 0, .finite 0)
        else if samplerFilterMode = MHW_SAMPLER_FILTER_BILINEAR then
          .ok (.finite self.VP_HW_LINEAR_SHIFT, .finite self.VP_HW_LINEAR_SHIFT)
        else
          .error MOS_STATUS_INVALID_PARAMETER
      match shift with
      | .error status => .error status
      | .ok (fShiftX, fShiftY) =>
        -- lines 442-444
        let dwDestRectWidth : FloatVal := FloatVal.ofInt target.surf.osSurface.dwWidth
        let dwDestRectHeight : FloatVal := FloatVal.ofInt target.surf.osSurface.dwHeight
        -- lines 445-504
        let shifted : FloatVal × FloatVal :=
          match layer.rotation with
          | VPHAL_ROTATION_IDENTITY =>
            (fShiftX - FloatVal.ofInt rcDst.left, fShiftY - FloatVal.ofInt rcDst.top)
          | VPHAL_ROTATION_90 =>
            (fShiftX - FloatVal.ofInt rcDst.top,
             fShiftY - (dwDestRectWidth - FloatVal.ofInt (rcSrc.bottom - rcSrc.top) * fScaleX -
               FloatVal.ofInt rcDst.left))
          | VPHAL_ROTATION_180 =>
            (fShiftX - (dwDestRectWidth - FloatVal.ofInt (rcSrc.right - rcSrc.left) * fScaleX -
               FloatVal.ofInt rcDst.left),
             fShiftY - (dwDestRectHeight - FloatVal.ofInt (rcSrc.bottom - rcSrc.top) * fScaleY -
               FloatVal.ofInt rcDst.top))
          | VPHAL_ROTATION_270 =>
            (fShiftX - (dwDestRectHeight - FloatVal.ofInt (rcSrc.right - rcSrc.left) * fScaleY -
               FloatVal.ofInt rcDst.top),
             fShiftY - FloatVal.ofInt rcDst.left)
          | VPHAL_MIRROR_HORIZONTAL =>
            (fShiftX - (dwDestRectWidth - FloatVal.ofInt (rcSrc.right - rcSrc.left) * fScaleX -
               FloatVal.ofInt rcDst.left),
             fShiftY - FloatVal.ofInt rcDst.top)
          | VPHAL_MIRROR_VERTICAL =>
            (fShiftX - FloatVal.ofInt rcDst.left,
             fShiftY - (dwDestRectHeight - FloatVal.ofInt (rcSrc.bottom - rcSrc.top) * fScaleY -
               FloatVal.ofInt rcDst.top))
          | VPHAL_ROTATE_90_MIRROR_HORIZONTAL =>
            (fShiftX - FloatVal.ofInt rcDst.top, fShiftY - FloatVal.ofInt rcDst.left)
          | VPHAL_ROTATE_90_MIRROR_VERTICAL =>
            (fShiftX - (dwDestRectHeight - FloatVal.ofInt (rcSrc.right - rcSrc.left) * fScaleY -
               FloatVal.ofInt rcDst.top),
             fShiftY - (dwDestRectWidth - FloatVal.ofInt (rcSrc.bottom - rcSrc.top) * fScaleX -
               FloatVal.ofInt rcDst.left))
        -- lines 442, 506-511
        let clipedDstRect : RECT :=
          if layer.xorComp = true then
            { rcDst with right := rcDst.left + (rcDst.right - rcDst.left) * 8 }
          else rcDst
        .ok { params with
              fScaleX := fScaleX
              fScaleY := fScaleY
              fOffsetX := fOffsetX
              fOffsetY := fOffsetY
              fShiftX := shifted.1
              fShiftY := shifted.2
              fStepX := fStepX
              fStepY := fStepY
              clipedDstRect := clipedDstRect
              isChromaUpSamplingNeeded := chroma.1
              isChromaDownSamplingNeeded := chroma.2
              samplerFilterMode := samplerFilterMode }

/-- Colour-fill parameters (`VPHAL_COLORFILL_PARAMS`); the source file only passes the
pointer on. -/
structure VPHAL_COLORFILL_PARAMS where
  deriving DecidableEq, Repr

/-- Alpha parameters (`VPHAL_ALPHA_PARAMS`); the source file only passes the pointer on. -/
structure VPHAL_ALPHA_PARAMS where
  deriving DecidableEq, Repr

/-- A layer of a zero-initialised `VP_COMPOSITE_PARAMS` (its `surf` pointer is null in the
source; the slots that hold such a layer are never read). -/
def zeroLayer : VP_FC_LAYER := { paletteID := 0 }

/-- The composite parameters (`VP_COMPOSITE_PARAMS`): the arrays `source` and `target` are
maps from the index to the layer. -/
structure VP_COMPOSITE_PARAMS where
  sourceCount : Nat := 0
  source : Nat → VP_FC_LAYER := fun _ => zeroLayer
  targetCount : Nat := 0
  target : Nat → VP_FC_LAYER := fun _ => zeroLayer
  pColorFillParams : Option VPHAL_COLORFILL_PARAMS := none
  pCompAlpha : Option VPHAL_ALPHA_PARAMS := none
  bAlphaCalculateEnable : Bool := false

/-- The loop of `CalculateCompParams` (lines 197-239) from index `i` with the counter
`layerCount`; `fuel` bounds the number of iterations. The result is the status on failure, the
final `layerCount` and the parameters otherwise. -/
def CalculateCompParams.loop (self : VpFcFilter) :
    Nat → Nat → Nat → VP_COMPOSITE_PARAMS → Except MOS_STATUS (Nat × VP_COMPOSITE_PARAMS)
  | 0, _, layerCount, compParams => .ok (layerCount, compParams)
  | fuel + 1, i, layerCount, compParams =>
    if i < compParams.sourceCount then
      -- lines 199-203: `source[i]` after the call, `params->alpha` written
      match CalculateConstantAlpha (compParams.source i) with
      | .error status => .error status
      | .ok (alpha, layer1) =>
        let layerI : VP_FC_LAYER :=
          { layer1 with calculatedParams := { layer1.calculatedParams with alpha := alpha } }
        let source1 := Function.update compParams.source i layerI
        -- lines 205-211: the compaction copy; `slot` is where `layer` points afterwards
        let source2 :=
          if layerCount ≠ i then Function.update source1 layerCount layerI else source1
        let slot := if layerCount ≠ i then layerCount else i
        -- lines 212-213
        let layer2 : VP_FC_LAYER :=
          { source2 slot with layerIDOrigin := i, layerID := layerCount }
        -- lines 215-218
        match CalculateScalingParams self (some layer2) (some (compParams.target 0))
            layer2.calculatedParams with
        | .error status => .error status
        | .ok params1 =>
          -- lines 220-238; `(float)(1.0/3.0)` is taken as the rational 1/3
          let chromaSitingEnabled : Bool :=
            if params1.isChromaUpSamplingNeeded = true ∨
                params1.isChromaDownSamplingNeeded = true then
              if self.WaEnableDscale = false ∨
                  (self.WaEnableDscale = true ∧
                   layer2.scalingMode = VPHAL_SCALING_BILINEAR ∧
                   params1.fScaleX.geq (.finite (1 / 3)) = true ∧
                   params1.fScaleY.geq (.finite (1 / 3)) = true) then
                true
              else false
            else false
          let layer3 : VP_FC_LAYER :=
            { layer2 with
              calculatedParams := { params1 with chromaSitingEnabled := chromaSitingEnabled } }
          CalculateCompParams.loop self fuel (i + 1) (layerCount + 1)
            { compParams with source := Function.update source2 slot layer3 }
    else
      .ok (layerCount, compParams)

/-- Source function `VpFcFilter::CalculateCompParams` (lines 194-244): the status on failure,
the updated parameters on success. -/
def CalculateCompParams (self : VpFcFilter) (compParams : VP_COMPOSITE_PARAMS) :
    Except MOS_STATUS VP_COMPOSITE_PARAMS :=
  match CalculateCompParams.loop self compParams.sourceCount 0 0 compParams with
  | .error status => .error status
  | .ok (layerCount, compParams1) => .ok { compParams1 with sourceCount := layerCount }

/-- Colour-fill filter of the output sub-pipe: the nullable `colorFillParams` pointer. -/
structure SwFilterColorFill where
  colorFillParams : Option VPHAL_COLORFILL_PARAMS := none
  deriving DecidableEq, Repr

/-- Alpha filter of the output sub-pipe. -/
structure SwFilterAlpha where
  compAlpha : Option VPHAL_ALPHA_PARAMS := none
  calculatingAlpha : Bool := false
  deriving DecidableEq, Repr

/-- The executed pipe as `InitCompParams` reads it. Input `i` is the surface the surface
group holds under `SurfaceTypeFcInputLayer0 + i` with the filters of input sub-pipe `i`;
`target` is the surface under `SurfaceTypeFcTarget0` with the filters of output sub-pipe 0;
`colorFill` and `alpha` are the two other filters of that sub-pipe. The source dereferences
`surfGroup.find(surfId)->second` without a test: the surfaces are taken as present. -/
structure ExecutedPipe where
  inputs : List FcInputLayer := []
  target : FcInputLayer := {}
  colorFill : Option SwFilterColorFill := none
  alpha : Option SwFilterAlpha := none
  deriving DecidableEq, Repr

/-- The loop of `GetDefaultScalingMode` (lines 131-152) over the input sub-pipes that are
left, with the variables `isInited` and `defaultScalingMode`. -/
def GetDefaultScalingMode.loop :
    List FcInputLayer → Bool → VPHAL_SCALING_MODE → Except MOS_STATUS VPHAL_SCALING_MODE
  | [], _, defaultScalingMode => .ok defaultScalingMode
  | layer :: rest, isInited, defaultScalingMode =>
    match layer.subpipe.scaling with
    | some scaling =>
      if VPHAL_SCALING_NEAREST = scaling.scalingMode ∨
          VPHAL_SCALING_BILINEAR = scaling.scalingMode then
        if isInited = true then
          if scaling.scalingMode ≠ defaultScalingMode then
            .error MOS_STATUS_INVALID_PARAMETER
          else
            GetDefaultScalingMode.loop rest isInited defaultScalingMode
        else
          GetDefaultScalingMode.loop rest true scaling.scalingMode
      else
        GetDefaultScalingMode.loop rest isInited defaultScalingMode
    | none => GetDefaultScalingMode.loop rest isInited defaultScalingMode

/-- Source function `VpFcFilter::GetDefaultScalingMode` (lines 126-155): the status on
failure, the value of `defaultScalingMode` on success. -/
def GetDefaultScalingMode (executedPipe : ExecutedPipe) : Except MOS_STATUS VPHAL_SCALING_MODE :=
  GetDefaultScalingMode.loop executedPipe.inputs false VPHAL_SCALING_NEAREST

/-- Source function `VpFcFilter::InitCompParams` (lines 157-192): the status on failure, the
parameters on success. The comparison of line 163 is made in `uint32_t`. -/
def InitCompParams (self : VpFcFilter) (executedPipe : ExecutedPipe) :
    Except MOS_STATUS VP_COMPOSITE_PARAMS :=
  let sourceCount := executedPipe.inputs.length
  if (self.SurfaceTypeFcInputLayer0 + sourceCount + (2 ^ 32 - 1)) % 2 ^ 32 >
      self.SurfaceTypeFcInputLayerMax then
    .error MOS_STATUS_INVALID_PARAMETER
  else
    match GetDefaultScalingMode executedPipe with
    | .error status => .error status
    | .ok defaultScalingMode =>
      let compParams : VP_COMPOSITE_PARAMS :=
        { sourceCount := sourceCount
          source := fun i =>
            match executedPipe.inputs.get? i with
            | some input => InitLayer i input.surf input.subpipe defaultScalingMode
            | none => zeroLayer
          targetCount := 1
          target := Function.update (fun _ => zeroLayer) 0
            (InitLayer 0 executedPipe.target.surf executedPipe.target.subpipe defaultScalingMode)
          pColorFillParams :=
            match executedPipe.colorFill with
            | some colorFill => colorFill.colorFillParams
            | none => none
          pCompAlpha :=
            match executedPipe.alpha with
            | some alpha => alpha.compAlpha
            | none => none
          bAlphaCalculateEnable :=
            match executedPipe.alpha with
            | some alpha => alpha.calculatingAlpha
            | none => false }
      CalculateCompParams self compParams

/-- What `CalculateEngineParams` leaves behind: the returned status and, when
`InitCompParams` was called, its outcome (the source discards the status; after a failure
`m_renderFcParams` holds partially initialised parameters, which are not tracked). -/
structure EngineParamsOutcome where
  status : MOS_STATUS
  compParams : Option (Except MOS_STATUS VP_COMPOSITE_PARAMS)

/-- Source function `VpFcFilter::CalculateEngineParams` (lines 521-550). `bRender` is
`m_executeCaps.bRender`, `hasBuffer` tells whether `m_renderFcParams` is non-null on entry and
`allocationSucceeds` whether `MOS_AllocAndZeroMemory` returns a buffer. -/
def CalculateEngineParams (self : VpFcFilter) (bRender hasBuffer allocationSucceeds : Bool)
    (m_executedPipe : ExecutedPipe) : EngineParamsOutcome :=
  if bRender = true then
    if hasBuffer = false ∧ allocationSucceeds = false then
      { status := MOS_STATUS_NO_SPACE, compParams := none }
    else
      -- line 543: the status of `InitCompParams` is not tested
      { status := MOS_STATUS_SUCCESS, compParams := some (InitCompParams self m_executedPipe) }
  else
    { status := MOS_STATUS_SUCCESS, compParams := none }

/-- The filter of the examples: the format macros of the examples, sampler bias 1/64, linear
shift 1/2, no workaround, eight input-layer surface types. -/
def exampleFilter : VpFcFilter :=
  { formats := exampleFormats
    VP_SAMPLER_BIAS := 1 / 64
    VP_HW_LINEAR_SHIFT := 1 / 2
    WaEnableDscale := false
    SurfaceTypeFcInputLayer0 := 16
    SurfaceTypeFcInputLayerMax := 23 }

/-- The shift `CalculateScalingParams` sets from the filter mode (lines 425-436), in terms of
the scaling mode of the layer: 0 for nearest, the bilinear shift constant otherwise. -/
def filterModeShift (self : VpFcFilter) (scalingMode : VPHAL_SCALING_MODE) : ℚ :=
  if VPHAL_SCALING_NEAREST = scalingMode then 0 else self.VP_HW_LINEAR_SHIFT

/-- The target layer of the examples: a 1920x1080 NV12 surface. -/
def exampleTarget : VP_FC_LAYER :=
  { surf := { osSurface := { dwWidth := 1920, dwHeight := 1080 },
              rcSrc := { right := 1920, bottom := 1080 },
              rcDst := { right := 1920, bottom := 1080 } } }

/-- A layer with the given rotation, source rectangle `(0, 0, srcRight, srcBottom)` and
destination rectangle `(0, 0, dstRight, dstBottom)`, as `InitLayer` leaves it for a surface
without further features. -/
def exampleFcLayer (rotation : VPHAL_ROTATION) (srcRight srcBottom dstRight dstBottom : Int) :
    VP_FC_LAYER :=
  { surf := { osSurface := { dwWidth := srcRight.toNat, dwHeight := srcBottom.toNat },
              rcSrc := { right := srcRight, bottom := srcBottom },
              rcDst := { right := dstRight, bottom := dstBottom } }
    rotation := rotation }

/-- Composite parameters with two source layers (1920x1080 onto 1920x1080, and 1920x1080 onto
960x540 rotated by 180 degrees) and the 1920x1080 target. -/
def exampleCompParams : VP_COMPOSITE_PARAMS :=
  { sourceCount := 2
    source := fun i =>
      if i = 0 then exampleFcLayer VPHAL_ROTATION_IDENTITY 1920 1080 1920 1080
      else if i = 1 then exampleFcLayer VPHAL_ROTATION_180 1920 1080 960 540
      else zeroLayer
    targetCount := 1
    target := fun _ => exampleTarget }

/-- An executed pipe whose two input layers carry the 3D-sampler modes nearest and bilinear:
what `LayerSelectForProcess` leaves when `s_forceNearestToBilinearIfBilinearExists` is
cleared. -/
def mixedModePipe : ExecutedPipe :=
  { inputs :=
      [{ surf := plainLayer.surf, subpipe := { scaling := some {} } },
       { surf := scaledLayer.surf,
         subpipe := { scaling := some { scalingMode := VPHAL_SCALING_BILINEAR } } }]
    target := { surf := exampleTarget.surf } }

/-- An executed pipe whose only input layer is constant-blended with `fAlpha = 0`. -/
def transparentPipe : ExecutedPipe :=
  { inputs :=
      [{ surf := plainLayer.surf,
         subpipe :=
           { scaling := some {}
             blending := some { blendingParams := some (VPHAL_BLENDING_PARAMS.mk BLEND_CONSTANT 0) } } }]
    target := { surf := exampleTarget.surf } }

/-- An executed pipe with nine plain input layers, one more than the eight input-layer surface
types of `exampleFilter`. -/
def crowdedPipe : ExecutedPipe :=
  { inputs := List.replicate 9 plainLayer
    target := { surf := exampleTarget.surf } }

/-! ## The calls of a selection pass -/

/-- The calls of `AddInputLayerForProcess` that the loop of `LayerSelectForProcess`
(lines 1029-1046) makes over the candidate layers, in order: what each call leaves behind.
The loop breaks after the first call that sets `bSkip`, which is then the last of the list. -/
def passCalls (self : PolicyFcHandler) (output : VP_SURFACE) :
    List FcInputLayer → Nat → List Nat → ResCounter → List AddInputLayerResult
  | [], _, _, _ => []
  | layer :: rest, i, layerIndexes, m_resCounter =>
    let r := AddInputLayerForProcess self m_resCounter layerIndexes
      VPHAL_SCALING_NEAREST i layer.surf layer.subpipe output
    if r.bSkip = true then [r]
    else r :: passCalls self output rest (i + 1) r.layerIndexes r.m_resCounter

/-- The mode recorded in the scaling filter of a layer, `none` for a layer without one. -/
def recordedMode (layer : FcInputLayer) : Option VPHAL_SCALING_MODE :=
  layer.subpipe.scaling.map (fun scaling => scaling.scalingMode)

/-- The terms that the switch of lines 445-504 of `CalculateScalingParams` subtracts from
`fShiftX` and `fShiftY`, given the scale factors. -/
def rotationCorrection (layer target : VP_FC_LAYER) (fScaleX fScaleY : FloatVal) :
    FloatVal × FloatVal :=
  let rcSrc := layer.surf.rcSrc
  let rcDst := layer.surf.rcDst
  let dwDestRectWidth : FloatVal := FloatVal.ofInt target.surf.osSurface.dwWidth
  let dwDestRectHeight : FloatVal := FloatVal.ofInt target.surf.osSurface.dwHeight
  match layer.rotation with
  | VPHAL_ROTATION_IDENTITY => (FloatVal.ofInt rcDst.left, FloatVal.ofInt rcDst.top)
  | VPHAL_ROTATION_90 =>
    (FloatVal.ofInt rcDst.top,
     dwDestRectWidth - FloatVal.ofInt (rcSrc.bottom - rcSrc.top) * fScaleX -
       FloatVal.ofInt rcDst.left)
  | VPHAL_ROTATION_180 =>
    (dwDestRectWidth - FloatVal.ofInt (rcSrc.right - rcSrc.left) * fScaleX -
       FloatVal.ofInt rcDst.left,
     dwDestRectHeight - FloatVal.ofInt (rcSrc.bottom - rcSrc.top) * fScaleY -
       FloatVal.ofInt rcDst.top)
  | VPHAL_ROTATION_270 =>
    (dwDestRectHeight - FloatVal.ofInt (rcSrc.right - rcSrc.left) * fScaleY -
       FloatVal.ofInt rcDst.top,
     FloatVal.ofInt rcDst.left)
  | VPHAL_MIRROR_HORIZONTAL =>
    (dwDestRectWidth - FloatVal.ofInt (rcSrc.right - rcSrc.left) * fScaleX -
       FloatVal.ofInt rcDst.left,
     FloatVal.ofInt rcDst.top)
  | VPHAL_MIRROR_VERTICAL =>
    (FloatVal.ofInt rcDst.left,
     dwDestRectHeight - FloatVal.ofInt (rcSrc.bottom - rcSrc.top) * fScaleY -
       FloatVal.ofInt rcDst.top)
  | VPHAL_ROTATE_90_MIRROR_HORIZONTAL => (FloatVal.ofInt rcDst.top, FloatVal.ofInt rcDst.left)
  | VPHAL_ROTATE_90_MIRROR_VERTICAL =>
    (dwDestRectHeight - FloatVal.ofInt (rcSrc.right - rcSrc.left) * fScaleY -
       FloatVal.ofInt rcDst.top,
     dwDestRectWidth - FloatVal.ofInt (rcSrc.bottom - rcSrc.top) * fScaleX -
       FloatVal.ofInt rcDst.left)

/-- A progressive NV12 layer, 1920x1080 onto 1920x1080, whose scaling filter requests AVS. -/
def avsRequestLayer : FcInputLayer :=
  { surf := {}, subpipe := { scaling := some { scalingMode := VPHAL_SCALING_AVS } } }

/-! ## Further worked inputs -/

/-- A progressive NV12 surface whose source and destination rectangles are both
`(0, 0, 100, 200)`. -/
def rotatedSurface : VP_SURFACE :=
  { osSurface := { dwWidth := 100, dwHeight := 200 }
    rcSrc := { right := 100, bottom := 200 }
    rcDst := { right := 100, bottom := 200 } }

/-- The features of a layer rotated by 90 degrees: a scaling filter and a rotation filter. -/
def rotatedPipe : SwFilterSubPipe :=
  { scaling := some {}, rotMir := some { rotation := VPHAL_ROTATION_90 } }

/-- The filter of the examples on a platform with the workaround `WaEnableDscale`. -/
def workaroundFilter : VpFcFilter :=
  { exampleFilter with WaEnableDscale := true }

/-- Composite parameters with a 4:4:4 target and two bilinear primary source layers that need
chroma up-sampling: an NV12 layer scaled by 1/2 and a YUY2 layer scaled by 1/4. -/
def chromaCompParams : VP_COMPOSITE_PARAMS :=
  { sourceCount := 2
    source := fun i =>
      if i = 0 then
        { exampleFcLayer VPHAL_ROTATION_IDENTITY 1920 1080 960 540 with
          scalingMode := VPHAL_SCALING_BILINEAR }
      else if i = 1 then
        { surf := { osSurface := { Format := Format_YUY2, dwWidth := 1920, dwHeight := 1080 },
                    rcSrc := { right := 1920, bottom := 1080 },
                    rcDst := { right := 480, bottom := 270 } }
          scalingMode := VPHAL_SCALING_BILINEAR }
      else zeroLayer
    targetCount := 1
    target := fun _ =>
      { exampleTarget with
        surf := { exampleTarget.surf with
                  osSurface := { Format := Format_Code 0, dwWidth := 1920, dwHeight := 1080 } } } }

/-! ## Single-precision rounding

The source computes in `float`: every conversion and every operation is rounded to the
nearest binary32 value. `CalculateScalingParams.rounded` is `CalculateScalingParams` with a
rounding applied to the result of each conversion and operation; with no rounding it is
`CalculateScalingParams` itself, with `FloatVal.round32` it computes what the source computes
when each operation is evaluated in `float` (no fused multiply-add, no wider intermediate
format). -/

/-- Source function `VpFcFilter::CalculateScalingParams` (lines 301-514) with the rounding
`rnd` applied to every conversion to `float` and to the result of every `float` operation;
the literals of the source (0, 0.25, 0.5, 1, 2) are exact in `float` and are not rounded. -/
def CalculateScalingParams.rounded (rnd : FloatVal → FloatVal) (self : VpFcFilter)
    (layer target : Option VP_FC_LAYER) (params : VP_FC_LAYER_CALC) :
    Except MOS_STATUS VP_FC_LAYER_CALC :=
  -- lines 306-309
  let fCropX : FloatVal := .finite 0
  let fCropY : FloatVal := .finite 0
  let samplerLinearBiasX : FloatVal := rnd (.finite self.VP_SAMPLER_BIAS)
  let samplerLinearBiasY : FloatVal := rnd (.finite self.VP_SAMPLER_BIAS)
  -- lines 311-312
  match layer with
  | none => .error MOS_STATUS_NULL_POINTER
  | some layer =>
    match target with
    | none => .error MOS_STATUS_NULL_POINTER
    | some target =>
      let rcSrc := layer.surf.rcSrc
      let rcDst := layer.surf.rcDst
      -- lines 322-340
      let fScaleX : FloatVal :=
        if isAxisAligned layer.rotation = true then
          rnd (rnd (FloatVal.ofInt (rcDst.right - rcDst.left)) /
            rnd (FloatVal.ofInt (rcSrc.right - rcSrc.left)))
        else
          rnd (rnd (FloatVal.ofInt (rcDst.right - rcDst.left)) /
            rnd (FloatVal.ofInt (rcSrc.bottom - rcSrc.top)))
      let fScaleY : FloatVal :=
        if isAxisAligned layer.rotation = true then
          rnd (rnd (FloatVal.ofInt (rcDst.bottom - rcDst.top)) /
            rnd (FloatVal.ofInt (rcSrc.bottom - rcSrc.top)))
        else
          rnd (rnd (FloatVal.ofInt (rcDst.bottom - rcDst.top)) /
            rnd (FloatVal.ofInt (rcSrc.right - rcSrc.left)))
      -- lines 345-376: the pair (fDiScaleY, fOffsetY)
      let field : FloatVal × FloatVal :=
        if (fScaleX.equal (.finite 1) && fScaleY.equal (.finite 1) &&
            (layer.iscalingEnabled || layer.fieldWeaving)) = true then
          (.finite (1 / 2), samplerLinearBiasY)
        else
          match layer.surf.SampleType with
          | SAMPLE_INTERLEAVED_EVEN_FIRST_TOP_FIELD =>
            (.finite (1 / 2), rnd (samplerLinearBiasY + .finite (1 / 4)))
          | SAMPLE_INTERLEAVED_ODD_FIRST_TOP_FIELD =>
            (.finite (1 / 2), rnd (samplerLinearBiasY + .finite (1 / 4)))
          | SAMPLE_SINGLE_TOP_FIELD =>
            (.finite 1, rnd (samplerLinearBiasY + .finite (1 / 4)))
          | SAMPLE_INTERLEAVED_EVEN_FIRST_BOTTOM_FIELD =>
            (.finite (1 / 2), rnd (samplerLinearBiasY - .finite (1 / 4)))
          | SAMPLE_INTERLEAVED_ODD_FIRST_BOTTOM_FIELD =>
            (.finite (1 / 2), rnd (samplerLinearBiasY - .finite (1 / 4)))
          | SAMPLE_SINGLE_BOTTOM_FIELD =>
            (.finite 1, rnd (samplerLinearBiasY - .finite (1 / 4)))
          | SAMPLE_PROGRESSIVE =>
            (.finite 1, samplerLinearBiasY)
      let fDiScaleY := field.1
      -- lines 381-403
      let fStepX : FloatVal :=
        if isAxisAligned layer.rotation = true then
          rnd (rnd (rnd (rnd (FloatVal.ofInt (rcSrc.right - rcSrc.left)) - fCropX) * .finite 1) /
            rnd (FloatVal.ofInt
              (if rcDst.right - rcDst.left > 0 then rcDst.right - rcDst.left else 1)))
        else
          rnd (rnd (rnd (rnd (FloatVal.ofInt (rcSrc.right - rcSrc.left)) - fCropX) * .finite 1) /
            rnd (FloatVal.ofInt
              (if rcDst.bottom - rcDst.top > 0 then rcDst.bottom - rcDst.top else 1)))
      let fStepY : FloatVal :=
        if isAxisAligned layer.rotation = true then
          rnd (rnd (rnd (rnd (FloatVal.ofInt (rcSrc.bottom - rcSrc.top)) - fCropY) * fDiScaleY) /
            rnd (FloatVal.ofInt
              (if rcDst.bottom - rcDst.top > 0 then rcDst.bottom - rcDst.top else 1)))
        else
          rnd (rnd (rnd (rnd (FloatVal.ofInt (rcSrc.bottom - rcSrc.top)) - fCropY) * fDiScaleY) /
            rnd (FloatVal.ofInt
              (if rcDst.right - rcDst.left > 0 then rcDst.right - rcDst.left else 1)))
      -- lines 406-407
      let fOffsetX : FloatVal :=
        rnd (samplerLinearBiasX +
          rnd (rnd (FloatVal.ofInt rcSrc.left) + rnd (fCropX / .finite 2)))
      let fOffsetY : FloatVal :=
        rnd (field.2 +
          rnd (rnd (rnd (FloatVal.ofInt rcSrc.top) + rnd (fCropY / .finite 2)) * fDiScaleY))
      -- lines 409-413
      let chroma := IsChromaSamplingNeeded self.formats layer.surf.SurfType layer.layerID
        layer.surf.osSurface.Format target.surf.osSurface.Format
      -- line 425
      let samplerFilterMode := Get3DSamperFilterMode layer.scalingMode
      -- lines 427-440
      let shift : Except MOS_STATUS (FloatVal × FloatVal) :=
        if samplerFilterMode = MHW_SAMPLER_FILTER_NEAREST then
          .ok (.finite 0, .finite 0)
        else if samplerFilterMode = MHW_SAMPLER_FILTER_BILINEAR then
          .ok (rnd (.finite self.VP_HW_LINEAR_SHIFT), rnd (.finite self.VP_HW_LINEAR_SHIFT))
        else
          .error MOS_STATUS_INVALID_PARAMETER
      match shift with
      | .error status => .error status
      | .ok (fShiftX, fShiftY) =>
        -- lines 442-444
        let dwDestRectWidth : FloatVal := rnd (FloatVal.ofInt target.surf.osSurface.dwWidth)
        let dwDestRectHeight : FloatVal := rnd (FloatVal.ofInt target.surf.osSurface.dwHeight)
        let srcWidth : FloatVal := rnd (FloatVal.ofInt (rcSrc.right - rcSrc.left))
        let srcHeight : FloatVal := rnd (FloatVal.ofInt (rcSrc.bottom - rcSrc.top))
        let dstLeft : FloatVal := rnd (FloatVal.ofInt rcDst.left)
        let dstTop : FloatVal := rnd (FloatVal.ofInt rcDst.top)
        -- lines 445-504
        let shifted : FloatVal × FloatVal :=
          match layer.rotation with
          | VPHAL_ROTATION_IDENTITY =>
            (rnd (fShiftX - dstLeft), rnd (fShiftY - dstTop))
          | VPHAL_ROTATION_90 =>
            (rnd (fShiftX - dstTop),
             rnd (fShiftY -
               rnd (rnd (dwDestRectWidth - rnd (srcHeight * fScaleX)) - dstLeft)))
          | VPHAL_ROTATION_180 =>
            (rnd (fShiftX -
               rnd (rnd (dwDestRectWidth - rnd (srcWidth * fScaleX)) - dstLeft)),
             rnd (fShiftY -
               rnd (rnd (dwDestRectHeight - rnd (srcHeight * fScaleY)) - dstTop)))
          | VPHAL_ROTATION_270 =>
            (rnd (fShiftX -
               rnd (rnd (dwDestRectHeight - rnd (srcWidth * fScaleY)) - dstTop)),
             rnd (fShiftY - dstLeft))
          | VPHAL_MIRROR_HORIZONTAL =>
            (rnd (fShiftX -
               rnd (rnd (dwDestRectWidth - rnd (srcWidth * fScaleX)) - dstLeft)),
             rnd (fShiftY - dstTop))
          | VPHAL_MIRROR_VERTICAL =>
            (rnd (fShiftX - dstLeft),
             rnd (fShiftY -
               rnd (rnd (dwDestRectHeight - rnd (srcHeight * fScaleY)) - dstTop)))
          | VPHAL_ROTATE_90_MIRROR_HORIZONTAL =>
            (rnd (fShiftX - dstTop), rnd (fShiftY - dstLeft))
          | VPHAL_ROTATE_90_MIRROR_VERTICAL =>
            (rnd (fShiftX -
               rnd (rnd (dwDestRectHeight - rnd (srcWidth * fScaleY)) - dstTop)),
             rnd (fShiftY -
               rnd (rnd (dwDestRectWidth - rnd (srcHeight * fScaleX)) - dstLeft)))
        -- lines 442, 506-511
        let clipedDstRect : RECT :=
          if layer.xorComp = true then
            { rcDst with right := rcDst.left + (rcDst.right - rcDst.left) * 8 }
          else rcDst
        .ok { params with
              fScaleX := fScaleX
              fScaleY := fScaleY
              fOffsetX := fOffsetX
              fOffsetY := fOffsetY
              fShiftX := shifted.1
              fShiftY := shifted.2
              fStepX := fStepX
              fStepY := fStepY
              clipedDstRect := clipedDstRect
              isChromaUpSamplingNeeded := chroma.1
              isChromaDownSamplingNeeded := chroma.2
              samplerFilterMode := samplerFilterMode }

theorem isConstantBlend_iff (t : VPHAL_BLEND_TYPE) :
    isConstantBlend t = true ↔
      (t = BLEND_CONSTANT ∨ t = BLEND_CONSTANT_SOURCE ∨ t = BLEND_CONSTANT_PARTIAL) := by
  cases t <;> simp [isConstantBlend]

/-- The 16-bit cast of a non-negative float below 65536 is its integer part. -/
theorem castToUInt16_eq_floor (x : ℚ) (h0 : 0 ≤ x) (h1 : x < 65536) :
    castToUInt16 x = ⌊x⌋.toNat := by
  unfold castToUInt16
  have hnum : 0 ≤ x.num := Rat.num_nonneg.mpr h0
  have hden : (0 : Int) ≤ (x.den : Int) := Int.ofNat_nonneg _
  rw [Int.tdiv_eq_ediv hnum hden, ← Rat.floor_def]
  have hf0 : 0 ≤ ⌊x⌋ := Int.floor_nonneg.mpr h0
  have hf1 : ⌊x⌋ < 65536 := by
    have : ⌊x⌋ < ((65536 : Int) : ℚ) := lt_of_le_of_lt (Int.floor_le x) (by exact_mod_cast h1)
    exact_mod_cast this
  rw [Int.emod_eq_of_lt hf0 hf1]

theorem CalculateConstantAlpha_none (layer : VP_FC_LAYER) (h : layer.blendingParams = none) :
    CalculateConstantAlpha layer = .ok (255, layer) := by
  simp [CalculateConstantAlpha, h]

theorem CalculateConstantAlpha_other (layer : VP_FC_LAYER) (bp : VPHAL_BLENDING_PARAMS)
    (h : layer.blendingParams = some bp) (hb : isConstantBlend bp.BlendType = false) :
    CalculateConstantAlpha layer = .ok (255, layer) := by
  simp [CalculateConstantAlpha, h, hb]

theorem CalculateConstantAlpha_transparent (layer : VP_FC_LAYER) (bp : VPHAL_BLENDING_PARAMS)
    (h : layer.blendingParams = some bp) (hb : isConstantBlend bp.BlendType = true)
    (ha : bp.fAlpha ≤ 0) :
    CalculateConstantAlpha layer = .error MOS_STATUS_INVALID_PARAMETER := by
  simp [CalculateConstantAlpha, h, hb, ha]

theorem CalculateConstantAlpha_of_one_le (layer : VP_FC_LAYER) (bp : VPHAL_BLENDING_PARAMS)
    (h : layer.blendingParams = some bp) (hb : isConstantBlend bp.BlendType = true)
    (ha : 1 ≤ bp.fAlpha) :
    CalculateConstantAlpha layer =
      .ok (255, { layer with
        blendingParams := some (VPHAL_BLENDING_PARAMS.mk
          (if bp.BlendType = BLEND_CONSTANT then BLEND_NONE else BLEND_SOURCE) 1) }) := by
  have hpos : ¬ bp.fAlpha ≤ 0 := by linarith
  simp [CalculateConstantAlpha, h, hb, ha, hpos]

theorem CalculateConstantAlpha_of_lt_one (layer : VP_FC_LAYER) (bp : VPHAL_BLENDING_PARAMS)
    (h : layer.blendingParams = some bp) (hb : isConstantBlend bp.BlendType = true)
    (h0 : 0 < bp.fAlpha) (h1 : bp.fAlpha < 1) :
    CalculateConstantAlpha layer = .ok (⌊255 * bp.fAlpha⌋.toNat, layer) := by
  have hx0 : (0 : ℚ) ≤ 255 * bp.fAlpha := by positivity
  have hx1 : 255 * bp.fAlpha < 255 := by linarith
  have hcast := castToUInt16_eq_floor (255 * bp.fAlpha) hx0 (by linarith)
  have hfl : ⌊255 * bp.fAlpha⌋ < 255 := by
    have : ⌊255 * bp.fAlpha⌋ < ((255 : Int) : ℚ) :=
      lt_of_le_of_lt (Int.floor_le _) (by exact_mod_cast hx1)
    exact_mod_cast this
  have hlt : ¬ 255 ≤ ⌊255 * bp.fAlpha⌋.toNat := by omega
  have hpos : ¬ bp.fAlpha ≤ 0 := not_le.mpr h0
  have hge : ¬ 1 ≤ bp.fAlpha := not_le.mpr h1
  simp [CalculateConstantAlpha, h, hb, hpos, hge, hlt, hcast]

theorem AddInputLayerForProcess_eq (self : PolicyFcHandler) (res : ResCounter) (idxs : List Nat)
    (m : VPHAL_SCALING_MODE) (i : Nat) (input : VP_SURFACE) (pipe : SwFilterSubPipe)
    (output : VP_SURFACE) :
    AddInputLayerForProcess self res idxs m i input pipe output =
      if pipe.lumakey.isSome = true ∧
          ((decrementCounters res input pipe).lumaKeys < 0 ∨ idxs.length > 1) then
        { bSkip := true, layerIndexes := idxs, scalingMode := m, input := input, pipe := pipe,
          m_resCounter := decrementCounters res input pipe }
      else if overBudget (selectSampler self
          (resetSamplerForLumakey (decrementCounters res input pipe) idxs.length pipe)
          idxs.length input pipe output).2 then
        { bSkip := true, layerIndexes := idxs,
          scalingMode := (selectSampler self
            (resetSamplerForLumakey (decrementCounters res input pipe) idxs.length pipe)
            idxs.length input pipe output).1,
          input := input, pipe := pipeAfterFieldCheck input pipe,
          m_resCounter := (selectSampler self
            (resetSamplerForLumakey (decrementCounters res input pipe) idxs.length pipe)
            idxs.length input pipe output).2 }
      else
        { bSkip := false, layerIndexes := idxs ++ [i],
          scalingMode := (selectSampler self
            (resetSamplerForLumakey (decrementCounters res input pipe) idxs.length pipe)
            idxs.length input pipe output).1,
          input := { input with SampleType := resolvedSampleType input },
          pipe :=
            { pipeAfterFieldCheck input pipe with
              scaling := (pipeAfterFieldCheck input pipe).scaling.map (fun s =>
                { s with scalingMode := (selectSampler self
                    (resetSamplerForLumakey (decrementCounters res input pipe) idxs.length pipe)
                    idxs.length input pipe output).1 })
              di := (pipeAfterFieldCheck input pipe).di.map (fun d =>
                { d with sampleTypeInput := resolvedSampleType input }) },
          m_resCounter := (selectSampler self
            (resetSamplerForLumakey (decrementCounters res input pipe) idxs.length pipe)
            idxs.length input pipe output).2 } := by
  rfl

/-! ## Indexed loops over a pipe -/

theorem get?_append_length {α : Type} (pre : List α) (x : α) (rest : List α) :
    (pre ++ x :: rest).get? pre.length = some x := by
  induction pre with
  | nil => rfl
  | cons a pre ih => simpa using ih

theorem set_append_length {α : Type} (pre : List α) (x y : α) (rest : List α) :
    (pre ++ x :: rest).set pre.length y = pre ++ y :: rest := by
  induction pre with
  | nil => rfl
  | cons a pre ih => simp [List.set, ih]

theorem GetInputLayer_append (pre : List (Option FcInputLayer)) (slot : Option FcInputLayer)
    (rest : List (Option FcInputLayer)) (output : Option VP_SURFACE) :
    SwFilterPipe.GetInputLayer { inputs := pre ++ slot :: rest, output := output } pre.length
      = slot := by
  unfold SwFilterPipe.GetInputLayer
  rw [get?_append_length]
  rfl

/-- The marking loop of `RemoveTransparentLayers` empties exactly the transparent slots; the
fuel it is started with (the slot count) is enough, and more fuel changes nothing. -/
theorem RemoveTransparentLayers_loop_fuel (rest pre : List (Option FcInputLayer))
    (output : Option VP_SURFACE) (extra : Nat) :
    RemoveTransparentLayers.loop (rest.length + extra) pre.length
        { inputs := pre ++ rest, output := output } =
      .ok { inputs := pre ++ rest.map markTransparent, output := output } := by
  induction rest generalizing pre with
  | nil =>
    cases extra with
    | zero => simp [RemoveTransparentLayers.loop]
    | succ extra =>
      simp [RemoveTransparentLayers.loop, SwFilterPipe.GetSurfaceCount]
  | cons slot rest ih =>
    have hlt : pre.length < (pre ++ slot :: rest).length := by simp
    have hfuel : (slot :: rest).length + extra = (rest.length + extra) + 1 := by
      simp only [List.length_cons]; omega
    have hstep : ∀ s : Option FcInputLayer,
        RemoveTransparentLayers.loop (rest.length + extra) (pre.length + 1)
          { inputs := pre ++ s :: rest, output := output } =
        .ok { inputs := pre ++ s :: rest.map markTransparent, output := output } := by
      intro s
      have := ih (pre ++ [s])
      simpa using this
    rw [hfuel]
    unfold RemoveTransparentLayers.loop
    simp only [SwFilterPipe.GetSurfaceCount, hlt, if_true, GetInputLayer_append]
    cases slot with
    | none => simpa [markTransparent] using hstep none
    | some layer =>
      cases hb : layer.subpipe.blending with
      | none =>
        simpa [markTransparent, isTransparentLayer, hb] using hstep (some layer)
      | some blending =>
        by_cases ht : isTransparentBlending blending = true
        · simp only [Option.some_bind, hb, ht, if_true, SwFilterPipe.DestroySurface, hlt,
            set_append_length]
          simpa [markTransparent, isTransparentLayer, hb, ht] using hstep none
        · simp only [Option.some_bind, hb, ht]
          simpa [markTransparent, isTransparentLayer, hb, ht] using hstep (some layer)

theorem RemoveTransparentLayers_loop_eq (rest pre : List (Option FcInputLayer))
    (output : Option VP_SURFACE) :
    RemoveTransparentLayers.loop rest.length pre.length
        { inputs := pre ++ rest, output := output } =
      .ok { inputs := pre ++ rest.map markTransparent, output := output } := by
  simpa using RemoveTransparentLayers_loop_fuel rest pre output 0

theorem filter_map_markTransparent (slots : List (Option FcInputLayer)) :
    (slots.map markTransparent).filter (fun slot => slot.isSome) =
      slots.filter isCandidateSlot := by
  induction slots with
  | nil => rfl
  | cons slot slots ih =>
    cases slot with
    | none => simpa [markTransparent, isCandidateSlot] using ih
    | some layer =>
      by_cases ht : isTransparentLayer layer = true
      · simpa [markTransparent, isCandidateSlot, ht] using ih
      · simpa [markTransparent, isCandidateSlot, ht] using ih

theorem RemoveTransparentLayers_eq (featurePipe : SwFilterPipe) :
    RemoveTransparentLayers featurePipe =
      .ok { inputs := featurePipe.inputs.filter isCandidateSlot,
            output := featurePipe.output } := by
  have h := RemoveTransparentLayers_loop_eq featurePipe.inputs [] featurePipe.output
  simp only [List.length_nil, List.nil_append] at h
  unfold RemoveTransparentLayers
  simp only [SwFilterPipe.GetSurfaceCount]
  rw [show featurePipe = { inputs := featurePipe.inputs, output := featurePipe.output } from rfl] at *
  simp only [h, SwFilterPipe.Update, filter_map_markTransparent]

/-! ## The selection loop as a scan: proofs -/

/-- The indexed selection loop computes the scan; the fuel it is started with (the slot count)
is enough, and more fuel changes nothing. -/
theorem LayerSelectForProcess_loop_fuel (self : PolicyFcHandler) (output : VP_SURFACE)
    (todo : List FcInputLayer) (pre : List (Option FcInputLayer)) (out : Option VP_SURFACE)
    (idxs : List Nat) (res : ResCounter) (bil : Bool) (extra : Nat) :
    LayerSelectForProcess.loop self output (todo.length + extra) pre.length
        { layerIndexes := idxs, m_resCounter := res, bilinearInUseFor3DSampler := bil,
          skip := false, featurePipe := { inputs := pre ++ todo.map some, output := out } } =
      .ok { layerIndexes := (selectScan self output todo pre.length idxs res bil).layerIndexes,
            m_resCounter := (selectScan self output todo pre.length idxs res bil).m_resCounter,
            bilinearInUseFor3DSampler :=
              (selectScan self output todo pre.length idxs res bil).bilinearInUseFor3DSampler,
            skip := (selectScan self output todo pre.length idxs res bil).skip,
            featurePipe :=
              { inputs := pre ++
                  (selectScan self output todo pre.length idxs res bil).layers.map some,
                output := out } } := by
  induction todo generalizing pre idxs res bil with
  | nil =>
    cases extra with
    | zero => simp [LayerSelectForProcess.loop, selectScan]
    | succ extra =>
      simp [LayerSelectForProcess.loop, selectScan, SwFilterPipe.GetSurfaceCount]
  | cons layer rest ih =>
    have hlt : pre.length < (pre ++ some layer :: rest.map some).length := by simp
    have hfuel : (layer :: rest).length + extra = (rest.length + extra) + 1 := by
      simp only [List.length_cons]; omega
    rw [hfuel]
    unfold LayerSelectForProcess.loop
    simp only [List.map_cons, SwFilterPipe.GetSurfaceCount, hlt, if_true,
      GetInputLayer_append, set_append_length]
    simp only [selectScan]
    generalize AddInputLayerForProcess self res idxs VPHAL_SCALING_NEAREST pre.length
      layer.surf layer.subpipe output = r
    by_cases hs : r.bSkip = true
    · simp [hs]
    · have := ih (pre ++ [some (FcInputLayer.mk r.input r.pipe)]) r.layerIndexes r.m_resCounter
        (if VPHAL_SCALING_BILINEAR = r.scalingMode then true else bil)
      simp only [List.length_append, List.length_singleton, List.append_assoc,
        List.singleton_append] at this
      simp only [hs]
      simpa using this

theorem LayerSelectForProcess_loop_eq (self : PolicyFcHandler) (output : VP_SURFACE)
    (todo : List FcInputLayer) (pre : List (Option FcInputLayer)) (out : Option VP_SURFACE)
    (idxs : List Nat) (res : ResCounter) (bil : Bool) :
    LayerSelectForProcess.loop self output todo.length pre.length
        { layerIndexes := idxs, m_resCounter := res, bilinearInUseFor3DSampler := bil,
          skip := false, featurePipe := { inputs := pre ++ todo.map some, output := out } } =
      .ok { layerIndexes := (selectScan self output todo pre.length idxs res bil).layerIndexes,
            m_resCounter := (selectScan self output todo pre.length idxs res bil).m_resCounter,
            bilinearInUseFor3DSampler :=
              (selectScan self output todo pre.length idxs res bil).bilinearInUseFor3DSampler,
            skip := (selectScan self output todo pre.length idxs res bil).skip,
            featurePipe :=
              { inputs := pre ++
                  (selectScan self output todo pre.length idxs res bil).layers.map some,
                output := out } } := by
  simpa using LayerSelectForProcess_loop_fuel self output todo pre out idxs res bil 0

theorem forceBilinear_range (k : Nat) (post : List FcInputLayer)
    (pre : List (Option FcInputLayer)) (out : Option VP_SURFACE) (hk : k ≤ post.length) :
    LayerSelectForProcess.forceBilinear (List.range' pre.length k)
        { inputs := pre ++ post.map some, output := out } =
      .ok { inputs := pre ++ ((post.take k).map forceLayerBilinear ++ post.drop k).map some,
            output := out } := by
  induction k generalizing pre post with
  | zero => simp [LayerSelectForProcess.forceBilinear]
  | succ k ih =>
    cases post with
    | nil => simp at hk
    | cons layer post =>
      have hk2 : k ≤ post.length := by simpa using hk
      have := ih post (pre ++ [some (forceLayerBilinear layer)]) hk2
      simp only [List.length_append, List.length_singleton, List.append_assoc,
        List.singleton_append] at this
      simp only [List.range'_succ, LayerSelectForProcess.forceBilinear, List.map_cons,
        GetInputLayer_append, set_append_length]
      simpa [forceLayerBilinear] using this

/-! ## One call of `AddInputLayerForProcess` -/

theorem decrementCounters_fields (res : ResCounter) (input : VP_SURFACE) (pipe : SwFilterSubPipe) :
    (decrementCounters res input pipe).layers = res.layers - 1 ∧
    (decrementCounters res input pipe).palettes =
      (if VPHAL_PALETTE_NONE ≠ input.PaletteType then res.palettes - 1 else res.palettes) ∧
    (decrementCounters res input pipe).procamp =
      (if procampRequested pipe = true then res.procamp - 1 else res.procamp) ∧
    (decrementCounters res input pipe).lumaKeys =
      (if pipe.lumakey.isSome = true then res.lumaKeys - 1 else res.lumaKeys) ∧
    (decrementCounters res input pipe).avs = res.avs ∧
    (decrementCounters res input pipe).sampler = res.sampler := by
  unfold decrementCounters
  simp only []
  split_ifs <;> simp

theorem resetSamplerForLumakey_fields (res4 : ResCounter) (n : Nat) (pipe : SwFilterSubPipe) :
    (resetSamplerForLumakey res4 n pipe).layers = res4.layers ∧
    (resetSamplerForLumakey res4 n pipe).palettes = res4.palettes ∧
    (resetSamplerForLumakey res4 n pipe).procamp = res4.procamp ∧
    (resetSamplerForLumakey res4 n pipe).lumaKeys = res4.lumaKeys ∧
    (resetSamplerForLumakey res4 n pipe).avs = res4.avs ∧
    (resetSamplerForLumakey res4 n pipe).sampler =
      (if pipe.lumakey.isSome = true ∧ n = 1 then VP_COMP_MAX_SAMPLER else res4.sampler) := by
  unfold resetSamplerForLumakey
  split_ifs <;> simp

theorem requestedMode_none (self : PolicyFcHandler) (pipe : SwFilterSubPipe)
    (h : pipe.scaling = none) : requestedMode self pipe = VPHAL_SCALING_NEAREST := by
  simp [requestedMode, h]

theorem Get3DSamplerScalingMode_ne_avs (fm : FormatMacros) (pipe : SwFilterSubPipe) (n : Nat)
    (input output : VP_SURFACE) :
    Get3DSamplerScalingMode fm pipe n input output ≠ VPHAL_SCALING_AVS := by
  unfold Get3DSamplerScalingMode
  simp only []
  split_ifs <;> simp

theorem selectSampler_fields (self : PolicyFcHandler) (res5 : ResCounter) (n : Nat)
    (input : VP_SURFACE) (pipe : SwFilterSubPipe) (output : VP_SURFACE) :
    (selectSampler self res5 n input pipe output).2.layers = res5.layers ∧
    (selectSampler self res5 n input pipe output).2.palettes = res5.palettes ∧
    (selectSampler self res5 n input pipe output).2.procamp = res5.procamp ∧
    (selectSampler self res5 n input pipe output).2.lumaKeys = res5.lumaKeys ∧
    (selectSampler self res5 n input pipe output).2.avs ≤ res5.avs ∧
    res5.avs - 1 ≤ (selectSampler self res5 n input pipe output).2.avs ∧
    ((selectSampler self res5 n input pipe output).1 = VPHAL_SCALING_AVS →
      pipe.scaling.isSome = true →
      (selectSampler self res5 n input pipe output).2.avs = res5.avs - 1) := by
  have h3d := Get3DSamplerScalingMode_ne_avs self.formats (pipeAfterFieldCheck input pipe) n
    input output
  unfold selectSampler
  simp only []
  split_ifs with h1 h2 h3 h4
  · simp only [Bool.and_eq_true, Bool.not_eq_true', Option.isNone_iff_eq_none] at h1
    simp [h1.2]
  · simp
  · simp [h3d]
  · simp [h3d]
  · simp

/-- The three outcomes of a call: rejected by the luma-key test, rejected by the limit test,
admitted. -/
theorem Add_cases (self : PolicyFcHandler) (res : ResCounter) (idxs : List Nat)
    (m : VPHAL_SCALING_MODE) (i : Nat) (input : VP_SURFACE) (pipe : SwFilterSubPipe)
    (output : VP_SURFACE) :
    ((pipe.lumakey.isSome = true ∧
        ((decrementCounters res input pipe).lumaKeys < 0 ∨ idxs.length > 1)) ∧
      AddInputLayerForProcess self res idxs m i input pipe output =
        { bSkip := true, layerIndexes := idxs, scalingMode := m, input := input, pipe := pipe,
          m_resCounter := decrementCounters res input pipe }) ∨
    ((¬ (pipe.lumakey.isSome = true ∧
        ((decrementCounters res input pipe).lumaKeys < 0 ∨ idxs.length > 1)) ∧
      overBudget (selectSampler self
          (resetSamplerForLumakey (decrementCounters res input pipe) idxs.length pipe)
          idxs.length input pipe output).2) ∧
      AddInputLayerForProcess self res idxs m i input pipe output =
        { bSkip := true, layerIndexes := idxs,
          scalingMode := (selectSampler self
            (resetSamplerForLumakey (decrementCounters res input pipe) idxs.length pipe)
            idxs.length input pipe output).1,
          input := input, pipe := pipeAfterFieldCheck input pipe,
          m_resCounter := (selectSampler self
            (resetSamplerForLumakey (decrementCounters res input pipe) idxs.length pipe)
            idxs.length input pipe output).2 }) ∨
    ((¬ (pipe.lumakey.isSome = true ∧
        ((decrementCounters res input pipe).lumaKeys < 0 ∨ idxs.length > 1)) ∧
      ¬ overBudget (selectSampler self
          (resetSamplerForLumakey (decrementCounters res input pipe) idxs.length pipe)
          idxs.length input pipe output).2) ∧
      AddInputLayerForProcess self res idxs m i input pipe output =
        { bSkip := false, layerIndexes := idxs ++ [i],
          scalingMode := (selectSampler self
            (resetSamplerForLumakey (decrementCounters res input pipe) idxs.length pipe)
            idxs.length input pipe output).1,
          input := { input with SampleType := resolvedSampleType input },
          pipe :=
            { pipeAfterFieldCheck input pipe with
              scaling := (pipeAfterFieldCheck input pipe).scaling.map (fun s =>
                { s with scalingMode := (selectSampler self
                    (resetSamplerForLumakey (decrementCounters res input pipe) idxs.length pipe)
                    idxs.length input pipe output).1 })
              di := (pipeAfterFieldCheck input pipe).di.map (fun d =>
                { d with sampleTypeInput := resolvedSampleType input }) },
          m_resCounter := (selectSampler self
            (resetSamplerForLumakey (decrementCounters res input pipe) idxs.length pipe)
            idxs.length input pipe output).2 }) := by
  rw [AddInputLayerForProcess_eq]
  by_cases h1 : pipe.lumakey.isSome = true ∧
        ((decrementCounters res input pipe).lumaKeys < 0 ∨ idxs.length > 1)
  · left
    exact ⟨h1, if_pos h1⟩
  · by_cases h2 : overBudget (selectSampler self
          (resetSamplerForLumakey (decrementCounters res input pipe) idxs.length pipe)
          idxs.length input pipe output).2
    · right; left
      refine ⟨⟨h1, h2⟩, ?_⟩
      rw [if_neg h1, if_pos h2]
    · right; right
      refine ⟨⟨h1, h2⟩, ?_⟩
      rw [if_neg h1, if_neg h2]

/-- The counters an admitted layer leaves behind. -/
theorem Add_admitted (self : PolicyFcHandler) (res : ResCounter) (idxs : List Nat)
    (m : VPHAL_SCALING_MODE) (i : Nat) (input : VP_SURFACE) (pipe : SwFilterSubPipe)
    (output : VP_SURFACE)
    (h : (AddInputLayerForProcess self res idxs m i input pipe output).bSkip = false) :
    (AddInputLayerForProcess self res idxs m i input pipe output).layerIndexes = idxs ++ [i] ∧
    (AddInputLayerForProcess self res idxs m i input pipe output).m_resCounter.layers
      = res.layers - 1 ∧
    (AddInputLayerForProcess self res idxs m i input pipe output).m_resCounter.palettes
      = (if VPHAL_PALETTE_NONE ≠ input.PaletteType then res.palettes - 1 else res.palettes) ∧
    (AddInputLayerForProcess self res idxs m i input pipe output).m_resCounter.procamp
      = (if procampRequested pipe = true then res.procamp - 1 else res.procamp) ∧
    (AddInputLayerForProcess self res idxs m i input pipe output).m_resCounter.lumaKeys
      = (if pipe.lumakey.isSome = true then res.lumaKeys - 1 else res.lumaKeys) ∧
    (AddInputLayerForProcess self res idxs m i input pipe output).m_resCounter.avs ≤ res.avs ∧
    ¬ overBudget (AddInputLayerForProcess self res idxs m i input pipe output).m_resCounter ∧
    ((AddInputLayerForProcess self res idxs m i input pipe output).pipe.scaling.map
        (fun s => s.scalingMode) = some VPHAL_SCALING_AVS →
      (AddInputLayerForProcess self res idxs m i input pipe output).m_resCounter.avs
        = res.avs - 1) ∧
    (pipe.lumakey.isSome = true → idxs.length ≤ 1) := by
  obtain ⟨hd1, hd2, hd3, hd4, hd5, hd6⟩ := decrementCounters_fields res input pipe
  obtain ⟨hr1, hr2, hr3, hr4, hr5, hr6⟩ :=
    resetSamplerForLumakey_fields (decrementCounters res input pipe) idxs.length pipe
  obtain ⟨hs1, hs2, hs3, hs4, hs5, hs6, hs7⟩ := selectSampler_fields self
    (resetSamplerForLumakey (decrementCounters res input pipe) idxs.length pipe)
    idxs.length input pipe output
  rcases Add_cases self res idxs m i input pipe output with
    ⟨_, he⟩ | ⟨_, he⟩ | ⟨⟨h1, h2⟩, he⟩
  · rw [he] at h; simp at h
  · rw [he] at h; simp at h
  rw [he]
  refine ⟨rfl, ?_, ?_, ?_, ?_, ?_, h2, ?_, ?_⟩
  · simp only [hs1, hr1, hd1]
  · simp only [hs2, hr2, hd2]
  · simp only [hs3, hr3, hd3]
  · simp only [hs4, hr4, hd4]
  · simp only [] at hs5 ⊢; omega
  · intro hm
    have hsome : pipe.scaling.isSome = true := by
      cases hsc : pipe.scaling with
      | none =>
        simp [pipeAfterFieldCheck, hsc] at hm
      | some s => rfl
    have hmode : (selectSampler self
        (resetSamplerForLumakey (decrementCounters res input pipe) idxs.length pipe)
        idxs.length input pipe output).1 = VPHAL_SCALING_AVS := by
      cases hsc : (pipeAfterFieldCheck input pipe).scaling with
      | none => simp [hsc] at hm
      | some s => simpa [hsc] using hm
    have := hs7 hmode hsome
    simp only [] at this ⊢
    omega
  · intro hl
    by_contra hc
    exact h1 ⟨hl, Or.inr (by omega)⟩

/-- The counters a rejected layer leaves behind: each is at most one below its value before
the call, and the admitted list is unchanged. -/
theorem Add_rejected (self : PolicyFcHandler) (res : ResCounter) (idxs : List Nat)
    (m : VPHAL_SCALING_MODE) (i : Nat) (input : VP_SURFACE) (pipe : SwFilterSubPipe)
    (output : VP_SURFACE)
    (h : (AddInputLayerForProcess self res idxs m i input pipe output).bSkip = true) :
    (AddInputLayerForProcess self res idxs m i input pipe output).layerIndexes = idxs ∧
    res.layers - 1 ≤
      (AddInputLayerForProcess self res idxs m i input pipe output).m_resCounter.layers ∧
    res.palettes - 1 ≤
      (AddInputLayerForProcess self res idxs m i input pipe output).m_resCounter.palettes ∧
    res.procamp - 1 ≤
      (AddInputLayerForProcess self res idxs m i input pipe output).m_resCounter.procamp ∧
    res.lumaKeys - 1 ≤
      (AddInputLayerForProcess self res idxs m i input pipe output).m_resCounter.lumaKeys ∧
    res.avs - 1 ≤
      (AddInputLayerForProcess self res idxs m i input pipe output).m_resCounter.avs := by
  obtain ⟨hd1, hd2, hd3, hd4, hd5, hd6⟩ := decrementCounters_fields res input pipe
  obtain ⟨hr1, hr2, hr3, hr4, hr5, hr6⟩ :=
    resetSamplerForLumakey_fields (decrementCounters res input pipe) idxs.length pipe
  obtain ⟨hs1, hs2, hs3, hs4, hs5, hs6, hs7⟩ := selectSampler_fields self
    (resetSamplerForLumakey (decrementCounters res input pipe) idxs.length pipe)
    idxs.length input pipe output
  rcases Add_cases self res idxs m i input pipe output with
    ⟨_, he⟩ | ⟨_, he⟩ | ⟨_, he⟩
  · rw [he]
    refine ⟨rfl, ?_, ?_, ?_, ?_, ?_⟩
    · simp only [hd1]; omega
    · simp only [hd2]; split_ifs <;> omega
    · simp only [hd3]; split_ifs <;> omega
    · simp only [hd4]; split_ifs <;> omega
    · simp only [hd5]; omega
  · rw [he]
    refine ⟨rfl, ?_, ?_, ?_, ?_, ?_⟩
    · simp only [hs1, hr1, hd1]; omega
    · simp only [hs2, hr2, hd2]; split_ifs <;> omega
    · simp only [hs3, hr3, hd3]; split_ifs <;> omega
    · simp only [hs4, hr4, hd4]; split_ifs <;> omega
    · simp only [] at hs6 ⊢; omega
  · rw [he] at h; simp at h

/-- The budget attributes of a layer are not touched by the call. -/
theorem Add_attributes (self : PolicyFcHandler) (res : ResCounter) (idxs : List Nat)
    (m : VPHAL_SCALING_MODE) (i : Nat) (input : VP_SURFACE) (pipe : SwFilterSubPipe)
    (output : VP_SURFACE) :
    (AddInputLayerForProcess self res idxs m i input pipe output).input.PaletteType
      = input.PaletteType ∧
    procampRequested (AddInputLayerForProcess self res idxs m i input pipe output).pipe
      = procampRequested pipe ∧
    (AddInputLayerForProcess self res idxs m i input pipe output).pipe.lumakey = pipe.lumakey ∧
    (AddInputLayerForProcess self res idxs m i input pipe output).pipe.blending
      = pipe.blending := by
  rcases Add_cases self res idxs m i input pipe output with
    ⟨_, he⟩ | ⟨_, he⟩ | ⟨_, he⟩ <;> rw [he] <;> simp [pipeAfterFieldCheck, procampRequested]

/-! ## The scan: admitted prefix and budget -/

theorem selectScan_cons_skip (self : PolicyFcHandler) (output : VP_SURFACE)
    (layer : FcInputLayer) (rest : List FcInputLayer) (i : Nat) (idxs : List Nat)
    (res : ResCounter) (bil : Bool)
    (h : (AddInputLayerForProcess self res idxs VPHAL_SCALING_NEAREST i
        layer.surf layer.subpipe output).bSkip = true) :
    selectScan self output (layer :: rest) i idxs res bil =
      { layerIndexes := (AddInputLayerForProcess self res idxs VPHAL_SCALING_NEAREST i
          layer.surf layer.subpipe output).layerIndexes,
        m_resCounter := (AddInputLayerForProcess self res idxs VPHAL_SCALING_NEAREST i
          layer.surf layer.subpipe output).m_resCounter,
        bilinearInUseFor3DSampler := bil, skip := true,
        layers := FcInputLayer.mk
          (AddInputLayerForProcess self res idxs VPHAL_SCALING_NEAREST i
            layer.surf layer.subpipe output).input
          (AddInputLayerForProcess self res idxs VPHAL_SCALING_NEAREST i
            layer.surf layer.subpipe output).pipe :: rest } := by
  simp [selectScan, h]

theorem selectScan_cons_admitted (self : PolicyFcHandler) (output : VP_SURFACE)
    (layer : FcInputLayer) (rest : List FcInputLayer) (i : Nat) (idxs : List Nat)
    (res : ResCounter) (bil : Bool)
    (h : (AddInputLayerForProcess self res idxs VPHAL_SCALING_NEAREST i
        layer.surf layer.subpipe output).bSkip = false) :
    selectScan self output (layer :: rest) i idxs res bil =
      { selectScan self output rest (i + 1)
          (AddInputLayerForProcess self res idxs VPHAL_SCALING_NEAREST i
            layer.surf layer.subpipe output).layerIndexes
          (AddInputLayerForProcess self res idxs VPHAL_SCALING_NEAREST i
            layer.surf layer.subpipe output).m_resCounter
          (if VPHAL_SCALING_BILINEAR = (AddInputLayerForProcess self res idxs
            VPHAL_SCALING_NEAREST i layer.surf layer.subpipe output).scalingMode
           then true else bil) with
        layers := FcInputLayer.mk
          (AddInputLayerForProcess self res idxs VPHAL_SCALING_NEAREST i
            layer.surf layer.subpipe output).input
          (AddInputLayerForProcess self res idxs VPHAL_SCALING_NEAREST i
            layer.surf layer.subpipe output).pipe ::
          (selectScan self output rest (i + 1)
            (AddInputLayerForProcess self res idxs VPHAL_SCALING_NEAREST i
              layer.surf layer.subpipe output).layerIndexes
            (AddInputLayerForProcess self res idxs VPHAL_SCALING_NEAREST i
              layer.surf layer.subpipe output).m_resCounter
            (if VPHAL_SCALING_BILINEAR = (AddInputLayerForProcess self res idxs
              VPHAL_SCALING_NEAREST i layer.surf layer.subpipe output).scalingMode
             then true else bil)).layers } := by
  simp [selectScan, h]

/-- The admitted indexes of a scan are the next `k` consecutive indexes, and the scan stops
at the first rejected layer. -/
theorem selectScan_indexes (self : PolicyFcHandler) (output : VP_SURFACE)
    (layers : List FcInputLayer) (i : Nat) (idxs : List Nat) (res : ResCounter) (bil : Bool) :
    ∃ k, k ≤ layers.length ∧
      (selectScan self output layers i idxs res bil).layerIndexes = idxs ++ List.range' i k ∧
      (selectScan self output layers i idxs res bil).layers.length = layers.length ∧
      ((selectScan self output layers i idxs res bil).skip = false → k = layers.length) ∧
      ((selectScan self output layers i idxs res bil).skip = true → k < layers.length) := by
  induction layers generalizing i idxs res bil with
  | nil => exact ⟨0, by simp [selectScan]⟩
  | cons layer rest ih =>
    simp only [selectScan]
    by_cases hs : (AddInputLayerForProcess self res idxs VPHAL_SCALING_NEAREST i
        layer.surf layer.subpipe output).bSkip = true
    · have hrej := Add_rejected self res idxs VPHAL_SCALING_NEAREST i layer.surf layer.subpipe
        output hs
      refine ⟨0, ?_⟩
      simp [hs, hrej.1]
    · have hs2 : (AddInputLayerForProcess self res idxs VPHAL_SCALING_NEAREST i
          layer.surf layer.subpipe output).bSkip = false := by simpa using hs
      have hadm := Add_admitted self res idxs VPHAL_SCALING_NEAREST i layer.surf layer.subpipe
        output hs2
      obtain ⟨k, hk, hidx, hlen, hns, hsk⟩ := ih (i + 1)
        (AddInputLayerForProcess self res idxs VPHAL_SCALING_NEAREST i
          layer.surf layer.subpipe output).layerIndexes
        (AddInputLayerForProcess self res idxs VPHAL_SCALING_NEAREST i
          layer.surf layer.subpipe output).m_resCounter
        (if VPHAL_SCALING_BILINEAR = (AddInputLayerForProcess self res idxs
          VPHAL_SCALING_NEAREST i layer.surf layer.subpipe output).scalingMode
         then true else bil)
      refine ⟨k + 1, ?_⟩
      simp only [hs, if_false]
      refine ⟨by simpa using hk, ?_, by simpa using hlen, ?_, ?_⟩
      · rw [hidx, hadm.1, List.range'_succ]
        simp
      · intro h; simpa using hns h
      · intro h; simpa using hsk h

theorem budgetNonneg_of_not_overBudget (res : ResCounter) (h : ¬ overBudget res) :
    budgetNonneg res := by
  unfold overBudget at h
  unfold budgetNonneg
  simp only [not_or, not_lt] at h
  exact ⟨h.1, h.2.1, h.2.2.1, h.2.2.2.1, h.2.2.2.2.1⟩

/-- Started from non-negative counters, a scan admits no more layers of each kind than the
counter of that kind held. -/
theorem selectScan_budget (self : PolicyFcHandler) (output : VP_SURFACE)
    (layers : List FcInputLayer) (i : Nat) (idxs : List Nat) (res : ResCounter) (bil : Bool)
    (h0 : budgetNonneg res) :
    ∃ k, (selectScan self output layers i idxs res bil).layerIndexes = idxs ++ List.range' i k ∧
      (k : Int) ≤ res.layers ∧
      ((List.countP hasPalette
        ((selectScan self output layers i idxs res bil).layers.take k) : Nat) : Int)
          ≤ res.palettes ∧
      ((List.countP hasProcamp
        ((selectScan self output layers i idxs res bil).layers.take k) : Nat) : Int)
          ≤ res.procamp ∧
      ((List.countP hasLumakey
        ((selectScan self output layers i idxs res bil).layers.take k) : Nat) : Int)
          ≤ res.lumaKeys ∧
      ((List.countP hasAvsMode
        ((selectScan self output layers i idxs res bil).layers.take k) : Nat) : Int)
          ≤ res.avs := by
  induction layers generalizing i idxs res bil with
  | nil =>
    obtain ⟨h1, h2, h3, h4, h5⟩ := h0
    exact ⟨0, by simp [selectScan, h1, h2, h3, h4, h5]⟩
  | cons layer rest ih =>
    obtain ⟨h1, h2, h3, h4, h5⟩ := h0
    by_cases hs : (AddInputLayerForProcess self res idxs VPHAL_SCALING_NEAREST i
        layer.surf layer.subpipe output).bSkip = true
    · have hrej := Add_rejected self res idxs VPHAL_SCALING_NEAREST i layer.surf layer.subpipe
        output hs
      refine ⟨0, ?_⟩
      rw [selectScan_cons_skip self output layer rest i idxs res bil hs]
      simp [hrej.1, h1, h2, h3, h4, h5]
    · have hs2 : (AddInputLayerForProcess self res idxs VPHAL_SCALING_NEAREST i
          layer.surf layer.subpipe output).bSkip = false := by simpa using hs
      obtain ⟨ha1, ha2, ha3, ha4, ha5, ha6, ha7, ha8, ha9⟩ :=
        Add_admitted self res idxs VPHAL_SCALING_NEAREST i layer.surf layer.subpipe output hs2
      obtain ⟨hp1, hp2, hp3, hp4⟩ :=
        Add_attributes self res idxs VPHAL_SCALING_NEAREST i layer.surf layer.subpipe output
      rw [selectScan_cons_admitted self output layer rest i idxs res bil hs2]
      generalize AddInputLayerForProcess self res idxs VPHAL_SCALING_NEAREST i
        layer.surf layer.subpipe output = r at *
      have hnn := budgetNonneg_of_not_overBudget _ ha7
      obtain ⟨k, hidx, hk1, hk2, hk3, hk4, hk5⟩ := ih (i + 1) r.layerIndexes r.m_resCounter
        (if VPHAL_SCALING_BILINEAR = r.scalingMode then true else bil) hnn
      obtain ⟨n1, n2, n3, n4, n5⟩ := hnn
      refine ⟨k + 1, ?_⟩
      simp only [List.take_succ_cons, List.countP_cons]
      refine ⟨?_, ?_, ?_, ?_, ?_, ?_⟩
      · rw [hidx, ha1, List.range'_succ]
        simp
      · rw [ha2] at hk1; push_cast; omega
      · rw [ha3] at hk2
        simp only [hasPalette, hp1]
        by_cases hc : VPHAL_PALETTE_NONE = layer.surf.PaletteType
        · simp [hc] at hk2 ⊢
          omega
        · simp [hc] at hk2 ⊢
          omega
      · rw [ha4] at hk3
        simp only [hasProcamp, hp2]
        by_cases hc : procampRequested layer.subpipe = true
        · simp [hc] at hk3 ⊢
          omega
        · simp [hc] at hk3 ⊢
          omega
      · rw [ha5] at hk4
        simp only [hasLumakey, hp3]
        by_cases hc : layer.subpipe.lumakey.isSome = true
        · simp [hc] at hk4 ⊢
          omega
        · simp [hc] at hk4 ⊢
          omega
      · simp only [hasAvsMode]
        by_cases hm : r.pipe.scaling.map (fun s => s.scalingMode) = some VPHAL_SCALING_AVS
        · have := ha8 hm
          simp [hm] at hk5 ⊢
          omega
        · simp [hm] at hk5 ⊢
          omega

/-! ## `LayerSelectForProcess` in terms of the scan -/

theorem filter_eq_map_candidateLayers (inputs : List (Option FcInputLayer)) :
    inputs.filter isCandidateSlot = (candidateLayers inputs).map some := by
  unfold candidateLayers
  induction inputs with
  | nil => rfl
  | cons slot inputs ih =>
    cases slot with
    | none => simpa [markTransparent, isCandidateSlot, List.filterMap_cons] using ih
    | some layer =>
      by_cases ht : isTransparentLayer layer = true
      · simpa [markTransparent, isCandidateSlot, List.filterMap_cons, ht] using ih
      · simpa [markTransparent, isCandidateSlot, List.filterMap_cons, ht] using ih

/-- The function `LayerSelectForProcess` succeeds on every pipe that has an output surface,
and returns the outcome of the scan over the candidate layers. -/
theorem LayerSelectForProcess_eq (self : PolicyFcHandler) (inputs : List (Option FcInputLayer))
    (output : VP_SURFACE) :
    LayerSelectForProcess self { inputs := inputs, output := some output } =
      .ok (selectOutcome self output (candidateLayers inputs)) := by
  have hloop := LayerSelectForProcess_loop_eq self output (candidateLayers inputs) []
    (some output) [] (ResCounter.Reset self.limits self.isAvsSamplerSupported) false
  obtain ⟨k, hk, hidx, hlen, -, -⟩ := selectScan_indexes self output (candidateLayers inputs) 0 []
    (ResCounter.Reset self.limits self.isAvsSamplerSupported) false
  simp only [List.length_nil, List.nil_append] at hloop hidx
  have hforce := forceBilinear_range k
    (selectScan self output (candidateLayers inputs) 0 []
      (ResCounter.Reset self.limits self.isAvsSamplerSupported) false).layers []
    (some output) (by omega)
  simp only [List.length_nil, List.nil_append] at hforce
  unfold LayerSelectForProcess selectOutcome
  simp only [RemoveTransparentLayers_eq, filter_eq_map_candidateLayers,
    SwFilterPipe.GetSurfaceCount, List.length_map, hloop, hidx, List.length_range']
  split_ifs
  · simp only [hforce]
  · rfl

/-! ## The admitted layers of an outcome -/

theorem filterMap_GetInputLayer_range (k : Nat) (ls : List FcInputLayer)
    (pre : List (Option FcInputLayer)) (out : Option VP_SURFACE) (hk : k ≤ ls.length) :
    (List.range' pre.length k).filterMap
        (fun index => SwFilterPipe.GetInputLayer
          { inputs := pre ++ ls.map some, output := out } index) = ls.take k := by
  induction k generalizing ls pre with
  | zero => simp
  | succ k ih =>
    cases ls with
    | nil => simp at hk
    | cons layer ls =>
      have hk2 : k ≤ ls.length := by simpa using hk
      have := ih ls (pre ++ [some layer]) hk2
      simp only [List.length_append, List.length_singleton, List.append_assoc,
        List.singleton_append] at this
      simp only [List.range'_succ, List.map_cons, List.filterMap_cons, GetInputLayer_append,
        List.take_succ_cons, this]

theorem hasPalette_force (layer : FcInputLayer) :
    hasPalette (forceLayerBilinear layer) = hasPalette layer := rfl

theorem hasProcamp_force (layer : FcInputLayer) :
    hasProcamp (forceLayerBilinear layer) = hasProcamp layer := rfl

theorem hasLumakey_force (layer : FcInputLayer) :
    hasLumakey (forceLayerBilinear layer) = hasLumakey layer := rfl

theorem hasAvsMode_force (layer : FcInputLayer) :
    hasAvsMode (forceLayerBilinear layer) = hasAvsMode layer := by
  unfold hasAvsMode forceLayerBilinear
  cases hsc : layer.subpipe.scaling with
  | none => simp
  | some s =>
    cases hm : s.scalingMode <;> simp [hm]

theorem countP_map_force (p : FcInputLayer → Bool)
    (hp : ∀ layer, p (forceLayerBilinear layer) = p layer) (ls : List FcInputLayer) :
    List.countP p (ls.map forceLayerBilinear) = List.countP p ls := by
  induction ls with
  | nil => rfl
  | cons layer ls ih => simp [List.countP_cons, hp, ih]

/-- The admitted layers of an outcome are the first layers the scan went over, normalised to
bilinear when the normalisation ran. -/
theorem admittedLayers_selectOutcome (self : PolicyFcHandler) (output : VP_SURFACE)
    (cands : List FcInputLayer) :
    ∃ k, k ≤ cands.length ∧
      (selectOutcome self output cands).layerIndexes = List.range' 0 k ∧
      (selectScan self output cands 0 []
        (ResCounter.Reset self.limits self.isAvsSamplerSupported) false).layerIndexes
          = List.range' 0 k ∧
      (admittedLayers (selectOutcome self output cands) =
          (selectScan self output cands 0 []
            (ResCounter.Reset self.limits self.isAvsSamplerSupported) false).layers.take k ∨
        admittedLayers (selectOutcome self output cands) =
          ((selectScan self output cands 0 []
            (ResCounter.Reset self.limits self.isAvsSamplerSupported) false).layers.take k).map
              forceLayerBilinear) := by
  obtain ⟨k, hk, hidx, hlen, -, -⟩ := selectScan_indexes self output cands 0 []
    (ResCounter.Reset self.limits self.isAvsSamplerSupported) false
  simp only [List.nil_append] at hidx
  refine ⟨k, hk, ?_, hidx, ?_⟩
  · simp only [selectOutcome, hidx]
  · have hk2 : k ≤ (selectScan self output cands 0 []
        (ResCounter.Reset self.limits self.isAvsSamplerSupported) false).layers.length := by omega
    unfold admittedLayers selectOutcome
    simp only [hidx, List.length_range']
    split_ifs
    · right
      have := filterMap_GetInputLayer_range k
        ((List.take k (selectScan self output cands 0 []
            (ResCounter.Reset self.limits self.isAvsSamplerSupported) false).layers).map
              forceLayerBilinear ++
          List.drop k (selectScan self output cands 0 []
            (ResCounter.Reset self.limits self.isAvsSamplerSupported) false).layers)
        [] (some output) (by simp; omega)
      simp only [List.length_nil, List.nil_append] at this
      rw [this, List.take_left']
      simp [hk2]
    · left
      have := filterMap_GetInputLayer_range k
        (selectScan self output cands 0 []
            (ResCounter.Reset self.limits self.isAvsSamplerSupported) false).layers
        [] (some output) hk2
      simpa using this

theorem budgetNonneg_Reset (limits : VP_COMP_LIMITS) (isAvsSamplerSupported : Bool) :
    budgetNonneg (ResCounter.Reset limits isAvsSamplerSupported) := by
  unfold budgetNonneg ResCounter.Reset
  refine ⟨by simp, by simp, by simp, by simp, ?_⟩
  simp only []
  split_ifs <;> simp

/-- The counters a scan leaves behind are at least -1, and non-negative when no layer was
rejected. -/
theorem selectScan_final (self : PolicyFcHandler) (output : VP_SURFACE)
    (layers : List FcInputLayer) (i : Nat) (idxs : List Nat) (res : ResCounter) (bil : Bool)
    (h0 : budgetNonneg res) :
    (-1 ≤ (selectScan self output layers i idxs res bil).m_resCounter.layers ∧
     -1 ≤ (selectScan self output layers i idxs res bil).m_resCounter.palettes ∧
     -1 ≤ (selectScan self output layers i idxs res bil).m_resCounter.procamp ∧
     -1 ≤ (selectScan self output layers i idxs res bil).m_resCounter.lumaKeys ∧
     -1 ≤ (selectScan self output layers i idxs res bil).m_resCounter.avs) ∧
    ((selectScan self output layers i idxs res bil).skip = false →
      budgetNonneg (selectScan self output layers i idxs res bil).m_resCounter) := by
  induction layers generalizing i idxs res bil with
  | nil =>
    obtain ⟨h1, h2, h3, h4, h5⟩ := h0
    simp only [selectScan]
    exact ⟨⟨by omega, by omega, by omega, by omega, by omega⟩, fun _ => ⟨h1, h2, h3, h4, h5⟩⟩
  | cons layer rest ih =>
    by_cases hs : (AddInputLayerForProcess self res idxs VPHAL_SCALING_NEAREST i
        layer.surf layer.subpipe output).bSkip = true
    · obtain ⟨-, hr1, hr2, hr3, hr4, hr5⟩ := Add_rejected self res idxs VPHAL_SCALING_NEAREST i
        layer.surf layer.subpipe output hs
      obtain ⟨h1, h2, h3, h4, h5⟩ := h0
      rw [selectScan_cons_skip self output layer rest i idxs res bil hs]
      refine ⟨⟨?_, ?_, ?_, ?_, ?_⟩, ?_⟩
      · simp only []; omega
      · simp only []; omega
      · simp only []; omega
      · simp only []; omega
      · simp only []; omega
      · intro h; simp at h
    · have hs2 : (AddInputLayerForProcess self res idxs VPHAL_SCALING_NEAREST i
          layer.surf layer.subpipe output).bSkip = false := by simpa using hs
      obtain ⟨-, -, -, -, -, -, ha7, -, -⟩ :=
        Add_admitted self res idxs VPHAL_SCALING_NEAREST i layer.surf layer.subpipe output hs2
      rw [selectScan_cons_admitted self output layer rest i idxs res bil hs2]
      exact ih (i + 1) _ _ _ (budgetNonneg_of_not_overBudget _ ha7)

/-! ## Removing a layer: the budgets of the two passes -/

theorem samplerOffers3D_and (s : Nat) (h : samplerOffers3D s) :
    samplerOffers3D (s &&& (VP_COMP_SAMPLER_BILINEAR ||| VP_COMP_SAMPLER_NEAREST)) := by
  unfold samplerOffers3D at *
  rwa [Nat.and_assoc, Nat.and_self]

theorem samplerOffers3D_ne_zero (s : Nat) (h : samplerOffers3D s) : s ≠ 0 := by
  intro hs
  unfold samplerOffers3D at h
  rw [hs] at h
  simp at h

theorem not_samplerOffers3D_lumakey (s : Nat) :
    ¬ samplerOffers3D (s &&& VP_COMP_SAMPLER_LUMAKEY) := by
  unfold samplerOffers3D
  have h : VP_COMP_SAMPLER_LUMAKEY &&& (VP_COMP_SAMPLER_BILINEAR ||| VP_COMP_SAMPLER_NEAREST) = 0 := by
    decide
  rw [Nat.and_assoc, h]
  simp

theorem samplerOffers3D_max : samplerOffers3D VP_COMP_MAX_SAMPLER := by
  unfold samplerOffers3D
  decide

/-- The counters `selectSampler` returns, branch by branch. -/
theorem selectSampler_res (self : PolicyFcHandler) (res5 : ResCounter) (n : Nat)
    (input : VP_SURFACE) (pipe : SwFilterSubPipe) (output : VP_SURFACE) :
    (selectSampler self res5 n input pipe output).2 =
      if (!self.isAvsSamplerSupported && pipe.scaling.isNone) = true then res5
      else if pipe.scaling.isSome = true ∧ VPHAL_SCALING_AVS = requestedMode self pipe ∧
          pipe.lumakey.isNone = true ∧
          IsBobDiEnabled (pipeAfterFieldCheck input pipe).di input = false then
        { res5 with avs := res5.avs - 1 }
      else if self.isAvsSamplerSupported = true ∧ pipe.lumakey.isSome = true ∧ n > 0 ∧
          self.formats.IS_PL3_FORMAT input.osSurface.Format = false then
        { res5 with sampler := res5.sampler &&& VP_COMP_SAMPLER_LUMAKEY }
      else if samplerOffers3D res5.sampler then
        { res5 with
          sampler := res5.sampler &&& (VP_COMP_SAMPLER_BILINEAR ||| VP_COMP_SAMPLER_NEAREST) }
      else
        { res5 with avs := res5.avs - 1 } := by
  unfold selectSampler samplerOffers3D
  simp only []
  split_ifs <;> rfl

/-- One step of the comparison, on the sampler selection. -/
theorem selectSampler_simulation (self : PolicyFcHandler) (a b : ResCounter) (n : Nat)
    (input : VP_SURFACE) (pipe : SwFilterSubPipe) (outputA outputB : VP_SURFACE)
    (hcov : budgetCovers a b n) (hl : pipe.lumakey.isSome = true → n = 0)
    (hA : ¬ overBudget (selectSampler self (resetSamplerForLumakey a (n + 1) pipe) (n + 1)
      input pipe outputA).2) :
    ¬ overBudget (selectSampler self (resetSamplerForLumakey b n pipe) n input pipe outputB).2 ∧
    budgetCovers
      (selectSampler self (resetSamplerForLumakey a (n + 1) pipe) (n + 1) input pipe outputA).2
      (selectSampler self (resetSamplerForLumakey b n pipe) n input pipe outputB).2 (n + 1) := by
  obtain ⟨c1, c2, c3, c4, c5, c6, c7, c8⟩ := hcov
  rw [selectSampler_res] at hA ⊢
  rw [selectSampler_res]
  have hmax := samplerOffers3D_max
  by_cases hlk : pipe.lumakey.isSome = true
  · have hn : n = 0 := hl hlk
    subst hn
    have hgb : samplerOffers3D b.sampler := c8 rfl
    have hgb2 := samplerOffers3D_and _ hgb
    have hnz := samplerOffers3D_ne_zero _ hgb2
    have hlkn : pipe.lumakey.isNone = false := by
      cases hp : pipe.lumakey with
      | none => simp [hp] at hlk
      | some _ => rfl
    simp only [resetSamplerForLumakey, hlk, true_and, zero_add, if_true, zero_ne_one, if_false,
      hlkn, Bool.false_eq_true, and_false, false_and, gt_iff_lt, lt_self_iff_false,
      Nat.lt_irrefl, hgb, Nat.lt_one_iff, Nat.zero_lt_one, and_true] at hA ⊢
    unfold overBudget budgetCovers at *
    split_ifs at hA ⊢ <;> simp_all <;> omega
  · have hres : ∀ (r : ResCounter) (k : Nat), resetSamplerForLumakey r k pipe = r := by
      intro r k
      simp [resetSamplerForLumakey, hlk]
    simp only [hres, hlk, false_and, and_false, if_false] at hA ⊢
    by_cases hga : samplerOffers3D a.sampler
    · have hgb : samplerOffers3D b.sampler := c7 hga
      have hgb2 := samplerOffers3D_and _ hgb
      have hnz := samplerOffers3D_ne_zero _ hgb2
      simp only [hga, hgb, if_true] at hA ⊢
      unfold overBudget budgetCovers at *
      split_ifs at hA ⊢ <;> simp_all <;> omega
    · by_cases hgb : samplerOffers3D b.sampler
      · have hgb2 := samplerOffers3D_and _ hgb
        have hnz := samplerOffers3D_ne_zero _ hgb2
        simp only [hga, hgb, if_true, if_false] at hA ⊢
        unfold overBudget budgetCovers at *
        split_ifs at hA ⊢ <;> simp_all <;> omega
      · simp only [hga, hgb, if_false] at hA ⊢
        unfold overBudget budgetCovers at *
        split_ifs at hA ⊢ <;> simp_all <;> omega

theorem Add_bSkip_false_iff (self : PolicyFcHandler) (res : ResCounter) (idxs : List Nat)
    (m : VPHAL_SCALING_MODE) (i : Nat) (input : VP_SURFACE) (pipe : SwFilterSubPipe)
    (output : VP_SURFACE) :
    (AddInputLayerForProcess self res idxs m i input pipe output).bSkip = false ↔
      (¬ (pipe.lumakey.isSome = true ∧
          ((decrementCounters res input pipe).lumaKeys < 0 ∨ idxs.length > 1)) ∧
        ¬ overBudget (selectSampler self
          (resetSamplerForLumakey (decrementCounters res input pipe) idxs.length pipe)
          idxs.length input pipe output).2) := by
  rcases Add_cases self res idxs m i input pipe output with
    ⟨h1, he⟩ | ⟨⟨h1, h2⟩, he⟩ | ⟨⟨h1, h2⟩, he⟩
  · rw [he]
    constructor
    · intro h; simp at h
    · rintro ⟨hc, -⟩; exact absurd h1 hc
  · rw [he]
    constructor
    · intro h; simp at h
    · rintro ⟨-, hc⟩; exact absurd h2 hc
  · rw [he]
    exact ⟨fun _ => ⟨h1, h2⟩, fun _ => rfl⟩

theorem Add_res_of_admitted (self : PolicyFcHandler) (res : ResCounter) (idxs : List Nat)
    (m : VPHAL_SCALING_MODE) (i : Nat) (input : VP_SURFACE) (pipe : SwFilterSubPipe)
    (output : VP_SURFACE)
    (h : (AddInputLayerForProcess self res idxs m i input pipe output).bSkip = false) :
    (AddInputLayerForProcess self res idxs m i input pipe output).m_resCounter =
      (selectSampler self
          (resetSamplerForLumakey (decrementCounters res input pipe) idxs.length pipe)
          idxs.length input pipe output).2 := by
  rcases Add_cases self res idxs m i input pipe output with
    ⟨_, he⟩ | ⟨_, he⟩ | ⟨_, he⟩
  · rw [he] at h; simp at h
  · rw [he] at h; simp at h
  · rw [he]

theorem budgetCovers_decrement (a b : ResCounter) (n : Nat) (input : VP_SURFACE)
    (pipe : SwFilterSubPipe) (h : budgetCovers a b n) :
    budgetCovers (decrementCounters a input pipe) (decrementCounters b input pipe) n := by
  obtain ⟨a1, a2, a3, a4, a5, a6⟩ := decrementCounters_fields a input pipe
  obtain ⟨b1, b2, b3, b4, b5, b6⟩ := decrementCounters_fields b input pipe
  obtain ⟨c1, c2, c3, c4, c5, c6, c7, c8⟩ := h
  unfold budgetCovers
  rw [a1, a2, a3, a4, a5, a6, b1, b2, b3, b4, b5, b6]
  refine ⟨by omega, ?_, ?_, ?_, c5, c6, c7, c8⟩
  · split_ifs <;> omega
  · split_ifs <;> omega
  · split_ifs <;> omega

/-- One step of the comparison: a layer admitted after `n + 1` layers from the smaller budget
is admitted after `n` layers from the larger one, and the budgets stay comparable. -/
theorem Add_simulation (self : PolicyFcHandler) (resA resB : ResCounter) (idxA idxB : List Nat)
    (mA mB : VPHAL_SCALING_MODE) (iA iB : Nat) (input : VP_SURFACE) (pipe : SwFilterSubPipe)
    (outputA outputB : VP_SURFACE)
    (hlen : idxA.length = idxB.length + 1) (hcov : budgetCovers resA resB idxB.length)
    (hA : (AddInputLayerForProcess self resA idxA mA iA input pipe outputA).bSkip = false) :
    (AddInputLayerForProcess self resB idxB mB iB input pipe outputB).bSkip = false ∧
    budgetCovers (AddInputLayerForProcess self resA idxA mA iA input pipe outputA).m_resCounter
      (AddInputLayerForProcess self resB idxB mB iB input pipe outputB).m_resCounter
      (idxB.length + 1) := by
  have hresA := Add_res_of_admitted self resA idxA mA iA input pipe outputA hA
  rw [Add_bSkip_false_iff] at hA
  obtain ⟨hA1, hA2⟩ := hA
  have hd := budgetCovers_decrement resA resB idxB.length input pipe hcov
  have hl : pipe.lumakey.isSome = true → idxB.length = 0 := by
    intro hlk
    by_contra hc
    exact hA1 ⟨hlk, Or.inr (by omega)⟩
  rw [hlen] at hA2 hresA
  obtain ⟨hB2, hcov2⟩ := selectSampler_simulation self _ _ idxB.length input pipe outputA
    outputB hd hl hA2
  have hB1 : ¬ (pipe.lumakey.isSome = true ∧
      ((decrementCounters resB input pipe).lumaKeys < 0 ∨ idxB.length > 1)) := by
    rintro ⟨hlk, hor⟩
    have hn := hl hlk
    rcases hor with h | h
    · apply hA1
      refine ⟨hlk, Or.inl ?_⟩
      have := hd.2.2.2.1
      omega
    · omega
  have hB : (AddInputLayerForProcess self resB idxB mB iB input pipe outputB).bSkip = false :=
    (Add_bSkip_false_iff self resB idxB mB iB input pipe outputB).mpr ⟨hB1, hB2⟩
  refine ⟨hB, ?_⟩
  rw [hresA, Add_res_of_admitted self resB idxB mB iB input pipe outputB hB]
  exact hcov2

/-- The mask invariant is kept by an admitted layer. -/
theorem Add_samplerInvariant (self : PolicyFcHandler) (res : ResCounter) (idxs : List Nat)
    (m : VPHAL_SCALING_MODE) (i : Nat) (input : VP_SURFACE) (pipe : SwFilterSubPipe)
    (output : VP_SURFACE) (hinv : samplerInvariant idxs.length res)
    (h : (AddInputLayerForProcess self res idxs m i input pipe output).bSkip = false) :
    samplerInvariant (idxs.length + 1)
      (AddInputLayerForProcess self res idxs m i input pipe output).m_resCounter := by
  have hres := Add_res_of_admitted self res idxs m i input pipe output h
  rw [Add_bSkip_false_iff] at h
  obtain ⟨h1, h2⟩ := h
  obtain ⟨d1, d2, d3, d4, d5, d6⟩ := decrementCounters_fields res input pipe
  obtain ⟨hi1, hi2⟩ := hinv
  rw [hres]
  refine ⟨?_, ?_⟩
  · intro hz
    apply h2
    unfold overBudget
    exact Or.inr (Or.inr (Or.inr (Or.inr (Or.inr hz))))
  · rw [selectSampler_res]
    intro hn
    have hn0 : idxs.length = 0 := by omega
    have hg : samplerOffers3D res.sampler := hi2 (by omega)
    have hg2 := samplerOffers3D_and _ hg
    simp only [hn0, resetSamplerForLumakey, zero_ne_one, and_false, if_false, gt_iff_lt,
      lt_self_iff_false, false_and, d6, hg, if_true]
    split_ifs <;> simp_all

/-- The budget before an admitted layer covers the budget after it. -/
theorem Add_budgetCovers (self : PolicyFcHandler) (res : ResCounter) (idxs : List Nat)
    (m : VPHAL_SCALING_MODE) (i : Nat) (input : VP_SURFACE) (pipe : SwFilterSubPipe)
    (output : VP_SURFACE) (hinv : samplerInvariant idxs.length res)
    (h : (AddInputLayerForProcess self res idxs m i input pipe output).bSkip = false) :
    budgetCovers (AddInputLayerForProcess self res idxs m i input pipe output).m_resCounter res
      idxs.length := by
  obtain ⟨-, ha2, ha3, ha4, ha5, ha6, -, -, -⟩ :=
    Add_admitted self res idxs m i input pipe output h
  have hres := Add_res_of_admitted self res idxs m i input pipe output h
  obtain ⟨d1, d2, d3, d4, d5, d6⟩ := decrementCounters_fields res input pipe
  obtain ⟨hi1, hi2⟩ := hinv
  unfold budgetCovers
  refine ⟨by omega, ?_, ?_, ?_, ha6, hi1, ?_, fun hn => hi2 (by omega)⟩
  · rw [ha3]; split_ifs <;> omega
  · rw [ha4]; split_ifs <;> omega
  · rw [ha5]; split_ifs <;> omega
  · rw [hres, selectSampler_res]
    by_cases hn : idxs.length ≤ 1
    · exact fun _ => hi2 hn
    · have hn1 : ¬ idxs.length = 1 := by omega
      have hnl := not_samplerOffers3D_lumakey res.sampler
      simp only [resetSamplerForLumakey, hn1, and_false, if_false, d6]
      split_ifs with c1 c2 c3 c4
      · simp [d6]
      · simp [d6]
      · intro hc; exact absurd hc hnl
      · intro _; simpa [d6] using c4
      · simp [d6]

/-! ## Removing a layer: the two scans -/

theorem selectScan_length_ge (self : PolicyFcHandler) (output : VP_SURFACE)
    (layers : List FcInputLayer) (i : Nat) (idxs : List Nat) (res : ResCounter) (bil : Bool) :
    idxs.length ≤ (selectScan self output layers i idxs res bil).layerIndexes.length := by
  obtain ⟨k, -, hidx, -, -, -⟩ := selectScan_indexes self output layers i idxs res bil
  rw [hidx]
  simp

/-- Started one admitted layer ahead from a covered budget, a scan admits at most one layer
more in total than the scan of the same layers from the covering budget. -/
theorem selectScan_simulation (self : PolicyFcHandler) (output : VP_SURFACE)
    (post : List FcInputLayer) (iA iB : Nat) (idxA idxB : List Nat) (resA resB : ResCounter)
    (bilA bilB : Bool) (hlen : idxA.length = idxB.length + 1)
    (hcov : budgetCovers resA resB idxB.length) :
    (selectScan self output post iA idxA resA bilA).layerIndexes.length ≤
      (selectScan self output post iB idxB resB bilB).layerIndexes.length + 1 := by
  induction post generalizing iA iB idxA idxB resA resB bilA bilB with
  | nil => simp [selectScan, hlen]
  | cons layer rest ih =>
    by_cases hs : (AddInputLayerForProcess self resA idxA VPHAL_SCALING_NEAREST iA
        layer.surf layer.subpipe output).bSkip = true
    · have hrej := Add_rejected self resA idxA VPHAL_SCALING_NEAREST iA layer.surf
        layer.subpipe output hs
      rw [selectScan_cons_skip self output layer rest iA idxA resA bilA hs]
      have := selectScan_length_ge self output (layer :: rest) iB idxB resB bilB
      simp only [hrej.1]
      omega
    · have hs2 : (AddInputLayerForProcess self resA idxA VPHAL_SCALING_NEAREST iA
          layer.surf layer.subpipe output).bSkip = false := by simpa using hs
      obtain ⟨hB, hcov2⟩ := Add_simulation self resA resB idxA idxB VPHAL_SCALING_NEAREST
        VPHAL_SCALING_NEAREST iA iB layer.surf layer.subpipe output output hlen hcov hs2
      have hiA := (Add_admitted self resA idxA VPHAL_SCALING_NEAREST iA layer.surf
        layer.subpipe output hs2).1
      have hiB := (Add_admitted self resB idxB VPHAL_SCALING_NEAREST iB layer.surf
        layer.subpipe output hB).1
      rw [selectScan_cons_admitted self output layer rest iA idxA resA bilA hs2,
        selectScan_cons_admitted self output layer rest iB idxB resB bilB hB]
      apply ih
      · rw [hiA, hiB]; simp [hlen]
      · rw [hiB]
        simpa using hcov2

/-- Removing one layer from the candidates lowers the number of admitted layers by at most
one. -/
theorem selectScan_erase (self : PolicyFcHandler) (output : VP_SURFACE)
    (pre : List FcInputLayer) (x : FcInputLayer) (post : List FcInputLayer) (i : Nat)
    (idxs : List Nat) (res : ResCounter) (bilA bilB : Bool)
    (hinv : samplerInvariant idxs.length res) :
    (selectScan self output (pre ++ x :: post) i idxs res bilA).layerIndexes.length ≤
      (selectScan self output (pre ++ post) i idxs res bilB).layerIndexes.length + 1 := by
  induction pre generalizing i idxs res bilA bilB with
  | nil =>
    simp only [List.nil_append]
    by_cases hs : (AddInputLayerForProcess self res idxs VPHAL_SCALING_NEAREST i
        x.surf x.subpipe output).bSkip = true
    · have hrej := Add_rejected self res idxs VPHAL_SCALING_NEAREST i x.surf x.subpipe output hs
      rw [selectScan_cons_skip self output x post i idxs res bilA hs]
      have := selectScan_length_ge self output post i idxs res bilB
      simp only [hrej.1]
      omega
    · have hs2 : (AddInputLayerForProcess self res idxs VPHAL_SCALING_NEAREST i
          x.surf x.subpipe output).bSkip = false := by simpa using hs
      have hcov := Add_budgetCovers self res idxs VPHAL_SCALING_NEAREST i x.surf x.subpipe
        output hinv hs2
      have hi := (Add_admitted self res idxs VPHAL_SCALING_NEAREST i x.surf x.subpipe
        output hs2).1
      rw [selectScan_cons_admitted self output x post i idxs res bilA hs2]
      apply selectScan_simulation
      · rw [hi]; simp
      · exact hcov
  | cons p pre ih =>
    simp only [List.cons_append]
    by_cases hs : (AddInputLayerForProcess self res idxs VPHAL_SCALING_NEAREST i
        p.surf p.subpipe output).bSkip = true
    · rw [selectScan_cons_skip self output p _ i idxs res bilA hs,
        selectScan_cons_skip self output p _ i idxs res bilB hs]
      simp
    · have hs2 : (AddInputLayerForProcess self res idxs VPHAL_SCALING_NEAREST i
          p.surf p.subpipe output).bSkip = false := by simpa using hs
      have hinv2 := Add_samplerInvariant self res idxs VPHAL_SCALING_NEAREST i p.surf p.subpipe
        output hinv hs2
      have hi := (Add_admitted self res idxs VPHAL_SCALING_NEAREST i p.surf p.subpipe
        output hs2).1
      rw [selectScan_cons_admitted self output p _ i idxs res bilA hs2,
        selectScan_cons_admitted self output p _ i idxs res bilB hs2]
      apply ih
      rw [hi]
      simpa using hinv2

theorem samplerInvariant_Reset (limits : VP_COMP_LIMITS) (isAvsSamplerSupported : Bool) :
    samplerInvariant 0 (ResCounter.Reset limits isAvsSamplerSupported) := by
  unfold samplerInvariant ResCounter.Reset
  have h : VP_COMP_MAX_SAMPLER ≠ 0 := by decide
  exact ⟨h, fun _ => samplerOffers3D_max⟩

theorem candidateLayers_map_some (layers : List FcInputLayer)
    (h : ∀ layer ∈ layers, isTransparentLayer layer = false) :
    candidateLayers (layers.map some) = layers := by
  unfold candidateLayers
  induction layers with
  | nil => rfl
  | cons layer layers ih =>
    have h1 : isTransparentLayer layer = false := h layer (List.mem_cons_self _ _)
    have h2 := ih (fun l hl => h l (List.mem_cons_of_mem _ hl))
    simp only [List.map_cons, List.filterMap_cons, markTransparent, h1, h2]
    simp

theorem candidateLayers_not_transparent (inputs : List (Option FcInputLayer)) :
    ∀ layer ∈ candidateLayers inputs, isTransparentLayer layer = false := by
  intro layer hl
  unfold candidateLayers at hl
  rw [List.mem_filterMap] at hl
  obtain ⟨slot, -, hs⟩ := hl
  cases slot with
  | none => simp [markTransparent] at hs
  | some l =>
    by_cases ht : isTransparentLayer l = true
    · simp [markTransparent, ht] at hs
    · simp only [markTransparent, ht] at hs
      simp only [Bool.false_eq_true, if_false, Option.some.injEq] at hs
      rw [← hs]
      simpa using ht

/-! ## Alpha resolution: the contract of `CalculateConstantAlpha` -/

/-- The outcome of `CalculateConstantAlpha` is decided by the transparency test alone. -/
theorem CalculateConstantAlpha_error_iff (layer : VP_FC_LAYER) :
    (CalculateConstantAlpha layer = .error MOS_STATUS_INVALID_PARAMETER ↔
      ∃ bp, layer.blendingParams = some bp ∧
        (bp.BlendType = BLEND_CONSTANT ∨ bp.BlendType = BLEND_CONSTANT_SOURCE ∨
          bp.BlendType = BLEND_CONSTANT_PARTIAL) ∧ bp.fAlpha ≤ 0) ∧
    ((∃ r, CalculateConstantAlpha layer = .ok r) ↔
      ¬ ∃ bp, layer.blendingParams = some bp ∧
        (bp.BlendType = BLEND_CONSTANT ∨ bp.BlendType = BLEND_CONSTANT_SOURCE ∨
          bp.BlendType = BLEND_CONSTANT_PARTIAL) ∧ bp.fAlpha ≤ 0) := by
  cases hb : layer.blendingParams with
  | none =>
    rw [CalculateConstantAlpha_none layer hb]
    simp
  | some bp =>
    by_cases hf : isConstantBlend bp.BlendType = true
    · have hf2 := (isConstantBlend_iff bp.BlendType).mp hf
      by_cases h0 : bp.fAlpha ≤ 0
      · rw [CalculateConstantAlpha_transparent layer bp hb hf h0]
        simp [hf2, h0]
      · by_cases h1 : 1 ≤ bp.fAlpha
        · rw [CalculateConstantAlpha_of_one_le layer bp hb hf h1]
          simp [h0]
        · rw [CalculateConstantAlpha_of_lt_one layer bp hb hf (not_le.mp h0) (not_le.mp h1)]
          simp [h0]
    · have hf2 : ¬ (bp.BlendType = BLEND_CONSTANT ∨ bp.BlendType = BLEND_CONSTANT_SOURCE ∨
          bp.BlendType = BLEND_CONSTANT_PARTIAL) := fun h =>
        hf ((isConstantBlend_iff bp.BlendType).mpr h)
      rw [CalculateConstantAlpha_other layer bp hb (by simpa using hf)]
      simp [hf2]

/-- C1: `CalculateConstantAlpha` returns InvalidParameter exactly when the layer has blending
parameters whose blend type is BLEND_CONSTANT, BLEND_CONSTANT_SOURCE or BLEND_CONSTANT_PARTIAL
and whose `fAlpha` is `<= 0`, and it returns success exactly for every other layer. -/
theorem CalculateConstantAlpha_invalid_iff (layer : VP_FC_LAYER) :
    (CalculateConstantAlpha layer = .error MOS_STATUS_INVALID_PARAMETER ↔
      ∃ bp, layer.blendingParams = some bp ∧
        (bp.BlendType = BLEND_CONSTANT ∨ bp.BlendType = BLEND_CONSTANT_SOURCE ∨
          bp.BlendType = BLEND_CONSTANT_PARTIAL) ∧ bp.fAlpha ≤ 0) ∧
    ((∃ r, CalculateConstantAlpha layer = .ok r) ↔
      ¬ ∃ bp, layer.blendingParams = some bp ∧
        (bp.BlendType = BLEND_CONSTANT ∨ bp.BlendType = BLEND_CONSTANT_SOURCE ∨
          bp.BlendType = BLEND_CONSTANT_PARTIAL) ∧ bp.fAlpha ≤ 0) :=
  CalculateConstantAlpha_error_iff layer

/-- C2 (counterexample): on a BLEND_CONSTANT layer with `fAlpha = 0.5` the code resolves the
constant alpha to 127, while round(255 * 0.5) is 128. -/
theorem CalculateConstantAlpha_half_is_127 :
    CalculateConstantAlpha (blendedLayer BLEND_CONSTANT (1 / 2))
      = .ok (127, (blendedLayer BLEND_CONSTANT (1 / 2))) ∧
    round (255 * (1 / 2 : ℚ)) = 128 := by
  constructor
  · rw [CalculateConstantAlpha_of_lt_one _ (VPHAL_BLENDING_PARAMS.mk BLEND_CONSTANT (1 / 2)) rfl rfl
      (by norm_num) (by norm_num)]
    have h : ⌊(255 : ℚ) * (1 / 2)⌋ = 127 := by
      rw [Int.floor_eq_iff]; norm_num
    simp only [h]
    rfl
  · rw [round_eq]
    rw [Int.floor_eq_iff]
    norm_num

/-- C2 (amended): for a constant-family blend with `0 < fAlpha < 1` the resolved constant alpha
is the integer part of `255 * fAlpha` (the float-to-integer cast truncates), and the layer is
left as it was. -/
theorem CalculateConstantAlpha_truncates (layer : VP_FC_LAYER) (bp : VPHAL_BLENDING_PARAMS)
    (hb : layer.blendingParams = some bp)
    (hf : bp.BlendType = BLEND_CONSTANT ∨ bp.BlendType = BLEND_CONSTANT_SOURCE ∨
      bp.BlendType = BLEND_CONSTANT_PARTIAL)
    (h0 : 0 < bp.fAlpha) (h1 : bp.fAlpha < 1) :
    CalculateConstantAlpha layer = .ok (⌊255 * bp.fAlpha⌋.toNat, layer) :=
  CalculateConstantAlpha_of_lt_one layer bp hb ((isConstantBlend_iff bp.BlendType).mpr hf) h0 h1

/-- Witness of `CalculateConstantAlpha_truncates`: a BLEND_CONSTANT layer with `fAlpha = 0.5`. -/
theorem CalculateConstantAlpha_truncates_witness :
    (0 : ℚ) < 1 / 2 ∧ (1 / 2 : ℚ) < 1 ∧
    CalculateConstantAlpha (blendedLayer BLEND_CONSTANT (1 / 2))
      = .ok (⌊255 * (1 / 2 : ℚ)⌋.toNat,
          (blendedLayer BLEND_CONSTANT (1 / 2))) :=
  ⟨by norm_num, by norm_num,
    CalculateConstantAlpha_truncates _ (VPHAL_BLENDING_PARAMS.mk BLEND_CONSTANT (1 / 2)) rfl
      (Or.inl rfl) (by norm_num) (by norm_num)⟩

/-- C3: for a constant-family blend with `fAlpha >= 1` the call succeeds with constant alpha 255,
stores `fAlpha = 1` and downgrades the blend type: BLEND_CONSTANT becomes BLEND_NONE and
BLEND_CONSTANT_SOURCE becomes BLEND_SOURCE; nothing else in the layer changes. -/
theorem CalculateConstantAlpha_opaque_downgrade (layer : VP_FC_LAYER)
    (bp : VPHAL_BLENDING_PARAMS) (hb : layer.blendingParams = some bp)
    (hf : bp.BlendType = BLEND_CONSTANT ∨ bp.BlendType = BLEND_CONSTANT_SOURCE ∨
      bp.BlendType = BLEND_CONSTANT_PARTIAL)
    (h1 : 1 ≤ bp.fAlpha) :
    ∃ bp1 : VPHAL_BLENDING_PARAMS,
      CalculateConstantAlpha layer = .ok (255, { layer with blendingParams := some bp1 }) ∧
      bp1.fAlpha = 1 ∧
      (bp.BlendType = BLEND_CONSTANT → bp1.BlendType = BLEND_NONE) ∧
      (bp.BlendType = BLEND_CONSTANT_SOURCE → bp1.BlendType = BLEND_SOURCE) := by
  refine ⟨VPHAL_BLENDING_PARAMS.mk
    (if bp.BlendType = BLEND_CONSTANT then BLEND_NONE else BLEND_SOURCE) 1, ?_, rfl, ?_, ?_⟩
  · exact CalculateConstantAlpha_of_one_le layer bp hb ((isConstantBlend_iff bp.BlendType).mpr hf) h1
  · intro h; simp [h]
  · intro h; simp [h]

/-- Witness of `CalculateConstantAlpha_opaque_downgrade`: a BLEND_CONSTANT_SOURCE layer with
`fAlpha = 1.2`. -/
theorem CalculateConstantAlpha_opaque_downgrade_witness :
    (1 : ℚ) ≤ 6 / 5 ∧
    ∃ bp1 : VPHAL_BLENDING_PARAMS,
      CalculateConstantAlpha
          (blendedLayer BLEND_CONSTANT_SOURCE (6 / 5))
        = .ok (255, { blendedLayer BLEND_CONSTANT_SOURCE (6 / 5) with
            blendingParams := some bp1 }) ∧
      bp1.fAlpha = 1 ∧
      (BLEND_CONSTANT_SOURCE = BLEND_CONSTANT → bp1.BlendType = BLEND_NONE) ∧
      (BLEND_CONSTANT_SOURCE = BLEND_CONSTANT_SOURCE → bp1.BlendType = BLEND_SOURCE) :=
  ⟨by norm_num,
    CalculateConstantAlpha_opaque_downgrade
      (blendedLayer BLEND_CONSTANT_SOURCE (6 / 5))
      (VPHAL_BLENDING_PARAMS.mk BLEND_CONSTANT_SOURCE (6 / 5)) rfl (Or.inr (Or.inl rfl))
      (by norm_num)⟩

/-- C4: on every successful return the resolved constant alpha is at most 255 (it is a
`uint16_t`, so at least 0), and it is exactly 255 when the layer has no blending parameters or
a blend type outside the constant-alpha family. -/
theorem CalculateConstantAlpha_range (layer : VP_FC_LAYER) (alpha : Nat) (layer1 : VP_FC_LAYER)
    (h : CalculateConstantAlpha layer = .ok (alpha, layer1)) :
    alpha ≤ 255 ∧
    ((layer.blendingParams = none ∨
        ∃ bp, layer.blendingParams = some bp ∧
          ¬ (bp.BlendType = BLEND_CONSTANT ∨ bp.BlendType = BLEND_CONSTANT_SOURCE ∨
            bp.BlendType = BLEND_CONSTANT_PARTIAL)) →
      alpha = 255) := by
  cases hb : layer.blendingParams with
  | none =>
    rw [CalculateConstantAlpha_none layer hb] at h
    simp only [Except.ok.injEq, Prod.mk.injEq] at h
    refine ⟨by omega, fun _ => h.1.symm⟩
  | some bp =>
    by_cases hf : isConstantBlend bp.BlendType = true
    · have hf2 := (isConstantBlend_iff bp.BlendType).mp hf
      have hno : ¬ (none = some bp ∨ ∃ bp1, some bp = some bp1 ∧
          ¬ (bp1.BlendType = BLEND_CONSTANT ∨ bp1.BlendType = BLEND_CONSTANT_SOURCE ∨
            bp1.BlendType = BLEND_CONSTANT_PARTIAL)) := by
        rintro (h | ⟨bp1, h, hn⟩)
        · simp at h
        · simp only [Option.some.injEq] at h
          rw [← h] at hn
          exact hn hf2
      by_cases h0 : bp.fAlpha ≤ 0
      · rw [CalculateConstantAlpha_transparent layer bp hb hf h0] at h
        simp at h
      · by_cases h1 : 1 ≤ bp.fAlpha
        · rw [CalculateConstantAlpha_of_one_le layer bp hb hf h1] at h
          simp only [Except.ok.injEq, Prod.mk.injEq] at h
          exact ⟨by omega, fun _ => h.1.symm⟩
        · rw [CalculateConstantAlpha_of_lt_one layer bp hb hf (not_le.mp h0) (not_le.mp h1)] at h
          simp only [Except.ok.injEq, Prod.mk.injEq] at h
          have hx1 : 255 * bp.fAlpha < 255 := by linarith [not_le.mp h1]
          have hfl : ⌊255 * bp.fAlpha⌋ < 255 := by
            have : ⌊255 * bp.fAlpha⌋ < ((255 : Int) : ℚ) :=
              lt_of_le_of_lt (Int.floor_le _) (by exact_mod_cast hx1)
            exact_mod_cast this
          refine ⟨by omega, fun hc => absurd (by simpa [eq_comm] using hc) hno⟩
    · rw [CalculateConstantAlpha_other layer bp hb (by simpa using hf)] at h
      simp only [Except.ok.injEq, Prod.mk.injEq] at h
      exact ⟨by omega, fun _ => h.1.symm⟩

/-- Witness of `CalculateConstantAlpha_range`: a BLEND_CONSTANT layer with `fAlpha = 1000`
resolves to 255. -/
theorem CalculateConstantAlpha_range_witness :
    CalculateConstantAlpha
        (blendedLayer BLEND_CONSTANT 1000)
      = .ok (255, (blendedLayer BLEND_NONE 1)) ∧
    (255 ≤ 255 ∧
      (((blendedLayer BLEND_CONSTANT 1000).blendingParams = none ∨
        ∃ bp, (blendedLayer BLEND_CONSTANT 1000).blendingParams = some bp ∧
          ¬ (bp.BlendType = BLEND_CONSTANT ∨ bp.BlendType = BLEND_CONSTANT_SOURCE ∨
            bp.BlendType = BLEND_CONSTANT_PARTIAL)) →
      255 = 255)) :=
  have h : CalculateConstantAlpha
        (blendedLayer BLEND_CONSTANT 1000)
      = .ok (255, (blendedLayer BLEND_NONE 1)) :=
    CalculateConstantAlpha_of_one_le _ (VPHAL_BLENDING_PARAMS.mk BLEND_CONSTANT 1000) rfl rfl
      (by norm_num)
  ⟨h, CalculateConstantAlpha_range _ 255 _ h⟩

/-! ## The transparent-layer pre-pass -/

theorem isTransparentLayer_iff (layer : FcInputLayer) :
    isTransparentLayer layer = true ↔
      ∃ blending bp, layer.subpipe.blending = some blending ∧
        blending.blendingParams = some bp ∧
        (bp.BlendType = BLEND_CONSTANT ∨ bp.BlendType = BLEND_CONSTANT_SOURCE ∨
          bp.BlendType = BLEND_CONSTANT_PARTIAL) ∧ bp.fAlpha ≤ 0 := by
  unfold isTransparentLayer
  cases hb : layer.subpipe.blending with
  | none => simp
  | some blending =>
    simp only [isTransparentBlending]
    cases hp : blending.blendingParams with
    | none => simp [hp]
    | some bp =>
      simp only [Bool.and_eq_true, decide_eq_true_eq, isConstantBlend_iff]
      constructor
      · rintro ⟨h1, h2⟩
        exact ⟨blending, bp, rfl, hp, h1, h2⟩
      · rintro ⟨blending1, bp1, h1, h2, h3, h4⟩
        have e1 : blending = blending1 := Option.some.inj h1
        rw [← e1, hp] at h2
        have e2 : bp = bp1 := Option.some.inj h2
        rw [e2]
        exact ⟨h3, h4⟩

theorem InitLayer_blendingParams (index : Nat) (layer : FcInputLayer)
    (mode : VPHAL_SCALING_MODE) :
    (InitLayer index layer.surf layer.subpipe mode).blendingParams =
      match layer.subpipe.blending with
      | some blending => blending.blendingParams
      | none => none := rfl

/-- The layers `CalculateConstantAlpha` rejects are the transparent ones. -/
theorem CalculateConstantAlpha_InitLayer (index : Nat) (layer : FcInputLayer)
    (mode : VPHAL_SCALING_MODE) :
    (isTransparentLayer layer = true →
      CalculateConstantAlpha (InitLayer index layer.surf layer.subpipe mode) =
        .error MOS_STATUS_INVALID_PARAMETER) ∧
    (isTransparentLayer layer = false →
      ∃ r, CalculateConstantAlpha (InitLayer index layer.surf layer.subpipe mode) = .ok r) := by
  obtain ⟨h1, h2⟩ :=
    CalculateConstantAlpha_error_iff (InitLayer index layer.surf layer.subpipe mode)
  have hiff : isTransparentLayer layer = true ↔
      ∃ bp, (InitLayer index layer.surf layer.subpipe mode).blendingParams = some bp ∧
        (bp.BlendType = BLEND_CONSTANT ∨ bp.BlendType = BLEND_CONSTANT_SOURCE ∨
          bp.BlendType = BLEND_CONSTANT_PARTIAL) ∧ bp.fAlpha ≤ 0 := by
    rw [isTransparentLayer_iff, InitLayer_blendingParams]
    cases hb : layer.subpipe.blending with
    | none => simp
    | some blending => simp
  constructor
  · intro ht
    exact h1.mpr (hiff.mp ht)
  · intro ht
    apply h2.mpr
    intro hc
    rw [hiff.mpr hc] at ht
    simp at ht

/-- C5: `RemoveTransparentLayers` succeeds and keeps, in their original order, exactly the
candidate layers (the present slots) that do not have a constant / constant-source /
constant-partial blend with `fAlpha <= 0`; every layer that survives is accepted by
`CalculateConstantAlpha` (whatever index and default mode `InitLayer` is given), and every
removed layer is one on which `CalculateConstantAlpha` returns InvalidParameter. -/
theorem RemoveTransparentLayers_keeps_exactly (featurePipe : SwFilterPipe) :
    ∃ featurePipe1, RemoveTransparentLayers featurePipe = .ok featurePipe1 ∧
      featurePipe1.output = featurePipe.output ∧
      featurePipe1.inputs = featurePipe.inputs.filter isCandidateSlot ∧
      isCandidateSlot none = false ∧
      (∀ layer, isCandidateSlot (some layer) = true ↔
        ¬ ∃ blending bp, layer.subpipe.blending = some blending ∧
          blending.blendingParams = some bp ∧
          (bp.BlendType = BLEND_CONSTANT ∨ bp.BlendType = BLEND_CONSTANT_SOURCE ∨
            bp.BlendType = BLEND_CONSTANT_PARTIAL) ∧ bp.fAlpha ≤ 0) ∧
      (∀ layer, some layer ∈ featurePipe1.inputs → ∀ index mode,
        ∃ r, CalculateConstantAlpha (InitLayer index layer.surf layer.subpipe mode) = .ok r) ∧
      (∀ layer, some layer ∈ featurePipe.inputs → some layer ∉ featurePipe1.inputs →
        ∀ index mode, CalculateConstantAlpha (InitLayer index layer.surf layer.subpipe mode) =
          .error MOS_STATUS_INVALID_PARAMETER) := by
  refine ⟨_, RemoveTransparentLayers_eq featurePipe, rfl, rfl, rfl, ?_, ?_, ?_⟩
  · intro layer
    rw [← isTransparentLayer_iff]
    simp [isCandidateSlot]
  · intro layer hl index mode
    simp only [List.mem_filter, isCandidateSlot, Bool.not_eq_true'] at hl
    exact (CalculateConstantAlpha_InitLayer index layer mode).2 hl.2
  · intro layer hin hout index mode
    simp only [List.mem_filter, isCandidateSlot, Bool.not_eq_true', not_and,
      Bool.not_eq_false] at hout
    exact (CalculateConstantAlpha_InitLayer index layer mode).1 (hout hin)

/-! ## Selection: budgets, counters and the admitted prefix -/

theorem length_filter_isCandidateSlot (inputs : List (Option FcInputLayer)) :
    (inputs.filter isCandidateSlot).length = (candidateLayers inputs).length := by
  rw [filter_eq_map_candidateLayers, List.length_map]

theorem range'_zero_inj (k1 k2 : Nat) (h : List.range' 0 k1 = List.range' 0 k2) : k1 = k2 := by
  have := congrArg List.length h
  simpa using this

/-- A scan over `pre ++ post` stops inside `pre` when the scan over `pre` rejects a layer, and
otherwise goes on over `post` from the state the scan over `pre` leaves. -/
theorem selectScan_append (self : PolicyFcHandler) (output : VP_SURFACE)
    (pre post : List FcInputLayer) (i : Nat) (idxs : List Nat) (res : ResCounter) (bil : Bool) :
    ((selectScan self output pre i idxs res bil).skip = true →
      (selectScan self output (pre ++ post) i idxs res bil).layerIndexes =
        (selectScan self output pre i idxs res bil).layerIndexes) ∧
    ((selectScan self output pre i idxs res bil).skip = false →
      (selectScan self output (pre ++ post) i idxs res bil).layerIndexes =
        (selectScan self output post (i + pre.length)
          (selectScan self output pre i idxs res bil).layerIndexes
          (selectScan self output pre i idxs res bil).m_resCounter
          (selectScan self output pre i idxs res bil).bilinearInUseFor3DSampler).layerIndexes) := by
  induction pre generalizing i idxs res bil with
  | nil => simp [selectScan]
  | cons p pre ih =>
    simp only [List.cons_append]
    by_cases hs : (AddInputLayerForProcess self res idxs VPHAL_SCALING_NEAREST i
        p.surf p.subpipe output).bSkip = true
    · rw [selectScan_cons_skip self output p _ i idxs res bil hs,
        selectScan_cons_skip self output p _ i idxs res bil hs]
      simp
    · have hs2 : (AddInputLayerForProcess self res idxs VPHAL_SCALING_NEAREST i
          p.surf p.subpipe output).bSkip = false := by simpa using hs
      rw [selectScan_cons_admitted self output p _ i idxs res bil hs2,
        selectScan_cons_admitted self output p _ i idxs res bil hs2]
      obtain ⟨h1, h2⟩ := ih (i + 1)
        (AddInputLayerForProcess self res idxs VPHAL_SCALING_NEAREST i
          p.surf p.subpipe output).layerIndexes
        (AddInputLayerForProcess self res idxs VPHAL_SCALING_NEAREST i
          p.surf p.subpipe output).m_resCounter
        (if VPHAL_SCALING_BILINEAR = (AddInputLayerForProcess self res idxs
          VPHAL_SCALING_NEAREST i p.surf p.subpipe output).scalingMode
         then true else bil)
      have hlen : i + (p :: pre).length = i + 1 + pre.length := by
        simp only [List.length_cons]; omega
      rw [hlen]
      exact ⟨h1, h2⟩

/-- The scan over the candidates up to and including the first rejected one admits the same
layers as the scan over all candidates. -/
theorem selectScan_take_succ (self : PolicyFcHandler) (output : VP_SURFACE)
    (layers : List FcInputLayer) (idxs : List Nat) (res : ResCounter) (bil : Bool) (k : Nat)
    (hidx : (selectScan self output layers 0 idxs res bil).layerIndexes
      = idxs ++ List.range' 0 k)
    (hk : k < layers.length) :
    (selectScan self output (layers.take (k + 1)) 0 idxs res bil).layerIndexes
      = idxs ++ List.range' 0 k := by
  obtain ⟨h1, h2⟩ := selectScan_append self output (layers.take (k + 1))
    (layers.drop (k + 1)) 0 idxs res bil
  rw [List.take_append_drop] at h1 h2
  obtain ⟨k1, hk1, hidx1, -, hns, -⟩ := selectScan_indexes self output (layers.take (k + 1)) 0
    idxs res bil
  have hlen1 : (layers.take (k + 1)).length = k + 1 := by
    rw [List.length_take]; omega
  cases hsk : (selectScan self output (layers.take (k + 1)) 0 idxs res bil).skip with
  | true => rw [← h1 hsk, hidx]
  | false =>
    have hk1e : k1 = k + 1 := by rw [hns hsk, hlen1]
    have hge := selectScan_length_ge self output (layers.drop (k + 1))
      (0 + (layers.take (k + 1)).length)
      (selectScan self output (layers.take (k + 1)) 0 idxs res bil).layerIndexes
      (selectScan self output (layers.take (k + 1)) 0 idxs res bil).m_resCounter
      (selectScan self output (layers.take (k + 1)) 0 idxs res bil).bilinearInUseFor3DSampler
    rw [← h2 hsk, hidx, hidx1, hk1e] at hge
    simp only [List.length_append, List.length_range'] at hge
    omega

theorem candidateLayers_take (inputs : List (Option FcInputLayer)) (m : Nat) :
    candidateLayers ((inputs.filter isCandidateSlot).take m) = (candidateLayers inputs).take m := by
  rw [filter_eq_map_candidateLayers, ← List.map_take]
  apply candidateLayers_map_some
  intro layer hl
  exact candidateLayers_not_transparent inputs layer (List.mem_of_mem_take hl)

/-- C7 (counterexample): with a limit of 8 layers and 9 candidate layers, the first 8 are
admitted and the layers counter `LayerSelectForProcess` leaves behind is -1. -/
theorem LayerSelectForProcess_leaves_negative_counter :
    ∃ r, LayerSelectForProcess (exampleHandler true)
        { inputs := List.replicate 9 (some plainLayer), output := some exampleOutput } = .ok r ∧
      r.layerIndexes = [0, 1, 2, 3, 4, 5, 6, 7] ∧ r.m_resCounter.layers = -1 :=
  ⟨_, rfl, by decide, by decide⟩

/-- C7 (amended): in the counters `LayerSelectForProcess` leaves behind no counter is below -1,
and no counter is negative when every candidate layer was admitted (no layer was rejected). -/
theorem LayerSelectForProcess_counters_floor (self : PolicyFcHandler)
    (inputs : List (Option FcInputLayer)) (output : VP_SURFACE) :
    ∃ r, LayerSelectForProcess self { inputs := inputs, output := some output } = .ok r ∧
      (-1 ≤ r.m_resCounter.layers ∧ -1 ≤ r.m_resCounter.palettes ∧
        -1 ≤ r.m_resCounter.procamp ∧ -1 ≤ r.m_resCounter.lumaKeys ∧
        -1 ≤ r.m_resCounter.avs) ∧
      (r.layerIndexes.length = (inputs.filter isCandidateSlot).length →
        0 ≤ r.m_resCounter.layers ∧ 0 ≤ r.m_resCounter.palettes ∧
        0 ≤ r.m_resCounter.procamp ∧ 0 ≤ r.m_resCounter.lumaKeys ∧
        0 ≤ r.m_resCounter.avs) := by
  refine ⟨_, LayerSelectForProcess_eq self inputs output, ?_⟩
  obtain ⟨hfloor, hnn⟩ := selectScan_final self output (candidateLayers inputs) 0 []
    (ResCounter.Reset self.limits self.isAvsSamplerSupported) false
    (budgetNonneg_Reset self.limits self.isAvsSamplerSupported)
  obtain ⟨k, -, hidx, -, -, hskip⟩ := selectScan_indexes self output (candidateLayers inputs) 0 []
    (ResCounter.Reset self.limits self.isAvsSamplerSupported) false
  refine ⟨hfloor, ?_⟩
  intro hall
  rw [length_filter_isCandidateSlot] at hall
  apply hnn
  cases hsk : (selectScan self output (candidateLayers inputs) 0 []
    (ResCounter.Reset self.limits self.isAvsSamplerSupported) false).skip with
  | false => rfl
  | true =>
    have hlt := hskip hsk
    have : (selectOutcome self output (candidateLayers inputs)).layerIndexes.length = k := by
      simp only [selectOutcome, hidx]
      simp
    omega

/-- C9: `LayerSelectForProcess` succeeds and the admitted index list is the prefix
`0, 1, ..., k-1` of the filtered candidate order, with `k` at most the number of candidates:
no layer that comes after a layer that is not admitted is admitted, and the scan ends at the
first rejected layer (when a candidate is left out, selecting over the candidates up to and
including the first one left out gives the same admitted list). -/
theorem LayerSelectForProcess_admitted_range (self : PolicyFcHandler)
    (inputs : List (Option FcInputLayer)) (output : VP_SURFACE) :
    ∃ r, LayerSelectForProcess self { inputs := inputs, output := some output } = .ok r ∧
      r.layerIndexes = List.range r.layerIndexes.length ∧
      r.layerIndexes.length ≤ (inputs.filter isCandidateSlot).length ∧
      (∀ j, j ∈ r.layerIndexes → ∀ i, i < j → i ∈ r.layerIndexes) ∧
      (r.layerIndexes.length < (inputs.filter isCandidateSlot).length →
        ∃ r1, LayerSelectForProcess self
            { inputs := (inputs.filter isCandidateSlot).take (r.layerIndexes.length + 1),
              output := some output } = .ok r1 ∧
          r1.layerIndexes = r.layerIndexes) := by
  refine ⟨_, LayerSelectForProcess_eq self inputs output, ?_⟩
  obtain ⟨k, hk, hidx, hscan, -⟩ :=
    admittedLayers_selectOutcome self output (candidateLayers inputs)
  rw [length_filter_isCandidateSlot, hidx, List.length_range']
  refine ⟨?_, hk, ?_, ?_⟩
  · rw [List.range_eq_range']
  · intro j hj i hij
    simp only [List.mem_range'_1] at hj ⊢
    omega
  · intro hlt
    refine ⟨_, LayerSelectForProcess_eq self _ output, ?_⟩
    rw [candidateLayers_take]
    have h := selectScan_take_succ self output (candidateLayers inputs) []
      (ResCounter.Reset self.limits self.isAvsSamplerSupported) false k
      (by simpa using hscan) hlt
    simp only [List.nil_append] at h
    simp only [selectOutcome, h]

/-- C10 (counterexample): a candidate set of 2 layers whose layer 0 requests a luma key is
admitted whole: both indexes are in the admitted list. -/
theorem LayerSelectForProcess_lumakey_first_admits_both :
    hasLumakey lumakeyLayer = true ∧
    ∃ r, LayerSelectForProcess (exampleHandler true)
        { inputs := [some lumakeyLayer, some plainLayer], output := some exampleOutput }
          = .ok r ∧
      r.layerIndexes = [0, 1] :=
  ⟨rfl, _, rfl, by decide⟩

/-! ## Luma-key layers and the removal of a layer -/

/-- A scan admits no luma-key layer once two layers are in the admitted list. -/
theorem selectScan_lumakey (self : PolicyFcHandler) (output : VP_SURFACE)
    (layers : List FcInputLayer) (i : Nat) (idxs : List Nat) (res : ResCounter) (bil : Bool) :
    ∃ k, (selectScan self output layers i idxs res bil).layerIndexes = idxs ++ List.range' i k ∧
      ∀ layer ∈ (((selectScan self output layers i idxs res bil).layers.take k).drop
          (2 - idxs.length)),
        hasLumakey layer = false := by
  induction layers generalizing i idxs res bil with
  | nil => exact ⟨0, by simp [selectScan]⟩
  | cons layer rest ih =>
    by_cases hs : (AddInputLayerForProcess self res idxs VPHAL_SCALING_NEAREST i
        layer.surf layer.subpipe output).bSkip = true
    · have hrej := Add_rejected self res idxs VPHAL_SCALING_NEAREST i layer.surf layer.subpipe
        output hs
      refine ⟨0, ?_⟩
      rw [selectScan_cons_skip self output layer rest i idxs res bil hs]
      simp [hrej.1]
    · have hs2 : (AddInputLayerForProcess self res idxs VPHAL_SCALING_NEAREST i
          layer.surf layer.subpipe output).bSkip = false := by simpa using hs
      obtain ⟨ha1, -, -, -, -, -, -, -, ha9⟩ :=
        Add_admitted self res idxs VPHAL_SCALING_NEAREST i layer.surf layer.subpipe output hs2
      obtain ⟨-, -, hp3, -⟩ :=
        Add_attributes self res idxs VPHAL_SCALING_NEAREST i layer.surf layer.subpipe output
      rw [selectScan_cons_admitted self output layer rest i idxs res bil hs2]
      generalize AddInputLayerForProcess self res idxs VPHAL_SCALING_NEAREST i
        layer.surf layer.subpipe output = r at *
      rw [ha1]
      obtain ⟨k, hidx, hk⟩ := ih (i + 1) (idxs ++ [i]) r.m_resCounter
        (if VPHAL_SCALING_BILINEAR = r.scalingMode then true else bil)
      refine ⟨k + 1, ?_, ?_⟩
      · rw [hidx, List.range'_succ]
        simp
      · simp only [List.length_append, List.length_singleton] at hk
        simp only [List.take_succ_cons]
        intro l hl
        by_cases hn : idxs.length < 2
        · have h2 : 2 - idxs.length = (2 - (idxs.length + 1)) + 1 := by omega
          rw [h2, List.drop_succ_cons] at hl
          exact hk l hl
        · have h2 : 2 - idxs.length = 0 := by omega
          have h3 : 2 - (idxs.length + 1) = 0 := by omega
          rw [h2, List.drop_zero] at hl
          rw [h3, List.drop_zero] at hk
          rcases List.mem_cons.mp hl with h | h
          · rw [h]
            simp only [hasLumakey, hp3]
            cases hlk : layer.subpipe.lumakey.isSome with
            | false => rfl
            | true =>
              have := ha9 hlk
              omega
          · exact hk l h

/-- C10 (amended): for every candidate set, no layer that requests a luma key is admitted at
pass-local position 2 or later (a luma-key layer is rejected once two layers are already in
the admitted set); a luma-key layer at position 0 or 1 shares the pass with the other
layers. -/
theorem LayerSelectForProcess_lumakey_position (self : PolicyFcHandler)
    (inputs : List (Option FcInputLayer)) (output : VP_SURFACE) :
    ∃ r, LayerSelectForProcess self { inputs := inputs, output := some output } = .ok r ∧
      ∀ layer ∈ (admittedLayers r).drop 2, hasLumakey layer = false := by
  refine ⟨_, LayerSelectForProcess_eq self inputs output, ?_⟩
  obtain ⟨k, -, -, hscan, hadm⟩ :=
    admittedLayers_selectOutcome self output (candidateLayers inputs)
  obtain ⟨k1, hidx1, hl⟩ := selectScan_lumakey self output (candidateLayers inputs) 0 []
    (ResCounter.Reset self.limits self.isAvsSamplerSupported) false
  simp only [List.nil_append, List.length_nil, Nat.sub_zero] at hidx1 hl
  have hk : k1 = k := range'_zero_inj k1 k (hidx1.symm.trans hscan)
  subst hk
  intro layer hmem
  rcases hadm with h | h
  · rw [h] at hmem
    exact hl layer hmem
  · rw [h, ← List.map_drop, List.mem_map] at hmem
    obtain ⟨l0, hl0, he⟩ := hmem
    rw [← he, hasLumakey_force]
    exact hl l0 hl0

/-- C8: admission is monotone under removal. For every candidate list (the layers left by the
pre-pass), position `i` and later position `j`, both selections succeed, and if the layer at
position `j` is admitted when selecting over the list then it is admitted, at position
`j - 1`, when selecting from a freshly reset budget over the list without the layer at
position `i`. -/
theorem LayerSelectForProcess_monotone_removal (self : PolicyFcHandler)
    (layers : List FcInputLayer) (output : VP_SURFACE) (i j : Nat)
    (hcand : ∀ layer ∈ layers, isTransparentLayer layer = false) (hij : i < j) :
    ∃ rA rB,
      LayerSelectForProcess self { inputs := layers.map some, output := some output } = .ok rA ∧
      LayerSelectForProcess self
        { inputs := (layers.eraseIdx i).map some, output := some output } = .ok rB ∧
      (j ∈ rA.layerIndexes → j - 1 ∈ rB.layerIndexes) := by
  have hcand2 : ∀ layer ∈ layers.eraseIdx i, isTransparentLayer layer = false :=
    fun layer hl => hcand layer (List.mem_of_mem_eraseIdx hl)
  refine ⟨_, _, LayerSelectForProcess_eq self _ output, LayerSelectForProcess_eq self _ output, ?_⟩
  rw [candidateLayers_map_some layers hcand, candidateLayers_map_some _ hcand2]
  obtain ⟨kA, hkA, hidxA, hscanA, -⟩ := admittedLayers_selectOutcome self output layers
  obtain ⟨kB, hkB, hidxB, hscanB, -⟩ :=
    admittedLayers_selectOutcome self output (layers.eraseIdx i)
  rw [hidxA, hidxB]
  simp only [List.mem_range'_1, Nat.zero_le, true_and, Nat.zero_add]
  intro hj
  by_cases hi : i < layers.length
  · have hsplit : layers = layers.take i ++ layers[i] :: layers.drop (i + 1) := by
      rw [← List.drop_eq_getElem_cons hi, List.take_append_drop]
    have herase : layers.eraseIdx i = layers.take i ++ layers.drop (i + 1) :=
      List.eraseIdx_eq_take_drop_succ layers i
    have h := selectScan_erase self output (layers.take i) layers[i] (layers.drop (i + 1)) 0 []
      (ResCounter.Reset self.limits self.isAvsSamplerSupported) false false
      (samplerInvariant_Reset self.limits self.isAvsSamplerSupported)
    rw [← hsplit, ← herase, hscanA, hscanB] at h
    simp only [List.length_range'] at h
    omega
  · have herase : layers.eraseIdx i = layers := List.eraseIdx_of_length_le (by omega)
    rw [herase] at hscanB
    have hk : kA = kB := range'_zero_inj kA kB (hscanA.symm.trans hscanB)
    omega

/-- Witness of `LayerSelectForProcess_monotone_removal`: the candidates are a plain layer, a
luma-key layer and a plain layer; the layer at position 2 is admitted, and is still admitted
(at position 1) once the layer at position 0 is removed. -/
theorem LayerSelectForProcess_monotone_removal_witness :
    (∀ layer ∈ [plainLayer, lumakeyLayer, plainLayer], isTransparentLayer layer = false) ∧
    0 < 2 ∧
    (∃ rA rB,
      LayerSelectForProcess (exampleHandler true)
        { inputs := [plainLayer, lumakeyLayer, plainLayer].map some,
          output := some exampleOutput } = .ok rA ∧
      LayerSelectForProcess (exampleHandler true)
        { inputs := ([plainLayer, lumakeyLayer, plainLayer].eraseIdx 0).map some,
          output := some exampleOutput } = .ok rB ∧
      (2 ∈ rA.layerIndexes → 2 - 1 ∈ rB.layerIndexes)) ∧
    (∃ rA,
      LayerSelectForProcess (exampleHandler true)
        { inputs := [plainLayer, lumakeyLayer, plainLayer].map some,
          output := some exampleOutput } = .ok rA ∧
      2 ∈ rA.layerIndexes) :=
  ⟨by decide, by decide,
    LayerSelectForProcess_monotone_removal (exampleHandler true)
      [plainLayer, lumakeyLayer, plainLayer] exampleOutput 0 2 (by decide) (by decide),
    ⟨_, rfl, by decide⟩⟩

/-! ## Sampling-mode helpers: chroma resampling and the 3D-sampler mode -/

theorem IsChromaSamplingNeeded_eligible (fm : FormatMacros) (surfType : VPHAL_SURFACE_TYPE)
    (layerIndex : Nat) (inputFormat outputFormat : MOS_FORMAT)
    (h : chromaEligible fm surfType layerIndex inputFormat = true) :
    IsChromaSamplingNeeded fm surfType layerIndex inputFormat outputFormat =
      (decide ((fm.VpHal_GetSurfaceColorPack inputFormat = VPHAL_COLORPACK_420 ∧
                 (fm.VpHal_GetSurfaceColorPack outputFormat = VPHAL_COLORPACK_422 ∨
                  fm.VpHal_GetSurfaceColorPack outputFormat = VPHAL_COLORPACK_444)) ∨
               (fm.VpHal_GetSurfaceColorPack inputFormat = VPHAL_COLORPACK_422 ∧
                 fm.VpHal_GetSurfaceColorPack outputFormat = VPHAL_COLORPACK_444)),
       decide ((fm.VpHal_GetSurfaceColorPack inputFormat = VPHAL_COLORPACK_444 ∧
                 (fm.VpHal_GetSurfaceColorPack outputFormat = VPHAL_COLORPACK_422 ∨
                  fm.VpHal_GetSurfaceColorPack outputFormat = VPHAL_COLORPACK_420)) ∨
               (fm.VpHal_GetSurfaceColorPack inputFormat = VPHAL_COLORPACK_422 ∧
                 fm.VpHal_GetSurfaceColorPack outputFormat = VPHAL_COLORPACK_420))) := by
  have h' : SURF_IN_PRIMARY = surfType ∧
      ((fm.IS_PL2_FORMAT inputFormat = true ∧ 0 = layerIndex) ∨ inputFormat = Format_YUY2) := by
    simpa [chromaEligible] using h
  simp only [IsChromaSamplingNeeded, if_pos h']

theorem IsChromaSamplingNeeded_not_eligible (fm : FormatMacros) (surfType : VPHAL_SURFACE_TYPE)
    (layerIndex : Nat) (inputFormat outputFormat : MOS_FORMAT)
    (h : chromaEligible fm surfType layerIndex inputFormat = false) :
    IsChromaSamplingNeeded fm surfType layerIndex inputFormat outputFormat = (false, false) := by
  have h' : ¬ (SURF_IN_PRIMARY = surfType ∧
      ((fm.IS_PL2_FORMAT inputFormat = true ∧ 0 = layerIndex) ∨ inputFormat = Format_YUY2)) := by
    intro hc
    have : chromaEligible fm surfType layerIndex inputFormat = true := by
      simpa [chromaEligible] using hc
    rw [h] at this
    exact Bool.noConfusion this
  simp only [IsChromaSamplingNeeded, if_neg h']

/-- The chroma classes compared by `IsChromaSamplingNeeded`, in terms of the rank. -/
theorem chromaRank_lt_iff (a b : VPHAL_COLORPACK) :
    ((∃ m n, chromaRank a = some m ∧ chromaRank b = some n ∧ m < n) ↔
      ((a = VPHAL_COLORPACK_420 ∧ (b = VPHAL_COLORPACK_422 ∨ b = VPHAL_COLORPACK_444)) ∨
       (a = VPHAL_COLORPACK_422 ∧ b = VPHAL_COLORPACK_444))) := by
  cases a <;> cases b <;> simp [chromaRank]

theorem chromaRank_gt_iff (a b : VPHAL_COLORPACK) :
    ((∃ m n, chromaRank a = some m ∧ chromaRank b = some n ∧ n < m) ↔
      ((a = VPHAL_COLORPACK_444 ∧ (b = VPHAL_COLORPACK_422 ∨ b = VPHAL_COLORPACK_420)) ∨
       (a = VPHAL_COLORPACK_422 ∧ b = VPHAL_COLORPACK_420))) := by
  cases a <;> cases b <;> simp [chromaRank]

/-- C18: `IsChromaSamplingNeeded` sets the up-sampling flag exactly when the layer is eligible
(primary surface, and a PL2 format at layer index 0 or the format YUY2) and the chroma class of
the source is strictly coarser than that of the destination in the order
4:2:0 < 4:2:2 < 4:4:4; it sets the down-sampling flag exactly when the layer is eligible and
the source class is strictly finer; the two flags are never both true. -/
theorem IsChromaSamplingNeeded_flags (fm : FormatMacros) (surfType : VPHAL_SURFACE_TYPE)
    (layerIndex : Nat) (inputFormat outputFormat : MOS_FORMAT) :
    ((IsChromaSamplingNeeded fm surfType layerIndex inputFormat outputFormat).1 = true ↔
      ((surfType = SURF_IN_PRIMARY ∧
          ((fm.IS_PL2_FORMAT inputFormat = true ∧ layerIndex = 0) ∨ inputFormat = Format_YUY2)) ∧
        ∃ m n, chromaRank (fm.VpHal_GetSurfaceColorPack inputFormat) = some m ∧
          chromaRank (fm.VpHal_GetSurfaceColorPack outputFormat) = some n ∧ m < n)) ∧
    ((IsChromaSamplingNeeded fm surfType layerIndex inputFormat outputFormat).2 = true ↔
      ((surfType = SURF_IN_PRIMARY ∧
          ((fm.IS_PL2_FORMAT inputFormat = true ∧ layerIndex = 0) ∨ inputFormat = Format_YUY2)) ∧
        ∃ m n, chromaRank (fm.VpHal_GetSurfaceColorPack inputFormat) = some m ∧
          chromaRank (fm.VpHal_GetSurfaceColorPack outputFormat) = some n ∧ n < m)) ∧
    ¬ ((IsChromaSamplingNeeded fm surfType layerIndex inputFormat outputFormat).1 = true ∧
       (IsChromaSamplingNeeded fm surfType layerIndex inputFormat outputFormat).2 = true) := by
  rw [chromaRank_lt_iff, chromaRank_gt_iff]
  cases he : chromaEligible fm surfType layerIndex inputFormat
  · rw [IsChromaSamplingNeeded_not_eligible _ _ _ _ _ he]
    have hn : ¬ (surfType = SURF_IN_PRIMARY ∧
        ((fm.IS_PL2_FORMAT inputFormat = true ∧ layerIndex = 0) ∨
          inputFormat = Format_YUY2)) := by
      intro hc
      have : chromaEligible fm surfType layerIndex inputFormat = true := by
        obtain ⟨h1, h2⟩ := hc
        subst h1
        rcases h2 with ⟨h2, h3⟩ | h2
        · simp [chromaEligible, h2, h3]
        · simp [chromaEligible, h2]
      rw [he] at this
      exact Bool.noConfusion this
    simp [hn]
  · rw [IsChromaSamplingNeeded_eligible _ _ _ _ _ he]
    have hy : surfType = SURF_IN_PRIMARY ∧
        ((fm.IS_PL2_FORMAT inputFormat = true ∧ layerIndex = 0) ∨
          inputFormat = Format_YUY2) := by
      have h' : SURF_IN_PRIMARY = surfType ∧
          ((fm.IS_PL2_FORMAT inputFormat = true ∧ 0 = layerIndex) ∨
            inputFormat = Format_YUY2) := by
        simpa [chromaEligible] using he
      obtain ⟨h1, h2⟩ := h'
      refine ⟨h1.symm, ?_⟩
      rcases h2 with ⟨h2, h3⟩ | h2
      · exact Or.inl ⟨h2, h3.symm⟩
      · exact Or.inr h2
    simp only [hy, true_and, decide_eq_true_eq]
    intro hc
    obtain ⟨h1, h2⟩ := hc
    generalize fm.VpHal_GetSurfaceColorPack inputFormat = a at h1 h2
    generalize fm.VpHal_GetSurfaceColorPack outputFormat = b at h1 h2
    revert h1 h2
    cases a <;> cases b <;> simp

theorem nearest_or_bilinear (P Q : Prop) [Decidable P] (h : P ↔ Q) :
    ((if P then VPHAL_SCALING_NEAREST else VPHAL_SCALING_BILINEAR) = VPHAL_SCALING_NEAREST ↔ Q) ∧
    ((if P then VPHAL_SCALING_NEAREST else VPHAL_SCALING_BILINEAR) ≠ VPHAL_SCALING_NEAREST →
      (if P then VPHAL_SCALING_NEAREST else VPHAL_SCALING_BILINEAR) = VPHAL_SCALING_BILINEAR) := by
  by_cases hp : P
  · rw [if_pos hp]
    exact ⟨⟨fun _ => h.mp hp, fun _ => rfl⟩, fun hne => absurd rfl hne⟩
  · rw [if_neg hp]
    exact ⟨⟨fun hb => VPHAL_SCALING_MODE.noConfusion hb, fun hq => absurd (h.mpr hq) hp⟩,
      fun _ => rfl⟩

/-- C12: `Get3DSamplerScalingMode` returns NEAREST if and only if the width and the height of
the destination rectangle equal those of the source rectangle, neither chroma up-sampling nor
chroma down-sampling is needed, and the input is progressive or its scaling filter has
interlaced scaling (of which field weaving is one kind) enabled; in every other case it
returns BILINEAR. -/
theorem Get3DSamplerScalingMode_nearest_iff (fm : FormatMacros) (pipe : SwFilterSubPipe)
    (layerIndex : Nat) (input output : VP_SURFACE) :
    (Get3DSamplerScalingMode fm pipe layerIndex input output = VPHAL_SCALING_NEAREST ↔
      (input.rcDst.right - input.rcDst.left = input.rcSrc.right - input.rcSrc.left ∧
       input.rcDst.bottom - input.rcDst.top = input.rcSrc.bottom - input.rcSrc.top ∧
       (IsChromaSamplingNeeded fm input.SurfType layerIndex input.osSurface.Format
          output.osSurface.Format).1 = false ∧
       (IsChromaSamplingNeeded fm input.SurfType layerIndex input.osSurface.Format
          output.osSurface.Format).2 = false ∧
       (input.SampleType = SAMPLE_PROGRESSIVE ∨
        (∃ s, pipe.scaling = some s ∧ ISCALING_NONE ≠ s.interlacedScalingType) ∨
        (∃ s, pipe.scaling = some s ∧
          ISCALING_FIELD_TO_INTERLEAVED = s.interlacedScalingType)))) ∧
    (Get3DSamplerScalingMode fm pipe layerIndex input output ≠ VPHAL_SCALING_NEAREST →
      Get3DSamplerScalingMode fm pipe layerIndex input output = VPHAL_SCALING_BILINEAR) := by
  unfold Get3DSamplerScalingMode
  rcases hs : pipe.scaling with _ | s
  · apply nearest_or_bilinear
    simp
  · apply nearest_or_bilinear
    simp

/-- A unity-scale progressive layer that needs no chroma resampling resolves to nearest
(`plainLayer`: 1920x1080 onto 1920x1080, NV12 onto NV12). -/
theorem Get3DSamplerScalingMode_unity_example :
    Get3DSamplerScalingMode exampleFormats plainLayer.subpipe 0 plainLayer.surf exampleOutput =
      VPHAL_SCALING_NEAREST := by
  decide

/-! ## Field-safety downgrade -/

/-- The field-safety test fails exactly for an NV12 surface whose minimum of the surface
height and the maximum source bottom (both as `uint32_t`) is not a multiple of 4. -/
theorem IsInterlacedInputSupported_false_iff (input : VP_SURFACE) :
    IsInterlacedInputSupported input = false ↔
      (input.osSurface.Format = Format_NV12 ∧
        min (input.osSurface.dwHeight % 2 ^ 32) (input.rcMaxSrc.bottom % 2 ^ 32).toNat % 4 ≠ 0) := by
  unfold IsInterlacedInputSupported
  simp only [Bool.or_eq_false_iff, decide_eq_false_iff_not, ne_eq, not_not]
  exact and_comm

theorem pipeAfterFieldCheck_of_unsupported (input : VP_SURFACE) (pipe : SwFilterSubPipe)
    (h : IsInterlacedInputSupported input = false) :
    (pipeAfterFieldCheck input pipe).di =
      pipe.di.map (fun d => if d.featureEnabled = true then { d with bEnabled := false } else d) := by
  simp [pipeAfterFieldCheck, h]

theorem pipeAfterFieldCheck_of_supported (input : VP_SURFACE) (pipe : SwFilterSubPipe)
    (h : IsInterlacedInputSupported input = true) :
    pipeAfterFieldCheck input pipe = pipe := by
  simp [pipeAfterFieldCheck, h]

/-- The luma-key test of lines 843-852 in terms of the counter on entry. -/
theorem lumakeyReject_iff (res : ResCounter) (idxs : List Nat) (input : VP_SURFACE)
    (pipe : SwFilterSubPipe) :
    (pipe.lumakey.isSome = true ∧
        ((decrementCounters res input pipe).lumaKeys < 0 ∨ idxs.length > 1)) ↔
      (pipe.lumakey.isSome = true ∧ (res.lumaKeys < 1 ∨ idxs.length > 1)) := by
  obtain ⟨-, -, -, hd4, -, -⟩ := decrementCounters_fields res input pipe
  constructor
  · rintro ⟨h1, h2⟩
    rw [hd4, if_pos h1] at h2
    exact ⟨h1, h2.imp (fun h => by omega) id⟩
  · rintro ⟨h1, h2⟩
    rw [hd4, if_pos h1]
    exact ⟨h1, h2.imp (fun h => by omega) id⟩

/-- C11 (counterexample): a luma-key layer evaluated with two layers already admitted is
rejected before the field check (lines 846-852): the enabled deinterlace filter of the
interlaced NV12 layer of height 151 stays enabled, and the layers selected from the pipe of two
plain layers followed by that layer are the first two. -/
theorem AddInputLayerForProcess_lumakey_reject_keeps_di :
    (fieldUnsafeLumakeyLayer.surf.osSurface.Format = Format_NV12 ∧
      min fieldUnsafeLumakeyLayer.surf.osSurface.dwHeight
        fieldUnsafeLumakeyLayer.surf.rcMaxSrc.bottom.toNat = 151 ∧
      fieldUnsafeLumakeyLayer.subpipe.di = some { bEnabled := true, featureEnabled := true }) ∧
    (AddInputLayerForProcess (exampleHandler true)
        { layers := 6, palettes := 2, procamp := 1, lumaKeys := 1, avs := 1, sampler := 3 }
        [0, 1] VPHAL_SCALING_NEAREST 2 fieldUnsafeLumakeyLayer.surf
        fieldUnsafeLumakeyLayer.subpipe exampleOutput).bSkip = true ∧
    (AddInputLayerForProcess (exampleHandler true)
        { layers := 6, palettes := 2, procamp := 1, lumaKeys := 1, avs := 1, sampler := 3 }
        [0, 1] VPHAL_SCALING_NEAREST 2 fieldUnsafeLumakeyLayer.surf
        fieldUnsafeLumakeyLayer.subpipe exampleOutput).pipe.di
      = some { bEnabled := true, featureEnabled := true } ∧
    (∃ r, LayerSelectForProcess (exampleHandler true)
        { inputs := [some plainLayer, some plainLayer, some fieldUnsafeLumakeyLayer],
          output := some exampleOutput } = .ok r ∧
      r.layerIndexes = [0, 1] ∧
      r.m_resCounter =
        { layers := 5, palettes := 2, procamp := 1, lumaKeys := 0, avs := 1, sampler := 3 } ∧
      r.featurePipe.GetInputLayer 2 = some fieldUnsafeLumakeyLayer) := by
  refine ⟨by decide, by decide, by decide, ?_⟩
  exact ⟨_, rfl, by decide, by decide, by decide⟩

/-- C11 (amended): field-safety downgrade. A layer is unsafe for field mode exactly when it is
NV12 and the minimum of its surface height and maximum source bottom is not a multiple of 4.
For an unsafe layer that is not rejected by the luma-key test at the head of
`AddInputLayerForProcess` (a layer with a luma-key filter evaluated with the luma-key counter
exhausted or with more than one layer admitted), the evaluation disables the deinterlace
filter when it is enabled; when the layer is admitted its sample type is recorded as
progressive, in the surface and in the deinterlace filter; a layer rejected by the luma-key
test is left as supplied. For a layer that is safe for field mode the sample type and the
deinterlace filter are left as supplied. -/
theorem AddInputLayerForProcess_field_safety (self : PolicyFcHandler) (res : ResCounter)
    (idxs : List Nat) (m : VPHAL_SCALING_MODE) (i : Nat) (input : VP_SURFACE)
    (pipe : SwFilterSubPipe) (output : VP_SURFACE) :
    (IsInterlacedInputSupported input = false ↔
      (input.osSurface.Format = Format_NV12 ∧
        min (input.osSurface.dwHeight % 2 ^ 32) (input.rcMaxSrc.bottom % 2 ^ 32).toNat % 4 ≠ 0)) ∧
    (IsInterlacedInputSupported input = false →
      (¬ (pipe.lumakey.isSome = true ∧ (res.lumaKeys < 1 ∨ idxs.length > 1)) →
        ∀ d, pipe.di = some d → d.featureEnabled = true →
          ∃ d', (AddInputLayerForProcess self res idxs m i input pipe output).pipe.di = some d' ∧
            d'.bEnabled = false) ∧
      ((AddInputLayerForProcess self res idxs m i input pipe output).bSkip = false →
        (AddInputLayerForProcess self res idxs m i input pipe output).input.SampleType
            = SAMPLE_PROGRESSIVE ∧
          ∀ d', (AddInputLayerForProcess self res idxs m i input pipe output).pipe.di = some d' →
            d'.sampleTypeInput = SAMPLE_PROGRESSIVE) ∧
      ((pipe.lumakey.isSome = true ∧ (res.lumaKeys < 1 ∨ idxs.length > 1)) →
        (AddInputLayerForProcess self res idxs m i input pipe output).bSkip = true ∧
        (AddInputLayerForProcess self res idxs m i input pipe output).input = input ∧
        (AddInputLayerForProcess self res idxs m i input pipe output).pipe = pipe)) ∧
    (IsInterlacedInputSupported input = true →
      (AddInputLayerForProcess self res idxs m i input pipe output).input.SampleType
          = input.SampleType ∧
        (AddInputLayerForProcess self res idxs m i input pipe output).pipe.di.map
            (fun d => d.bEnabled) = pipe.di.map (fun d => d.bEnabled)) := by
  refine ⟨IsInterlacedInputSupported_false_iff input, ?_, ?_⟩
  · intro hu
    have hdi := pipeAfterFieldCheck_of_unsupported input pipe hu
    have hst : resolvedSampleType input = SAMPLE_PROGRESSIVE := by
      simp [resolvedSampleType, hu]
    rw [← lumakeyReject_iff res idxs input pipe]
    rcases Add_cases self res idxs m i input pipe output with
      ⟨h1, he⟩ | ⟨⟨h1, h2⟩, he⟩ | ⟨⟨h1, h2⟩, he⟩
    · rw [he]
      refine ⟨fun hn => absurd h1 hn, fun hs => ?_, fun _ => ⟨rfl, rfl, rfl⟩⟩
      simp at hs
    · rw [he]
      refine ⟨fun _ d hd hf => ?_, fun hs => ?_, fun hl => absurd hl h1⟩
      · simp only [hdi, hd, Option.map_some', if_pos hf]
        exact ⟨_, rfl, rfl⟩
      · simp at hs
    · rw [he]
      refine ⟨fun _ d hd hf => ?_, fun _ => ⟨?_, ?_⟩, fun hl => absurd hl h1⟩
      · simp only [hdi, hd, Option.map_some', if_pos hf]
        exact ⟨_, rfl, rfl⟩
      · simp only [hst]
      · intro d' hd'
        simp only [hdi, hst] at hd'
        cases hdp : pipe.di with
        | none => simp [hdp] at hd'
        | some d0 =>
          simp only [hdp, Option.map_some', Option.some.injEq] at hd'
          rw [← hd']
  · intro hs
    have hp := pipeAfterFieldCheck_of_supported input pipe hs
    have hst : resolvedSampleType input = input.SampleType := by
      simp [resolvedSampleType, hs]
    rcases Add_cases self res idxs m i input pipe output with
      ⟨h1, he⟩ | ⟨⟨h1, h2⟩, he⟩ | ⟨⟨h1, h2⟩, he⟩
    · rw [he]
      exact ⟨rfl, rfl⟩
    · rw [he, hp]
      exact ⟨rfl, rfl⟩
    · rw [he, hp]
      refine ⟨hst, ?_⟩
      cases pipe.di <;> rfl

/-- The interlaced NV12 layer of height 151 evaluated first in a pass: it is admitted, its
deinterlace filter is disabled and its sample type is recorded as progressive. -/
theorem AddInputLayerForProcess_field_safety_example :
    IsInterlacedInputSupported fieldUnsafeLayer.surf = false ∧
    (AddInputLayerForProcess (exampleHandler true)
        (ResCounter.Reset exampleLimits true) [] VPHAL_SCALING_NEAREST 0
        fieldUnsafeLayer.surf fieldUnsafeLayer.subpipe exampleOutput).bSkip = false ∧
    (AddInputLayerForProcess (exampleHandler true)
        (ResCounter.Reset exampleLimits true) [] VPHAL_SCALING_NEAREST 0
        fieldUnsafeLayer.surf fieldUnsafeLayer.subpipe exampleOutput).input.SampleType
      = SAMPLE_PROGRESSIVE ∧
    (AddInputLayerForProcess (exampleHandler true)
        (ResCounter.Reset exampleLimits true) [] VPHAL_SCALING_NEAREST 0
        fieldUnsafeLayer.surf fieldUnsafeLayer.subpipe exampleOutput).pipe.di
      = some { bEnabled := false, featureEnabled := true,
               sampleTypeInput := SAMPLE_PROGRESSIVE } := by
  decide

/-! ## Mixed-mode normalisation -/

/-- The admission step does not read the normalisation toggle. -/
theorem Add_toggle (self : PolicyFcHandler) (b : Bool) (res : ResCounter) (idxs : List Nat)
    (m : VPHAL_SCALING_MODE) (i : Nat) (input : VP_SURFACE) (pipe : SwFilterSubPipe)
    (output : VP_SURFACE) :
    AddInputLayerForProcess { self with s_forceNearestToBilinearIfBilinearExists := b }
        res idxs m i input pipe output =
      AddInputLayerForProcess self res idxs m i input pipe output := rfl

theorem selectScan_toggle (self : PolicyFcHandler) (b : Bool) (output : VP_SURFACE)
    (layers : List FcInputLayer) (i : Nat) (idxs : List Nat) (res : ResCounter) (bil : Bool) :
    selectScan { self with s_forceNearestToBilinearIfBilinearExists := b } output layers i idxs
        res bil = selectScan self output layers i idxs res bil := by
  induction layers generalizing i idxs res bil with
  | nil => rfl
  | cons layer rest ih => simp only [selectScan, Add_toggle, ih]

theorem resolvedModes_cons_skip (self : PolicyFcHandler) (output : VP_SURFACE)
    (layer : FcInputLayer) (rest : List FcInputLayer) (i : Nat) (idxs : List Nat)
    (res : ResCounter)
    (h : (AddInputLayerForProcess self res idxs VPHAL_SCALING_NEAREST i
        layer.surf layer.subpipe output).bSkip = true) :
    resolvedModes self output (layer :: rest) i idxs res = [] := by
  simp [resolvedModes, h]

theorem resolvedModes_cons_admitted (self : PolicyFcHandler) (output : VP_SURFACE)
    (layer : FcInputLayer) (rest : List FcInputLayer) (i : Nat) (idxs : List Nat)
    (res : ResCounter)
    (h : (AddInputLayerForProcess self res idxs VPHAL_SCALING_NEAREST i
        layer.surf layer.subpipe output).bSkip = false) :
    resolvedModes self output (layer :: rest) i idxs res =
      (AddInputLayerForProcess self res idxs VPHAL_SCALING_NEAREST i
        layer.surf layer.subpipe output).scalingMode ::
      resolvedModes self output rest (i + 1)
        (AddInputLayerForProcess self res idxs VPHAL_SCALING_NEAREST i
          layer.surf layer.subpipe output).layerIndexes
        (AddInputLayerForProcess self res idxs VPHAL_SCALING_NEAREST i
          layer.surf layer.subpipe output).m_resCounter := by
  simp [resolvedModes, h]

/-- The flag `bilinearInUseFor3DSampler` after the loop: it is set exactly when it was set
before or the mode resolved for an admitted layer is bilinear. -/
theorem selectScan_flag (self : PolicyFcHandler) (output : VP_SURFACE)
    (layers : List FcInputLayer) (i : Nat) (idxs : List Nat) (res : ResCounter) (bil : Bool) :
    (selectScan self output layers i idxs res bil).bilinearInUseFor3DSampler = true ↔
      (bil = true ∨ VPHAL_SCALING_BILINEAR ∈ resolvedModes self output layers i idxs res) := by
  induction layers generalizing i idxs res bil with
  | nil => simp [selectScan, resolvedModes]
  | cons layer rest ih =>
    by_cases hs : (AddInputLayerForProcess self res idxs VPHAL_SCALING_NEAREST i
        layer.surf layer.subpipe output).bSkip = true
    · rw [selectScan_cons_skip self output layer rest i idxs res bil hs,
        resolvedModes_cons_skip self output layer rest i idxs res hs]
      simp
    · have hs2 : (AddInputLayerForProcess self res idxs VPHAL_SCALING_NEAREST i
          layer.surf layer.subpipe output).bSkip = false := by simpa using hs
      rw [selectScan_cons_admitted self output layer rest i idxs res bil hs2,
        resolvedModes_cons_admitted self output layer rest i idxs res hs2]
      simp only [List.mem_cons]
      rw [ih]
      by_cases hb : VPHAL_SCALING_BILINEAR = (AddInputLayerForProcess self res idxs
          VPHAL_SCALING_NEAREST i layer.surf layer.subpipe output).scalingMode
      · simp [hb]
      · simp [hb]

/-- The scaling filter of an admitted layer records the mode resolved for the layer. -/
theorem Add_recorded_mode (self : PolicyFcHandler) (res : ResCounter) (idxs : List Nat)
    (m : VPHAL_SCALING_MODE) (i : Nat) (input : VP_SURFACE) (pipe : SwFilterSubPipe)
    (output : VP_SURFACE)
    (h : (AddInputLayerForProcess self res idxs m i input pipe output).bSkip = false) :
    ∀ s, (AddInputLayerForProcess self res idxs m i input pipe output).pipe.scaling = some s →
      s.scalingMode = (AddInputLayerForProcess self res idxs m i input pipe output).scalingMode := by
  rcases Add_cases self res idxs m i input pipe output with
    ⟨_, he⟩ | ⟨_, he⟩ | ⟨_, he⟩
  · rw [he] at h; simp at h
  · rw [he] at h; simp at h
  · rw [he]
    intro s hs
    simp only [] at hs
    cases hp : (pipeAfterFieldCheck input pipe).scaling with
    | none => simp [hp] at hs
    | some s0 =>
      simp only [hp, Option.map_some', Option.some.injEq] at hs
      rw [← hs]

/-- The layers the scan admits carry, in their scaling filters, the modes resolved for them. -/
theorem selectScan_recorded (self : PolicyFcHandler) (output : VP_SURFACE)
    (layers : List FcInputLayer) (i : Nat) (idxs : List Nat) (res : ResCounter) (bil : Bool) :
    (selectScan self output layers i idxs res bil).layerIndexes.length =
        idxs.length + (resolvedModes self output layers i idxs res).length ∧
      List.Forall₂ (fun layer mode => ∀ s, layer.subpipe.scaling = some s → s.scalingMode = mode)
        ((selectScan self output layers i idxs res bil).layers.take
          (resolvedModes self output layers i idxs res).length)
        (resolvedModes self output layers i idxs res) := by
  induction layers generalizing i idxs res bil with
  | nil => simp [selectScan, resolvedModes]
  | cons layer rest ih =>
    by_cases hs : (AddInputLayerForProcess self res idxs VPHAL_SCALING_NEAREST i
        layer.surf layer.subpipe output).bSkip = true
    · have hrej := Add_rejected self res idxs VPHAL_SCALING_NEAREST i layer.surf layer.subpipe
        output hs
      rw [selectScan_cons_skip self output layer rest i idxs res bil hs,
        resolvedModes_cons_skip self output layer rest i idxs res hs]
      simp [hrej.1]
    · have hs2 : (AddInputLayerForProcess self res idxs VPHAL_SCALING_NEAREST i
          layer.surf layer.subpipe output).bSkip = false := by simpa using hs
      have hadm := Add_admitted self res idxs VPHAL_SCALING_NEAREST i layer.surf layer.subpipe
        output hs2
      have hrec := Add_recorded_mode self res idxs VPHAL_SCALING_NEAREST i layer.surf
        layer.subpipe output hs2
      obtain ⟨ih1, ih2⟩ := ih (i + 1)
        (AddInputLayerForProcess self res idxs VPHAL_SCALING_NEAREST i
          layer.surf layer.subpipe output).layerIndexes
        (AddInputLayerForProcess self res idxs VPHAL_SCALING_NEAREST i
          layer.surf layer.subpipe output).m_resCounter
        (if VPHAL_SCALING_BILINEAR = (AddInputLayerForProcess self res idxs
          VPHAL_SCALING_NEAREST i layer.surf layer.subpipe output).scalingMode
         then true else bil)
      rw [selectScan_cons_admitted self output layer rest i idxs res bil hs2,
        resolvedModes_cons_admitted self output layer rest i idxs res hs2]
      refine ⟨?_, ?_⟩
      · simp only [List.length_cons]
        rw [ih1, hadm.1]
        simp
        omega
      · simp only [List.length_cons, List.take_succ_cons]
        exact List.Forall₂.cons hrec ih2

/-- The admitted layers of an outcome: the first layers the scan went over, each normalised
when the toggle is set and the flag was raised. -/
theorem admittedLayers_selectOutcome_eq (self : PolicyFcHandler) (output : VP_SURFACE)
    (cands : List FcInputLayer) :
    admittedLayers (selectOutcome self output cands) =
      if self.s_forceNearestToBilinearIfBilinearExists = true ∧
          (selectScan self output cands 0 []
            (ResCounter.Reset self.limits self.isAvsSamplerSupported)
            false).bilinearInUseFor3DSampler = true then
        ((selectScan self output cands 0 []
          (ResCounter.Reset self.limits self.isAvsSamplerSupported) false).layers.take
          (selectScan self output cands 0 []
            (ResCounter.Reset self.limits self.isAvsSamplerSupported)
            false).layerIndexes.length).map forceLayerBilinear
      else
        (selectScan self output cands 0 []
          (ResCounter.Reset self.limits self.isAvsSamplerSupported) false).layers.take
          (selectScan self output cands 0 []
            (ResCounter.Reset self.limits self.isAvsSamplerSupported)
            false).layerIndexes.length := by
  obtain ⟨k, hk, hidx, hlen, -, -⟩ := selectScan_indexes self output cands 0 []
    (ResCounter.Reset self.limits self.isAvsSamplerSupported) false
  simp only [List.nil_append] at hidx
  have hk2 : k ≤ (selectScan self output cands 0 []
      (ResCounter.Reset self.limits self.isAvsSamplerSupported) false).layers.length := by omega
  unfold admittedLayers selectOutcome
  simp only [hidx, List.length_range']
  split_ifs
  · have := filterMap_GetInputLayer_range k
      ((List.take k (selectScan self output cands 0 []
          (ResCounter.Reset self.limits self.isAvsSamplerSupported) false).layers).map
            forceLayerBilinear ++
        List.drop k (selectScan self output cands 0 []
          (ResCounter.Reset self.limits self.isAvsSamplerSupported) false).layers)
      [] (some output) (by simp; omega)
    simp only [List.length_nil, List.nil_append] at this
    rw [this, List.take_left']
    simp [hk2]
  · have := filterMap_GetInputLayer_range k
      (selectScan self output cands 0 []
          (ResCounter.Reset self.limits self.isAvsSamplerSupported) false).layers
      [] (some output) hk2
    simpa using this

/-- What the normalisation does to one layer: a nearest scaling filter becomes bilinear, a
bilinear or AVS filter and everything else in the layer is left as it is. -/
theorem forceLayerBilinear_spec (layer : FcInputLayer) :
    (forceLayerBilinear layer).surf = layer.surf ∧
    (forceLayerBilinear layer).subpipe.scaling =
      layer.subpipe.scaling.map (fun s =>
        { s with scalingMode :=
            if s.scalingMode = VPHAL_SCALING_NEAREST then VPHAL_SCALING_BILINEAR
            else s.scalingMode }) ∧
    (forceLayerBilinear layer).subpipe.rotMir = layer.subpipe.rotMir ∧
    (forceLayerBilinear layer).subpipe.di = layer.subpipe.di ∧
    (forceLayerBilinear layer).subpipe.lumakey = layer.subpipe.lumakey ∧
    (forceLayerBilinear layer).subpipe.blending = layer.subpipe.blending ∧
    (forceLayerBilinear layer).subpipe.procamp = layer.subpipe.procamp := by
  refine ⟨rfl, ?_, rfl, rfl, rfl, rfl, rfl⟩
  unfold forceLayerBilinear
  cases layer.subpipe.scaling with
  | none => rfl
  | some s =>
    simp only [Option.map_some', Option.some.injEq]
    by_cases h : VPHAL_SCALING_NEAREST = s.scalingMode
    · rw [if_pos h, if_pos h.symm]
    · rw [if_neg h, if_neg (fun hc => h hc.symm)]

/-- C13: mixed-mode normalisation in `LayerSelectForProcess`, on a pipe with an output
surface. The selection with the toggle set and the selection with the toggle cleared both
succeed and admit the same layers. With the toggle cleared every admitted layer keeps, in its
scaling filter, the mode resolved for it individually. With the toggle set, if the mode
resolved for some admitted layer is bilinear then every admitted layer is left as the
cleared-toggle selection leaves it except that a nearest scaling filter is bilinear (bilinear
and AVS filters are untouched); if no resolved mode is bilinear nothing changes. -/
theorem LayerSelectForProcess_normalisation (self : PolicyFcHandler)
    (inputs : List (Option FcInputLayer)) (output : VP_SURFACE) :
    ∃ rOn rOff,
      LayerSelectForProcess { self with s_forceNearestToBilinearIfBilinearExists := true }
        { inputs := inputs, output := some output } = .ok rOn ∧
      LayerSelectForProcess { self with s_forceNearestToBilinearIfBilinearExists := false }
        { inputs := inputs, output := some output } = .ok rOff ∧
      rOn.layerIndexes = rOff.layerIndexes ∧
      List.Forall₂ (fun layer mode => ∀ s, layer.subpipe.scaling = some s → s.scalingMode = mode)
        (admittedLayers rOff)
        (resolvedModes self output (candidateLayers inputs) 0 []
          (ResCounter.Reset self.limits self.isAvsSamplerSupported)) ∧
      (VPHAL_SCALING_BILINEAR ∈ resolvedModes self output (candidateLayers inputs) 0 []
          (ResCounter.Reset self.limits self.isAvsSamplerSupported) →
        admittedLayers rOn = (admittedLayers rOff).map forceLayerBilinear) ∧
      (VPHAL_SCALING_BILINEAR ∉ resolvedModes self output (candidateLayers inputs) 0 []
          (ResCounter.Reset self.limits self.isAvsSamplerSupported) →
        admittedLayers rOn = admittedLayers rOff) ∧
      (∀ layer : FcInputLayer,
        (forceLayerBilinear layer).surf = layer.surf ∧
        (forceLayerBilinear layer).subpipe.scaling =
          layer.subpipe.scaling.map (fun s =>
            { s with scalingMode :=
                if s.scalingMode = VPHAL_SCALING_NEAREST then VPHAL_SCALING_BILINEAR
                else s.scalingMode }) ∧
        (forceLayerBilinear layer).subpipe.rotMir = layer.subpipe.rotMir ∧
        (forceLayerBilinear layer).subpipe.di = layer.subpipe.di ∧
        (forceLayerBilinear layer).subpipe.lumakey = layer.subpipe.lumakey ∧
        (forceLayerBilinear layer).subpipe.blending = layer.subpipe.blending ∧
        (forceLayerBilinear layer).subpipe.procamp = layer.subpipe.procamp) := by
  refine ⟨_, _, LayerSelectForProcess_eq _ inputs output, LayerSelectForProcess_eq _ inputs output,
    ?_, ?_, ?_, ?_, forceLayerBilinear_spec⟩
  · simp only [selectOutcome, selectScan_toggle]
  · rw [admittedLayers_selectOutcome_eq]
    simp only [selectScan_toggle]
    rw [if_neg (fun hc => Bool.noConfusion hc.1)]
    have h := selectScan_recorded self output (candidateLayers inputs) 0 []
      (ResCounter.Reset self.limits self.isAvsSamplerSupported) false
    rw [h.1]
    simpa using h.2
  · intro hb
    have hflag := (selectScan_flag self output (candidateLayers inputs) 0 []
      (ResCounter.Reset self.limits self.isAvsSamplerSupported) false).mpr (Or.inr hb)
    rw [admittedLayers_selectOutcome_eq, admittedLayers_selectOutcome_eq]
    simp [selectScan_toggle, hflag]
  · intro hb
    have hflag : ¬ (selectScan self output (candidateLayers inputs) 0 []
        (ResCounter.Reset self.limits self.isAvsSamplerSupported)
        false).bilinearInUseFor3DSampler = true := by
      rw [selectScan_flag]
      rintro (h | h)
      · exact Bool.noConfusion h
      · exact hb h
    rw [admittedLayers_selectOutcome_eq, admittedLayers_selectOutcome_eq]
    simp [selectScan_toggle, hflag]

/-- The worked example of the normalisation: of three admitted layers the second resolves to
bilinear and the other two to nearest; with the toggle set all three end bilinear, with the
toggle cleared the modes stay nearest, bilinear, nearest. -/
theorem LayerSelectForProcess_normalisation_example :
    resolvedModes (exampleHandler true) exampleOutput [plainLayer, scaledLayer, plainLayer] 0 []
        (ResCounter.Reset exampleLimits true)
      = [VPHAL_SCALING_NEAREST, VPHAL_SCALING_BILINEAR, VPHAL_SCALING_NEAREST] ∧
    (∃ r, LayerSelectForProcess (exampleHandler true)
        { inputs := [some plainLayer, some scaledLayer, some plainLayer],
          output := some exampleOutput } = .ok r ∧
      r.layerIndexes = [0, 1, 2] ∧
      (admittedLayers r).map (fun layer => layer.subpipe.scaling.map (fun s => s.scalingMode))
        = [some VPHAL_SCALING_BILINEAR, some VPHAL_SCALING_BILINEAR,
           some VPHAL_SCALING_BILINEAR]) ∧
    (∃ r, LayerSelectForProcess
        { exampleHandler true with s_forceNearestToBilinearIfBilinearExists := false }
        { inputs := [some plainLayer, some scaledLayer, some plainLayer],
          output := some exampleOutput } = .ok r ∧
      r.layerIndexes = [0, 1, 2] ∧
      (admittedLayers r).map (fun layer => layer.subpipe.scaling.map (fun s => s.scalingMode))
        = [some VPHAL_SCALING_NEAREST, some VPHAL_SCALING_BILINEAR,
           some VPHAL_SCALING_NEAREST]) := by
  refine ⟨by decide, ⟨_, rfl, by decide, by decide⟩, ⟨_, rfl, by decide, by decide⟩⟩

/-! ## Floating-point values -/

theorem FloatVal.finite_add (a b : ℚ) :
    (FloatVal.finite a + FloatVal.finite b : FloatVal) = FloatVal.finite (a + b) := rfl

theorem FloatVal.finite_sub (a b : ℚ) :
    (FloatVal.finite a - FloatVal.finite b : FloatVal) = FloatVal.finite (a - b) := by
  show FloatVal.add (FloatVal.finite a) (FloatVal.neg (FloatVal.finite b)) = _
  simp [FloatVal.add, FloatVal.neg, sub_eq_add_neg]

theorem FloatVal.finite_mul (a b : ℚ) :
    (FloatVal.finite a * FloatVal.finite b : FloatVal) = FloatVal.finite (a * b) := rfl

theorem FloatVal.finite_div (a b : ℚ) (hb : b ≠ 0) :
    (FloatVal.finite a / FloatVal.finite b : FloatVal) = FloatVal.finite (a / b) := by
  show FloatVal.div (FloatVal.finite a) (FloatVal.finite b) = _
  simp [FloatVal.div, hb]

theorem FloatVal.finite_div_zero (a : ℚ) :
    (FloatVal.finite a / FloatVal.finite 0 : FloatVal) = FloatVal.infOfSign a := by
  show FloatVal.div (FloatVal.finite a) (FloatVal.finite 0) = _
  simp [FloatVal.div]

theorem FloatVal.infOfSign_not_finite (a : ℚ) : (FloatVal.infOfSign a).isFinite = false := by
  unfold FloatVal.infOfSign
  split_ifs <;> rfl

theorem FloatVal.ofInt_div (a b : Int) (hb : b ≠ 0) :
    (FloatVal.ofInt a / FloatVal.ofInt b : FloatVal) = FloatVal.finite ((a : ℚ) / (b : ℚ)) := by
  unfold FloatVal.ofInt
  exact FloatVal.finite_div _ _ (by exact_mod_cast hb)

theorem FloatVal.ofInt_div_zero (a : Int) :
    (FloatVal.ofInt a / FloatVal.ofInt 0 : FloatVal).isFinite = false := by
  unfold FloatVal.ofInt
  rw [Int.cast_zero, FloatVal.finite_div_zero]
  exact FloatVal.infOfSign_not_finite _

/-! ## Scaling parameters -/

theorem Get3DSamperFilterMode_cases (scalingMode : VPHAL_SCALING_MODE) :
    (scalingMode = VPHAL_SCALING_NEAREST ∧
      Get3DSamperFilterMode scalingMode = MHW_SAMPLER_FILTER_NEAREST) ∨
    (scalingMode ≠ VPHAL_SCALING_NEAREST ∧
      Get3DSamperFilterMode scalingMode = MHW_SAMPLER_FILTER_BILINEAR) := by
  cases scalingMode <;> simp [Get3DSamperFilterMode]

/-- What `CalculateScalingParams` returns for a non-null layer and target: it succeeds, and
the scale factors, the clipped rectangle, the filter mode and the shifts of a rotation by 180
degrees are the expressions of the source. -/
theorem CalculateScalingParams_fields (self : VpFcFilter) (layer target : VP_FC_LAYER)
    (params : VP_FC_LAYER_CALC) :
    ∃ r, CalculateScalingParams self (some layer) (some target) params = .ok r ∧
      r.fScaleX =
        (if isAxisAligned layer.rotation = true then
          FloatVal.ofInt (layer.surf.rcDst.right - layer.surf.rcDst.left) /
            FloatVal.ofInt (layer.surf.rcSrc.right - layer.surf.rcSrc.left)
        else
          FloatVal.ofInt (layer.surf.rcDst.right - layer.surf.rcDst.left) /
            FloatVal.ofInt (layer.surf.rcSrc.bottom - layer.surf.rcSrc.top)) ∧
      r.fScaleY =
        (if isAxisAligned layer.rotation = true then
          FloatVal.ofInt (layer.surf.rcDst.bottom - layer.surf.rcDst.top) /
            FloatVal.ofInt (layer.surf.rcSrc.bottom - layer.surf.rcSrc.top)
        else
          FloatVal.ofInt (layer.surf.rcDst.bottom - layer.surf.rcDst.top) /
            FloatVal.ofInt (layer.surf.rcSrc.right - layer.surf.rcSrc.left)) ∧
      r.clipedDstRect =
        (if layer.xorComp = true then
          { layer.surf.rcDst with
            right := layer.surf.rcDst.left +
              (layer.surf.rcDst.right - layer.surf.rcDst.left) * 8 }
        else layer.surf.rcDst) ∧
      r.samplerFilterMode = Get3DSamperFilterMode layer.scalingMode ∧
      (layer.rotation = VPHAL_ROTATION_180 →
        r.fShiftX = FloatVal.finite (filterModeShift self layer.scalingMode) -
          (FloatVal.ofInt target.surf.osSurface.dwWidth -
            FloatVal.ofInt (layer.surf.rcSrc.right - layer.surf.rcSrc.left) * r.fScaleX -
            FloatVal.ofInt layer.surf.rcDst.left) ∧
        r.fShiftY = FloatVal.finite (filterModeShift self layer.scalingMode) -
          (FloatVal.ofInt target.surf.osSurface.dwHeight -
            FloatVal.ofInt (layer.surf.rcSrc.bottom - layer.surf.rcSrc.top) * r.fScaleY -
            FloatVal.ofInt layer.surf.rcDst.top)) ∧
      r.alpha = params.alpha ∧
      r.isChromaUpSamplingNeeded = (IsChromaSamplingNeeded self.formats layer.surf.SurfType
        layer.layerID layer.surf.osSurface.Format target.surf.osSurface.Format).1 ∧
      r.isChromaDownSamplingNeeded = (IsChromaSamplingNeeded self.formats layer.surf.SurfType
        layer.layerID layer.surf.osSurface.Format target.surf.osSurface.Format).2 := by
  unfold CalculateScalingParams
  rcases Get3DSamperFilterMode_cases layer.scalingMode with ⟨h1, h2⟩ | ⟨h1, h2⟩
  · simp only [h2]
    refine ⟨_, rfl, rfl, rfl, rfl, rfl, ?_, rfl, rfl, rfl⟩
    intro hrot
    simp only [hrot, filterModeShift, h1, if_true]
    exact ⟨trivial, trivial⟩
  · simp only [h2]
    refine ⟨_, rfl, rfl, rfl, rfl, rfl, ?_, rfl, rfl, rfl⟩
    intro hrot
    have h1' : ¬ VPHAL_SCALING_NEAREST = layer.scalingMode := fun hc => h1 hc.symm
    simp only [hrot, filterModeShift, if_neg h1']
    exact ⟨trivial, trivial⟩

/-! ## Scaling parameters: rectangles, scale factors, shifts -/

/-- C14 (counterexample): a layer whose source rectangle has zero width (0 x 1080 onto
1920 x 1080, no rotation) is not rejected: `CalculateScalingParams` returns success, with an infinite horizontal scale
factor. -/
theorem CalculateScalingParams_zero_width_source_succeeds :
    ∃ r, CalculateScalingParams exampleFilter
        (some (exampleFcLayer VPHAL_ROTATION_IDENTITY 0 1080 1920 1080)) (some exampleTarget) {}
        = .ok r ∧
      r.fScaleX = FloatVal.posInf ∧ r.fScaleY = FloatVal.finite 1 := by
  obtain ⟨r, hr, hx, hy, -⟩ := CalculateScalingParams_fields exampleFilter
    (exampleFcLayer VPHAL_ROTATION_IDENTITY 0 1080 1920 1080) exampleTarget {}
  refine ⟨r, hr, ?_, ?_⟩
  · rw [hx]
    simp only [exampleFcLayer, isAxisAligned, FloatVal.ofInt]
    norm_num [FloatVal.finite_div_zero, FloatVal.infOfSign]
  · rw [hy]
    simp only [exampleFcLayer, isAxisAligned, FloatVal.ofInt]
    norm_num [FloatVal.finite_div]

/-- C14 (amended): `CalculateScalingParams` does not validate the rectangles. Called with a
non-null layer and target it returns success whatever the source and destination rectangles
are; when the source extent that divides a destination extent is zero, the scale factor it
returns on that axis is not a finite number. Its only failure is NullPointer, for a null layer
or target. -/
theorem CalculateScalingParams_no_rectangle_check (self : VpFcFilter) (layer target : VP_FC_LAYER)
    (params : VP_FC_LAYER_CALC) :
    (∃ r, CalculateScalingParams self (some layer) (some target) params = .ok r ∧
      (isAxisAligned layer.rotation = true → layer.surf.rcSrc.right - layer.surf.rcSrc.left = 0 →
        r.fScaleX.isFinite = false) ∧
      (isAxisAligned layer.rotation = true → layer.surf.rcSrc.bottom - layer.surf.rcSrc.top = 0 →
        r.fScaleY.isFinite = false) ∧
      (isAxisAligned layer.rotation = false → layer.surf.rcSrc.bottom - layer.surf.rcSrc.top = 0 →
        r.fScaleX.isFinite = false) ∧
      (isAxisAligned layer.rotation = false → layer.surf.rcSrc.right - layer.surf.rcSrc.left = 0 →
        r.fScaleY.isFinite = false)) ∧
    CalculateScalingParams self none (some target) params = .error MOS_STATUS_NULL_POINTER ∧
    CalculateScalingParams self (some layer) none params = .error MOS_STATUS_NULL_POINTER ∧
    CalculateScalingParams self none none params = .error MOS_STATUS_NULL_POINTER := by
  refine ⟨?_, rfl, rfl, rfl⟩
  obtain ⟨r, hr, hx, hy, -⟩ := CalculateScalingParams_fields self layer target params
  refine ⟨r, hr, ?_, ?_, ?_, ?_⟩
  · intro ha hz
    rw [hx, if_pos ha, hz]
    exact FloatVal.ofInt_div_zero _
  · intro ha hz
    rw [hy, if_pos ha, hz]
    exact FloatVal.ofInt_div_zero _
  · intro ha hz
    rw [hx, ha, hz]
    exact FloatVal.ofInt_div_zero _
  · intro ha hz
    rw [hy, ha, hz]
    exact FloatVal.ofInt_div_zero _

theorem isAxisAligned_true_iff (rotation : VPHAL_ROTATION) :
    isAxisAligned rotation = true ↔
      (rotation = VPHAL_ROTATION_IDENTITY ∨ rotation = VPHAL_ROTATION_180 ∨
        rotation = VPHAL_MIRROR_HORIZONTAL ∨ rotation = VPHAL_MIRROR_VERTICAL) := by
  cases rotation <;> simp [isAxisAligned]

theorem isAxisAligned_false_iff (rotation : VPHAL_ROTATION) :
    isAxisAligned rotation = false ↔
      (rotation = VPHAL_ROTATION_90 ∨ rotation = VPHAL_ROTATION_270 ∨
        rotation = VPHAL_ROTATE_90_MIRROR_HORIZONTAL ∨
        rotation = VPHAL_ROTATE_90_MIRROR_VERTICAL) := by
  cases rotation <;> simp [isAxisAligned]

/-- C16: for a layer whose source rectangle has non-zero width and height (in particular for
non-degenerate rectangles), `CalculateScalingParams` succeeds and computes, over exact
arithmetic, `fScaleX = dstWidth / srcWidth` and `fScaleY = dstHeight / srcHeight` when the
rotation is identity, 180, horizontal mirror or vertical mirror, and
`fScaleX = dstWidth / srcHeight` and `fScaleY = dstHeight / srcWidth` for 90, 270 and the two
90-plus-mirror modes. -/
theorem CalculateScalingParams_scale (self : VpFcFilter) (layer target : VP_FC_LAYER)
    (params : VP_FC_LAYER_CALC)
    (hw : layer.surf.rcSrc.right - layer.surf.rcSrc.left ≠ 0)
    (hh : layer.surf.rcSrc.bottom - layer.surf.rcSrc.top ≠ 0) :
    ∃ r, CalculateScalingParams self (some layer) (some target) params = .ok r ∧
      ((layer.rotation = VPHAL_ROTATION_IDENTITY ∨ layer.rotation = VPHAL_ROTATION_180 ∨
          layer.rotation = VPHAL_MIRROR_HORIZONTAL ∨ layer.rotation = VPHAL_MIRROR_VERTICAL) →
        r.fScaleX = FloatVal.finite
          (((layer.surf.rcDst.right - layer.surf.rcDst.left : Int) : ℚ) /
            ((layer.surf.rcSrc.right - layer.surf.rcSrc.left : Int) : ℚ)) ∧
        r.fScaleY = FloatVal.finite
          (((layer.surf.rcDst.bottom - layer.surf.rcDst.top : Int) : ℚ) /
            ((layer.surf.rcSrc.bottom - layer.surf.rcSrc.top : Int) : ℚ))) ∧
      ((layer.rotation = VPHAL_ROTATION_90 ∨ layer.rotation = VPHAL_ROTATION_270 ∨
          layer.rotation = VPHAL_ROTATE_90_MIRROR_HORIZONTAL ∨
          layer.rotation = VPHAL_ROTATE_90_MIRROR_VERTICAL) →
        r.fScaleX = FloatVal.finite
          (((layer.surf.rcDst.right - layer.surf.rcDst.left : Int) : ℚ) /
            ((layer.surf.rcSrc.bottom - layer.surf.rcSrc.top : Int) : ℚ)) ∧
        r.fScaleY = FloatVal.finite
          (((layer.surf.rcDst.bottom - layer.surf.rcDst.top : Int) : ℚ) /
            ((layer.surf.rcSrc.right - layer.surf.rcSrc.left : Int) : ℚ))) := by
  obtain ⟨r, hr, hx, hy, -⟩ := CalculateScalingParams_fields self layer target params
  refine ⟨r, hr, ?_, ?_⟩
  · intro hrot
    have ha := (isAxisAligned_true_iff layer.rotation).mpr hrot
    rw [hx, hy, if_pos ha, if_pos ha, FloatVal.ofInt_div _ _ hw, FloatVal.ofInt_div _ _ hh]
    exact ⟨rfl, rfl⟩
  · intro hrot
    have ha := (isAxisAligned_false_iff layer.rotation).mpr hrot
    have ha' : ¬ isAxisAligned layer.rotation = true := by rw [ha]; exact Bool.noConfusion
    rw [hx, hy, if_neg ha', if_neg ha', FloatVal.ofInt_div _ _ hw, FloatVal.ofInt_div _ _ hh]
    exact ⟨rfl, rfl⟩

/-- Witness of `CalculateScalingParams_scale`: a layer rotated by 90 degrees, 1920x1080 onto
540x960, has both scale factors 1/2. -/
theorem CalculateScalingParams_scale_witness :
    (exampleFcLayer VPHAL_ROTATION_90 1920 1080 540 960).surf.rcSrc.right -
        (exampleFcLayer VPHAL_ROTATION_90 1920 1080 540 960).surf.rcSrc.left ≠ 0 ∧
    (exampleFcLayer VPHAL_ROTATION_90 1920 1080 540 960).surf.rcSrc.bottom -
        (exampleFcLayer VPHAL_ROTATION_90 1920 1080 540 960).surf.rcSrc.top ≠ 0 ∧
    ∃ r, CalculateScalingParams exampleFilter
        (some (exampleFcLayer VPHAL_ROTATION_90 1920 1080 540 960)) (some exampleTarget) {}
        = .ok r ∧
      r.fScaleX = FloatVal.finite (1 / 2) ∧ r.fScaleY = FloatVal.finite (1 / 2) := by
  refine ⟨by decide, by decide, ?_⟩
  obtain ⟨r, hr, -, h90⟩ := CalculateScalingParams_scale exampleFilter
    (exampleFcLayer VPHAL_ROTATION_90 1920 1080 540 960) exampleTarget {} (by decide) (by decide)
  obtain ⟨hx, hy⟩ := h90 (Or.inl rfl)
  refine ⟨r, hr, ?_, ?_⟩
  · rw [hx]
    simp only [exampleFcLayer]
    norm_num
  · rw [hy]
    simp only [exampleFcLayer]
    norm_num

/-- A layer rotated by 180 degrees whose destination rectangle is the whole 1920x1080 target
but whose source rectangle has zero width: the horizontal scale factor is infinite, the
correction `1920 - 0 * fScaleX - 0` is not a number, and `fShiftX` does not keep the value 0
set from the (nearest) filter mode. -/
theorem CalculateScalingParams_rotate180_zero_width_source :
    (exampleFcLayer VPHAL_ROTATION_180 0 1080 1920 1080).rotation = VPHAL_ROTATION_180 ∧
    (exampleFcLayer VPHAL_ROTATION_180 0 1080 1920 1080).surf.rcDst
      = { left := 0, top := 0, right := 1920, bottom := 1080 } ∧
    exampleTarget.surf.osSurface.dwWidth = 1920 ∧
    exampleTarget.surf.osSurface.dwHeight = 1080 ∧
    filterModeShift exampleFilter
      (exampleFcLayer VPHAL_ROTATION_180 0 1080 1920 1080).scalingMode = 0 ∧
    ∃ r, CalculateScalingParams exampleFilter
        (some (exampleFcLayer VPHAL_ROTATION_180 0 1080 1920 1080)) (some exampleTarget) {}
        = .ok r ∧
      r.fScaleX = FloatVal.posInf ∧
      r.fShiftX = FloatVal.nan ∧
      r.fShiftX ≠ FloatVal.finite 0 := by
  refine ⟨rfl, rfl, rfl, rfl, by simp [filterModeShift, exampleFcLayer], ?_⟩
  obtain ⟨r, hr, hx, -, -, -, h180, -⟩ := CalculateScalingParams_fields exampleFilter
    (exampleFcLayer VPHAL_ROTATION_180 0 1080 1920 1080) exampleTarget {}
  have hx' : r.fScaleX = FloatVal.posInf := by
    rw [hx]
    simp only [exampleFcLayer, isAxisAligned, FloatVal.ofInt]
    norm_num [FloatVal.finite_div_zero, FloatVal.infOfSign]
  have hs : r.fShiftX = FloatVal.nan := by
    rw [(h180 rfl).1, hx']
    simp only [exampleFcLayer, exampleTarget, FloatVal.ofInt]
    norm_num
    rfl
  refine ⟨r, hr, hx', hs, ?_⟩
  rw [hs]
  exact fun hc => FloatVal.noConfusion hc

/-- Over exact arithmetic (`CalculateScalingParams`, no rounding): for a rotation by 180
degrees on a layer whose destination rectangle has origin (0,0) and extents equal to the width
and height of the target surface, and whose source rectangle has non-zero width and height,
the correction subtracted from each shift axis is zero, and `fShiftX` and `fShiftY` keep the
value set from the filter mode: 0 for nearest, the bilinear shift constant otherwise. -/
theorem CalculateScalingParams_rotate180_exact (self : VpFcFilter) (layer target : VP_FC_LAYER)
    (params : VP_FC_LAYER_CALC)
    (hrot : layer.rotation = VPHAL_ROTATION_180)
    (hleft : layer.surf.rcDst.left = 0) (htop : layer.surf.rcDst.top = 0)
    (hwidth : layer.surf.rcDst.right - layer.surf.rcDst.left = target.surf.osSurface.dwWidth)
    (hheight : layer.surf.rcDst.bottom - layer.surf.rcDst.top = target.surf.osSurface.dwHeight)
    (hw : layer.surf.rcSrc.right - layer.surf.rcSrc.left ≠ 0)
    (hh : layer.surf.rcSrc.bottom - layer.surf.rcSrc.top ≠ 0) :
    ∃ r, CalculateScalingParams self (some layer) (some target) params = .ok r ∧
      FloatVal.ofInt target.surf.osSurface.dwWidth -
          FloatVal.ofInt (layer.surf.rcSrc.right - layer.surf.rcSrc.left) * r.fScaleX -
          FloatVal.ofInt layer.surf.rcDst.left = FloatVal.finite 0 ∧
      FloatVal.ofInt target.surf.osSurface.dwHeight -
          FloatVal.ofInt (layer.surf.rcSrc.bottom - layer.surf.rcSrc.top) * r.fScaleY -
          FloatVal.ofInt layer.surf.rcDst.top = FloatVal.finite 0 ∧
      r.fShiftX = FloatVal.finite
        (if layer.scalingMode = VPHAL_SCALING_NEAREST then 0 else self.VP_HW_LINEAR_SHIFT) ∧
      r.fShiftY = FloatVal.finite
        (if layer.scalingMode = VPHAL_SCALING_NEAREST then 0 else self.VP_HW_LINEAR_SHIFT) := by
  obtain ⟨r, hr, hx, hy, -, -, h180, -⟩ := CalculateScalingParams_fields self layer target params
  obtain ⟨hsx, hsy⟩ := h180 hrot
  have ha : isAxisAligned layer.rotation = true := by rw [hrot]; rfl
  rw [if_pos ha, FloatVal.ofInt_div _ _ hw] at hx
  rw [if_pos ha, FloatVal.ofInt_div _ _ hh] at hy
  have hw' : ((layer.surf.rcSrc.right - layer.surf.rcSrc.left : Int) : ℚ) ≠ 0 := by
    exact_mod_cast hw
  have hh' : ((layer.surf.rcSrc.bottom - layer.surf.rcSrc.top : Int) : ℚ) ≠ 0 := by
    exact_mod_cast hh
  have hcx : FloatVal.ofInt target.surf.osSurface.dwWidth -
      FloatVal.ofInt (layer.surf.rcSrc.right - layer.surf.rcSrc.left) * r.fScaleX -
      FloatVal.ofInt layer.surf.rcDst.left = FloatVal.finite 0 := by
    rw [hx, ← hwidth, hleft]
    simp only [FloatVal.ofInt, FloatVal.finite_mul, FloatVal.finite_sub]
    congr 1
    rw [mul_div_cancel₀ _ hw']
    simp
  have hcy : FloatVal.ofInt target.surf.osSurface.dwHeight -
      FloatVal.ofInt (layer.surf.rcSrc.bottom - layer.surf.rcSrc.top) * r.fScaleY -
      FloatVal.ofInt layer.surf.rcDst.top = FloatVal.finite 0 := by
    rw [hy, ← hheight, htop]
    simp only [FloatVal.ofInt, FloatVal.finite_mul, FloatVal.finite_sub]
    congr 1
    rw [mul_div_cancel₀ _ hh']
    simp
  have hm : filterModeShift self layer.scalingMode =
      (if layer.scalingMode = VPHAL_SCALING_NEAREST then 0 else self.VP_HW_LINEAR_SHIFT) := by
    unfold filterModeShift
    by_cases h : VPHAL_SCALING_NEAREST = layer.scalingMode
    · rw [if_pos h, if_pos h.symm]
    · rw [if_neg h, if_neg (fun hc => h hc.symm)]
  refine ⟨r, hr, hcx, hcy, ?_, ?_⟩
  · rw [hsx, hcx, FloatVal.finite_sub, hm]
    simp
  · rw [hsy, hcy, FloatVal.finite_sub, hm]
    simp

/-- Over exact arithmetic a bilinear layer rotated by 180 degrees, 960x540 onto the whole
1920x1080 target, keeps the linear shift 1/2 on both axes. -/
theorem CalculateScalingParams_rotate180_exact_example :
    ({ exampleFcLayer VPHAL_ROTATION_180 960 540 1920 1080 with
        scalingMode := VPHAL_SCALING_BILINEAR } : VP_FC_LAYER).rotation = VPHAL_ROTATION_180 ∧
    ∃ r, CalculateScalingParams exampleFilter
        (some { exampleFcLayer VPHAL_ROTATION_180 960 540 1920 1080 with
                scalingMode := VPHAL_SCALING_BILINEAR }) (some exampleTarget) {} = .ok r ∧
      r.fShiftX = FloatVal.finite (1 / 2) ∧ r.fShiftY = FloatVal.finite (1 / 2) := by
  refine ⟨rfl, ?_⟩
  obtain ⟨r, hr, -, -, hx, hy⟩ := CalculateScalingParams_rotate180_exact exampleFilter
    { exampleFcLayer VPHAL_ROTATION_180 960 540 1920 1080 with
      scalingMode := VPHAL_SCALING_BILINEAR } exampleTarget {}
    rfl rfl rfl (by decide) (by decide) (by decide) (by decide)
  refine ⟨r, hr, ?_, ?_⟩
  · rw [hx]
    simp [exampleFilter]
  · rw [hy]
    simp [exampleFilter]

/-- C19: `CalculateScalingParams` returns the destination rectangle of the layer as the clipped
destination rectangle unchanged, except for an XOR layer (`xorComp`), where left, top and
bottom are unchanged and `right = left + 8 * (right - left)`. -/
theorem CalculateScalingParams_clipedDstRect (self : VpFcFilter) (layer target : VP_FC_LAYER)
    (params : VP_FC_LAYER_CALC) :
    ∃ r, CalculateScalingParams self (some layer) (some target) params = .ok r ∧
      (layer.xorComp = false → r.clipedDstRect = layer.surf.rcDst) ∧
      (layer.xorComp = true →
        r.clipedDstRect.left = layer.surf.rcDst.left ∧
        r.clipedDstRect.top = layer.surf.rcDst.top ∧
        r.clipedDstRect.bottom = layer.surf.rcDst.bottom ∧
        r.clipedDstRect.right =
          layer.surf.rcDst.left + 8 * (layer.surf.rcDst.right - layer.surf.rcDst.left)) := by
  obtain ⟨r, hr, -, -, hc, -⟩ := CalculateScalingParams_fields self layer target params
  refine ⟨r, hr, ?_, ?_⟩
  · intro hx
    rw [hc, hx]
    rfl
  · intro hx
    rw [hc, if_pos hx]
    refine ⟨rfl, rfl, rfl, ?_⟩
    simp only []
    ring

/-! ## Composite parameters -/

/-- The alpha resolver changes nothing of a layer but its blending parameters. -/
theorem CalculateConstantAlpha_frame (layer layer1 : VP_FC_LAYER) (alpha : Nat)
    (h : CalculateConstantAlpha layer = .ok (alpha, layer1)) :
    layer1 = { layer with blendingParams := layer1.blendingParams } := by
  unfold CalculateConstantAlpha at h
  cases hb : layer.blendingParams with
  | none =>
    simp only [hb] at h
    injection h with h
    injection h with _ h2
    rw [← h2]
  | some bp =>
    simp only [hb] at h
    split_ifs at h <;>
      first
      | exact Except.noConfusion h
      | (injection h with h; injection h with _ h2; rw [← h2])

/-- One iteration of the loop of `CalculateCompParams` entered with `layerCount = i`: the
compaction copy is not taken, and the layer written back at index `i` is made from the layer
at index `i`. -/
theorem CalculateCompParams_loop_step (self : VpFcFilter) (fuel i : Nat)
    (compParams : VP_COMPOSITE_PARAMS) (out : Nat × VP_COMPOSITE_PARAMS)
    (hi : i < compParams.sourceCount)
    (h : CalculateCompParams.loop self (fuel + 1) i i compParams = .ok out) :
    ∃ layer3 : VP_FC_LAYER,
      layer3.layerID = i ∧ layer3.layerIDOrigin = i ∧
      layer3.surf = (compParams.source i).surf ∧
      layer3.scalingMode = (compParams.source i).scalingMode ∧
      layer3.rotation = (compParams.source i).rotation ∧
      CalculateCompParams.loop self fuel (i + 1) (i + 1)
        { compParams with source := Function.update compParams.source i layer3 } = .ok out := by
  unfold CalculateCompParams.loop at h
  rw [if_pos hi] at h
  cases ha : CalculateConstantAlpha (compParams.source i) with
  | error status => simp [ha] at h
  | ok res =>
    obtain ⟨alpha, layer1⟩ := res
    have hframe := CalculateConstantAlpha_frame _ _ _ ha
    simp only [ha, ne_eq, not_true_eq_false, if_false, Function.update_same] at h
    obtain ⟨params1, hp, -⟩ := CalculateScalingParams_fields self
      { layer1 with
        calculatedParams := { layer1.calculatedParams with alpha := alpha }
        layerIDOrigin := i, layerID := i }
      (compParams.target 0)
      { layer1.calculatedParams with alpha := alpha }
    simp only [hp, Function.update_idem] at h
    refine ⟨_, ?_, ?_, ?_, ?_, ?_, h⟩
    · rfl
    · rfl
    · show layer1.surf = _
      rw [hframe]
    · show layer1.scalingMode = _
      rw [hframe]
    · show layer1.rotation = _
      rw [hframe]

/-- The loop of `CalculateCompParams` entered with `layerCount = i` and enough fuel: on
success the counter ends at the source count, the slots before `i` and from the source count
on are untouched, and every slot `j` in between holds the layer made from the layer at `j`,
numbered `j`. -/
theorem CalculateCompParams_loop_spec (self : VpFcFilter) (fuel : Nat) :
    ∀ (i : Nat) (compParams : VP_COMPOSITE_PARAMS) (out : Nat × VP_COMPOSITE_PARAMS),
      compParams.sourceCount ≤ i + fuel →
      CalculateCompParams.loop self fuel i i compParams = .ok out →
      out.1 = max i compParams.sourceCount ∧
      out.2.sourceCount = compParams.sourceCount ∧
      out.2.target = compParams.target ∧
      (∀ j, j < i → out.2.source j = compParams.source j) ∧
      (∀ j, compParams.sourceCount ≤ j → out.2.source j = compParams.source j) ∧
      (∀ j, i ≤ j → j < compParams.sourceCount →
        (out.2.source j).layerID = j ∧ (out.2.source j).layerIDOrigin = j ∧
        (out.2.source j).surf = (compParams.source j).surf ∧
        (out.2.source j).scalingMode = (compParams.source j).scalingMode ∧
        (out.2.source j).rotation = (compParams.source j).rotation) := by
  induction fuel with
  | zero =>
    intro i compParams out hfuel h
    unfold CalculateCompParams.loop at h
    injection h with h
    subst h
    refine ⟨?_, rfl, rfl, fun _ _ => rfl, fun _ _ => rfl, ?_⟩
    · simp only []
      omega
    · intro j h1 h2
      omega
  | succ fuel ih =>
    intro i compParams out hfuel h
    by_cases hi : i < compParams.sourceCount
    · obtain ⟨layer3, h1, h2, h3, h4, h5, hrec⟩ :=
        CalculateCompParams_loop_step self fuel i compParams out hi h
      obtain ⟨r1, r2, r3, r4, r5, r6⟩ := ih (i + 1) _ out (by simp only []; omega) hrec
      simp only [] at r1 r2 r3 r4 r5 r6
      refine ⟨?_, r2, r3, ?_, ?_, ?_⟩
      · rw [r1]; omega
      · intro j hj
        rw [r4 j (by omega), Function.update_noteq (by omega)]
      · intro j hj
        rw [r5 j hj, Function.update_noteq (by omega)]
      · intro j hj1 hj2
        by_cases hji : j = i
        · subst hji
          rw [r4 j (by omega), Function.update_same]
          exact ⟨h1, h2, h3, h4, h5⟩
        · have := r6 j (by omega) hj2
          rw [Function.update_noteq hji] at this
          exact this
    · unfold CalculateCompParams.loop at h
      rw [if_neg hi] at h
      injection h with h
      subst h
      refine ⟨?_, rfl, rfl, fun _ _ => rfl, fun _ _ => rfl, ?_⟩
      · simp only []
        omega
      · intro j h1 h2
        omega

/-- C20: whenever `CalculateCompParams` succeeds on `n` source layers, the source count is
still `n`, the layer at position `i` has `layerID = i` and `layerIDOrigin = i` (so the two are
equal) and is made from the source layer at position `i` (same surface, scaling mode and
rotation), and the slots from `n` on are untouched: the compaction copy is never taken. -/
theorem CalculateCompParams_numbering (self : VpFcFilter) (compParams r : VP_COMPOSITE_PARAMS)
    (h : CalculateCompParams self compParams = .ok r) :
    r.sourceCount = compParams.sourceCount ∧
    (∀ i, i < compParams.sourceCount →
      (r.source i).layerID = i ∧ (r.source i).layerIDOrigin = i ∧
      (r.source i).layerID = (r.source i).layerIDOrigin ∧
      (r.source i).surf = (compParams.source i).surf ∧
      (r.source i).scalingMode = (compParams.source i).scalingMode ∧
      (r.source i).rotation = (compParams.source i).rotation) ∧
    (∀ j, compParams.sourceCount ≤ j → r.source j = compParams.source j) := by
  unfold CalculateCompParams at h
  cases hl : CalculateCompParams.loop self compParams.sourceCount 0 0 compParams with
  | error status => simp [hl] at h
  | ok out =>
    obtain ⟨r1, r2, r3, r4, r5, r6⟩ :=
      CalculateCompParams_loop_spec self compParams.sourceCount 0 compParams out (by omega) hl
    obtain ⟨layerCount, compParams1⟩ := out
    simp only [hl] at h
    injection h with h
    subst h
    simp only [] at r1 r2 r3 r4 r5 r6 ⊢
    refine ⟨by rw [r1]; omega, ?_, r5⟩
    intro i hi
    obtain ⟨a, b, c, d, e⟩ := r6 i (by omega) hi
    exact ⟨a, b, by rw [a, b], c, d, e⟩

/-- Witness of `CalculateCompParams_numbering`: the composite parameters of the examples, with
two source layers, on which `CalculateCompParams` succeeds. -/
theorem CalculateCompParams_numbering_witness :
    ∃ r, CalculateCompParams exampleFilter exampleCompParams = .ok r ∧
      r.sourceCount = 2 ∧
      (r.source 0).layerID = 0 ∧ (r.source 0).layerIDOrigin = 0 ∧
      (r.source 1).layerID = 1 ∧ (r.source 1).layerIDOrigin = 1 ∧
      (r.source 1).rotation = VPHAL_ROTATION_180 := by
  have hok : ∃ r, CalculateCompParams exampleFilter exampleCompParams = .ok r := ⟨_, rfl⟩
  obtain ⟨r, hr⟩ := hok
  obtain ⟨h1, h2, -⟩ := CalculateCompParams_numbering exampleFilter exampleCompParams r hr
  obtain ⟨a0, b0, -⟩ := h2 0 (by decide)
  obtain ⟨a1, b1, -, -, -, e1⟩ := h2 1 (by decide)
  exact ⟨r, hr, h1, a0, b0, a1, b1, e1⟩

/-! ## Engine parameters -/

/-- The status `CalculateEngineParams` returns is success or, when the parameter buffer cannot
be allocated, NoSpace: never the status of `InitCompParams`. -/
theorem CalculateEngineParams_status (self : VpFcFilter) (bRender hasBuffer allocationSucceeds : Bool)
    (m_executedPipe : ExecutedPipe) :
    (CalculateEngineParams self bRender hasBuffer allocationSucceeds m_executedPipe).status =
      (if bRender = true ∧ hasBuffer = false ∧ allocationSucceeds = false then
        MOS_STATUS_NO_SPACE
      else MOS_STATUS_SUCCESS) := by
  unfold CalculateEngineParams
  cases bRender <;> cases hasBuffer <;> cases allocationSucceeds <;> rfl

/-- C15: the code against the claim. `InitCompParams` fails with InvalidParameter on an
executed pipe whose layers carry different 3D-sampler modes, on one with a transparent layer
and on one with more input layers than input-layer surface types; in each case
`CalculateEngineParams`, which calls it at line 543 without testing the status, returns
success. -/
theorem CalculateEngineParams_discards_InvalidParameter :
    (InitCompParams exampleFilter mixedModePipe = .error MOS_STATUS_INVALID_PARAMETER ∧
      (CalculateEngineParams exampleFilter true false true mixedModePipe).status
        = MOS_STATUS_SUCCESS) ∧
    (InitCompParams exampleFilter transparentPipe = .error MOS_STATUS_INVALID_PARAMETER ∧
      (CalculateEngineParams exampleFilter true false true transparentPipe).status
        = MOS_STATUS_SUCCESS) ∧
    (InitCompParams exampleFilter crowdedPipe = .error MOS_STATUS_INVALID_PARAMETER ∧
      (CalculateEngineParams exampleFilter true false true crowdedPipe).status
        = MOS_STATUS_SUCCESS) ∧
    (∀ (self : VpFcFilter) (hasBuffer allocationSucceeds : Bool) (pipe : ExecutedPipe),
      (CalculateEngineParams self true hasBuffer allocationSucceeds pipe).status
        ≠ MOS_STATUS_INVALID_PARAMETER) := by
  refine ⟨⟨rfl, rfl⟩, ⟨?_, rfl⟩, ⟨rfl, rfl⟩, ?_⟩
  · have ha : CalculateConstantAlpha
        (InitLayer 0 plainLayer.surf
          { scaling := some {},
            blending := some { blendingParams := some (VPHAL_BLENDING_PARAMS.mk BLEND_CONSTANT 0) } }
          VPHAL_SCALING_NEAREST) = .error MOS_STATUS_INVALID_PARAMETER :=
      CalculateConstantAlpha_transparent _ (VPHAL_BLENDING_PARAMS.mk BLEND_CONSTANT 0) rfl rfl
        (le_refl _)
    simp [InitCompParams, transparentPipe, GetDefaultScalingMode, GetDefaultScalingMode.loop,
      exampleFilter, CalculateCompParams, CalculateCompParams.loop, ha]
  · intro self hasBuffer allocationSucceeds pipe
    rw [CalculateEngineParams_status]
    split_ifs <;> exact fun hc => MOS_STATUS.noConfusion hc

/-! ## The calls of a pass -/

theorem passCalls_cons_skip (self : PolicyFcHandler) (output : VP_SURFACE)
    (layer : FcInputLayer) (rest : List FcInputLayer) (i : Nat) (idxs : List Nat)
    (res : ResCounter)
    (h : (AddInputLayerForProcess self res idxs VPHAL_SCALING_NEAREST i
        layer.surf layer.subpipe output).bSkip = true) :
    passCalls self output (layer :: rest) i idxs res =
      [AddInputLayerForProcess self res idxs VPHAL_SCALING_NEAREST i
        layer.surf layer.subpipe output] := by
  simp [passCalls, h]

theorem passCalls_cons_admitted (self : PolicyFcHandler) (output : VP_SURFACE)
    (layer : FcInputLayer) (rest : List FcInputLayer) (i : Nat) (idxs : List Nat)
    (res : ResCounter)
    (h : (AddInputLayerForProcess self res idxs VPHAL_SCALING_NEAREST i
        layer.surf layer.subpipe output).bSkip = false) :
    passCalls self output (layer :: rest) i idxs res =
      AddInputLayerForProcess self res idxs VPHAL_SCALING_NEAREST i
        layer.surf layer.subpipe output ::
      passCalls self output rest (i + 1)
        (AddInputLayerForProcess self res idxs VPHAL_SCALING_NEAREST i
          layer.surf layer.subpipe output).layerIndexes
        (AddInputLayerForProcess self res idxs VPHAL_SCALING_NEAREST i
          layer.surf layer.subpipe output).m_resCounter := by
  simp [passCalls, h]

/-- A call that rejects its layer is the last call of the pass. -/
theorem passCalls_skip_last (self : PolicyFcHandler) (output : VP_SURFACE)
    (layers : List FcInputLayer) (i : Nat) (idxs : List Nat) (res : ResCounter)
    (pre : List AddInputLayerResult) (r : AddInputLayerResult) (post : List AddInputLayerResult)
    (hc : passCalls self output layers i idxs res = pre ++ r :: post)
    (hs : r.bSkip = true) : post = [] := by
  induction layers generalizing i idxs res pre with
  | nil =>
    simp [passCalls] at hc
  | cons layer rest ih =>
    by_cases h : (AddInputLayerForProcess self res idxs VPHAL_SCALING_NEAREST i
        layer.surf layer.subpipe output).bSkip = true
    · rw [passCalls_cons_skip self output layer rest i idxs res h] at hc
      cases pre with
      | nil =>
        simp only [List.nil_append, List.cons.injEq] at hc
        exact hc.2.symm
      | cons a pre =>
        simp only [List.cons_append, List.cons.injEq] at hc
        have := hc.2
        simp at this
    · have h2 : (AddInputLayerForProcess self res idxs VPHAL_SCALING_NEAREST i
          layer.surf layer.subpipe output).bSkip = false := by simpa using h
      rw [passCalls_cons_admitted self output layer rest i idxs res h2] at hc
      cases pre with
      | nil =>
        simp only [List.nil_append, List.cons.injEq] at hc
        rw [← hc.1] at hs
        rw [h2] at hs
        exact Bool.noConfusion hs
      | cons a pre =>
        simp only [List.cons_append, List.cons.injEq] at hc
        exact ih _ _ _ pre hc.2

/-- The state the loop of `LayerSelectForProcess` ends in is the one its last call leaves (the
initial state when there is no candidate). -/
theorem selectScan_last_call (self : PolicyFcHandler) (output : VP_SURFACE)
    (layers : List FcInputLayer) (i : Nat) (idxs : List Nat) (res : ResCounter) (bil : Bool) :
    (selectScan self output layers i idxs res bil).layerIndexes =
        ((passCalls self output layers i idxs res).getLast?.map
          (fun r => r.layerIndexes)).getD idxs ∧
    (selectScan self output layers i idxs res bil).m_resCounter =
        ((passCalls self output layers i idxs res).getLast?.map
          (fun r => r.m_resCounter)).getD res := by
  induction layers generalizing i idxs res bil with
  | nil => simp [selectScan, passCalls]
  | cons layer rest ih =>
    by_cases h : (AddInputLayerForProcess self res idxs VPHAL_SCALING_NEAREST i
        layer.surf layer.subpipe output).bSkip = true
    · rw [passCalls_cons_skip self output layer rest i idxs res h,
        selectScan_cons_skip self output layer rest i idxs res bil h]
      simp
    · have h2 : (AddInputLayerForProcess self res idxs VPHAL_SCALING_NEAREST i
          layer.surf layer.subpipe output).bSkip = false := by simpa using h
      rw [passCalls_cons_admitted self output layer rest i idxs res h2,
        selectScan_cons_admitted self output layer rest i idxs res bil h2]
      obtain ⟨ih1, ih2⟩ := ih (i + 1)
        (AddInputLayerForProcess self res idxs VPHAL_SCALING_NEAREST i
          layer.surf layer.subpipe output).layerIndexes
        (AddInputLayerForProcess self res idxs VPHAL_SCALING_NEAREST i
          layer.surf layer.subpipe output).m_resCounter
        (if VPHAL_SCALING_BILINEAR = (AddInputLayerForProcess self res idxs
          VPHAL_SCALING_NEAREST i layer.surf layer.subpipe output).scalingMode
         then true else bil)
      simp only [ih1, ih2]
      cases hp : passCalls self output rest (i + 1)
        (AddInputLayerForProcess self res idxs VPHAL_SCALING_NEAREST i
          layer.surf layer.subpipe output).layerIndexes
        (AddInputLayerForProcess self res idxs VPHAL_SCALING_NEAREST i
          layer.surf layer.subpipe output).m_resCounter with
      | nil => simp
      | cons a l =>
        have hne : (a :: l) ≠ [] := List.cons_ne_nil _ _
        have hl : (a :: l).getLast? = some ((a :: l).getLast hne) :=
          List.getLast?_eq_getLast _ hne
        simp [List.getLast?_cons_cons, hl]

/-! ## The filter-mode mask -/

/-- A property that every call of a pass establishes and hands on to the next call holds
after every call of the pass. -/
theorem passCalls_forall (self : PolicyFcHandler) (output : VP_SURFACE)
    (Inv : List Nat → ResCounter → Prop) (Post : AddInputLayerResult → Prop)
    (hstep : ∀ (res : ResCounter) (idxs : List Nat) (i : Nat) (layer : FcInputLayer),
      Inv idxs res →
      Post (AddInputLayerForProcess self res idxs VPHAL_SCALING_NEAREST i
        layer.surf layer.subpipe output) ∧
      ((AddInputLayerForProcess self res idxs VPHAL_SCALING_NEAREST i
          layer.surf layer.subpipe output).bSkip = false →
        Inv (AddInputLayerForProcess self res idxs VPHAL_SCALING_NEAREST i
            layer.surf layer.subpipe output).layerIndexes
          (AddInputLayerForProcess self res idxs VPHAL_SCALING_NEAREST i
            layer.surf layer.subpipe output).m_resCounter))
    (layers : List FcInputLayer) (i : Nat) (idxs : List Nat) (res : ResCounter)
    (h0 : Inv idxs res) :
    ∀ r ∈ passCalls self output layers i idxs res, Post r := by
  induction layers generalizing i idxs res with
  | nil => simp [passCalls]
  | cons layer rest ih =>
    obtain ⟨hp, hn⟩ := hstep res idxs i layer h0
    by_cases h : (AddInputLayerForProcess self res idxs VPHAL_SCALING_NEAREST i
        layer.surf layer.subpipe output).bSkip = true
    · rw [passCalls_cons_skip self output layer rest i idxs res h]
      intro r hr
      rw [List.mem_singleton] at hr
      rw [hr]
      exact hp
    · have h2 : (AddInputLayerForProcess self res idxs VPHAL_SCALING_NEAREST i
          layer.surf layer.subpipe output).bSkip = false := by simpa using h
      rw [passCalls_cons_admitted self output layer rest i idxs res h2]
      intro r hr
      rw [List.mem_cons] at hr
      rcases hr with hr | hr
      · rw [hr]
        exact hp
      · exact ih _ _ _ (hn h2) r hr

/-- The mask a call leaves behind when the layer is rejected by the luma-key test: the mask
on entry. -/
theorem Add_sampler_of_lumakey_reject (self : PolicyFcHandler) (res : ResCounter)
    (idxs : List Nat) (m : VPHAL_SCALING_MODE) (i : Nat) (input : VP_SURFACE)
    (pipe : SwFilterSubPipe) (output : VP_SURFACE)
    (h : pipe.lumakey.isSome = true ∧
      ((decrementCounters res input pipe).lumaKeys < 0 ∨ idxs.length > 1)) :
    (AddInputLayerForProcess self res idxs m i input pipe output).bSkip = true ∧
    (AddInputLayerForProcess self res idxs m i input pipe output).layerIndexes = idxs ∧
    (AddInputLayerForProcess self res idxs m i input pipe output).input = input ∧
    (AddInputLayerForProcess self res idxs m i input pipe output).pipe = pipe ∧
    (AddInputLayerForProcess self res idxs m i input pipe output).m_resCounter =
      decrementCounters res input pipe := by
  rcases Add_cases self res idxs m i input pipe output with
    ⟨_, he⟩ | ⟨⟨h1, _⟩, _⟩ | ⟨⟨h1, _⟩, _⟩
  · rw [he]
    exact ⟨rfl, rfl, rfl, rfl, rfl⟩
  · exact absurd h h1
  · exact absurd h h1

/-- The mask a call leaves behind when the layer passes the luma-key test, branch by branch
of the sampler selection; `s5` is the mask after the reset of lines 853-856. -/
theorem Add_sampler_of_selected (self : PolicyFcHandler) (res : ResCounter)
    (idxs : List Nat) (m : VPHAL_SCALING_MODE) (i : Nat) (input : VP_SURFACE)
    (pipe : SwFilterSubPipe) (output : VP_SURFACE)
    (h : ¬ (pipe.lumakey.isSome = true ∧
      ((decrementCounters res input pipe).lumaKeys < 0 ∨ idxs.length > 1))) :
    (AddInputLayerForProcess self res idxs m i input pipe output).m_resCounter.sampler =
      (if (!self.isAvsSamplerSupported && pipe.scaling.isNone) = true then
        (if pipe.lumakey.isSome = true ∧ idxs.length = 1 then VP_COMP_MAX_SAMPLER
         else res.sampler)
      else if pipe.scaling.isSome = true ∧ VPHAL_SCALING_AVS = requestedMode self pipe ∧
          pipe.lumakey.isNone = true ∧
          IsBobDiEnabled (pipeAfterFieldCheck input pipe).di input = false then
        (if pipe.lumakey.isSome = true ∧ idxs.length = 1 then VP_COMP_MAX_SAMPLER
         else res.sampler)
      else if self.isAvsSamplerSupported = true ∧ pipe.lumakey.isSome = true ∧
          idxs.length > 0 ∧ self.formats.IS_PL3_FORMAT input.osSurface.Format = false then
        (if pipe.lumakey.isSome = true ∧ idxs.length = 1 then VP_COMP_MAX_SAMPLER
         else res.sampler) &&& VP_COMP_SAMPLER_LUMAKEY
      else if samplerOffers3D (if pipe.lumakey.isSome = true ∧ idxs.length = 1 then
          VP_COMP_MAX_SAMPLER else res.sampler) then
        (if pipe.lumakey.isSome = true ∧ idxs.length = 1 then VP_COMP_MAX_SAMPLER
         else res.sampler) &&& (VP_COMP_SAMPLER_BILINEAR ||| VP_COMP_SAMPLER_NEAREST)
      else
        (if pipe.lumakey.isSome = true ∧ idxs.length = 1 then VP_COMP_MAX_SAMPLER
         else res.sampler)) := by
  obtain ⟨-, -, -, -, -, d6⟩ := decrementCounters_fields res input pipe
  obtain ⟨-, -, -, -, -, r6⟩ :=
    resetSamplerForLumakey_fields (decrementCounters res input pipe) idxs.length pipe
  rw [d6] at r6
  have key : (AddInputLayerForProcess self res idxs m i input pipe output).m_resCounter =
      (selectSampler self
        (resetSamplerForLumakey (decrementCounters res input pipe) idxs.length pipe)
        idxs.length input pipe output).2 := by
    rcases Add_cases self res idxs m i input pipe output with
      ⟨h1, _⟩ | ⟨_, he⟩ | ⟨_, he⟩
    · exact absurd h1 h
    · rw [he]
    · rw [he]
  rw [key, selectSampler_res, ← r6]
  split_ifs <;> rfl

theorem lumakey_mask_of_max :
    VP_COMP_MAX_SAMPLER &&& VP_COMP_SAMPLER_LUMAKEY = VP_COMP_SAMPLER_LUMAKEY ∧
    VP_COMP_SAMPLER_LUMAKEY ≠ 0 ∧ VP_COMP_MAX_SAMPLER ≠ 0 ∧
    ¬ samplerOffers3D VP_COMP_SAMPLER_LUMAKEY := by
  refine ⟨by decide, by decide, by decide, ?_⟩
  unfold samplerOffers3D
  decide

theorem mask_branch_ne_zero (c1 c2 c3 : Prop) [Decidable c1] [Decidable c2] [Decidable c3]
    (s5 : Nat) (h5 : s5 ≠ 0) (h3 : c3 → s5 = VP_COMP_MAX_SAMPLER) :
    (if c1 then s5
     else if c2 then s5
     else if c3 then s5 &&& VP_COMP_SAMPLER_LUMAKEY
     else if samplerOffers3D s5 then
       s5 &&& (VP_COMP_SAMPLER_BILINEAR ||| VP_COMP_SAMPLER_NEAREST)
     else s5) ≠ 0 := by
  obtain ⟨hm1, hm2, -, -⟩ := lumakey_mask_of_max
  by_cases k1 : c1
  · rw [if_pos k1]; exact h5
  rw [if_neg k1]
  by_cases k2 : c2
  · rw [if_pos k2]; exact h5
  rw [if_neg k2]
  by_cases k3 : c3
  · rw [if_pos k3, h3 k3, hm1]; exact hm2
  rw [if_neg k3]
  by_cases k4 : samplerOffers3D s5
  · rw [if_pos k4]; exact k4
  · rw [if_neg k4]; exact h5

/-- A non-empty mask is non-empty after a call of `AddInputLayerForProcess`. -/
theorem Add_sampler_ne_zero (self : PolicyFcHandler) (res : ResCounter)
    (idxs : List Nat) (m : VPHAL_SCALING_MODE) (i : Nat) (input : VP_SURFACE)
    (pipe : SwFilterSubPipe) (output : VP_SURFACE) (h0 : res.sampler ≠ 0) :
    (AddInputLayerForProcess self res idxs m i input pipe output).m_resCounter.sampler ≠ 0 := by
  obtain ⟨-, -, hm3, -⟩ := lumakey_mask_of_max
  by_cases h : pipe.lumakey.isSome = true ∧
      ((decrementCounters res input pipe).lumaKeys < 0 ∨ idxs.length > 1)
  · obtain ⟨-, -, -, -, he⟩ := Add_sampler_of_lumakey_reject self res idxs m i input pipe output h
    obtain ⟨-, -, -, -, -, d6⟩ := decrementCounters_fields res input pipe
    rw [he, d6]
    exact h0
  · rw [Add_sampler_of_selected self res idxs m i input pipe output h]
    apply mask_branch_ne_zero
    · split_ifs
      · exact hm3
      · exact h0
    · rintro ⟨-, hl, hpos, -⟩
      have hn : ¬ idxs.length > 1 := fun hc => h ⟨hl, Or.inr hc⟩
      have h1 : idxs.length = 1 := by omega
      rw [if_pos ⟨hl, h1⟩]

/-- Why a call rejects its layer when the mask is non-empty on entry: the luma-key position
rule, or a counter that went negative. -/
theorem Add_reject_cause (self : PolicyFcHandler) (res : ResCounter)
    (idxs : List Nat) (m : VPHAL_SCALING_MODE) (i : Nat) (input : VP_SURFACE)
    (pipe : SwFilterSubPipe) (output : VP_SURFACE) (h0 : res.sampler ≠ 0)
    (hs : (AddInputLayerForProcess self res idxs m i input pipe output).bSkip = true) :
    ((AddInputLayerForProcess self res idxs m i input pipe output).pipe.lumakey.isSome = true ∧
      (AddInputLayerForProcess self res idxs m i input pipe output).layerIndexes.length > 1) ∨
    (AddInputLayerForProcess self res idxs m i input pipe output).m_resCounter.layers < 0 ∨
    (AddInputLayerForProcess self res idxs m i input pipe output).m_resCounter.palettes < 0 ∨
    (AddInputLayerForProcess self res idxs m i input pipe output).m_resCounter.procamp < 0 ∨
    (AddInputLayerForProcess self res idxs m i input pipe output).m_resCounter.lumaKeys < 0 ∨
    (AddInputLayerForProcess self res idxs m i input pipe output).m_resCounter.avs < 0 := by
  have hne := Add_sampler_ne_zero self res idxs m i input pipe output h0
  rcases Add_cases self res idxs m i input pipe output with
    ⟨⟨hl, hor⟩, he⟩ | ⟨⟨_, h2⟩, he⟩ | ⟨_, he⟩
  · rw [he]
    tauto
  · rw [he] at hne ⊢
    unfold overBudget at h2
    right
    tauto
  · rw [he] at hs
    simp at hs

/-- C30: during a selection pass that starts from a filter-mode mask equal to
`VP_COMP_MAX_SAMPLER`, the mask is non-empty after every call of `AddInputLayerForProcess`,
and a call that rejects its layer does so by the luma-key position rule (a luma-key layer
with more than one layer admitted) or with a counter that went negative. The pass of
`LayerSelectForProcess` is such a pass: the counters it returns are those of its last call,
and their mask is non-empty. -/
theorem LayerSelectForProcess_mask_nonempty (self : PolicyFcHandler) (output : VP_SURFACE)
    (layers : List FcInputLayer) (res : ResCounter)
    (hmask : res.sampler = VP_COMP_MAX_SAMPLER) :
    (∀ r ∈ passCalls self output layers 0 [] res,
      r.m_resCounter.sampler ≠ 0 ∧
      (r.bSkip = true →
        (r.pipe.lumakey.isSome = true ∧ r.layerIndexes.length > 1) ∨
        r.m_resCounter.layers < 0 ∨ r.m_resCounter.palettes < 0 ∨
        r.m_resCounter.procamp < 0 ∨ r.m_resCounter.lumaKeys < 0 ∨
        r.m_resCounter.avs < 0)) ∧
    (∀ inputs : List (Option FcInputLayer),
      ∃ rr, LayerSelectForProcess self { inputs := inputs, output := some output } = .ok rr ∧
        rr.m_resCounter =
          ((passCalls self output (candidateLayers inputs) 0 []
            (ResCounter.Reset self.limits self.isAvsSamplerSupported)).getLast?.map
              (fun r => r.m_resCounter)).getD
            (ResCounter.Reset self.limits self.isAvsSamplerSupported) ∧
        (ResCounter.Reset self.limits self.isAvsSamplerSupported).sampler
          = VP_COMP_MAX_SAMPLER ∧
        rr.m_resCounter.sampler ≠ 0) := by
  have hm3 : VP_COMP_MAX_SAMPLER ≠ 0 := lumakey_mask_of_max.2.2.1
  have hall : ∀ (layers : List FcInputLayer) (res : ResCounter), res.sampler ≠ 0 →
      ∀ r ∈ passCalls self output layers 0 [] res,
        r.m_resCounter.sampler ≠ 0 ∧
        (r.bSkip = true →
          (r.pipe.lumakey.isSome = true ∧ r.layerIndexes.length > 1) ∨
          r.m_resCounter.layers < 0 ∨ r.m_resCounter.palettes < 0 ∨
          r.m_resCounter.procamp < 0 ∨ r.m_resCounter.lumaKeys < 0 ∨
          r.m_resCounter.avs < 0) := by
    intro layers res hres
    apply passCalls_forall self output (fun _ res => res.sampler ≠ 0)
    · intro res idxs i layer hinv
      have hne := Add_sampler_ne_zero self res idxs VPHAL_SCALING_NEAREST i layer.surf
        layer.subpipe output hinv
      exact ⟨⟨hne, Add_reject_cause self res idxs VPHAL_SCALING_NEAREST i layer.surf
        layer.subpipe output hinv⟩, fun _ => hne⟩
    · exact hres
  refine ⟨hall layers res (by rw [hmask]; exact hm3), ?_⟩
  intro inputs
  have hreset : (ResCounter.Reset self.limits self.isAvsSamplerSupported).sampler
      = VP_COMP_MAX_SAMPLER := rfl
  have hlast := (selectScan_last_call self output (candidateLayers inputs) 0 []
    (ResCounter.Reset self.limits self.isAvsSamplerSupported) false).2
  refine ⟨_, LayerSelectForProcess_eq self inputs output, ?_, hreset, ?_⟩
  · simp only [selectOutcome]
    exact hlast
  · simp only [selectOutcome]
    rw [hlast]
    cases hp : (passCalls self output (candidateLayers inputs) 0 []
        (ResCounter.Reset self.limits self.isAvsSamplerSupported)).getLast? with
    | none =>
      simp only [Option.map_none', Option.getD_none]
      rw [hreset]
      exact hm3
    | some r =>
      simp only [Option.map_some', Option.getD_some]
      exact (hall (candidateLayers inputs) _ (by rw [hreset]; exact hm3) r
        (List.mem_of_getLast?_eq_some hp)).1

/-- Witness of `LayerSelectForProcess_mask_nonempty`: the pass over a plain layer, a luma-key
layer and two plain layers from the freshly reset counters; the last call rejects its layer
with the AVS counter at -1 and the mask still holding the luma-key bit. -/
theorem LayerSelectForProcess_mask_nonempty_witness :
    (ResCounter.Reset exampleLimits true).sampler = VP_COMP_MAX_SAMPLER ∧
    (passCalls (exampleHandler true) exampleOutput
        [plainLayer, lumakeyLayer, plainLayer, plainLayer] 0 []
        (ResCounter.Reset exampleLimits true)).map
          (fun r => (r.bSkip, r.m_resCounter.sampler, r.m_resCounter.avs))
      = [(false, 3, 1), (false, 4, 1), (false, 4, 0), (true, 4, -1)] ∧
    ∀ r ∈ passCalls (exampleHandler true) exampleOutput
        [plainLayer, lumakeyLayer, plainLayer, plainLayer] 0 []
        (ResCounter.Reset exampleLimits true),
      r.m_resCounter.sampler ≠ 0 :=
  ⟨rfl, by decide, fun r hr =>
    ((LayerSelectForProcess_mask_nonempty (exampleHandler true) exampleOutput
      [plainLayer, lumakeyLayer, plainLayer, plainLayer] (ResCounter.Reset exampleLimits true)
      rfl).1 r hr).1⟩

/-! ## The mask after a luma-key layer -/

/-- C22 (counterexample): a luma-key layer evaluated first in a pass, from the freshly reset
counters, is admitted and leaves the mask nearest | bilinear: both bits are in the mask and
the luma-key bit is not. -/
theorem AddInputLayerForProcess_first_lumakey_keeps_3d_mask :
    hasLumakey lumakeyLayer = true ∧
    (AddInputLayerForProcess (exampleHandler true) (ResCounter.Reset exampleLimits true) []
        VPHAL_SCALING_NEAREST 0 lumakeyLayer.surf lumakeyLayer.subpipe exampleOutput).bSkip
      = false ∧
    (AddInputLayerForProcess (exampleHandler true) (ResCounter.Reset exampleLimits true) []
        VPHAL_SCALING_NEAREST 0 lumakeyLayer.surf lumakeyLayer.subpipe
        exampleOutput).m_resCounter.sampler
      = VP_COMP_SAMPLER_NEAREST ||| VP_COMP_SAMPLER_BILINEAR ∧
    (VP_COMP_SAMPLER_NEAREST ||| VP_COMP_SAMPLER_BILINEAR) &&& VP_COMP_SAMPLER_NEAREST ≠ 0 ∧
    (VP_COMP_SAMPLER_NEAREST ||| VP_COMP_SAMPLER_BILINEAR) &&& VP_COMP_SAMPLER_BILINEAR ≠ 0 ∧
    (VP_COMP_SAMPLER_NEAREST ||| VP_COMP_SAMPLER_BILINEAR) &&& VP_COMP_SAMPLER_LUMAKEY = 0 ∧
    (∃ r, LayerSelectForProcess (exampleHandler true)
        { inputs := [some lumakeyLayer], output := some exampleOutput } = .ok r ∧
      r.layerIndexes = [0] ∧
      r.m_resCounter.sampler = VP_COMP_SAMPLER_NEAREST ||| VP_COMP_SAMPLER_BILINEAR) := by
  refine ⟨by decide, by decide, by decide, by decide, by decide, by decide, ?_⟩
  exact ⟨_, rfl, by decide, by decide⟩

/-- C22 (amended): the mask after an admitted luma-key layer. When the layer is the very
first of the pass (no layer admitted before it) the mask is not restricted to the luma-key
mode: it is the mask on entry, intersected with nearest | bilinear when sampler selection is
not bypassed and the mask offers one of the two, so a mask that offers nearest or bilinear
still does. When exactly one layer is admitted before it, the AVS sampler is supported and
the format is not PL3, the mask is restricted to the luma-key mode only: it is the luma-key
bit alone and contains neither the nearest nor the bilinear bit. -/
theorem AddInputLayerForProcess_lumakey_mask (self : PolicyFcHandler) (res : ResCounter)
    (idxs : List Nat) (m : VPHAL_SCALING_MODE) (i : Nat) (input : VP_SURFACE)
    (pipe : SwFilterSubPipe) (output : VP_SURFACE) :
    (pipe.lumakey.isSome = true → idxs.length = 0 →
      (AddInputLayerForProcess self res idxs m i input pipe output).bSkip = false →
      (AddInputLayerForProcess self res idxs m i input pipe output).m_resCounter.sampler =
          (if (!self.isAvsSamplerSupported && pipe.scaling.isNone) = true then res.sampler
           else if samplerOffers3D res.sampler then
             res.sampler &&& (VP_COMP_SAMPLER_BILINEAR ||| VP_COMP_SAMPLER_NEAREST)
           else res.sampler) ∧
        (samplerOffers3D res.sampler →
          samplerOffers3D
            (AddInputLayerForProcess self res idxs m i input pipe output).m_resCounter.sampler)) ∧
    (pipe.lumakey.isSome = true → idxs.length = 1 →
      self.isAvsSamplerSupported = true →
      self.formats.IS_PL3_FORMAT input.osSurface.Format = false →
      (AddInputLayerForProcess self res idxs m i input pipe output).bSkip = false →
      (AddInputLayerForProcess self res idxs m i input pipe output).m_resCounter.sampler =
          VP_COMP_SAMPLER_LUMAKEY ∧
        ¬ samplerOffers3D
          (AddInputLayerForProcess self res idxs m i input pipe output).m_resCounter.sampler) := by
  obtain ⟨hm1, -, -, hm4⟩ := lumakey_mask_of_max
  constructor
  · intro hl hn hs
    have hsel := ((Add_bSkip_false_iff self res idxs m i input pipe output).mp hs).1
    have hnone : ¬ pipe.lumakey.isNone = true := by
      cases hp : pipe.lumakey with
      | none => rw [hp] at hl; exact absurd hl (by simp)
      | some l => simp
    have key : (AddInputLayerForProcess self res idxs m i input pipe output).m_resCounter.sampler =
        (if (!self.isAvsSamplerSupported && pipe.scaling.isNone) = true then res.sampler
         else if samplerOffers3D res.sampler then
           res.sampler &&& (VP_COMP_SAMPLER_BILINEAR ||| VP_COMP_SAMPLER_NEAREST)
         else res.sampler) := by
      rw [Add_sampler_of_selected self res idxs m i input pipe output hsel]
      have h1 : ¬ (pipe.lumakey.isSome = true ∧ idxs.length = 1) := by
        rintro ⟨-, hc⟩; omega
      have h2 : ¬ (pipe.scaling.isSome = true ∧ VPHAL_SCALING_AVS = requestedMode self pipe ∧
          pipe.lumakey.isNone = true ∧
          IsBobDiEnabled (pipeAfterFieldCheck input pipe).di input = false) := by
        rintro ⟨-, -, hc, -⟩; exact hnone hc
      have h3 : ¬ (self.isAvsSamplerSupported = true ∧ pipe.lumakey.isSome = true ∧
          idxs.length > 0 ∧ self.formats.IS_PL3_FORMAT input.osSurface.Format = false) := by
        rintro ⟨-, -, hc, -⟩; omega
      simp only [if_neg h1, if_neg h2, if_neg h3]
    refine ⟨key, ?_⟩
    intro ho
    rw [key]
    split_ifs
    · exact ho
    · exact samplerOffers3D_and _ ho
  · intro hl hn ha hpl hs
    have hsel := ((Add_bSkip_false_iff self res idxs m i input pipe output).mp hs).1
    have hnone : ¬ pipe.lumakey.isNone = true := by
      cases hp : pipe.lumakey with
      | none => rw [hp] at hl; exact absurd hl (by simp)
      | some l => simp
    have key : (AddInputLayerForProcess self res idxs m i input pipe output).m_resCounter.sampler =
        VP_COMP_SAMPLER_LUMAKEY := by
      rw [Add_sampler_of_selected self res idxs m i input pipe output hsel]
      have h0 : ¬ ((!self.isAvsSamplerSupported && pipe.scaling.isNone) = true) := by
        rw [ha]; simp
      have h1 : pipe.lumakey.isSome = true ∧ idxs.length = 1 := ⟨hl, hn⟩
      have h2 : ¬ (pipe.scaling.isSome = true ∧ VPHAL_SCALING_AVS = requestedMode self pipe ∧
          pipe.lumakey.isNone = true ∧
          IsBobDiEnabled (pipeAfterFieldCheck input pipe).di input = false) := by
        rintro ⟨-, -, hc, -⟩; exact hnone hc
      have h3 : self.isAvsSamplerSupported = true ∧ pipe.lumakey.isSome = true ∧
          idxs.length > 0 ∧ self.formats.IS_PL3_FORMAT input.osSurface.Format = false :=
        ⟨ha, hl, by omega, hpl⟩
      simp only [if_neg h0, if_pos h1, if_neg h2, if_pos h3]
      exact hm1
    rw [key]
    exact ⟨rfl, hm4⟩

/-- A luma-key layer admitted as the second layer of a pass leaves the luma-key bit alone in
the mask. -/
theorem AddInputLayerForProcess_lumakey_mask_example :
    ∃ r, LayerSelectForProcess (exampleHandler true)
        { inputs := [some plainLayer, some lumakeyLayer], output := some exampleOutput } = .ok r ∧
      r.layerIndexes = [0, 1] ∧ r.m_resCounter.sampler = VP_COMP_SAMPLER_LUMAKEY :=
  ⟨_, rfl, by decide, by decide⟩

/-! ## The luma-key rule -/

/-- C21: in `AddInputLayerForProcess` a candidate that requests a luma key is rejected
whenever the luma-key counter is negative after its decrement or more than one layer has
already been admitted, and the pass of `LayerSelectForProcess` stops at a rejecting call (it is
the last call, and the admitted list returned is the one that call leaves). Hence a luma-key
layer is admitted at pass-local position 0 or 1 only, and no pass admits more luma-key layers
than the initial luma-key counter. -/
theorem LayerSelectForProcess_lumakey_rule (self : PolicyFcHandler)
    (inputs : List (Option FcInputLayer)) (output : VP_SURFACE) :
    (∀ (res : ResCounter) (idxs : List Nat) (m : VPHAL_SCALING_MODE) (i : Nat)
        (input : VP_SURFACE) (pipe : SwFilterSubPipe),
      pipe.lumakey.isSome = true → (res.lumaKeys - 1 < 0 ∨ idxs.length > 1) →
      (AddInputLayerForProcess self res idxs m i input pipe output).bSkip = true ∧
      (AddInputLayerForProcess self res idxs m i input pipe output).layerIndexes = idxs) ∧
    (∀ (pre : List AddInputLayerResult) (r : AddInputLayerResult)
        (post : List AddInputLayerResult),
      passCalls self output (candidateLayers inputs) 0 []
          (ResCounter.Reset self.limits self.isAvsSamplerSupported) = pre ++ r :: post →
      r.bSkip = true → post = []) ∧
    (∃ r, LayerSelectForProcess self { inputs := inputs, output := some output } = .ok r ∧
      r.layerIndexes =
        ((passCalls self output (candidateLayers inputs) 0 []
          (ResCounter.Reset self.limits self.isAvsSamplerSupported)).getLast?.map
            (fun c => c.layerIndexes)).getD [] ∧
      r.layerIndexes = List.range' 0 (admittedLayers r).length ∧
      (∀ layer ∈ (admittedLayers r).drop 2, hasLumakey layer = false) ∧
      ((List.countP hasLumakey (admittedLayers r) : Nat) : Int) ≤
        (ResCounter.Reset self.limits self.isAvsSamplerSupported).lumaKeys ∧
      (ResCounter.Reset self.limits self.isAvsSamplerSupported).lumaKeys =
        self.limits.VP_COMP_MAX_LUMA_KEY) := by
  refine ⟨?_, ?_, ?_⟩
  · intro res idxs m i input pipe hl hor
    have hrej := (lumakeyReject_iff res idxs input pipe).mpr
      ⟨hl, hor.imp (fun h => by omega) id⟩
    obtain ⟨h1, h2, -⟩ := Add_sampler_of_lumakey_reject self res idxs m i input pipe output hrej
    exact ⟨h1, h2⟩
  · intro pre r post hc hs
    exact passCalls_skip_last self output _ _ _ _ pre r post hc hs
  · refine ⟨_, LayerSelectForProcess_eq self inputs output, ?_, ?_, ?_, ?_, rfl⟩
    · simp only [selectOutcome]
      exact (selectScan_last_call self output (candidateLayers inputs) 0 []
        (ResCounter.Reset self.limits self.isAvsSamplerSupported) false).1
    · obtain ⟨k, hk, hidx, hscan, hadm⟩ :=
        admittedLayers_selectOutcome self output (candidateLayers inputs)
      obtain ⟨k2, hk2, -, hlen2, -, -⟩ := selectScan_indexes self output (candidateLayers inputs)
        0 [] (ResCounter.Reset self.limits self.isAvsSamplerSupported) false
      have hlen : (admittedLayers (selectOutcome self output (candidateLayers inputs))).length
          = k := by
        rcases hadm with h | h
        · rw [h, List.length_take]; omega
        · rw [h, List.length_map, List.length_take]; omega
      rw [hlen, hidx]
    · obtain ⟨k, -, -, hscan, hadm⟩ :=
        admittedLayers_selectOutcome self output (candidateLayers inputs)
      obtain ⟨k1, hidx1, hl⟩ := selectScan_lumakey self output (candidateLayers inputs) 0 []
        (ResCounter.Reset self.limits self.isAvsSamplerSupported) false
      simp only [List.nil_append, List.length_nil, Nat.sub_zero] at hidx1 hl
      have hk : k1 = k := range'_zero_inj k1 k (hidx1.symm.trans hscan)
      subst hk
      intro layer hmem
      rcases hadm with h | h
      · rw [h] at hmem
        exact hl layer hmem
      · rw [h, ← List.map_drop, List.mem_map] at hmem
        obtain ⟨l0, hl0, he⟩ := hmem
        rw [← he, hasLumakey_force]
        exact hl l0 hl0
    · obtain ⟨k, -, hidx, hscan, hadm⟩ :=
        admittedLayers_selectOutcome self output (candidateLayers inputs)
      obtain ⟨k1, hidx1, -, -, -, hb4, -⟩ :=
        selectScan_budget self output (candidateLayers inputs) 0 []
          (ResCounter.Reset self.limits self.isAvsSamplerSupported) false
          (budgetNonneg_Reset self.limits self.isAvsSamplerSupported)
      simp only [List.nil_append] at hidx1
      have hk : k1 = k := range'_zero_inj k1 k (hidx1.symm.trans hscan)
      subst hk
      rcases hadm with h | h
      · rw [h]; exact hb4
      · rw [h, countP_map_force hasLumakey hasLumakey_force]; exact hb4

/-- The luma-key rule at work: of a plain layer, a luma-key layer, a plain layer and a second
luma-key layer, the first three are admitted and the fourth call rejects. -/
theorem LayerSelectForProcess_lumakey_rule_example :
    ∃ r, LayerSelectForProcess (exampleHandler true)
        { inputs := [some plainLayer, some lumakeyLayer, some plainLayer, some lumakeyLayer],
          output := some exampleOutput } = .ok r ∧
      r.layerIndexes = [0, 1, 2] ∧
      (admittedLayers r).map hasLumakey = [false, true, false] :=
  ⟨_, rfl, by decide, by decide⟩

/-! ## Passes without AVS hardware -/

/-- The mode `selectSampler` resolves, branch by branch. -/
theorem selectSampler_mode (self : PolicyFcHandler) (res5 : ResCounter) (n : Nat)
    (input : VP_SURFACE) (pipe : SwFilterSubPipe) (output : VP_SURFACE) :
    (selectSampler self res5 n input pipe output).1 =
      if (!self.isAvsSamplerSupported && pipe.scaling.isNone) = true then requestedMode self pipe
      else if pipe.scaling.isSome = true ∧ VPHAL_SCALING_AVS = requestedMode self pipe ∧
          pipe.lumakey.isNone = true ∧
          IsBobDiEnabled (pipeAfterFieldCheck input pipe).di input = false then
        requestedMode self pipe
      else if self.isAvsSamplerSupported = true ∧ pipe.lumakey.isSome = true ∧ n > 0 ∧
          self.formats.IS_PL3_FORMAT input.osSurface.Format = false then
        Get3DSamplerScalingMode self.formats (pipeAfterFieldCheck input pipe) n input output
      else if samplerOffers3D res5.sampler then
        Get3DSamplerScalingMode self.formats (pipeAfterFieldCheck input pipe) n input output
      else
        VPHAL_SCALING_AVS := by
  unfold selectSampler samplerOffers3D
  simp only []
  split_ifs <;> rfl

theorem requestedMode_ne_avs (self : PolicyFcHandler) (pipe : SwFilterSubPipe)
    (h : self.isAvsSamplerSupported = false) : VPHAL_SCALING_AVS ≠ requestedMode self pipe := by
  unfold requestedMode
  simp only [h, true_and]
  split_ifs with hc
  · exact fun hx => VPHAL_SCALING_MODE.noConfusion hx
  · exact hc

theorem Get3DSamplerScalingMode_cases (fm : FormatMacros) (pipe : SwFilterSubPipe) (n : Nat)
    (input output : VP_SURFACE) :
    Get3DSamplerScalingMode fm pipe n input output = VPHAL_SCALING_NEAREST ∨
    Get3DSamplerScalingMode fm pipe n input output = VPHAL_SCALING_BILINEAR := by
  unfold Get3DSamplerScalingMode
  simp only []
  split_ifs
  · exact Or.inl rfl
  · exact Or.inr rfl

/-- The scaling mode and the counters of a call that passes the luma-key test are those of
the sampler selection. -/
theorem Add_of_selected (self : PolicyFcHandler) (res : ResCounter)
    (idxs : List Nat) (m : VPHAL_SCALING_MODE) (i : Nat) (input : VP_SURFACE)
    (pipe : SwFilterSubPipe) (output : VP_SURFACE)
    (h : ¬ (pipe.lumakey.isSome = true ∧
      ((decrementCounters res input pipe).lumaKeys < 0 ∨ idxs.length > 1))) :
    (AddInputLayerForProcess self res idxs m i input pipe output).scalingMode =
      (selectSampler self
        (resetSamplerForLumakey (decrementCounters res input pipe) idxs.length pipe)
        idxs.length input pipe output).1 ∧
    (AddInputLayerForProcess self res idxs m i input pipe output).m_resCounter =
      (selectSampler self
        (resetSamplerForLumakey (decrementCounters res input pipe) idxs.length pipe)
        idxs.length input pipe output).2 ∧
    ((AddInputLayerForProcess self res idxs m i input pipe output).bSkip = true ↔
      overBudget (selectSampler self
        (resetSamplerForLumakey (decrementCounters res input pipe) idxs.length pipe)
        idxs.length input pipe output).2) := by
  rcases Add_cases self res idxs m i input pipe output with
    ⟨h1, _⟩ | ⟨⟨_, h2⟩, he⟩ | ⟨⟨_, h2⟩, he⟩
  · exact absurd h1 h
  · rw [he]
    exact ⟨rfl, rfl, fun _ => h2, fun _ => rfl⟩
  · rw [he]
    refine ⟨rfl, rfl, fun hc => ?_, fun hc => absurd hc h2⟩
    simp at hc

/-- The AVS counter never grows in a call. -/
theorem Add_avs_le (self : PolicyFcHandler) (res : ResCounter)
    (idxs : List Nat) (m : VPHAL_SCALING_MODE) (i : Nat) (input : VP_SURFACE)
    (pipe : SwFilterSubPipe) (output : VP_SURFACE) :
    (AddInputLayerForProcess self res idxs m i input pipe output).m_resCounter.avs ≤ res.avs := by
  obtain ⟨-, -, -, -, d5, -⟩ := decrementCounters_fields res input pipe
  obtain ⟨-, -, -, -, r5, -⟩ :=
    resetSamplerForLumakey_fields (decrementCounters res input pipe) idxs.length pipe
  obtain ⟨-, -, -, -, s5, -, -⟩ := selectSampler_fields self
    (resetSamplerForLumakey (decrementCounters res input pipe) idxs.length pipe)
    idxs.length input pipe output
  by_cases h : pipe.lumakey.isSome = true ∧
      ((decrementCounters res input pipe).lumaKeys < 0 ∨ idxs.length > 1)
  · obtain ⟨-, -, -, -, he⟩ := Add_sampler_of_lumakey_reject self res idxs m i input pipe output h
    rw [he, d5]
  · rw [(Add_of_selected self res idxs m i input pipe output h).2.1]
    omega

/-- Without AVS hardware and with an AVS counter that is not positive, the mode resolved for
an admitted layer is nearest for a layer without scaling filter and the mode of
`Get3DSamplerScalingMode` otherwise. -/
theorem Add_mode_without_avs (self : PolicyFcHandler) (res : ResCounter)
    (idxs : List Nat) (m : VPHAL_SCALING_MODE) (i : Nat) (input : VP_SURFACE)
    (pipe : SwFilterSubPipe) (output : VP_SURFACE)
    (havs : self.isAvsSamplerSupported = false) (hres : res.avs ≤ 0)
    (hs : (AddInputLayerForProcess self res idxs m i input pipe output).bSkip = false) :
    (AddInputLayerForProcess self res idxs m i input pipe output).scalingMode =
      (if pipe.scaling.isNone = true then VPHAL_SCALING_NEAREST
       else Get3DSamplerScalingMode self.formats (pipeAfterFieldCheck input pipe) idxs.length
         input output) := by
  obtain ⟨hsel, hnb⟩ := (Add_bSkip_false_iff self res idxs m i input pipe output).mp hs
  obtain ⟨hmode, -, -⟩ := Add_of_selected self res idxs m i input pipe output hsel
  obtain ⟨-, -, -, -, d5, -⟩ := decrementCounters_fields res input pipe
  obtain ⟨-, -, -, -, r5, -⟩ :=
    resetSamplerForLumakey_fields (decrementCounters res input pipe) idxs.length pipe
  rw [hmode, selectSampler_mode]
  rw [selectSampler_res] at hnb
  have hreq := requestedMode_ne_avs self pipe havs
  have h2 : ¬ (pipe.scaling.isSome = true ∧ VPHAL_SCALING_AVS = requestedMode self pipe ∧
      pipe.lumakey.isNone = true ∧
      IsBobDiEnabled (pipeAfterFieldCheck input pipe).di input = false) := by
    rintro ⟨-, hc, -⟩; exact hreq hc
  have h3 : ¬ (self.isAvsSamplerSupported = true ∧ pipe.lumakey.isSome = true ∧
      idxs.length > 0 ∧ self.formats.IS_PL3_FORMAT input.osSurface.Format = false) := by
    rintro ⟨hc, -⟩; rw [havs] at hc; exact Bool.noConfusion hc
  rw [if_neg h2, if_neg h3] at hnb ⊢
  cases hsc : pipe.scaling with
  | none =>
    have hb : (!self.isAvsSamplerSupported && (none : Option SwFilterScaling).isNone) = true := by
      rw [havs]; rfl
    rw [if_pos hb]
    simp only [Option.isNone_none, if_true]
    exact requestedMode_none self pipe hsc
  | some s =>
    have hb : ¬ (!self.isAvsSamplerSupported && (some s : Option SwFilterScaling).isNone)
        = true := by
      simp
    rw [hsc] at hnb
    rw [if_neg hb] at hnb ⊢
    simp only [Option.isNone_some, Bool.false_eq_true, if_false]
    by_cases ho : samplerOffers3D (resetSamplerForLumakey (decrementCounters res input pipe)
        idxs.length pipe).sampler
    · rw [if_pos ho]
    · rw [if_neg ho] at hnb
      exfalso
      apply hnb
      unfold overBudget
      refine Or.inr (Or.inr (Or.inr (Or.inr (Or.inl ?_))))
      simp only []
      omega

/-- C23 (counterexample): without AVS hardware, a progressive layer at unity scale whose
scaling filter requests AVS is admitted with nearest, not bilinear, as its recorded mode, and
the selection over the pipe of that layer alone returns it so. -/
theorem AddInputLayerForProcess_avs_request_resolves_nearest :
    avsRequestLayer.subpipe.scaling = some { scalingMode := VPHAL_SCALING_AVS } ∧
    (AddInputLayerForProcess (exampleHandler false) (ResCounter.Reset exampleLimits false) []
        VPHAL_SCALING_NEAREST 0 avsRequestLayer.surf avsRequestLayer.subpipe exampleOutput).bSkip
      = false ∧
    (AddInputLayerForProcess (exampleHandler false) (ResCounter.Reset exampleLimits false) []
        VPHAL_SCALING_NEAREST 0 avsRequestLayer.surf avsRequestLayer.subpipe
        exampleOutput).scalingMode = VPHAL_SCALING_NEAREST ∧
    (AddInputLayerForProcess (exampleHandler false) (ResCounter.Reset exampleLimits false) []
        VPHAL_SCALING_NEAREST 0 avsRequestLayer.surf avsRequestLayer.subpipe
        exampleOutput).pipe.scaling = some { scalingMode := VPHAL_SCALING_NEAREST } ∧
    (∃ r, LayerSelectForProcess (exampleHandler false)
        { inputs := [some avsRequestLayer], output := some exampleOutput } = .ok r ∧
      r.layerIndexes = [0] ∧
      (admittedLayers r).map recordedMode = [some VPHAL_SCALING_NEAREST]) := by
  refine ⟨rfl, by decide, by decide, by decide, ?_⟩
  exact ⟨_, rfl, by decide, by decide⟩

/-- C23 (amended): when AVS hardware is unsupported (and the AVS counter is not positive, as
it is throughout a pass that `Reset` starts without AVS hardware), an admitted layer whose
scaling feature requested AVS mode has the mode of `Get3DSamplerScalingMode` recorded as its
resolved scaling mode: the request is first replaced by bilinear and then by the 3D-sampler
mode of the layer, which is nearest or bilinear and never AVS. The AVS counter is still not
positive after the call. -/
theorem AddInputLayerForProcess_avs_request_without_avs (self : PolicyFcHandler)
    (res : ResCounter) (idxs : List Nat) (m : VPHAL_SCALING_MODE) (i : Nat) (input : VP_SURFACE)
    (pipe : SwFilterSubPipe) (output : VP_SURFACE) (s : SwFilterScaling)
    (havs : self.isAvsSamplerSupported = false) (hres : res.avs ≤ 0)
    (hreq : pipe.scaling = some s) (hmode : s.scalingMode = VPHAL_SCALING_AVS)
    (hs : (AddInputLayerForProcess self res idxs m i input pipe output).bSkip = false) :
    requestedMode self pipe = VPHAL_SCALING_BILINEAR ∧
    (AddInputLayerForProcess self res idxs m i input pipe output).scalingMode =
      Get3DSamplerScalingMode self.formats (pipeAfterFieldCheck input pipe) idxs.length
        input output ∧
    (∃ s1, (AddInputLayerForProcess self res idxs m i input pipe output).pipe.scaling = some s1 ∧
      s1.scalingMode = Get3DSamplerScalingMode self.formats (pipeAfterFieldCheck input pipe)
        idxs.length input output) ∧
    (Get3DSamplerScalingMode self.formats (pipeAfterFieldCheck input pipe) idxs.length
        input output = VPHAL_SCALING_NEAREST ∨
      Get3DSamplerScalingMode self.formats (pipeAfterFieldCheck input pipe) idxs.length
        input output = VPHAL_SCALING_BILINEAR) ∧
    (AddInputLayerForProcess self res idxs m i input pipe output).m_resCounter.avs ≤ 0 ∧
    (ResCounter.Reset self.limits self.isAvsSamplerSupported).avs = 0 := by
  have hm := Add_mode_without_avs self res idxs m i input pipe output havs hres hs
  rw [hreq] at hm
  simp only [Option.isNone_some, Bool.false_eq_true, if_false] at hm
  have hrec := Add_recorded_mode self res idxs m i input pipe output hs
  have hle := Add_avs_le self res idxs m i input pipe output
  refine ⟨?_, hm, ?_, Get3DSamplerScalingMode_cases _ _ _ _ _, by omega, ?_⟩
  · unfold requestedMode
    simp [hreq, hmode, havs]
  · rcases Add_cases self res idxs m i input pipe output with
      ⟨_, he⟩ | ⟨_, he⟩ | ⟨_, he⟩
    · rw [he] at hs; simp at hs
    · rw [he] at hs; simp at hs
    · have hsome : ∃ s0, (pipeAfterFieldCheck input pipe).scaling = some s0 := by
        unfold pipeAfterFieldCheck
        simp only [hreq]
        split_ifs
        · exact ⟨_, rfl⟩
        · exact ⟨_, rfl⟩
      obtain ⟨s0, hs0⟩ := hsome
      have hex : ∃ s1, (AddInputLayerForProcess self res idxs m i input pipe output).pipe.scaling
          = some s1 := by
        rw [he]
        simp only [hs0, Option.map_some']
        exact ⟨_, rfl⟩
      obtain ⟨s1, hs1⟩ := hex
      exact ⟨s1, hs1, (hrec s1 hs1).trans hm⟩
  · unfold ResCounter.Reset
    simp [havs]

/-- Witness of `AddInputLayerForProcess_avs_request_without_avs`: the layer of the
counterexample, evaluated first in a pass without AVS hardware. -/
theorem AddInputLayerForProcess_avs_request_without_avs_witness :
    (exampleHandler false).isAvsSamplerSupported = false ∧
    (ResCounter.Reset exampleLimits false).avs ≤ 0 ∧
    (AddInputLayerForProcess (exampleHandler false) (ResCounter.Reset exampleLimits false) []
        VPHAL_SCALING_NEAREST 0 avsRequestLayer.surf avsRequestLayer.subpipe
        exampleOutput).scalingMode =
      Get3DSamplerScalingMode (exampleHandler false).formats
        (pipeAfterFieldCheck avsRequestLayer.surf avsRequestLayer.subpipe) 0
        avsRequestLayer.surf exampleOutput :=
  ⟨rfl, by decide,
    (AddInputLayerForProcess_avs_request_without_avs (exampleHandler false)
      (ResCounter.Reset exampleLimits false) [] VPHAL_SCALING_NEAREST 0 avsRequestLayer.surf
      avsRequestLayer.subpipe exampleOutput { scalingMode := VPHAL_SCALING_AVS }
      rfl (by decide) rfl rfl (by decide)).2.1⟩

/-! ## No AVS mode without AVS hardware -/

theorem resolvedModes_without_avs (self : PolicyFcHandler) (output : VP_SURFACE)
    (havs : self.isAvsSamplerSupported = false)
    (layers : List FcInputLayer) (i : Nat) (idxs : List Nat) (res : ResCounter)
    (hres : res.avs ≤ 0) :
    ∀ mode ∈ resolvedModes self output layers i idxs res,
      mode = VPHAL_SCALING_NEAREST ∨ mode = VPHAL_SCALING_BILINEAR := by
  induction layers generalizing i idxs res with
  | nil => simp [resolvedModes]
  | cons layer rest ih =>
    by_cases h : (AddInputLayerForProcess self res idxs VPHAL_SCALING_NEAREST i
        layer.surf layer.subpipe output).bSkip = true
    · rw [resolvedModes_cons_skip self output layer rest i idxs res h]
      simp
    · have h2 : (AddInputLayerForProcess self res idxs VPHAL_SCALING_NEAREST i
          layer.surf layer.subpipe output).bSkip = false := by simpa using h
      rw [resolvedModes_cons_admitted self output layer rest i idxs res h2]
      intro mode hm
      rw [List.mem_cons] at hm
      rcases hm with hm | hm
      · rw [hm, Add_mode_without_avs self res idxs VPHAL_SCALING_NEAREST i layer.surf
          layer.subpipe output havs hres h2]
        split_ifs
        · exact Or.inl rfl
        · exact Get3DSamplerScalingMode_cases _ _ _ _ _
      · have hle := Add_avs_le self res idxs VPHAL_SCALING_NEAREST i layer.surf
          layer.subpipe output
        exact ih _ _ _ (by omega) mode hm

theorem forall_of_forall₂ {α β : Type} (R : α → β → Prop) (P : α → Prop) (Q : β → Prop)
    (l1 : List α) (l2 : List β) (h : List.Forall₂ R l1 l2) (hq : ∀ b ∈ l2, Q b)
    (hr : ∀ a b, R a b → Q b → P a) : ∀ a ∈ l1, P a := by
  induction h with
  | nil => simp
  | cons hab _ ih =>
    intro a ha
    rw [List.mem_cons] at ha
    rcases ha with ha | ha
    · rw [ha]
      exact hr _ _ hab (hq _ (List.mem_cons_self _ _))
    · exact ih (fun b hb => hq b (List.mem_cons_of_mem _ hb)) a ha

theorem forceLayerBilinear_3d (layer : FcInputLayer)
    (h : ∀ s, layer.subpipe.scaling = some s →
      s.scalingMode = VPHAL_SCALING_NEAREST ∨ s.scalingMode = VPHAL_SCALING_BILINEAR) :
    ∀ s, (forceLayerBilinear layer).subpipe.scaling = some s →
      s.scalingMode = VPHAL_SCALING_NEAREST ∨ s.scalingMode = VPHAL_SCALING_BILINEAR := by
  intro s hs
  unfold forceLayerBilinear at hs
  cases hsc : layer.subpipe.scaling with
  | none => simp [hsc] at hs
  | some s0 =>
    simp only [hsc, Option.map_some', Option.some.injEq] at hs
    rw [← hs]
    split_ifs
    · exact Or.inr rfl
    · exact h s0 hsc

/-- Without AVS hardware every admitted layer of a selection carries nearest or bilinear in
its scaling filter. -/
theorem admittedLayers_without_avs (self : PolicyFcHandler) (output : VP_SURFACE)
    (havs : self.isAvsSamplerSupported = false) (cands : List FcInputLayer) :
    ∀ layer ∈ admittedLayers (selectOutcome self output cands),
      ∀ s, layer.subpipe.scaling = some s →
        s.scalingMode = VPHAL_SCALING_NEAREST ∨ s.scalingMode = VPHAL_SCALING_BILINEAR := by
  have hres : (ResCounter.Reset self.limits self.isAvsSamplerSupported).avs ≤ 0 := by
    unfold ResCounter.Reset
    simp [havs]
  obtain ⟨hlen, hrec⟩ := selectScan_recorded self output cands 0 []
    (ResCounter.Reset self.limits self.isAvsSamplerSupported) false
  have hmodes := resolvedModes_without_avs self output havs cands 0 []
    (ResCounter.Reset self.limits self.isAvsSamplerSupported) hres
  have htake := forall_of_forall₂ _
    (fun layer : FcInputLayer => ∀ s, layer.subpipe.scaling = some s →
      s.scalingMode = VPHAL_SCALING_NEAREST ∨ s.scalingMode = VPHAL_SCALING_BILINEAR)
    (fun mode => mode = VPHAL_SCALING_NEAREST ∨ mode = VPHAL_SCALING_BILINEAR)
    _ _ hrec hmodes
    (fun layer mode hR hQ s hs => by rw [hR s hs]; exact hQ)
  simp only [List.length_nil, Nat.zero_add] at hlen
  rw [← hlen] at htake
  rw [admittedLayers_selectOutcome_eq]
  split_ifs
  · intro layer hl
    rw [List.mem_map] at hl
    obtain ⟨l0, hl0, he⟩ := hl
    rw [← he]
    exact forceLayerBilinear_3d l0 (htake l0 hl0)
  · exact htake

/-- C24: when AVS hardware is unsupported the budget is reset with an AVS counter of 0, the
counter is never positive after a call of the pass, and no layer is admitted with resolved
scaling mode AVS: the mode resolved for every admitted layer is nearest or bilinear, every
admitted layer that `LayerSelectForProcess` returns carries nearest or bilinear in its scaling
filter, and a layer with a scaling filter that falls back to AVS because the filter-mode mask
has neither nearest nor bilinear is rejected, with a negative AVS counter. -/
theorem LayerSelectForProcess_without_avs (self : PolicyFcHandler)
    (inputs : List (Option FcInputLayer)) (output : VP_SURFACE)
    (havs : self.isAvsSamplerSupported = false) :
    (ResCounter.Reset self.limits self.isAvsSamplerSupported).avs = 0 ∧
    (∀ r ∈ passCalls self output (candidateLayers inputs) 0 []
        (ResCounter.Reset self.limits self.isAvsSamplerSupported),
      r.m_resCounter.avs ≤ 0 ∧
      (r.bSkip = false →
        r.scalingMode = VPHAL_SCALING_NEAREST ∨ r.scalingMode = VPHAL_SCALING_BILINEAR)) ∧
    (∃ rr, LayerSelectForProcess self { inputs := inputs, output := some output } = .ok rr ∧
      ∀ layer ∈ admittedLayers rr, ∀ s, layer.subpipe.scaling = some s →
        s.scalingMode = VPHAL_SCALING_NEAREST ∨ s.scalingMode = VPHAL_SCALING_BILINEAR) ∧
    (∀ (res : ResCounter) (idxs : List Nat) (m : VPHAL_SCALING_MODE) (i : Nat)
        (input : VP_SURFACE) (pipe : SwFilterSubPipe),
      res.avs ≤ 0 → pipe.scaling.isSome = true →
      ¬ (pipe.lumakey.isSome = true ∧ (res.lumaKeys < 1 ∨ idxs.length > 1)) →
      ¬ samplerOffers3D (if pipe.lumakey.isSome = true ∧ idxs.length = 1 then
          VP_COMP_MAX_SAMPLER else res.sampler) →
      (AddInputLayerForProcess self res idxs m i input pipe output).bSkip = true ∧
      (AddInputLayerForProcess self res idxs m i input pipe output).scalingMode
        = VPHAL_SCALING_AVS ∧
      (AddInputLayerForProcess self res idxs m i input pipe output).m_resCounter.avs < 0) := by
  have hreset : (ResCounter.Reset self.limits self.isAvsSamplerSupported).avs = 0 := by
    unfold ResCounter.Reset
    simp [havs]
  refine ⟨hreset, ?_, ?_, ?_⟩
  · apply passCalls_forall self output (fun _ res => res.avs ≤ 0)
    · intro res idxs i layer hinv
      have hle := Add_avs_le self res idxs VPHAL_SCALING_NEAREST i layer.surf
        layer.subpipe output
      refine ⟨⟨by omega, fun hs => ?_⟩, fun _ => by omega⟩
      rw [Add_mode_without_avs self res idxs VPHAL_SCALING_NEAREST i layer.surf
        layer.subpipe output havs hinv hs]
      split_ifs
      · exact Or.inl rfl
      · exact Get3DSamplerScalingMode_cases _ _ _ _ _
    · rw [hreset]
  · exact ⟨_, LayerSelectForProcess_eq self inputs output,
      admittedLayers_without_avs self output havs (candidateLayers inputs)⟩
  · intro res idxs m i input pipe hres hsc hne ho
    have hsel : ¬ (pipe.lumakey.isSome = true ∧
        ((decrementCounters res input pipe).lumaKeys < 0 ∨ idxs.length > 1)) :=
      fun hc => hne ((lumakeyReject_iff res idxs input pipe).mp hc)
    obtain ⟨hmode, hcnt, hskip⟩ := Add_of_selected self res idxs m i input pipe output hsel
    obtain ⟨-, -, -, -, d5, d6⟩ := decrementCounters_fields res input pipe
    obtain ⟨-, -, -, -, r5, r6⟩ :=
      resetSamplerForLumakey_fields (decrementCounters res input pipe) idxs.length pipe
    rw [d6] at r6
    rw [← r6] at ho
    have h1 : ¬ ((!self.isAvsSamplerSupported && pipe.scaling.isNone) = true) := by
      cases hp : pipe.scaling with
      | none => rw [hp] at hsc; exact absurd hsc (by simp)
      | some s => simp
    have h2 : ¬ (pipe.scaling.isSome = true ∧ VPHAL_SCALING_AVS = requestedMode self pipe ∧
        pipe.lumakey.isNone = true ∧
        IsBobDiEnabled (pipeAfterFieldCheck input pipe).di input = false) := by
      rintro ⟨-, hc, -⟩; exact requestedMode_ne_avs self pipe havs hc
    have h3 : ¬ (self.isAvsSamplerSupported = true ∧ pipe.lumakey.isSome = true ∧
        idxs.length > 0 ∧ self.formats.IS_PL3_FORMAT input.osSurface.Format = false) := by
      rintro ⟨hc, -⟩; rw [havs] at hc; exact Bool.noConfusion hc
    have hres2 : (selectSampler self
        (resetSamplerForLumakey (decrementCounters res input pipe) idxs.length pipe)
        idxs.length input pipe output).2.avs < 0 := by
      rw [selectSampler_res, if_neg h1, if_neg h2, if_neg h3, if_neg ho]
      simp only []
      omega
    refine ⟨hskip.mpr ?_, ?_, ?_⟩
    · unfold overBudget
      exact Or.inr (Or.inr (Or.inr (Or.inr (Or.inl hres2))))
    · rw [hmode, selectSampler_mode, if_neg h1, if_neg h2, if_neg h3, if_neg ho]
    · rw [hcnt]
      exact hres2

/-- Witness of `LayerSelectForProcess_without_avs`: the pass over a layer that requests AVS, a
scaled layer and a plain layer on a platform without AVS hardware. -/
theorem LayerSelectForProcess_without_avs_witness :
    (exampleHandler false).isAvsSamplerSupported = false ∧
    ∃ rr, LayerSelectForProcess (exampleHandler false)
        { inputs := [some avsRequestLayer, some scaledLayer, some plainLayer],
          output := some exampleOutput } = .ok rr ∧
      rr.layerIndexes = [0, 1, 2] ∧
      ∀ layer ∈ admittedLayers rr, ∀ s, layer.subpipe.scaling = some s →
        s.scalingMode = VPHAL_SCALING_NEAREST ∨ s.scalingMode = VPHAL_SCALING_BILINEAR := by
  refine ⟨rfl, ?_⟩
  obtain ⟨rr, hrr, hall⟩ := (LayerSelectForProcess_without_avs (exampleHandler false)
    [some avsRequestLayer, some scaledLayer, some plainLayer] exampleOutput rfl).2.2.1
  refine ⟨rr, hrr, ?_, hall⟩
  have he : rr = selectOutcome (exampleHandler false) exampleOutput
      (candidateLayers [some avsRequestLayer, some scaledLayer, some plainLayer]) := by
    have h2 := LayerSelectForProcess_eq (exampleHandler false)
      [some avsRequestLayer, some scaledLayer, some plainLayer] exampleOutput
    rw [hrr] at h2
    injection h2
  rw [he]
  decide

/-! ## The default scaling mode of a uniform pass -/

theorem GetDefaultScalingMode_loop_no_bilinear (layers : List FcInputLayer) (isInited : Bool)
    (h : ∀ layer ∈ layers, recordedMode layer ≠ some VPHAL_SCALING_BILINEAR) :
    GetDefaultScalingMode.loop layers isInited VPHAL_SCALING_NEAREST
      = .ok VPHAL_SCALING_NEAREST := by
  induction layers generalizing isInited with
  | nil => rfl
  | cons layer rest ih =>
    have hrest : ∀ l ∈ rest, recordedMode l ≠ some VPHAL_SCALING_BILINEAR :=
      fun l hl => h l (List.mem_cons_of_mem _ hl)
    have hl := h layer (List.mem_cons_self _ _)
    unfold GetDefaultScalingMode.loop
    cases hs : layer.subpipe.scaling with
    | none => exact ih isInited hrest
    | some s =>
      have hb : s.scalingMode ≠ VPHAL_SCALING_BILINEAR := by
        intro hc
        apply hl
        simp [recordedMode, hs, hc]
      simp only []
      cases hm : s.scalingMode with
      | VPHAL_SCALING_NEAREST =>
        cases isInited with
        | true => simpa using ih true hrest
        | false => simpa using ih true hrest
      | VPHAL_SCALING_BILINEAR => exact absurd hm hb
      | VPHAL_SCALING_AVS => simpa using ih isInited hrest

theorem GetDefaultScalingMode_loop_inited_bilinear (layers : List FcInputLayer)
    (h : ∀ layer ∈ layers, recordedMode layer ≠ some VPHAL_SCALING_NEAREST) :
    GetDefaultScalingMode.loop layers true VPHAL_SCALING_BILINEAR
      = .ok VPHAL_SCALING_BILINEAR := by
  induction layers with
  | nil => rfl
  | cons layer rest ih =>
    have hrest : ∀ l ∈ rest, recordedMode l ≠ some VPHAL_SCALING_NEAREST :=
      fun l hl => h l (List.mem_cons_of_mem _ hl)
    have hl := h layer (List.mem_cons_self _ _)
    unfold GetDefaultScalingMode.loop
    cases hs : layer.subpipe.scaling with
    | none => exact ih hrest
    | some s =>
      have hb : s.scalingMode ≠ VPHAL_SCALING_NEAREST := by
        intro hc
        apply hl
        simp [recordedMode, hs, hc]
      simp only []
      cases hm : s.scalingMode with
      | VPHAL_SCALING_NEAREST => exact absurd hm hb
      | VPHAL_SCALING_BILINEAR => simpa using ih hrest
      | VPHAL_SCALING_AVS => simpa using ih hrest

theorem GetDefaultScalingMode_loop_no_nearest (layers : List FcInputLayer)
    (h : ∀ layer ∈ layers, recordedMode layer ≠ some VPHAL_SCALING_NEAREST) :
    GetDefaultScalingMode.loop layers false VPHAL_SCALING_NEAREST =
      .ok (if ∃ layer ∈ layers, recordedMode layer = some VPHAL_SCALING_BILINEAR then
        VPHAL_SCALING_BILINEAR else VPHAL_SCALING_NEAREST) := by
  induction layers with
  | nil => simp [GetDefaultScalingMode.loop]
  | cons layer rest ih =>
    have hrest : ∀ l ∈ rest, recordedMode l ≠ some VPHAL_SCALING_NEAREST :=
      fun l hl => h l (List.mem_cons_of_mem _ hl)
    have hl := h layer (List.mem_cons_self _ _)
    unfold GetDefaultScalingMode.loop
    cases hs : layer.subpipe.scaling with
    | none =>
      have hr : recordedMode layer ≠ some VPHAL_SCALING_BILINEAR := by
        simp [recordedMode, hs]
      simp only []
      rw [ih hrest]
      simp [hr]
    | some s =>
      have hb : s.scalingMode ≠ VPHAL_SCALING_NEAREST := by
        intro hc
        apply hl
        simp [recordedMode, hs, hc]
      simp only []
      cases hm : s.scalingMode with
      | VPHAL_SCALING_NEAREST => exact absurd hm hb
      | VPHAL_SCALING_BILINEAR =>
        have hr : recordedMode layer = some VPHAL_SCALING_BILINEAR := by
          simp [recordedMode, hs, hm]
        have := GetDefaultScalingMode_loop_inited_bilinear rest hrest
        simp [this, hr]
      | VPHAL_SCALING_AVS =>
        have hr : recordedMode layer ≠ some VPHAL_SCALING_BILINEAR := by
          simp [recordedMode, hs, hm]
        simp [ih hrest, hr]

theorem recordedMode_force_ne_nearest (layer : FcInputLayer) :
    recordedMode (forceLayerBilinear layer) ≠ some VPHAL_SCALING_NEAREST := by
  unfold recordedMode forceLayerBilinear
  cases layer.subpipe.scaling with
  | none => simp
  | some s =>
    simp only [Option.map_some', ne_eq, Option.some.injEq]
    by_cases h : VPHAL_SCALING_NEAREST = s.scalingMode
    · rw [if_pos h]
      exact fun hc => VPHAL_SCALING_MODE.noConfusion hc
    · rw [if_neg h]
      exact fun hc => h hc.symm

/-- With the normalisation toggle set, the modes recorded on the admitted layers of a
selection do not contain nearest, or do not contain bilinear. -/
theorem admittedLayers_uniform (self : PolicyFcHandler) (output : VP_SURFACE)
    (htoggle : self.s_forceNearestToBilinearIfBilinearExists = true)
    (cands : List FcInputLayer) :
    (∀ layer ∈ admittedLayers (selectOutcome self output cands),
      recordedMode layer ≠ some VPHAL_SCALING_NEAREST) ∨
    (∀ layer ∈ admittedLayers (selectOutcome self output cands),
      recordedMode layer ≠ some VPHAL_SCALING_BILINEAR) := by
  rw [admittedLayers_selectOutcome_eq]
  by_cases hflag : (selectScan self output cands 0 []
      (ResCounter.Reset self.limits self.isAvsSamplerSupported)
      false).bilinearInUseFor3DSampler = true
  · left
    rw [if_pos ⟨htoggle, hflag⟩]
    intro layer hl
    rw [List.mem_map] at hl
    obtain ⟨l0, -, he⟩ := hl
    rw [← he]
    exact recordedMode_force_ne_nearest l0
  · right
    rw [if_neg (fun hc => hflag hc.2)]
    have hnb : VPHAL_SCALING_BILINEAR ∉ resolvedModes self output cands 0 []
        (ResCounter.Reset self.limits self.isAvsSamplerSupported) := by
      intro hc
      exact hflag ((selectScan_flag self output cands 0 []
        (ResCounter.Reset self.limits self.isAvsSamplerSupported) false).mpr (Or.inr hc))
    obtain ⟨hlen, hrec⟩ := selectScan_recorded self output cands 0 []
      (ResCounter.Reset self.limits self.isAvsSamplerSupported) false
    simp only [List.length_nil, Nat.zero_add] at hlen
    rw [hlen]
    exact forall_of_forall₂ _
      (fun layer : FcInputLayer => recordedMode layer ≠ some VPHAL_SCALING_BILINEAR)
      (fun mode => mode ≠ VPHAL_SCALING_BILINEAR) _ _ hrec
      (fun mode hm hc => hnb (hc ▸ hm))
      (fun layer mode hR hQ hc => by
        unfold recordedMode at hc
        cases hs : layer.subpipe.scaling with
        | none => simp [hs] at hc
        | some s =>
          simp only [hs, Option.map_some', Option.some.injEq] at hc
          exact hQ ((hR s hs).symm.trans hc))

/-- C26: with normalisation enabled the pass is uniform. `LayerSelectForProcess` succeeds, the
scaling modes recorded on the admitted layers never contain both nearest and bilinear, and
`GetDefaultScalingMode` evaluated over an executed pipe whose input layers are the admitted
layers succeeds: it returns the common 3D mode of the admitted layers that carry a nearest or
bilinear scaling filter, and nearest when there is none. -/
theorem LayerSelectForProcess_uniform_modes (self : PolicyFcHandler)
    (inputs : List (Option FcInputLayer)) (output : VP_SURFACE)
    (htoggle : self.s_forceNearestToBilinearIfBilinearExists = true) :
    ∃ r, LayerSelectForProcess self { inputs := inputs, output := some output } = .ok r ∧
      ¬ ((∃ layer ∈ admittedLayers r, recordedMode layer = some VPHAL_SCALING_NEAREST) ∧
         (∃ layer ∈ admittedLayers r, recordedMode layer = some VPHAL_SCALING_BILINEAR)) ∧
      ∀ executedPipe : ExecutedPipe, executedPipe.inputs = admittedLayers r →
        ∃ mode, GetDefaultScalingMode executedPipe = .ok mode ∧
          (∀ layer ∈ admittedLayers r,
            recordedMode layer = some VPHAL_SCALING_NEAREST ∨
              recordedMode layer = some VPHAL_SCALING_BILINEAR →
            recordedMode layer = some mode) ∧
          ((∀ layer ∈ admittedLayers r,
              recordedMode layer ≠ some VPHAL_SCALING_NEAREST ∧
              recordedMode layer ≠ some VPHAL_SCALING_BILINEAR) →
            mode = VPHAL_SCALING_NEAREST) := by
  refine ⟨_, LayerSelectForProcess_eq self inputs output, ?_, ?_⟩
  · rintro ⟨⟨l1, hl1, hn⟩, ⟨l2, hl2, hb⟩⟩
    rcases admittedLayers_uniform self output htoggle (candidateLayers inputs) with h | h
    · exact h l1 hl1 hn
    · exact h l2 hl2 hb
  · intro executedPipe hin
    unfold GetDefaultScalingMode
    rw [hin]
    rcases admittedLayers_uniform self output htoggle (candidateLayers inputs) with h | h
    · rw [GetDefaultScalingMode_loop_no_nearest _ h]
      refine ⟨_, rfl, ?_, ?_⟩
      · intro layer hl hor
        rcases hor with hc | hc
        · exact absurd hc (h layer hl)
        · rw [if_pos ⟨layer, hl, hc⟩]
          exact hc
      · intro hnone
        rw [if_neg]
        rintro ⟨layer, hl, hc⟩
        exact (hnone layer hl).2 hc
    · rw [GetDefaultScalingMode_loop_no_bilinear _ false h]
      refine ⟨_, rfl, ?_, fun _ => rfl⟩
      intro layer hl hor
      rcases hor with hc | hc
      · exact hc
      · exact absurd hc (h layer hl)

/-- Witness of `LayerSelectForProcess_uniform_modes`: a plain, a scaled and a plain layer
selected with the toggle set; the three admitted layers end bilinear and the default scaling
mode over them is bilinear. -/
theorem LayerSelectForProcess_uniform_modes_witness :
    (exampleHandler true).s_forceNearestToBilinearIfBilinearExists = true ∧
    ∃ r, LayerSelectForProcess (exampleHandler true)
        { inputs := [some plainLayer, some scaledLayer, some plainLayer],
          output := some exampleOutput } = .ok r ∧
      (admittedLayers r).map recordedMode =
        [some VPHAL_SCALING_BILINEAR, some VPHAL_SCALING_BILINEAR,
         some VPHAL_SCALING_BILINEAR] ∧
      GetDefaultScalingMode { inputs := admittedLayers r } = .ok VPHAL_SCALING_BILINEAR := by
  refine ⟨rfl, ?_⟩
  obtain ⟨r, hr, -, hdef⟩ := LayerSelectForProcess_uniform_modes (exampleHandler true)
    [some plainLayer, some scaledLayer, some plainLayer] exampleOutput rfl
  have he : r = selectOutcome (exampleHandler true) exampleOutput
      (candidateLayers [some plainLayer, some scaledLayer, some plainLayer]) := by
    have h2 := LayerSelectForProcess_eq (exampleHandler true)
      [some plainLayer, some scaledLayer, some plainLayer] exampleOutput
    rw [hr] at h2
    injection h2
  have hmodes : (admittedLayers r).map recordedMode =
      [some VPHAL_SCALING_BILINEAR, some VPHAL_SCALING_BILINEAR,
       some VPHAL_SCALING_BILINEAR] := by
    rw [he]
    decide
  refine ⟨r, hr, hmodes, ?_⟩
  obtain ⟨mode, hmode, hcommon, -⟩ := hdef { inputs := admittedLayers r } rfl
  rw [hmode]
  cases hadm : admittedLayers r with
  | nil => rw [hadm] at hmodes; simp at hmodes
  | cons l0 rest =>
    have h0 : recordedMode l0 = some VPHAL_SCALING_BILINEAR := by
      rw [hadm] at hmodes
      simp only [List.map_cons, List.cons.injEq] at hmodes
      exact hmodes.1
    have := hcommon l0 (by rw [hadm]; exact List.mem_cons_self _ _) (Or.inr h0)
    rw [this] at h0
    injection h0 with h0
    rw [h0]

/-! ## Filter mode and base shift -/

/-- C29: `CalculateScalingParams` called with a non-null layer and target succeeds, so it
never returns InvalidParameter for an unrecognised filter mode: `Get3DSamperFilterMode` maps
nearest to the nearest filter and bilinear and AVS to the bilinear filter, the filter mode
returned is that one, and the shifts returned are the base shift (0 on both axes for nearest,
the linear-shift constant on both axes otherwise) minus the correction of the rotation. -/
theorem CalculateScalingParams_filter_mode (self : VpFcFilter) (layer target : VP_FC_LAYER)
    (params : VP_FC_LAYER_CALC) :
    Get3DSamperFilterMode VPHAL_SCALING_NEAREST = MHW_SAMPLER_FILTER_NEAREST ∧
    Get3DSamperFilterMode VPHAL_SCALING_BILINEAR = MHW_SAMPLER_FILTER_BILINEAR ∧
    Get3DSamperFilterMode VPHAL_SCALING_AVS = MHW_SAMPLER_FILTER_BILINEAR ∧
    CalculateScalingParams self (some layer) (some target) params
      ≠ .error MOS_STATUS_INVALID_PARAMETER ∧
    ∃ r, CalculateScalingParams self (some layer) (some target) params = .ok r ∧
      r.samplerFilterMode = Get3DSamperFilterMode layer.scalingMode ∧
      r.fShiftX =
        FloatVal.finite
            (if layer.scalingMode = VPHAL_SCALING_NEAREST then 0 else self.VP_HW_LINEAR_SHIFT) -
          (rotationCorrection layer target r.fScaleX r.fScaleY).1 ∧
      r.fShiftY =
        FloatVal.finite
            (if layer.scalingMode = VPHAL_SCALING_NEAREST then 0 else self.VP_HW_LINEAR_SHIFT) -
          (rotationCorrection layer target r.fScaleX r.fScaleY).2 := by
  refine ⟨rfl, rfl, rfl, ?_, ?_⟩
  · obtain ⟨r, hr, -⟩ := CalculateScalingParams_fields self layer target params
    rw [hr]
    exact fun hc => Except.noConfusion hc
  · unfold CalculateScalingParams
    rcases Get3DSamperFilterMode_cases layer.scalingMode with ⟨h1, h2⟩ | ⟨h1, h2⟩
    · simp only [h2]
      refine ⟨_, rfl, rfl, ?_, ?_⟩
      · simp only [h1, if_true, rotationCorrection]
        cases layer.rotation <;> rfl
      · simp only [h1, if_true, rotationCorrection]
        cases layer.rotation <;> rfl
    · simp only [h2]
      refine ⟨_, rfl, rfl, ?_, ?_⟩
      · simp only [if_neg h1, rotationCorrection]
        cases layer.rotation <;> rfl
      · simp only [if_neg h1, rotationCorrection]
        cases layer.rotation <;> rfl

/-- The base shift alone: for an unrotated layer whose destination rectangle starts at the
origin the shifts are 0 for nearest and the linear shift 1/2 for AVS. -/
theorem CalculateScalingParams_filter_mode_example :
    (∃ r, CalculateScalingParams exampleFilter
        (some (exampleFcLayer VPHAL_ROTATION_IDENTITY 1920 1080 1920 1080))
        (some exampleTarget) {} = .ok r ∧
      r.samplerFilterMode = MHW_SAMPLER_FILTER_NEAREST ∧
      r.fShiftX = FloatVal.finite 0 ∧ r.fShiftY = FloatVal.finite 0) ∧
    (∃ r, CalculateScalingParams exampleFilter
        (some { exampleFcLayer VPHAL_ROTATION_IDENTITY 1920 1080 1920 1080 with
                scalingMode := VPHAL_SCALING_AVS })
        (some exampleTarget) {} = .ok r ∧
      r.samplerFilterMode = MHW_SAMPLER_FILTER_BILINEAR ∧
      r.fShiftX = FloatVal.finite (1 / 2) ∧ r.fShiftY = FloatVal.finite (1 / 2)) := by
  constructor
  · refine ⟨_, rfl, rfl, ?_, ?_⟩
    · show FloatVal.finite 0 - FloatVal.ofInt 0 = FloatVal.finite 0
      simp [FloatVal.ofInt, FloatVal.finite_sub]
    · show FloatVal.finite 0 - FloatVal.ofInt 0 = FloatVal.finite 0
      simp [FloatVal.ofInt, FloatVal.finite_sub]
  · refine ⟨_, rfl, rfl, ?_, ?_⟩
    · show FloatVal.finite exampleFilter.VP_HW_LINEAR_SHIFT - FloatVal.ofInt 0
        = FloatVal.finite (1 / 2)
      simp [FloatVal.ofInt, FloatVal.finite_sub, exampleFilter]
    · show FloatVal.finite exampleFilter.VP_HW_LINEAR_SHIFT - FloatVal.ofInt 0
        = FloatVal.finite (1 / 2)
      simp [FloatVal.ofInt, FloatVal.finite_sub, exampleFilter]

/-! ## Nearest mode and the scale factors -/

/-- Nearest is selected only when the destination rectangle has the width and the height of
the source rectangle. -/
theorem Get3DSamplerScalingMode_nearest_extents (fm : FormatMacros) (pipe : SwFilterSubPipe)
    (n : Nat) (input output : VP_SURFACE)
    (h : Get3DSamplerScalingMode fm pipe n input output = VPHAL_SCALING_NEAREST) :
    input.rcDst.right - input.rcDst.left = input.rcSrc.right - input.rcSrc.left ∧
    input.rcDst.bottom - input.rcDst.top = input.rcSrc.bottom - input.rcSrc.top := by
  unfold Get3DSamplerScalingMode at h
  simp only [] at h
  split_ifs at h with hc
  exact ⟨hc.1, hc.2.1⟩

/-- C27: the code against the claim. For a progressive NV12 layer rotated by 90 degrees whose
source and destination rectangles are both `(0, 0, 100, 200)`, `Get3DSamplerScalingMode`,
which compares the extents without regard to the rotation, selects nearest; for the layer
`InitLayer` makes of it, which carries that mode and the rotation, `CalculateScalingParams`
takes the nearest filter and computes the scale factors `fScaleX = 100 / 200 = 1/2` and
`fScaleY = 200 / 100 = 2`, neither of which is 1. -/
theorem Get3DSamplerScalingMode_nearest_rotated_not_unity :
    Get3DSamplerScalingMode exampleFormats rotatedPipe 0 rotatedSurface exampleTarget.surf
      = VPHAL_SCALING_NEAREST ∧
    (InitLayer 0 rotatedSurface rotatedPipe VPHAL_SCALING_NEAREST).scalingMode
      = VPHAL_SCALING_NEAREST ∧
    (InitLayer 0 rotatedSurface rotatedPipe VPHAL_SCALING_NEAREST).rotation
      = VPHAL_ROTATION_90 ∧
    ∃ r, CalculateScalingParams exampleFilter
        (some (InitLayer 0 rotatedSurface rotatedPipe VPHAL_SCALING_NEAREST))
        (some exampleTarget) {} = .ok r ∧
      r.samplerFilterMode = MHW_SAMPLER_FILTER_NEAREST ∧
      r.fScaleX = FloatVal.finite (1 / 2) ∧ r.fScaleY = FloatVal.finite 2 ∧
      r.fScaleX ≠ FloatVal.finite 1 ∧ r.fScaleY ≠ FloatVal.finite 1 := by
  refine ⟨by decide, rfl, rfl, ?_⟩
  obtain ⟨r, hr, hx, hy, -, hf, -⟩ := CalculateScalingParams_fields exampleFilter
    (InitLayer 0 rotatedSurface rotatedPipe VPHAL_SCALING_NEAREST) exampleTarget {}
  have hx2 : r.fScaleX = FloatVal.finite (1 / 2) := by
    rw [hx]
    show FloatVal.ofInt (100 - 0) / FloatVal.ofInt (200 - 0) = _
    rw [FloatVal.ofInt_div _ _ (by decide)]
    norm_num
  have hy2 : r.fScaleY = FloatVal.finite 2 := by
    rw [hy]
    show FloatVal.ofInt (200 - 0) / FloatVal.ofInt (100 - 0) = _
    rw [FloatVal.ofInt_div _ _ (by decide)]
    norm_num
  refine ⟨r, hr, hf, hx2, hy2, ?_, ?_⟩
  · rw [hx2]
    intro hc
    injection hc with hc
    norm_num at hc
  · rw [hy2]
    intro hc
    injection hc with hc
    norm_num at hc

/-- Nearest is also selected for an unrotated layer whose source and destination rectangles
both have zero width, for which `fScaleX = 0 / 0` is not a number: no rectangle is
validated. -/
theorem Get3DSamplerScalingMode_nearest_zero_width :
    Get3DSamplerScalingMode exampleFormats plainLayer.subpipe 0
      (exampleFcLayer VPHAL_ROTATION_IDENTITY 0 1080 0 1080).surf exampleTarget.surf
      = VPHAL_SCALING_NEAREST ∧
    ∃ r, CalculateScalingParams exampleFilter
        (some (exampleFcLayer VPHAL_ROTATION_IDENTITY 0 1080 0 1080))
        (some exampleTarget) {} = .ok r ∧
      r.fScaleX.isFinite = false ∧ r.fScaleX ≠ FloatVal.finite 1 := by
  refine ⟨by decide, ?_⟩
  obtain ⟨r, hr, hx, -⟩ := CalculateScalingParams_fields exampleFilter
    (exampleFcLayer VPHAL_ROTATION_IDENTITY 0 1080 0 1080) exampleTarget {}
  have hn : r.fScaleX.isFinite = false := by
    rw [hx]
    show (FloatVal.ofInt (0 - 0) / FloatVal.ofInt (0 - 0)).isFinite = false
    exact FloatVal.ofInt_div_zero _
  refine ⟨r, hr, hn, ?_⟩
  intro hc
  rw [hc] at hn
  exact Bool.noConfusion hn

/-- For a layer that is not turned by a quarter (rotation identity, 180 degrees, horizontal
or vertical mirror) and whose source rectangle has non-zero width and height, nearest does
mean 1x scaling: if `Get3DSamplerScalingMode` selects nearest for the surface of the layer
then `CalculateScalingParams` succeeds and computes `fScaleX = 1` and `fScaleY = 1`. -/
theorem CalculateScalingParams_nearest_unity (self : VpFcFilter) (fm : FormatMacros)
    (pipe : SwFilterSubPipe) (layerIndex : Nat) (output : VP_SURFACE)
    (layer target : VP_FC_LAYER) (params : VP_FC_LAYER_CALC)
    (hrot : layer.rotation = VPHAL_ROTATION_IDENTITY ∨ layer.rotation = VPHAL_ROTATION_180 ∨
      layer.rotation = VPHAL_MIRROR_HORIZONTAL ∨ layer.rotation = VPHAL_MIRROR_VERTICAL)
    (hw : layer.surf.rcSrc.right - layer.surf.rcSrc.left ≠ 0)
    (hh : layer.surf.rcSrc.bottom - layer.surf.rcSrc.top ≠ 0)
    (hmode : Get3DSamplerScalingMode fm pipe layerIndex layer.surf output
      = VPHAL_SCALING_NEAREST) :
    ∃ r, CalculateScalingParams self (some layer) (some target) params = .ok r ∧
      r.fScaleX = FloatVal.finite 1 ∧ r.fScaleY = FloatVal.finite 1 := by
  have ha := (isAxisAligned_true_iff layer.rotation).mpr hrot
  obtain ⟨r, hr, hx, hy, -⟩ := CalculateScalingParams_fields self layer target params
  obtain ⟨h1, h2⟩ := Get3DSamplerScalingMode_nearest_extents fm pipe layerIndex layer.surf
    output hmode
  refine ⟨r, hr, ?_, ?_⟩
  · rw [hx, if_pos ha, h1, FloatVal.ofInt_div _ _ hw, div_self (by exact_mod_cast hw)]
  · rw [hy, if_pos ha, h2, FloatVal.ofInt_div _ _ hh, div_self (by exact_mod_cast hh)]

/-- A progressive NV12 layer rotated by 180 degrees, 1920x1080 onto 1920x1080, is given
nearest and has both scale factors 1. -/
theorem CalculateScalingParams_nearest_unity_example :
    (exampleFcLayer VPHAL_ROTATION_180 1920 1080 1920 1080).rotation = VPHAL_ROTATION_180 ∧
    Get3DSamplerScalingMode exampleFormats plainLayer.subpipe 0
      (exampleFcLayer VPHAL_ROTATION_180 1920 1080 1920 1080).surf exampleTarget.surf
      = VPHAL_SCALING_NEAREST ∧
    ∃ r, CalculateScalingParams exampleFilter
        (some (exampleFcLayer VPHAL_ROTATION_180 1920 1080 1920 1080)) (some exampleTarget) {}
        = .ok r ∧
      r.fScaleX = FloatVal.finite 1 ∧ r.fScaleY = FloatVal.finite 1 :=
  ⟨rfl, by decide,
    CalculateScalingParams_nearest_unity exampleFilter exampleFormats plainLayer.subpipe 0
      exampleTarget.surf (exampleFcLayer VPHAL_ROTATION_180 1920 1080 1920 1080) exampleTarget {}
      (Or.inr (Or.inl rfl)) (by decide) (by decide) (by decide)⟩

/-! ## The opaque optimisation of the alpha resolver -/

/-- In the opaque optimisation every blend type of the constant-alpha family other than
`BLEND_CONSTANT` leaves as `BLEND_SOURCE`. -/
theorem CalculateConstantAlpha_opaque_blend_type (layer : VP_FC_LAYER)
    (bp : VPHAL_BLENDING_PARAMS) (h : layer.blendingParams = some bp)
    (hb : isConstantBlend bp.BlendType = true) (ha : 1 ≤ bp.fAlpha)
    (hne : bp.BlendType ≠ BLEND_CONSTANT) :
    CalculateConstantAlpha layer =
      .ok (255, { layer with blendingParams := some (VPHAL_BLENDING_PARAMS.mk BLEND_SOURCE 1) }) := by
  rw [CalculateConstantAlpha_of_one_le layer bp h hb ha, if_neg hne]

/-- C28: the code against the claim. A layer entering `CalculateConstantAlpha` with blend type
`BLEND_CONSTANT_PARTIAL` and `fAlpha = 1` leaves with blend type `BLEND_SOURCE`: the `else` of
lines 287-290 takes every blend type of the family other than `BLEND_CONSTANT`, not only
`BLEND_CONSTANT_SOURCE`. -/
theorem CalculateConstantAlpha_partial_becomes_source :
    (blendedLayer BLEND_CONSTANT_PARTIAL 1).blendingParams
      = some (VPHAL_BLENDING_PARAMS.mk BLEND_CONSTANT_PARTIAL 1) ∧
    CalculateConstantAlpha (blendedLayer BLEND_CONSTANT_PARTIAL 1)
      = .ok (255, blendedLayer BLEND_SOURCE 1) :=
  ⟨rfl, CalculateConstantAlpha_opaque_blend_type _ (VPHAL_BLENDING_PARAMS.mk BLEND_CONSTANT_PARTIAL 1)
    rfl rfl (le_refl _) (by decide)⟩

/-! ## Chroma siting -/

/-- One iteration of the loop of `CalculateCompParams` entered with `layerCount = i`: the
calculated parameters of the layer written back at index `i`. -/
theorem CalculateCompParams_loop_step_chroma (self : VpFcFilter) (fuel i : Nat)
    (compParams : VP_COMPOSITE_PARAMS) (out : Nat × VP_COMPOSITE_PARAMS)
    (hi : i < compParams.sourceCount)
    (h : CalculateCompParams.loop self (fuel + 1) i i compParams = .ok out) :
    ∃ layer3 : VP_FC_LAYER,
      (layer3.calculatedParams.chromaSitingEnabled = true ↔
        (layer3.calculatedParams.isChromaUpSamplingNeeded = true ∨
          layer3.calculatedParams.isChromaDownSamplingNeeded = true) ∧
        (self.WaEnableDscale = false ∨
          (self.WaEnableDscale = true ∧
           layer3.scalingMode = VPHAL_SCALING_BILINEAR ∧
           layer3.calculatedParams.fScaleX.geq (.finite (1 / 3)) = true ∧
           layer3.calculatedParams.fScaleY.geq (.finite (1 / 3)) = true))) ∧
      layer3.calculatedParams.isChromaUpSamplingNeeded =
        (IsChromaSamplingNeeded self.formats (compParams.source i).surf.SurfType i
          (compParams.source i).surf.osSurface.Format
          (compParams.target 0).surf.osSurface.Format).1 ∧
      layer3.calculatedParams.isChromaDownSamplingNeeded =
        (IsChromaSamplingNeeded self.formats (compParams.source i).surf.SurfType i
          (compParams.source i).surf.osSurface.Format
          (compParams.target 0).surf.osSurface.Format).2 ∧
      layer3.scalingMode = (compParams.source i).scalingMode ∧
      layer3.calculatedParams.fScaleX =
        (if isAxisAligned (compParams.source i).rotation = true then
          FloatVal.ofInt ((compParams.source i).surf.rcDst.right -
              (compParams.source i).surf.rcDst.left) /
            FloatVal.ofInt ((compParams.source i).surf.rcSrc.right -
              (compParams.source i).surf.rcSrc.left)
        else
          FloatVal.ofInt ((compParams.source i).surf.rcDst.right -
              (compParams.source i).surf.rcDst.left) /
            FloatVal.ofInt ((compParams.source i).surf.rcSrc.bottom -
              (compParams.source i).surf.rcSrc.top)) ∧
      layer3.calculatedParams.fScaleY =
        (if isAxisAligned (compParams.source i).rotation = true then
          FloatVal.ofInt ((compParams.source i).surf.rcDst.bottom -
              (compParams.source i).surf.rcDst.top) /
            FloatVal.ofInt ((compParams.source i).surf.rcSrc.bottom -
              (compParams.source i).surf.rcSrc.top)
        else
          FloatVal.ofInt ((compParams.source i).surf.rcDst.bottom -
              (compParams.source i).surf.rcDst.top) /
            FloatVal.ofInt ((compParams.source i).surf.rcSrc.right -
              (compParams.source i).surf.rcSrc.left)) ∧
      CalculateCompParams.loop self fuel (i + 1) (i + 1)
        { compParams with source := Function.update compParams.source i layer3 } = .ok out := by
  unfold CalculateCompParams.loop at h
  rw [if_pos hi] at h
  cases ha : CalculateConstantAlpha (compParams.source i) with
  | error status => simp [ha] at h
  | ok res =>
    obtain ⟨alpha, layer1⟩ := res
    have hframe := CalculateConstantAlpha_frame _ _ _ ha
    simp only [ha, ne_eq, not_true_eq_false, if_false, Function.update_same] at h
    obtain ⟨params1, hp, hx, hy, -, -, -, -, hup, hdown⟩ := CalculateScalingParams_fields self
      { layer1 with
        calculatedParams := { layer1.calculatedParams with alpha := alpha }
        layerIDOrigin := i, layerID := i }
      (compParams.target 0)
      { layer1.calculatedParams with alpha := alpha }
    simp only [hp, Function.update_idem] at h
    have hsurf : layer1.surf = (compParams.source i).surf := by rw [hframe]
    have hmode : layer1.scalingMode = (compParams.source i).scalingMode := by rw [hframe]
    have hrot : layer1.rotation = (compParams.source i).rotation := by rw [hframe]
    refine ⟨_, ?_, ?_, ?_, ?_, ?_, ?_, h⟩
    · simp only []
      by_cases hA : params1.isChromaUpSamplingNeeded = true ∨
          params1.isChromaDownSamplingNeeded = true
      · by_cases hB : self.WaEnableDscale = false ∨
            (self.WaEnableDscale = true ∧
             layer1.scalingMode = VPHAL_SCALING_BILINEAR ∧
             params1.fScaleX.geq (.finite (1 / 3)) = true ∧
             params1.fScaleY.geq (.finite (1 / 3)) = true)
        · rw [if_pos hA, if_pos hB]
          exact ⟨fun _ => ⟨hA, hB⟩, fun _ => rfl⟩
        · rw [if_pos hA, if_neg hB]
          exact ⟨fun hc => Bool.noConfusion hc, fun hc => absurd hc.2 hB⟩
      · rw [if_neg hA]
        exact ⟨fun hc => Bool.noConfusion hc, fun hc => absurd hc.1 hA⟩
    · show params1.isChromaUpSamplingNeeded = _
      rw [hup]
      show (IsChromaSamplingNeeded self.formats layer1.surf.SurfType i
        layer1.surf.osSurface.Format _).1 = _
      rw [hsurf]
    · show params1.isChromaDownSamplingNeeded = _
      rw [hdown]
      show (IsChromaSamplingNeeded self.formats layer1.surf.SurfType i
        layer1.surf.osSurface.Format _).2 = _
      rw [hsurf]
    · exact hmode
    · show params1.fScaleX = _
      rw [hx]
      show (if isAxisAligned layer1.rotation = true then
          FloatVal.ofInt (layer1.surf.rcDst.right - layer1.surf.rcDst.left) /
            FloatVal.ofInt (layer1.surf.rcSrc.right - layer1.surf.rcSrc.left)
        else
          FloatVal.ofInt (layer1.surf.rcDst.right - layer1.surf.rcDst.left) /
            FloatVal.ofInt (layer1.surf.rcSrc.bottom - layer1.surf.rcSrc.top)) = _
      rw [hsurf, hrot]
    · show params1.fScaleY = _
      rw [hy]
      show (if isAxisAligned layer1.rotation = true then
          FloatVal.ofInt (layer1.surf.rcDst.bottom - layer1.surf.rcDst.top) /
            FloatVal.ofInt (layer1.surf.rcSrc.bottom - layer1.surf.rcSrc.top)
        else
          FloatVal.ofInt (layer1.surf.rcDst.bottom - layer1.surf.rcDst.top) /
            FloatVal.ofInt (layer1.surf.rcSrc.right - layer1.surf.rcSrc.left)) = _
      rw [hsurf, hrot]

/-- A property that one iteration of the loop of `CalculateCompParams` gives the layer it
writes back, relating it to the source layer at the same index and to the target, holds of
every slot of the result. -/
theorem CalculateCompParams_loop_forall (self : VpFcFilter)
    (P : Nat → VP_FC_LAYER → VP_FC_LAYER → VP_FC_LAYER → Prop)
    (hstep : ∀ (fuel i : Nat) (compParams : VP_COMPOSITE_PARAMS)
      (out : Nat × VP_COMPOSITE_PARAMS), i < compParams.sourceCount →
      CalculateCompParams.loop self (fuel + 1) i i compParams = .ok out →
      ∃ layer3 : VP_FC_LAYER, P i (compParams.source i) (compParams.target 0) layer3 ∧
        CalculateCompParams.loop self fuel (i + 1) (i + 1)
          { compParams with source := Function.update compParams.source i layer3 } = .ok out)
    (fuel : Nat) :
    ∀ (i : Nat) (compParams : VP_COMPOSITE_PARAMS) (out : Nat × VP_COMPOSITE_PARAMS),
      compParams.sourceCount ≤ i + fuel →
      CalculateCompParams.loop self fuel i i compParams = .ok out →
      ∀ j, i ≤ j → j < compParams.sourceCount →
        P j (compParams.source j) (compParams.target 0) (out.2.source j) := by
  induction fuel with
  | zero =>
    intro i compParams out hfuel h j h1 h2
    omega
  | succ fuel ih =>
    intro i compParams out hfuel h j h1 h2
    by_cases hi : i < compParams.sourceCount
    · obtain ⟨layer3, hP, hrec⟩ := hstep fuel i compParams out hi h
      by_cases hji : j = i
      · subst hji
        obtain ⟨-, -, -, r4, -⟩ := CalculateCompParams_loop_spec self fuel (j + 1) _ out
          (by simp only []; omega) hrec
        rw [r4 j (by omega)]
        simp only [Function.update_same]
        exact hP
      · have := ih (i + 1) _ out (by simp only []; omega) hrec j (by omega) h2
        simp only [Function.update_noteq hji] at this
        exact this
    · omega

/-- C25: whenever `CalculateCompParams` succeeds, for every source layer `i` the chroma siting
it leaves in the calculated parameters is enabled if and only if chroma up-sampling or
chroma down-sampling is needed and either the workaround `WaEnableDscale` is inactive, or it
is active while the scaling mode of the layer is bilinear and both scale factors are at least
1/3; so it is never enabled for a layer that needs no chroma resampling. The two chroma flags
are those of `IsChromaSamplingNeeded` for the formats of the layer and of the first target at
position `i`, the scaling mode is that of the source layer, and the scale factors are the
quotients of its destination extents by its source extents (crossed for the rotations by a
quarter). -/
theorem CalculateCompParams_chroma_siting (self : VpFcFilter)
    (compParams r : VP_COMPOSITE_PARAMS)
    (h : CalculateCompParams self compParams = .ok r) :
    ∀ i, i < compParams.sourceCount →
      ((r.source i).calculatedParams.chromaSitingEnabled = true ↔
        ((r.source i).calculatedParams.isChromaUpSamplingNeeded = true ∨
          (r.source i).calculatedParams.isChromaDownSamplingNeeded = true) ∧
        (self.WaEnableDscale = false ∨
          (self.WaEnableDscale = true ∧
           (r.source i).scalingMode = VPHAL_SCALING_BILINEAR ∧
           (r.source i).calculatedParams.fScaleX.geq (.finite (1 / 3)) = true ∧
           (r.source i).calculatedParams.fScaleY.geq (.finite (1 / 3)) = true))) ∧
      (((r.source i).calculatedParams.isChromaUpSamplingNeeded = false ∧
          (r.source i).calculatedParams.isChromaDownSamplingNeeded = false) →
        (r.source i).calculatedParams.chromaSitingEnabled = false) ∧
      (r.source i).calculatedParams.isChromaUpSamplingNeeded =
        (IsChromaSamplingNeeded self.formats (compParams.source i).surf.SurfType i
          (compParams.source i).surf.osSurface.Format
          (compParams.target 0).surf.osSurface.Format).1 ∧
      (r.source i).calculatedParams.isChromaDownSamplingNeeded =
        (IsChromaSamplingNeeded self.formats (compParams.source i).surf.SurfType i
          (compParams.source i).surf.osSurface.Format
          (compParams.target 0).surf.osSurface.Format).2 ∧
      (r.source i).scalingMode = (compParams.source i).scalingMode ∧
      (r.source i).calculatedParams.fScaleX =
        (if isAxisAligned (compParams.source i).rotation = true then
          FloatVal.ofInt ((compParams.source i).surf.rcDst.right -
              (compParams.source i).surf.rcDst.left) /
            FloatVal.ofInt ((compParams.source i).surf.rcSrc.right -
              (compParams.source i).surf.rcSrc.left)
        else
          FloatVal.ofInt ((compParams.source i).surf.rcDst.right -
              (compParams.source i).surf.rcDst.left) /
            FloatVal.ofInt ((compParams.source i).surf.rcSrc.bottom -
              (compParams.source i).surf.rcSrc.top)) ∧
      (r.source i).calculatedParams.fScaleY =
        (if isAxisAligned (compParams.source i).rotation = true then
          FloatVal.ofInt ((compParams.source i).surf.rcDst.bottom -
              (compParams.source i).surf.rcDst.top) /
            FloatVal.ofInt ((compParams.source i).surf.rcSrc.bottom -
              (compParams.source i).surf.rcSrc.top)
        else
          FloatVal.ofInt ((compParams.source i).surf.rcDst.bottom -
              (compParams.source i).surf.rcDst.top) /
            FloatVal.ofInt ((compParams.source i).surf.rcSrc.right -
              (compParams.source i).surf.rcSrc.left)) := by
  intro i hi
  unfold CalculateCompParams at h
  cases hl : CalculateCompParams.loop self compParams.sourceCount 0 0 compParams with
  | error status => simp [hl] at h
  | ok out =>
    have key := CalculateCompParams_loop_forall self
      (fun i src target layer3 =>
        (layer3.calculatedParams.chromaSitingEnabled = true ↔
          (layer3.calculatedParams.isChromaUpSamplingNeeded = true ∨
            layer3.calculatedParams.isChromaDownSamplingNeeded = true) ∧
          (self.WaEnableDscale = false ∨
            (self.WaEnableDscale = true ∧
             layer3.scalingMode = VPHAL_SCALING_BILINEAR ∧
             layer3.calculatedParams.fScaleX.geq (.finite (1 / 3)) = true ∧
             layer3.calculatedParams.fScaleY.geq (.finite (1 / 3)) = true))) ∧
        layer3.calculatedParams.isChromaUpSamplingNeeded =
          (IsChromaSamplingNeeded self.formats src.surf.SurfType i
            src.surf.osSurface.Format target.surf.osSurface.Format).1 ∧
        layer3.calculatedParams.isChromaDownSamplingNeeded =
          (IsChromaSamplingNeeded self.formats src.surf.SurfType i
            src.surf.osSurface.Format target.surf.osSurface.Format).2 ∧
        layer3.scalingMode = src.scalingMode ∧
        layer3.calculatedParams.fScaleX =
          (if isAxisAligned src.rotation = true then
            FloatVal.ofInt (src.surf.rcDst.right - src.surf.rcDst.left) /
              FloatVal.ofInt (src.surf.rcSrc.right - src.surf.rcSrc.left)
          else
            FloatVal.ofInt (src.surf.rcDst.right - src.surf.rcDst.left) /
              FloatVal.ofInt (src.surf.rcSrc.bottom - src.surf.rcSrc.top)) ∧
        layer3.calculatedParams.fScaleY =
          (if isAxisAligned src.rotation = true then
            FloatVal.ofInt (src.surf.rcDst.bottom - src.surf.rcDst.top) /
              FloatVal.ofInt (src.surf.rcSrc.bottom - src.surf.rcSrc.top)
          else
            FloatVal.ofInt (src.surf.rcDst.bottom - src.surf.rcDst.top) /
              FloatVal.ofInt (src.surf.rcSrc.right - src.surf.rcSrc.left)))
      (fun fuel i cp out hi hloop => by
        obtain ⟨layer3, a, b, c, d, e, f, g⟩ :=
          CalculateCompParams_loop_step_chroma self fuel i cp out hi hloop
        exact ⟨layer3, ⟨a, b, c, d, e, f⟩, g⟩)
      compParams.sourceCount 0 compParams out (by omega) hl i (by omega) hi
    obtain ⟨layerCount, compParams1⟩ := out
    simp only [hl] at h
    injection h with h
    subst h
    simp only [] at key ⊢
    obtain ⟨a, b, c, d, e, f⟩ := key
    refine ⟨a, ?_, b, c, d, e, f⟩
    rintro ⟨hu, hd⟩
    cases hs : (compParams1.source i).calculatedParams.chromaSitingEnabled with
    | false => rfl
    | true =>
      obtain ⟨hc, -⟩ := a.mp hs
      rw [hu, hd] at hc
      rcases hc with hc | hc <;> exact Bool.noConfusion hc

/-- Witness of `CalculateCompParams_chroma_siting`: on a platform with the workaround, with a
4:4:4 target, chroma siting is enabled for the bilinear NV12 layer scaled by 1/2 and disabled
for the bilinear YUY2 layer scaled by 1/4, which both need chroma up-sampling. -/
theorem CalculateCompParams_chroma_siting_witness :
    ∃ r, CalculateCompParams workaroundFilter chromaCompParams = .ok r ∧
      (r.source 0).calculatedParams.isChromaUpSamplingNeeded = true ∧
      (r.source 0).calculatedParams.chromaSitingEnabled = true ∧
      (r.source 1).calculatedParams.isChromaUpSamplingNeeded = true ∧
      (r.source 1).calculatedParams.chromaSitingEnabled = false := by
  have hok : ∃ r, CalculateCompParams workaroundFilter chromaCompParams = .ok r := ⟨_, rfl⟩
  obtain ⟨r, hr⟩ := hok
  have key := CalculateCompParams_chroma_siting workaroundFilter chromaCompParams r hr
  obtain ⟨a0, -, b0, -, d0, e0, f0⟩ := key 0 (by decide)
  obtain ⟨a1, -, b1, -, d1, e1, f1⟩ := key 1 (by decide)
  have hu0 : (r.source 0).calculatedParams.isChromaUpSamplingNeeded = true := by
    rw [b0]; decide
  have hu1 : (r.source 1).calculatedParams.isChromaUpSamplingNeeded = true := by
    rw [b1]; decide
  have hx0 : (r.source 0).calculatedParams.fScaleX = FloatVal.finite (1 / 2) := by
    rw [e0]
    show FloatVal.ofInt (960 - 0) / FloatVal.ofInt (1920 - 0) = _
    rw [FloatVal.ofInt_div _ _ (by decide)]
    norm_num
  have hy0 : (r.source 0).calculatedParams.fScaleY = FloatVal.finite (1 / 2) := by
    rw [f0]
    show FloatVal.ofInt (540 - 0) / FloatVal.ofInt (1080 - 0) = _
    rw [FloatVal.ofInt_div _ _ (by decide)]
    norm_num
  have hx1 : (r.source 1).calculatedParams.fScaleX = FloatVal.finite (1 / 4) := by
    rw [e1]
    show FloatVal.ofInt (480 - 0) / FloatVal.ofInt (1920 - 0) = _
    rw [FloatVal.ofInt_div _ _ (by decide)]
    norm_num
  refine ⟨r, hr, hu0, ?_, hu1, ?_⟩
  · refine a0.mpr ⟨Or.inl hu0, Or.inr ⟨rfl, ?_, ?_, ?_⟩⟩
    · rw [d0]; rfl
    · rw [hx0]
      simp only [FloatVal.geq, decide_eq_true_eq]
      norm_num
    · rw [hy0]
      simp only [FloatVal.geq, decide_eq_true_eq]
      norm_num
  · cases hs : (r.source 1).calculatedParams.chromaSitingEnabled with
    | false => rfl
    | true =>
      obtain ⟨-, hc⟩ := a1.mp hs
      rcases hc with hc | ⟨-, -, hc, -⟩
      · exact Bool.noConfusion hc
      · rw [hx1] at hc
        simp only [FloatVal.geq, decide_eq_true_eq] at hc
        norm_num at hc

/-! ## What a rejected layer keeps -/

/-- The field-safety check of lines 883-897 changes neither the scaling mode stored in the
scaling filter nor the sample type stored in the deinterlace filter. -/
theorem pipeAfterFieldCheck_stored (input : VP_SURFACE) (pipe : SwFilterSubPipe) :
    (pipeAfterFieldCheck input pipe).scaling.map (fun s => s.scalingMode)
      = pipe.scaling.map (fun s => s.scalingMode) ∧
    (pipeAfterFieldCheck input pipe).di.map (fun d => d.sampleTypeInput)
      = pipe.di.map (fun d => d.sampleTypeInput) := by
  unfold pipeAfterFieldCheck
  simp only []
  constructor
  · split_ifs
    · rfl
    · cases pipe.scaling with
      | none => rfl
      | some s =>
        simp only [Option.map_some', Option.some.injEq]
        split_ifs <;> rfl
  · split_ifs
    · rfl
    · cases pipe.di with
      | none => rfl
      | some d =>
        simp only [Option.map_some', Option.some.injEq]
        split_ifs <;> rfl

/-- C31: when `AddInputLayerForProcess` rejects a layer (`bSkip = true`) the admitted index
list is unchanged, the input surface, and with it its sample type, is unchanged, and the
scaling mode stored in the scaling filter of the layer and the sample type stored in its
deinterlace filter are unchanged. The resolved mode and sample type are written for admitted
layers only: when the layer is admitted (`bSkip = false`) the index is appended, the resolved
sample type is stored in the surface and in the deinterlace filter, and the resolved scaling
mode is stored in the scaling filter. -/
theorem AddInputLayerForProcess_reject_keeps (self : PolicyFcHandler) (res : ResCounter)
    (idxs : List Nat) (m : VPHAL_SCALING_MODE) (i : Nat) (input : VP_SURFACE)
    (pipe : SwFilterSubPipe) (output : VP_SURFACE) :
    ((AddInputLayerForProcess self res idxs m i input pipe output).bSkip = true →
      (AddInputLayerForProcess self res idxs m i input pipe output).layerIndexes = idxs ∧
      (AddInputLayerForProcess self res idxs m i input pipe output).input = input ∧
      (AddInputLayerForProcess self res idxs m i input pipe output).input.SampleType
        = input.SampleType ∧
      (AddInputLayerForProcess self res idxs m i input pipe output).pipe.scaling.map
          (fun s => s.scalingMode) = pipe.scaling.map (fun s => s.scalingMode) ∧
      (AddInputLayerForProcess self res idxs m i input pipe output).pipe.di.map
          (fun d => d.sampleTypeInput) = pipe.di.map (fun d => d.sampleTypeInput)) ∧
    ((AddInputLayerForProcess self res idxs m i input pipe output).bSkip = false →
      (AddInputLayerForProcess self res idxs m i input pipe output).layerIndexes
        = idxs ++ [i] ∧
      (AddInputLayerForProcess self res idxs m i input pipe output).input.SampleType
        = resolvedSampleType input ∧
      (AddInputLayerForProcess self res idxs m i input pipe output).pipe.scaling.map
          (fun s => s.scalingMode)
        = pipe.scaling.map (fun _ =>
            (AddInputLayerForProcess self res idxs m i input pipe output).scalingMode) ∧
      (AddInputLayerForProcess self res idxs m i input pipe output).pipe.di.map
          (fun d => d.sampleTypeInput) = pipe.di.map (fun _ => resolvedSampleType input)) := by
  obtain ⟨hsc, hdi⟩ := pipeAfterFieldCheck_stored input pipe
  rcases Add_cases self res idxs m i input pipe output with
    ⟨_, he⟩ | ⟨_, he⟩ | ⟨_, he⟩
  · rw [he]
    exact ⟨fun _ => ⟨rfl, rfl, rfl, rfl, rfl⟩, fun hc => Bool.noConfusion hc⟩
  · rw [he]
    exact ⟨fun _ => ⟨rfl, rfl, rfl, hsc, hdi⟩, fun hc => Bool.noConfusion hc⟩
  · rw [he]
    refine ⟨fun hc => Bool.noConfusion hc, fun _ => ⟨rfl, rfl, ?_, ?_⟩⟩
    · simp only [Option.map_map]
      have hsome : (pipeAfterFieldCheck input pipe).scaling.isSome = pipe.scaling.isSome := by
        have := congrArg Option.isSome hsc
        simpa using this
      cases h1 : (pipeAfterFieldCheck input pipe).scaling <;> cases h2 : pipe.scaling <;>
        simp_all
    · simp only [Option.map_map]
      have hsome : (pipeAfterFieldCheck input pipe).di.isSome = pipe.di.isSome := by
        have := congrArg Option.isSome hdi
        simpa using this
      cases h1 : (pipeAfterFieldCheck input pipe).di <;> cases h2 : pipe.di <;>
        simp_all

/-- Witness of `AddInputLayerForProcess_reject_keeps`: an interlaced layer with a deinterlace
filter whose scaling filter requests AVS, evaluated after one admitted layer with no layer
left in the budget, is rejected; the list, the sample type of the surface and the modes
stored in its filters are as before the call. -/
theorem AddInputLayerForProcess_reject_keeps_witness :
    (AddInputLayerForProcess (exampleHandler true)
        { ResCounter.Reset exampleLimits true with layers := 0 } [0] VPHAL_SCALING_NEAREST 1
        fieldUnsafeLayer.surf
        { fieldUnsafeLayer.subpipe with scaling := some { scalingMode := VPHAL_SCALING_AVS } }
        exampleOutput).bSkip = true ∧
    (AddInputLayerForProcess (exampleHandler true)
        { ResCounter.Reset exampleLimits true with layers := 0 } [0] VPHAL_SCALING_NEAREST 1
        fieldUnsafeLayer.surf
        { fieldUnsafeLayer.subpipe with scaling := some { scalingMode := VPHAL_SCALING_AVS } }
        exampleOutput).layerIndexes = [0] ∧
    (AddInputLayerForProcess (exampleHandler true)
        { ResCounter.Reset exampleLimits true with layers := 0 } [0] VPHAL_SCALING_NEAREST 1
        fieldUnsafeLayer.surf
        { fieldUnsafeLayer.subpipe with scaling := some { scalingMode := VPHAL_SCALING_AVS } }
        exampleOutput).input.SampleType = SAMPLE_INTERLEAVED_EVEN_FIRST_TOP_FIELD ∧
    (AddInputLayerForProcess (exampleHandler true)
        { ResCounter.Reset exampleLimits true with layers := 0 } [0] VPHAL_SCALING_NEAREST 1
        fieldUnsafeLayer.surf
        { fieldUnsafeLayer.subpipe with scaling := some { scalingMode := VPHAL_SCALING_AVS } }
        exampleOutput).pipe.scaling.map (fun s => s.scalingMode) = some VPHAL_SCALING_AVS := by
  have h := (AddInputLayerForProcess_reject_keeps (exampleHandler true)
    { ResCounter.Reset exampleLimits true with layers := 0 } [0] VPHAL_SCALING_NEAREST 1
    fieldUnsafeLayer.surf
    { fieldUnsafeLayer.subpipe with scaling := some { scalingMode := VPHAL_SCALING_AVS } }
    exampleOutput).1 (by decide)
  exact ⟨by decide, h.1, h.2.2.1, h.2.2.2.1⟩

/-! ## Running the alpha resolver twice -/

/-- C32: `CalculateConstantAlpha` is idempotent. For every layer on which it succeeds, a
second run on the mutated layer also succeeds, returns the same constant alpha and leaves the
layer, hence its blend type and float alpha, exactly as the first run left it; so does a run
on the mutated layer holding the alpha in its calculated parameters, where the caller has it
written. -/
theorem CalculateConstantAlpha_idempotent (layer layer1 : VP_FC_LAYER) (alpha : Nat)
    (h : CalculateConstantAlpha layer = .ok (alpha, layer1)) :
    CalculateConstantAlpha layer1 = .ok (alpha, layer1) ∧
    CalculateConstantAlpha
        { layer1 with calculatedParams := { layer1.calculatedParams with alpha := alpha } }
      = .ok (alpha,
          { layer1 with calculatedParams := { layer1.calculatedParams with alpha := alpha } }) := by
  have key : ∀ cp : VP_FC_LAYER_CALC,
      CalculateConstantAlpha { layer1 with calculatedParams := cp }
        = .ok (alpha, { layer1 with calculatedParams := cp }) := by
    intro cp
    cases hb : layer.blendingParams with
    | none =>
      rw [CalculateConstantAlpha_none layer hb] at h
      injection h with h
      injection h with h1 h2
      subst h1 h2
      exact CalculateConstantAlpha_none _ hb
    | some bp =>
      cases hc : isConstantBlend bp.BlendType with
      | false =>
        rw [CalculateConstantAlpha_other layer bp hb hc] at h
        injection h with h
        injection h with h1 h2
        subst h1 h2
        exact CalculateConstantAlpha_other _ bp hb hc
      | true =>
        unfold CalculateConstantAlpha at h
        simp only [hb, hc, if_true] at h
        by_cases h0 : bp.fAlpha ≤ 0
        · rw [if_pos h0] at h
          exact Except.noConfusion h
        · rw [if_neg h0] at h
          by_cases h1 : bp.fAlpha ≥ 1 ∨ castToUInt16 (255 * bp.fAlpha) ≥ 255
          · rw [if_pos h1] at h
            injection h with h
            injection h with ha hl
            subst ha hl
            refine CalculateConstantAlpha_other _
              (VPHAL_BLENDING_PARAMS.mk
                (if bp.BlendType = BLEND_CONSTANT then BLEND_NONE else BLEND_SOURCE) 1) rfl ?_
            show isConstantBlend
              (if bp.BlendType = BLEND_CONSTANT then BLEND_NONE else BLEND_SOURCE) = false
            split_ifs <;> rfl
          · rw [if_neg h1] at h
            injection h with h
            injection h with ha hl
            subst ha hl
            unfold CalculateConstantAlpha
            simp only [hb, hc, if_true, if_neg h0, if_neg h1]
  exact ⟨key layer1.calculatedParams, key _⟩

/-- Witness of `CalculateConstantAlpha_idempotent`: a layer blended with
`BLEND_CONSTANT_SOURCE` and `fAlpha = 1` leaves the first run with `BLEND_SOURCE` and alpha
255, and the second run returns the same. -/
theorem CalculateConstantAlpha_idempotent_witness :
    CalculateConstantAlpha (blendedLayer BLEND_CONSTANT_SOURCE 1)
      = .ok (255, blendedLayer BLEND_SOURCE 1) ∧
    CalculateConstantAlpha (blendedLayer BLEND_SOURCE 1)
      = .ok (255, blendedLayer BLEND_SOURCE 1) := by
  have h : CalculateConstantAlpha (blendedLayer BLEND_CONSTANT_SOURCE 1)
      = .ok (255, blendedLayer BLEND_SOURCE 1) :=
    CalculateConstantAlpha_opaque_blend_type _
      (VPHAL_BLENDING_PARAMS.mk BLEND_CONSTANT_SOURCE 1) rfl rfl (le_refl _) (by decide)
  exact ⟨h, (CalculateConstantAlpha_idempotent _ _ _ h).1⟩

/-! ## The budget and the resolved modes -/

/-- Sampler selection that resolves a layer to AVS takes one AVS unit. -/
theorem selectSampler_avs_unit (self : PolicyFcHandler) (res5 : ResCounter) (n : Nat)
    (input : VP_SURFACE) (pipe : SwFilterSubPipe) (output : VP_SURFACE)
    (h : (selectSampler self res5 n input pipe output).1 = VPHAL_SCALING_AVS) :
    (selectSampler self res5 n input pipe output).2.avs = res5.avs - 1 := by
  have h3d := Get3DSamplerScalingMode_ne_avs self.formats (pipeAfterFieldCheck input pipe) n
    input output
  unfold selectSampler at h ⊢
  simp only [] at h ⊢
  split_ifs at h ⊢ with h1 h2 h3 h4
  · simp only [Bool.and_eq_true, Bool.not_eq_true', Option.isNone_iff_eq_none] at h1
    simp [requestedMode, h1.2] at h
  · rfl
  · exact absurd h h3d
  · exact absurd h h3d
  · rfl

/-- An admitted layer that is resolved to AVS takes one AVS unit. -/
theorem Add_avs_unit (self : PolicyFcHandler) (res : ResCounter) (idxs : List Nat)
    (m : VPHAL_SCALING_MODE) (i : Nat) (input : VP_SURFACE) (pipe : SwFilterSubPipe)
    (output : VP_SURFACE)
    (hs : (AddInputLayerForProcess self res idxs m i input pipe output).bSkip = false)
    (hm : (AddInputLayerForProcess self res idxs m i input pipe output).scalingMode
      = VPHAL_SCALING_AVS) :
    (AddInputLayerForProcess self res idxs m i input pipe output).m_resCounter.avs
      = res.avs - 1 := by
  obtain ⟨-, -, -, -, d5, -⟩ := decrementCounters_fields res input pipe
  obtain ⟨-, -, -, -, r5, -⟩ :=
    resetSamplerForLumakey_fields (decrementCounters res input pipe) idxs.length pipe
  have hsel := ((Add_bSkip_false_iff self res idxs m i input pipe output).mp hs).1
  obtain ⟨e1, e2, -⟩ := Add_of_selected self res idxs m i input pipe output hsel
  rw [e1] at hm
  rw [e2, selectSampler_avs_unit self _ _ input pipe output hm, r5, d5]

/-- Started from non-negative counters, a scan resolves no more admitted layers to AVS than
the AVS counter held. -/
theorem resolvedModes_avs_budget (self : PolicyFcHandler) (output : VP_SURFACE)
    (layers : List FcInputLayer) (i : Nat) (idxs : List Nat) (res : ResCounter)
    (h0 : budgetNonneg res) :
    ((List.count VPHAL_SCALING_AVS (resolvedModes self output layers i idxs res) : Nat) : Int)
      ≤ res.avs := by
  induction layers generalizing i idxs res with
  | nil =>
    obtain ⟨-, -, -, -, h5⟩ := h0
    simpa [resolvedModes] using h5
  | cons layer rest ih =>
    by_cases hs : (AddInputLayerForProcess self res idxs VPHAL_SCALING_NEAREST i
        layer.surf layer.subpipe output).bSkip = true
    · rw [resolvedModes_cons_skip self output layer rest i idxs res hs]
      obtain ⟨-, -, -, -, h5⟩ := h0
      simpa using h5
    · have hs2 : (AddInputLayerForProcess self res idxs VPHAL_SCALING_NEAREST i
          layer.surf layer.subpipe output).bSkip = false := by simpa using hs
      obtain ⟨-, -, -, -, -, -, ha7, -, -⟩ :=
        Add_admitted self res idxs VPHAL_SCALING_NEAREST i layer.surf layer.subpipe output hs2
      have hle := Add_avs_le self res idxs VPHAL_SCALING_NEAREST i layer.surf layer.subpipe
        output
      have hunit := Add_avs_unit self res idxs VPHAL_SCALING_NEAREST i layer.surf
        layer.subpipe output hs2
      rw [resolvedModes_cons_admitted self output layer rest i idxs res hs2]
      have hnn := budgetNonneg_of_not_overBudget _ ha7
      have hrec := ih (i + 1)
        (AddInputLayerForProcess self res idxs VPHAL_SCALING_NEAREST i
          layer.surf layer.subpipe output).layerIndexes
        (AddInputLayerForProcess self res idxs VPHAL_SCALING_NEAREST i
          layer.surf layer.subpipe output).m_resCounter hnn
      by_cases hm : (AddInputLayerForProcess self res idxs VPHAL_SCALING_NEAREST i
          layer.surf layer.subpipe output).scalingMode = VPHAL_SCALING_AVS
      · rw [hunit hm] at hrec
        rw [hm, List.count_cons_self]
        push_cast
        omega
      · rw [List.count_cons_of_ne (fun hc => hm hc.symm)]
        omega

/-- C6: for every pipe and every hardware maximums, `LayerSelectForProcess` succeeds and the
admitted layers respect the freshly reset budget: the number of admitted layers does not
exceed the initial layers counter, and the numbers of admitted layers with a palette, with
enabled procamp, with a luma key and with resolved AVS mode do not exceed the initial
palettes, procamp, luma-key and AVS counters. The resolved modes are the modes
`AddInputLayerForProcess` returns for the admitted layers, one for each admitted layer,
whether the layer has a scaling filter to record the mode in or not; the admitted layers
whose scaling filter carries AVS do not exceed the AVS counter either. -/
theorem LayerSelectForProcess_respects_budget (self : PolicyFcHandler)
    (inputs : List (Option FcInputLayer)) (output : VP_SURFACE) :
    ∃ r, LayerSelectForProcess self { inputs := inputs, output := some output } = .ok r ∧
      (r.layerIndexes.length : Int) ≤
        (ResCounter.Reset self.limits self.isAvsSamplerSupported).layers ∧
      ((List.countP hasPalette (admittedLayers r) : Nat) : Int) ≤
        (ResCounter.Reset self.limits self.isAvsSamplerSupported).palettes ∧
      ((List.countP hasProcamp (admittedLayers r) : Nat) : Int) ≤
        (ResCounter.Reset self.limits self.isAvsSamplerSupported).procamp ∧
      ((List.countP hasLumakey (admittedLayers r) : Nat) : Int) ≤
        (ResCounter.Reset self.limits self.isAvsSamplerSupported).lumaKeys ∧
      (resolvedModes self output (candidateLayers inputs) 0 []
          (ResCounter.Reset self.limits self.isAvsSamplerSupported)).length
        = r.layerIndexes.length ∧
      ((List.count VPHAL_SCALING_AVS
          (resolvedModes self output (candidateLayers inputs) 0 []
            (ResCounter.Reset self.limits self.isAvsSamplerSupported)) : Nat) : Int) ≤
        (ResCounter.Reset self.limits self.isAvsSamplerSupported).avs ∧
      ((List.countP hasAvsMode (admittedLayers r) : Nat) : Int) ≤
        (ResCounter.Reset self.limits self.isAvsSamplerSupported).avs := by
  refine ⟨_, LayerSelectForProcess_eq self inputs output, ?_⟩
  obtain ⟨k, -, hidx, hscan, hadm⟩ :=
    admittedLayers_selectOutcome self output (candidateLayers inputs)
  obtain ⟨k1, hidx1, hb1, hb2, hb3, hb4, hb5⟩ :=
    selectScan_budget self output (candidateLayers inputs) 0 []
      (ResCounter.Reset self.limits self.isAvsSamplerSupported) false
      (budgetNonneg_Reset self.limits self.isAvsSamplerSupported)
  simp only [List.nil_append] at hidx1
  have hk : k1 = k := range'_zero_inj k1 k (hidx1.symm.trans hscan)
  subst hk
  obtain ⟨hlen, -⟩ := selectScan_recorded self output (candidateLayers inputs) 0 []
    (ResCounter.Reset self.limits self.isAvsSamplerSupported) false
  rw [hscan] at hlen
  simp only [List.length_range', List.length_nil, Nat.zero_add] at hlen
  rw [hidx, List.length_range']
  refine ⟨hb1, ?_, ?_, ?_, hlen.symm, ?_, ?_⟩
  · rcases hadm with h | h
    · rw [h]; exact hb2
    · rw [h, countP_map_force hasPalette hasPalette_force]; exact hb2
  · rcases hadm with h | h
    · rw [h]; exact hb3
    · rw [h, countP_map_force hasProcamp hasProcamp_force]; exact hb3
  · rcases hadm with h | h
    · rw [h]; exact hb4
    · rw [h, countP_map_force hasLumakey hasLumakey_force]; exact hb4
  · exact resolvedModes_avs_budget self output (candidateLayers inputs) 0 []
      (ResCounter.Reset self.limits self.isAvsSamplerSupported)
      (budgetNonneg_Reset self.limits self.isAvsSamplerSupported)
  · rcases hadm with h | h
    · rw [h]; exact hb5
    · rw [h, countP_map_force hasAvsMode hasAvsMode_force]; exact hb5

/-- A layer without a scaling filter that falls back to AVS takes the AVS unit although no
filter records the mode: after a plain layer and a luma-key layer the mask is the luma-key
bit, the third layer is resolved to AVS and the fourth is rejected for want of an AVS
unit. -/
theorem LayerSelectForProcess_unrecorded_avs_example :
    resolvedModes (exampleHandler true) exampleOutput
        [plainLayer, lumakeyLayer, { surf := {}, subpipe := {} }, plainLayer] 0 []
        (ResCounter.Reset exampleLimits true)
      = [VPHAL_SCALING_NEAREST, VPHAL_SCALING_NEAREST, VPHAL_SCALING_AVS] ∧
    (ResCounter.Reset exampleLimits true).avs = 1 ∧
    ∃ r, LayerSelectForProcess (exampleHandler true)
        { inputs := [some plainLayer, some lumakeyLayer, some { surf := {}, subpipe := {} },
            some plainLayer],
          output := some exampleOutput } = .ok r ∧
      r.layerIndexes = [0, 1, 2] ∧ List.countP hasAvsMode (admittedLayers r) = 0 :=
  ⟨by decide, by decide, _, rfl, by decide, by decide⟩

/-! ## Single-precision arithmetic -/

/-- Without rounding, `CalculateScalingParams.rounded` is `CalculateScalingParams`. -/
theorem CalculateScalingParams_rounded_id (self : VpFcFilter) (layer target : Option VP_FC_LAYER)
    (params : VP_FC_LAYER_CALC) :
    CalculateScalingParams.rounded id self layer target params
      = CalculateScalingParams self layer target params := by
  cases layer <;> cases target <;> rfl

end vp
